import Mathlib

/-!
# libinput: tap-to-click state machine and evdev key handling

A shallow embedding of `src/evdev-mt-touchpad-tap.c`, of the event path and the
device set-up of `src/evdev.c` and of the option parsing of `tools/shared.c`,
with the properties of the specification stated over it.

Conventions of the embedding

* A C function `void f(struct tp_dispatch *tp, ...)` becomes a function
  `f : tp_dispatch → ... → tp_dispatch` returning the updated structure;
  likewise for `struct evdev_device`.
* A function that can fail an `assert` returns an `Option`: `none` is the
  failed assertion.
* Nested C structures are nested Lean structures: `tp->tap.state` is
  `tp.tap.state`.
* Unsigned machine integers are natural numbers; a sum that can wrap is
  reduced modulo the width of its C type. Values of type `double` are rational
  numbers. Where the code can observe the rounding of a `double` operation (the
  unaccelerated delta of a relative motion and the scroll build-up, which is
  compared with the threshold), the exact result is rounded by `double_round`.
* What the tap engine hands to `evdev_pointer_notify_button` is appended to the
  field `notified` of `tp_dispatch`, oldest call first; what a device hands to
  the client is appended to the field `emitted` of `evdev_device`.
* Code that the sources call but do not contain (timer wheel, bit helpers,
  motion filter, matrix helper) is modelled from the specification and marked
  so.
* A loop that may not terminate is run with fuel and ends in a `run_result`:
  it returned, it failed an assertion, or the fuel ran out.
* The seat that several devices point to is one field of a `seat_world`; a
  flush on one of its devices reads and writes that seat.
* What libevdev answers about a device is a record `libevdev` of its
  capabilities; what allocation and the other collaborators of the device
  set-up answer is a record `device_collaborators`.
* The argument vector of the command-line tool is a list of strings;
  `getopt_long` of the C library is modelled for the elements that occur.
* What `tp_tap_handle_state` uses of the touchpad front end is a record
  `tp_frontend`; the touches of `tp->touches` are a list, visited in order.
* A `touchpad` pairs the tap engine with the device it reports to: the calls
  that an operation of the engine adds to `notified` are made on the device in
  order.
-/

namespace Libinput

/-! ## Constants of `linux/input.h` used by the sources -/

/-- Button code `BTN_LEFT` of `linux/input.h`. -/
def BTN_LEFT : Nat := 0x110

/-- Button code `BTN_RIGHT` of `linux/input.h`. -/
def BTN_RIGHT : Nat := 0x111

/-- Button code `BTN_MIDDLE` of `linux/input.h`. -/
def BTN_MIDDLE : Nat := 0x112

/-! ## Tap engine: data model (`evdev-mt-touchpad-tap.c`) -/

/-- Tap period `DEFAULT_TAP_TIMEOUT_PERIOD`, in milliseconds. -/
def DEFAULT_TAP_TIMEOUT_PERIOD : Nat := 180

/-- Drag period `DEFAULT_DRAG_TIMEOUT_PERIOD`, in milliseconds. -/
def DEFAULT_DRAG_TIMEOUT_PERIOD : Nat := 500

/-- The five events of `enum tap_event`. -/
inductive tap_event where
  | TAP_EVENT_TOUCH
  | TAP_EVENT_MOTION
  | TAP_EVENT_RELEASE
  | TAP_EVENT_BUTTON
  | TAP_EVENT_TIMEOUT
  deriving DecidableEq, Repr

/-- The fifteen states of `enum tp_tap_state`, as listed by `tap_state_to_str`
and dispatched on by `tp_tap_handle_event`. -/
inductive tp_tap_state where
  | TAP_STATE_IDLE
  | TAP_STATE_HOLD
  | TAP_STATE_TOUCH
  | TAP_STATE_TAPPED
  | TAP_STATE_TOUCH_2
  | TAP_STATE_TOUCH_2_HOLD
  | TAP_STATE_TOUCH_3
  | TAP_STATE_TOUCH_3_HOLD
  | TAP_STATE_DRAGGING
  | TAP_STATE_DRAGGING_WAIT
  | TAP_STATE_DRAGGING_OR_DOUBLETAP
  | TAP_STATE_DRAGGING_2
  | TAP_STATE_MULTITAP
  | TAP_STATE_MULTITAP_DOWN
  | TAP_STATE_DEAD
  deriving DecidableEq, Repr

/-- Per-touch tap state `t->tap.state`. -/
inductive tp_tap_touch_state where
  | TAP_TOUCH_STATE_IDLE
  | TAP_TOUCH_STATE_TOUCH
  | TAP_TOUCH_STATE_DEAD
  deriving DecidableEq, Repr

/-- Life-cycle state `t->state` of a touch. The tap code names `TOUCH_NONE`,
`TOUCH_BEGIN` and `TOUCH_END`; every other value of the enum is `TOUCH_UPDATE`
here. -/
inductive touch_state where
  | TOUCH_NONE
  | TOUCH_BEGIN
  | TOUCH_UPDATE
  | TOUCH_END
  deriving DecidableEq, Repr

/-- Values of `enum libinput_button_state`. -/
inductive libinput_button_state where
  | LIBINPUT_BUTTON_STATE_RELEASED
  | LIBINPUT_BUTTON_STATE_PRESSED
  deriving DecidableEq, Repr

/-- A point in device coordinates. -/
structure device_coords where
  x : Int
  y : Int
  deriving DecidableEq, Repr

/-- The part `t->tap` of a touch. -/
structure tp_touch_tap where
  state : tp_tap_touch_state
  initial : device_coords
  deriving DecidableEq, Repr

/-- The fields of `struct tp_touch` read or written by the tap code. -/
structure tp_touch where
  state : touch_state
  dirty : Bool
  point : device_coords
  tap : tp_touch_tap
  deriving DecidableEq, Repr

/-- One call `evdev_pointer_notify_button(tp->device, time, button, state)`
made by `tp_tap_notify`, with the arguments as written at the call site. -/
structure button_notify where
  time : Nat
  button : Nat
  state : libinput_button_state
  deriving DecidableEq, Repr

/-- The part `tp->tap` of the touchpad dispatch. `timer` is the expiry of
`tp->tap.timer` when it is armed and `none` when it is not. -/
structure tp_tap where
  state : tp_tap_state
  timer : Option Nat
  buttons_pressed : Nat
  multitap_last_time : Nat
  enabled : Bool
  suspended : Bool
  deriving DecidableEq, Repr

/-- The fields of `struct tp_dispatch` used by the tap code, together with the
record `notified` of the button calls made on `tp->device`. -/
structure tp_dispatch where
  tap : tp_tap
  nfingers_down : Nat
  touches : List tp_touch
  notified : List button_notify
  deriving DecidableEq, Repr

open tap_event tp_tap_state tp_tap_touch_state touch_state libinput_button_state

/-! ## Timer collaborator -/

/-- Modelled from the spec: the timer wheel (`timer.c`, not among the sources).
`libinput_timer_set` arms the timer for the given expiry, replacing an earlier
one. -/
def libinput_timer_set (_timer : Option Nat) (expire : Nat) : Option Nat :=
  some expire

/-- Modelled from the spec: the timer wheel (`timer.c`, not among the sources).
`libinput_timer_cancel` disarms the timer; it is a no-op on a timer that is
not armed. -/
def libinput_timer_cancel (_timer : Option Nat) : Option Nat :=
  none

/-! ## Tap engine: operations -/

/-- Source function `tp_tap_notify`: map the finger count to a button, update
the bit `1 << nfingers` of `buttons_pressed`, and pass the button event on. -/
def tp_tap_notify (tp : tp_dispatch) (time : Nat) (nfingers : Nat)
    (state : libinput_button_state) : tp_dispatch :=
  let button : Option Nat :=
    match nfingers with
    | 1 => some BTN_LEFT
    | 2 => some BTN_RIGHT
    | 3 => some BTN_MIDDLE
    | _ => none
  match button with
  | none => tp
  | some b =>
    let pressed : Nat :=
      if state = LIBINPUT_BUTTON_STATE_PRESSED then
        tp.tap.buttons_pressed ||| (1 <<< nfingers)
      else
        tp.tap.buttons_pressed &&& (0xffffffff - (1 <<< nfingers))
    { tp with
      tap := { tp.tap with buttons_pressed := pressed }
      notified := tp.notified ++ [{ time := time, button := b, state := state }] }

/-- Source function `tp_tap_set_timer`; the sum is a `uint64_t`. -/
def tp_tap_set_timer (tp : tp_dispatch) (time : Nat) : tp_dispatch :=
  { tp with tap := { tp.tap with
      timer := libinput_timer_set tp.tap.timer
        ((time + DEFAULT_TAP_TIMEOUT_PERIOD) % 2 ^ 64) } }

/-- Source function `tp_tap_set_drag_timer`; the sum is a `uint64_t`. -/
def tp_tap_set_drag_timer (tp : tp_dispatch) (time : Nat) : tp_dispatch :=
  { tp with tap := { tp.tap with
      timer := libinput_timer_set tp.tap.timer
        ((time + DEFAULT_DRAG_TIMEOUT_PERIOD) % 2 ^ 64) } }

/-- Source function `tp_tap_clear_timer`. -/
def tp_tap_clear_timer (tp : tp_dispatch) : tp_dispatch :=
  { tp with tap := { tp.tap with timer := libinput_timer_cancel tp.tap.timer } }

/-- The assignment `tp->tap.state = s`. -/
def set_tap_state (tp : tp_dispatch) (s : tp_tap_state) : tp_dispatch :=
  { tp with tap := { tp.tap with state := s } }

/-- The test `t->tap.state == TAP_TOUCH_STATE_TOUCH` on the touch handed to a
handler. The handlers read `t` for `TAP_EVENT_RELEASE` only, and the callers
pass `NULL` (here `none`) for `TAP_EVENT_BUTTON` and `TAP_EVENT_TIMEOUT` only. -/
def touch_is_tap_touch (t : Option tp_touch) : Bool :=
  match t with
  | some t => t.tap.state = TAP_TOUCH_STATE_TOUCH
  | none => false

/-- Source function `tp_tap_idle_handle_event`. -/
def tp_tap_idle_handle_event (tp : tp_dispatch) (_t : Option tp_touch)
    (event : tap_event) (time : Nat) : tp_dispatch :=
  match event with
  | TAP_EVENT_TOUCH => tp_tap_set_timer (set_tap_state tp TAP_STATE_TOUCH) time
  | TAP_EVENT_RELEASE => tp
  | TAP_EVENT_MOTION => tp
  | TAP_EVENT_TIMEOUT => tp
  | TAP_EVENT_BUTTON => set_tap_state tp TAP_STATE_DEAD

/-- Source function `tp_tap_touch_handle_event`. -/
def tp_tap_touch_handle_event (tp : tp_dispatch) (_t : Option tp_touch)
    (event : tap_event) (time : Nat) : tp_dispatch :=
  match event with
  | TAP_EVENT_TOUCH => tp_tap_set_timer (set_tap_state tp TAP_STATE_TOUCH_2) time
  | TAP_EVENT_RELEASE =>
    tp_tap_set_timer
      (tp_tap_notify (set_tap_state tp TAP_STATE_TAPPED) time 1
        LIBINPUT_BUTTON_STATE_PRESSED) time
  | TAP_EVENT_TIMEOUT => tp_tap_clear_timer (set_tap_state tp TAP_STATE_HOLD)
  | TAP_EVENT_MOTION => tp_tap_clear_timer (set_tap_state tp TAP_STATE_HOLD)
  | TAP_EVENT_BUTTON => set_tap_state tp TAP_STATE_DEAD

/-- Source function `tp_tap_hold_handle_event`. -/
def tp_tap_hold_handle_event (tp : tp_dispatch) (_t : Option tp_touch)
    (event : tap_event) (time : Nat) : tp_dispatch :=
  match event with
  | TAP_EVENT_TOUCH => tp_tap_set_timer (set_tap_state tp TAP_STATE_TOUCH_2) time
  | TAP_EVENT_RELEASE => set_tap_state tp TAP_STATE_IDLE
  | TAP_EVENT_MOTION => tp
  | TAP_EVENT_TIMEOUT => tp
  | TAP_EVENT_BUTTON => set_tap_state tp TAP_STATE_DEAD

/-- Source function `tp_tap_tapped_handle_event`. -/
def tp_tap_tapped_handle_event (tp : tp_dispatch) (_t : Option tp_touch)
    (event : tap_event) (time : Nat) : tp_dispatch :=
  match event with
  | TAP_EVENT_MOTION => tp
  | TAP_EVENT_RELEASE => tp
  | TAP_EVENT_TOUCH =>
    tp_tap_set_timer (set_tap_state tp TAP_STATE_DRAGGING_OR_DOUBLETAP) time
  | TAP_EVENT_TIMEOUT =>
    tp_tap_notify (set_tap_state tp TAP_STATE_IDLE) time 1
      LIBINPUT_BUTTON_STATE_RELEASED
  | TAP_EVENT_BUTTON =>
    tp_tap_notify (set_tap_state tp TAP_STATE_DEAD) time 1
      LIBINPUT_BUTTON_STATE_RELEASED

/-- Source function `tp_tap_touch2_handle_event`. -/
def tp_tap_touch2_handle_event (tp : tp_dispatch) (t : Option tp_touch)
    (event : tap_event) (time : Nat) : tp_dispatch :=
  match event with
  | TAP_EVENT_TOUCH => tp_tap_set_timer (set_tap_state tp TAP_STATE_TOUCH_3) time
  | TAP_EVENT_RELEASE =>
    let tp1 := set_tap_state tp TAP_STATE_HOLD
    let tp2 :=
      if touch_is_tap_touch t then
        tp_tap_notify
          (tp_tap_notify tp1 time 2 LIBINPUT_BUTTON_STATE_PRESSED) time 2
          LIBINPUT_BUTTON_STATE_RELEASED
      else tp1
    tp_tap_clear_timer tp2
  | TAP_EVENT_MOTION =>
    set_tap_state (tp_tap_clear_timer tp) TAP_STATE_TOUCH_2_HOLD
  | TAP_EVENT_TIMEOUT => set_tap_state tp TAP_STATE_TOUCH_2_HOLD
  | TAP_EVENT_BUTTON => set_tap_state tp TAP_STATE_DEAD

/-- Source function `tp_tap_touch2_hold_handle_event`. -/
def tp_tap_touch2_hold_handle_event (tp : tp_dispatch) (_t : Option tp_touch)
    (event : tap_event) (time : Nat) : tp_dispatch :=
  match event with
  | TAP_EVENT_TOUCH => tp_tap_set_timer (set_tap_state tp TAP_STATE_TOUCH_3) time
  | TAP_EVENT_RELEASE => set_tap_state tp TAP_STATE_HOLD
  | TAP_EVENT_MOTION => set_tap_state tp TAP_STATE_TOUCH_2_HOLD
  | TAP_EVENT_TIMEOUT => set_tap_state tp TAP_STATE_TOUCH_2_HOLD
  | TAP_EVENT_BUTTON => set_tap_state tp TAP_STATE_DEAD

/-- Source function `tp_tap_touch3_handle_event`. -/
def tp_tap_touch3_handle_event (tp : tp_dispatch) (t : Option tp_touch)
    (event : tap_event) (time : Nat) : tp_dispatch :=
  match event with
  | TAP_EVENT_TOUCH => tp_tap_clear_timer (set_tap_state tp TAP_STATE_DEAD)
  | TAP_EVENT_MOTION => tp_tap_clear_timer (set_tap_state tp TAP_STATE_TOUCH_3_HOLD)
  | TAP_EVENT_TIMEOUT => tp_tap_clear_timer (set_tap_state tp TAP_STATE_TOUCH_3_HOLD)
  | TAP_EVENT_RELEASE =>
    let tp1 := set_tap_state tp TAP_STATE_TOUCH_2_HOLD
    if touch_is_tap_touch t then
      tp_tap_notify
        (tp_tap_notify tp1 time 3 LIBINPUT_BUTTON_STATE_PRESSED) time 3
        LIBINPUT_BUTTON_STATE_RELEASED
    else tp1
  | TAP_EVENT_BUTTON => set_tap_state tp TAP_STATE_DEAD

/-- Source function `tp_tap_touch3_hold_handle_event`. -/
def tp_tap_touch3_hold_handle_event (tp : tp_dispatch) (_t : Option tp_touch)
    (event : tap_event) (time : Nat) : tp_dispatch :=
  match event with
  | TAP_EVENT_TOUCH => tp_tap_set_timer (set_tap_state tp TAP_STATE_DEAD) time
  | TAP_EVENT_RELEASE => set_tap_state tp TAP_STATE_TOUCH_2_HOLD
  | TAP_EVENT_MOTION => tp
  | TAP_EVENT_TIMEOUT => tp
  | TAP_EVENT_BUTTON => set_tap_state tp TAP_STATE_DEAD

/-- Source function `tp_tap_dragging_or_doubletap_handle_event`. -/
def tp_tap_dragging_or_doubletap_handle_event (tp : tp_dispatch)
    (_t : Option tp_touch) (event : tap_event) (time : Nat) : tp_dispatch :=
  match event with
  | TAP_EVENT_TOUCH => set_tap_state tp TAP_STATE_DRAGGING_2
  | TAP_EVENT_RELEASE =>
    tp_tap_notify
      (tp_tap_notify
        (tp_tap_notify (set_tap_state tp TAP_STATE_MULTITAP) time 1
          LIBINPUT_BUTTON_STATE_RELEASED) time 1
        LIBINPUT_BUTTON_STATE_PRESSED) time 1
      LIBINPUT_BUTTON_STATE_RELEASED
  | TAP_EVENT_MOTION => set_tap_state tp TAP_STATE_DRAGGING
  | TAP_EVENT_TIMEOUT => set_tap_state tp TAP_STATE_DRAGGING
  | TAP_EVENT_BUTTON =>
    tp_tap_notify (set_tap_state tp TAP_STATE_DEAD) time 1
      LIBINPUT_BUTTON_STATE_RELEASED

/-- Source function `tp_tap_dragging_handle_event`. -/
def tp_tap_dragging_handle_event (tp : tp_dispatch) (_t : Option tp_touch)
    (event : tap_event) (time : Nat) : tp_dispatch :=
  match event with
  | TAP_EVENT_TOUCH => set_tap_state tp TAP_STATE_DRAGGING_2
  | TAP_EVENT_RELEASE =>
    tp_tap_set_drag_timer (set_tap_state tp TAP_STATE_DRAGGING_WAIT) time
  | TAP_EVENT_MOTION => tp
  | TAP_EVENT_TIMEOUT => tp
  | TAP_EVENT_BUTTON =>
    tp_tap_notify (set_tap_state tp TAP_STATE_DEAD) time 1
      LIBINPUT_BUTTON_STATE_RELEASED

/-- Source function `tp_tap_dragging_wait_handle_event`. -/
def tp_tap_dragging_wait_handle_event (tp : tp_dispatch) (_t : Option tp_touch)
    (event : tap_event) (time : Nat) : tp_dispatch :=
  match event with
  | TAP_EVENT_TOUCH => tp_tap_clear_timer (set_tap_state tp TAP_STATE_DRAGGING)
  | TAP_EVENT_RELEASE => tp
  | TAP_EVENT_MOTION => tp
  | TAP_EVENT_TIMEOUT =>
    tp_tap_notify (set_tap_state tp TAP_STATE_IDLE) time 1
      LIBINPUT_BUTTON_STATE_RELEASED
  | TAP_EVENT_BUTTON =>
    tp_tap_notify (set_tap_state tp TAP_STATE_DEAD) time 1
      LIBINPUT_BUTTON_STATE_RELEASED

/-- Source function `tp_tap_dragging2_handle_event`. -/
def tp_tap_dragging2_handle_event (tp : tp_dispatch) (_t : Option tp_touch)
    (event : tap_event) (time : Nat) : tp_dispatch :=
  match event with
  | TAP_EVENT_RELEASE => set_tap_state tp TAP_STATE_DRAGGING
  | TAP_EVENT_TOUCH =>
    tp_tap_notify (set_tap_state tp TAP_STATE_DEAD) time 1
      LIBINPUT_BUTTON_STATE_RELEASED
  | TAP_EVENT_MOTION => tp
  | TAP_EVENT_TIMEOUT => tp
  | TAP_EVENT_BUTTON =>
    tp_tap_notify (set_tap_state tp TAP_STATE_DEAD) time 1
      LIBINPUT_BUTTON_STATE_RELEASED

/-- Source function `tp_tap_multitap_handle_event`. -/
def tp_tap_multitap_handle_event (tp : tp_dispatch) (_t : Option tp_touch)
    (event : tap_event) (time : Nat) : tp_dispatch :=
  match event with
  | TAP_EVENT_RELEASE => tp
  | TAP_EVENT_TOUCH =>
    let tp1 := set_tap_state tp TAP_STATE_MULTITAP_DOWN
    let tp2 := { tp1 with tap := { tp1.tap with multitap_last_time := time } }
    tp_tap_set_timer (tp_tap_notify tp2 time 1 LIBINPUT_BUTTON_STATE_PRESSED) time
  | TAP_EVENT_MOTION => tp
  | TAP_EVENT_TIMEOUT => set_tap_state tp TAP_STATE_IDLE
  | TAP_EVENT_BUTTON => tp_tap_clear_timer (set_tap_state tp TAP_STATE_IDLE)

/-- Source function `tp_tap_multitap_down_handle_event`. -/
def tp_tap_multitap_down_handle_event (tp : tp_dispatch) (_t : Option tp_touch)
    (event : tap_event) (time : Nat) : tp_dispatch :=
  match event with
  | TAP_EVENT_RELEASE =>
    tp_tap_notify (set_tap_state tp TAP_STATE_MULTITAP) time 1
      LIBINPUT_BUTTON_STATE_RELEASED
  | TAP_EVENT_TOUCH => tp_tap_clear_timer (set_tap_state tp TAP_STATE_DRAGGING_2)
  | TAP_EVENT_MOTION => tp_tap_clear_timer (set_tap_state tp TAP_STATE_DRAGGING)
  | TAP_EVENT_TIMEOUT => tp_tap_clear_timer (set_tap_state tp TAP_STATE_DRAGGING)
  | TAP_EVENT_BUTTON =>
    tp_tap_clear_timer
      (tp_tap_notify (set_tap_state tp TAP_STATE_DEAD) time 1
        LIBINPUT_BUTTON_STATE_RELEASED)

/-- Source function `tp_tap_dead_handle_event`. -/
def tp_tap_dead_handle_event (tp : tp_dispatch) (_t : Option tp_touch)
    (event : tap_event) (_time : Nat) : tp_dispatch :=
  match event with
  | TAP_EVENT_RELEASE =>
    if tp.nfingers_down = 0 then set_tap_state tp TAP_STATE_IDLE else tp
  | TAP_EVENT_TOUCH => tp
  | TAP_EVENT_MOTION => tp
  | TAP_EVENT_TIMEOUT => tp
  | TAP_EVENT_BUTTON => tp

/-- Source function `tp_tap_handle_event`: dispatch on the current state, then
cancel the timer if the machine settled in `IDLE` or `DEAD`. -/
def tp_tap_handle_event (tp : tp_dispatch) (t : Option tp_touch)
    (event : tap_event) (time : Nat) : tp_dispatch :=
  let tp1 :=
    match tp.tap.state with
    | TAP_STATE_IDLE => tp_tap_idle_handle_event tp t event time
    | TAP_STATE_TOUCH => tp_tap_touch_handle_event tp t event time
    | TAP_STATE_HOLD => tp_tap_hold_handle_event tp t event time
    | TAP_STATE_TAPPED => tp_tap_tapped_handle_event tp t event time
    | TAP_STATE_TOUCH_2 => tp_tap_touch2_handle_event tp t event time
    | TAP_STATE_TOUCH_2_HOLD => tp_tap_touch2_hold_handle_event tp t event time
    | TAP_STATE_TOUCH_3 => tp_tap_touch3_handle_event tp t event time
    | TAP_STATE_TOUCH_3_HOLD => tp_tap_touch3_hold_handle_event tp t event time
    | TAP_STATE_DRAGGING_OR_DOUBLETAP =>
      tp_tap_dragging_or_doubletap_handle_event tp t event time
    | TAP_STATE_DRAGGING => tp_tap_dragging_handle_event tp t event time
    | TAP_STATE_DRAGGING_WAIT => tp_tap_dragging_wait_handle_event tp t event time
    | TAP_STATE_DRAGGING_2 => tp_tap_dragging2_handle_event tp t event time
    | TAP_STATE_MULTITAP => tp_tap_multitap_handle_event tp t event time
    | TAP_STATE_MULTITAP_DOWN => tp_tap_multitap_down_handle_event tp t event time
    | TAP_STATE_DEAD => tp_tap_dead_handle_event tp t event time
  if tp1.tap.state = TAP_STATE_IDLE ∨ tp1.tap.state = TAP_STATE_DEAD then
    tp_tap_clear_timer tp1
  else tp1

/-- Source function `tp_tap_enabled`. -/
def tp_tap_enabled (tp : tp_dispatch) : Bool :=
  tp.tap.enabled && !tp.tap.suspended

/-- Source function `tp_tap_handle_timeout`: feed `TAP_EVENT_TIMEOUT` with a
`NULL` touch, then mark every touch that is down and not tap-idle as dead. -/
def tp_tap_handle_timeout (time : Nat) (tp : tp_dispatch) : tp_dispatch :=
  let tp1 := tp_tap_handle_event tp none TAP_EVENT_TIMEOUT time
  { tp1 with touches := tp1.touches.map fun t =>
      if t.state = TOUCH_NONE ∨ t.tap.state = TAP_TOUCH_STATE_IDLE then t
      else { t with tap := { t.tap with state := TAP_TOUCH_STATE_DEAD } } }

/-- One round of the loop of `tp_release_all_taps`, for finger count `i`. -/
def tp_release_all_taps_round (now : Nat) (tp : tp_dispatch) (i : Nat) :
    tp_dispatch :=
  if tp.tap.buttons_pressed &&& (1 <<< i) ≠ 0 then
    tp_tap_notify tp now i LIBINPUT_BUTTON_STATE_RELEASED
  else tp

/-- Source function `tp_release_all_taps`: the loop `for (i = 1; i <= 3; i++)`
followed by the restart in `DEAD` or `IDLE`. -/
def tp_release_all_taps (tp : tp_dispatch) (now : Nat) : tp_dispatch :=
  let tp1 := [1, 2, 3].foldl (tp_release_all_taps_round now) tp
  set_tap_state tp1
    (if tp1.nfingers_down ≠ 0 then TAP_STATE_DEAD else TAP_STATE_IDLE)

/-- Source function `tp_tap_enabled_update`. -/
def tp_tap_enabled_update (tp : tp_dispatch) (suspended enabled : Bool)
    (time : Nat) : tp_dispatch :=
  let was_enabled := tp_tap_enabled tp
  let tp1 := { tp with tap := { tp.tap with suspended := suspended, enabled := enabled } }
  if tp_tap_enabled tp1 = was_enabled then tp1
  else if tp_tap_enabled tp1 then
    set_tap_state tp1
      (if tp1.nfingers_down ≠ 0 then TAP_STATE_DEAD else TAP_STATE_IDLE)
  else tp_release_all_taps tp1 time

/-- Source function `tp_tap_config_set_enabled`; `now` is what `libinput_now`
returns at the call. -/
def tp_tap_config_set_enabled (tp : tp_dispatch) (enabled : Bool) (now : Nat) :
    tp_dispatch :=
  tp_tap_enabled_update tp tp.tap.suspended enabled now

/-- Source function `tp_tap_suspend`. -/
def tp_tap_suspend (tp : tp_dispatch) (time : Nat) : tp_dispatch :=
  tp_tap_enabled_update tp true tp.tap.enabled time

/-- Source function `tp_tap_resume`. -/
def tp_tap_resume (tp : tp_dispatch) (time : Nat) : tp_dispatch :=
  tp_tap_enabled_update tp false tp.tap.enabled time

/-- Source function `tp_tap_default`: tapping is on by default exactly when the
device has no `BTN_LEFT`. -/
def tp_tap_default (has_btn_left : Bool) : Bool :=
  !has_btn_left

/-- Source function `tp_init_tap`: the machine starts in `IDLE`, the enabled
flag takes its default, and the timer is initialised unarmed. -/
def tp_init_tap (tp : tp_dispatch) (has_btn_left : Bool) : tp_dispatch :=
  { tp with tap := { tp.tap with
      state := TAP_STATE_IDLE
      enabled := tp_tap_default has_btn_left
      timer := none } }

/-- Source function `tp_tap_dragging`. -/
def tp_tap_dragging (tp : tp_dispatch) : Bool :=
  match tp.tap.state with
  | TAP_STATE_DRAGGING => true
  | TAP_STATE_DRAGGING_2 => true
  | TAP_STATE_DRAGGING_WAIT => true
  | _ => false

/-! ## evdev device: constants -/

/-- Key code `KEY_ESC` of `linux/input.h`. -/
def KEY_ESC : Nat := 1

/-- Key code `KEY_MICMUTE` of `linux/input.h`. -/
def KEY_MICMUTE : Nat := 248

/-- Button code `BTN_MISC` of `linux/input.h`. -/
def BTN_MISC : Nat := 0x100

/-- Button code `BTN_JOYSTICK` of `linux/input.h`. -/
def BTN_JOYSTICK : Nat := 0x120

/-- Button code `BTN_TOUCH` of `linux/input.h`. -/
def BTN_TOUCH : Nat := 0x14a

/-- Button code `BTN_GEAR_UP` of `linux/input.h`. -/
def BTN_GEAR_UP : Nat := 0x151

/-- Key code `KEY_OK` of `linux/input.h`. -/
def KEY_OK : Nat := 0x160

/-- Key code `KEY_LIGHTS_TOGGLE` of `linux/input.h`. -/
def KEY_LIGHTS_TOGGLE : Nat := 0x21e

/-- Button code `BTN_DPAD_UP` of `linux/input.h`. -/
def BTN_DPAD_UP : Nat := 0x220

/-- Button code `BTN_TRIGGER_HAPPY40` of `linux/input.h`. -/
def BTN_TRIGGER_HAPPY40 : Nat := 0x2e7

/-- Number of key codes `KEY_CNT` of `linux/input.h`. -/
def KEY_CNT : Nat := 0x300

/-- Modelled from the spec: `DEFAULT_MOUSE_DPI` of `evdev.h` (not among the
sources); raw deltas are divided by `dpi / 1000`. -/
def DEFAULT_MOUSE_DPI : Nat := 1000

/-- Scroll step `DEFAULT_AXIS_STEP_DISTANCE`. -/
def DEFAULT_AXIS_STEP_DISTANCE : Nat := 10

/-- Scroll button period `DEFAULT_MIDDLE_BUTTON_SCROLL_TIMEOUT`, in
milliseconds. -/
def DEFAULT_MIDDLE_BUTTON_SCROLL_TIMEOUT : Nat := 200

/-! ## evdev device: data model (`evdev.c`)

Values of C type `double` and `float` are rational numbers. The unaccelerated
delta of a relative motion and the scroll build-up are computed as the code
computes them, each `double` operation rounded by `double_round`; the other
arithmetic of the embedding is exact. -/

/-- Classification `enum evdev_key_type` of a key code. -/
inductive evdev_key_type where
  | EVDEV_KEY_TYPE_NONE
  | EVDEV_KEY_TYPE_KEY
  | EVDEV_KEY_TYPE_BUTTON
  deriving DecidableEq, Repr

/-- The kinds of pending event, `enum evdev_event_type`, as dispatched on by
`evdev_flush_pending_event`. -/
inductive evdev_event_type where
  | EVDEV_NONE
  | EVDEV_ABSOLUTE_TOUCH_DOWN
  | EVDEV_ABSOLUTE_MOTION
  | EVDEV_ABSOLUTE_TOUCH_UP
  | EVDEV_ABSOLUTE_MT_DOWN
  | EVDEV_ABSOLUTE_MT_MOTION
  | EVDEV_ABSOLUTE_MT_UP
  | EVDEV_RELATIVE_MOTION
  deriving DecidableEq, Repr

/-- Values of `enum libinput_key_state`. -/
inductive libinput_key_state where
  | LIBINPUT_KEY_STATE_RELEASED
  | LIBINPUT_KEY_STATE_PRESSED
  deriving DecidableEq, Repr

/-- The two scroll axes of `enum libinput_pointer_axis`. -/
inductive libinput_pointer_axis where
  | LIBINPUT_POINTER_AXIS_SCROLL_VERTICAL
  | LIBINPUT_POINTER_AXIS_SCROLL_HORIZONTAL
  deriving DecidableEq, Repr

/-- The scroll methods of `enum libinput_config_scroll_method`. -/
inductive libinput_config_scroll_method where
  | LIBINPUT_CONFIG_SCROLL_NO_SCROLL
  | LIBINPUT_CONFIG_SCROLL_2FG
  | LIBINPUT_CONFIG_SCROLL_EDGE
  | LIBINPUT_CONFIG_SCROLL_ON_BUTTON_DOWN
  deriving DecidableEq, Repr

/-- An event handed to the client: one constructor per `*_notify_*` sink that
`evdev.c` calls, holding the arguments of the call. -/
inductive libinput_event where
  | keyboard_key (time key : Nat) (state : libinput_key_state)
  | pointer_button (time button : Nat) (state : libinput_button_state)
  | pointer_motion (time : Nat) (dx dy dx_unaccel dy_unaccel : ℚ)
  | pointer_motion_absolute (time : Nat) (x y : Int)
  | pointer_axis (time : Nat) (axis : libinput_pointer_axis) (value : ℚ)
  | touch_down (time : Nat) (slot seat_slot x y : Int)
  | touch_motion (time : Nat) (slot seat_slot x y : Int)
  | touch_up (time : Nat) (slot seat_slot : Int)
  | touch_frame (time : Nat)
  deriving DecidableEq, Repr

/-- The decoded record `struct input_event` without its time stamp. -/
structure input_event where
  type : Nat
  code : Nat
  value : Int
  deriving DecidableEq, Repr

/-- One entry of `device->mt.slots`. -/
structure mt_slot where
  seat_slot : Int
  x : Int
  y : Int
  deriving DecidableEq, Repr

/-- The part `device->mt`: active slot and slot array. -/
structure evdev_mt where
  slot : Int
  slots : List mt_slot
  deriving DecidableEq, Repr

/-- A 3x3 matrix `struct matrix`, as its three rows. -/
structure matrix where
  val : Fin 3 → Fin 3 → ℚ

/-- The fields of `struct input_absinfo` (`linux/input.h`) that `evdev.c` reads. -/
structure input_absinfo where
  minimum : Int
  maximum : Int
  resolution : Int
  deriving DecidableEq, Repr

/-- The part `device->abs` read by the event path and by the calibration.
`absinfo_x` and `absinfo_y` are `none` for the `NULL` pointer. -/
structure evdev_abs where
  x : Int
  y : Int
  seat_slot : Int
  apply_calibration : Bool
  calibration : matrix
  usermatrix : matrix
  default_calibration : matrix
  absinfo_x : Option input_absinfo
  absinfo_y : Option input_absinfo

/-- The part `device->rel`: accumulated relative deltas. -/
structure evdev_rel where
  dx : Int
  dy : Int
  deriving DecidableEq, Repr

/-- The part `device->scroll`. `timer` is the expiry of `scroll.timer` when
armed; `has_change_scroll_method` tells whether the function pointer
`scroll.change_scroll_method` is set (to `evdev_change_scroll_method`). -/
structure evdev_scroll where
  timer : Option Nat
  method : libinput_config_scroll_method
  want_method : libinput_config_scroll_method
  button : Nat
  want_button : Nat
  button_scroll_active : Bool
  threshold : ℚ
  direction : Nat
  buildup_vertical : ℚ
  buildup_horizontal : ℚ
  natural_scrolling_enabled : Bool
  has_change_scroll_method : Bool
  deriving DecidableEq, Repr

/-- The part `device->buttons`. `has_change_to_left_handed` tells whether the
function pointer `buttons.change_to_left_handed` is set (to
`evdev_change_to_left_handed`). -/
structure evdev_buttons where
  left_handed : Bool
  want_left_handed : Bool
  has_change_to_left_handed : Bool
  deriving DecidableEq, Repr

/-- The capability bits `device->seat_caps`, one flag per bit. -/
structure evdev_seat_caps where
  pointer : Bool
  keyboard : Bool
  touch : Bool
  deriving DecidableEq, Repr

/-- Modelled from the spec: the pointer acceleration filter (`filter.c`, not
among the sources), of which the engine uses only the contract. `filter` maps
the motions dispatched so far, the new motion and its time to the accelerated
motion; `seen` holds the motions dispatched so far, oldest first. -/
structure motion_filter where
  filter : List (ℚ × ℚ × Nat) → ℚ × ℚ → Nat → ℚ × ℚ
  seen : List (ℚ × ℚ × Nat)

/-- The part `device->pointer`: the acceleration filter. -/
structure evdev_pointer where
  filter : motion_filter

/-- The seat `device->base.seat`: the bitmap of allocated seat slots. -/
structure libinput_seat where
  slot_map : Nat
  deriving DecidableEq, Repr

/-- The fields of `struct evdev_device` used by the event path. `seat` stands
for `device->base.seat`, `has_key_code` for `libevdev_has_event_code
(device->evdev, EV_KEY, code)`, and `emitted` records the events handed to the
client, oldest first. -/
structure evdev_device where
  seat : libinput_seat
  seat_caps : evdev_seat_caps
  is_mt : Bool
  dpi : Int
  pending_event : evdev_event_type
  mt : evdev_mt
  abs : evdev_abs
  rel : evdev_rel
  scroll : evdev_scroll
  buttons : evdev_buttons
  pointer : evdev_pointer
  hw_key_mask : Nat → Bool
  key_count : Nat → Nat
  has_key_code : Nat → Bool
  emitted : List libinput_event

open evdev_key_type evdev_event_type libinput_key_state libinput_pointer_axis
  libinput_config_scroll_method

/-! ## evdev device: collaborators -/

/-- Modelled from the spec: `long_bit_is_set` of `libinput-util.h` (not among
the sources), direct bit-index arithmetic on the key bitmap. -/
def long_bit_is_set (mask : Nat → Bool) (bit : Nat) : Bool :=
  mask bit

/-- Modelled from the spec: `long_set_bit_state` of `libinput-util.h` (not
among the sources): set the bit when `state` is non-zero, clear it otherwise. -/
def long_set_bit_state (mask : Nat → Bool) (bit : Nat) (state : Int) :
    Nat → Bool :=
  Function.update mask bit (decide (state ≠ 0))

/-- Modelled from the spec: `evdev_to_left_handed` of `evdev.h` (not among the
sources): with left-handed mode in effect `BTN_LEFT` and `BTN_RIGHT` are
swapped at emission. -/
def evdev_to_left_handed (device : evdev_device) (button : Nat) : Nat :=
  if device.buttons.left_handed then
    if button = BTN_LEFT then BTN_RIGHT
    else if button = BTN_RIGHT then BTN_LEFT
    else button
  else button

/-- Modelled from the spec: `filter_dispatch` of `filter.c` (not among the
sources): the filter sees the motion and its time, and yields the accelerated
motion. -/
def filter_dispatch (f : motion_filter) (motion : ℚ × ℚ) (time : Nat) :
    motion_filter × (ℚ × ℚ) :=
  ({ f with seen := f.seen ++ [(motion.1, motion.2, time)] },
    f.filter f.seen motion time)

/-- Conversion of a `double` to `int`: truncation toward zero. -/
def double_to_int (q : ℚ) : Int :=
  if 0 ≤ q then ⌊q⌋ else ⌈q⌉

/-- Rounding of a rational to the nearest integer, ties to the even one. -/
def round_half_even (m : ℚ) : ℤ :=
  let f := ⌊m⌋
  let r := m - f
  if r < 1 / 2 then f
  else if 1 / 2 < r then f + 1
  else if f % 2 = 0 then f
  else f + 1

/-- The rounding of an exact result to a `double` (IEEE 754 binary64, round to
nearest, ties to even): the value is scaled so that its integer part has 53
bits, rounded to an integer, and scaled back. The exponent is not bounded:
overflow and the subnormal range, far from the values of the device, are not
modelled. -/
def double_round (q : ℚ) : ℚ :=
  let e : ℤ := Int.log 2 |q| - 52
  (round_half_even (q / 2 ^ e) : ℚ) * 2 ^ e

/-- The sum `a + b` of two values of type `double`: the exact sum, rounded. -/
def double_add (a b : ℚ) : ℚ :=
  double_round (a + b)

/-- The quotient `a / b` of two values of type `double`: the exact quotient,
rounded. A divisor of 0, for which the C quotient is not finite, is outside the
model. -/
def double_div (a b : ℚ) : ℚ :=
  double_round (a / b)

/-- Modelled from the spec: `matrix_mult_vec` of `libinput-util.h` (not among
the sources): the affine transform of the first two rows applied to an integer
device coordinate. -/
def matrix_mult_vec (m : matrix) (x y : Int) : Int × Int :=
  (double_to_int (m.val 0 0 * x + m.val 0 1 * y + m.val 0 2),
   double_to_int (m.val 1 0 * x + m.val 1 1 * y + m.val 1 2))

/-- C library function `ffs` on a 32-bit word: one plus the index of the lowest
set bit, or zero if no bit is set. -/
def ffs (w : Nat) : Nat :=
  match (List.range 32).find? (fun i => w.testBit i) with
  | some i => i + 1
  | none => 0

/-- Append one event to the record of what the client was handed. -/
def emit (device : evdev_device) (e : libinput_event) : evdev_device :=
  { device with emitted := device.emitted ++ [e] }

/-! ## evdev device: key state -/

/-- Source function `hw_set_key_down`. -/
def hw_set_key_down (device : evdev_device) (code : Nat) (pressed : Int) :
    evdev_device :=
  { device with hw_key_mask := long_set_bit_state device.hw_key_mask code pressed }

/-- Source function `hw_is_key_down`. -/
def hw_is_key_down (device : evdev_device) (code : Nat) : Bool :=
  long_bit_is_set device.hw_key_mask code

/-- Source function `get_key_down_count`. -/
def get_key_down_count (device : evdev_device) (code : Nat) : Nat :=
  device.key_count code

/-- Source function `update_key_down_count`. The result is `none` when one of
its two assertions fails. The element type of `key_count` is declared in
`evdev.h`, which is not among the sources: `kc_mod` is the number of values of
that type, at which the increment wraps (256 for `uint8_t`). The function
returns the new count. -/
def update_key_down_count (kc_mod : Nat) (device : evdev_device) (code : Nat)
    (pressed : Bool) : Option (evdev_device × Nat) :=
  if code < KEY_CNT then
    if pressed then
      let key_count := (device.key_count code + 1) % kc_mod
      some ({ device with
        key_count := Function.update device.key_count code key_count }, key_count)
    else if 0 < device.key_count code then
      let key_count := device.key_count code - 1
      some ({ device with
        key_count := Function.update device.key_count code key_count }, key_count)
    else none
  else none

/-- Source function `evdev_keyboard_notify_key`; its `time` parameter is a
`uint32_t`. -/
def evdev_keyboard_notify_key (kc_mod : Nat) (device : evdev_device) (time : Nat)
    (key : Nat) (state : libinput_key_state) : Option evdev_device :=
  let time := time % 2 ^ 32
  match update_key_down_count kc_mod device key
      (decide (state = LIBINPUT_KEY_STATE_PRESSED)) with
  | none => none
  | some (device, down_count) =>
    if (state = LIBINPUT_KEY_STATE_PRESSED ∧ down_count = 1) ∨
        (state = LIBINPUT_KEY_STATE_RELEASED ∧ down_count = 0) then
      some (emit device (libinput_event.keyboard_key time key state))
    else some device

/-- Source function `evdev_any_button_down`: the loop over the codes from
`BTN_LEFT` up to, not including, `BTN_JOYSTICK`. -/
def evdev_any_button_down (device : evdev_device) : Bool :=
  (List.range' BTN_LEFT (BTN_JOYSTICK - BTN_LEFT)).any fun button =>
    device.has_key_code button && hw_is_key_down device button

/-- Source function `evdev_change_to_left_handed`. -/
def evdev_change_to_left_handed (device : evdev_device) : evdev_device :=
  if device.buttons.want_left_handed = device.buttons.left_handed then device
  else if evdev_any_button_down device then device
  else { device with
    buttons := { device.buttons with left_handed := device.buttons.want_left_handed } }

/-- Source function `evdev_change_scroll_method`. -/
def evdev_change_scroll_method (device : evdev_device) : evdev_device :=
  if device.scroll.want_method = device.scroll.method ∧
      device.scroll.want_button = device.scroll.button then device
  else if evdev_any_button_down device then device
  else { device with
    scroll := { device.scroll with
      method := device.scroll.want_method
      button := device.scroll.want_button } }

/-- Source function `evdev_pointer_notify_button`; its `time` parameter is a
`uint32_t`. After a release that was forwarded, the two configuration hooks
run if they are set. -/
def evdev_pointer_notify_button (kc_mod : Nat) (device : evdev_device)
    (time : Nat) (button : Nat) (state : libinput_button_state) :
    Option evdev_device :=
  let time := time % 2 ^ 32
  match update_key_down_count kc_mod device button
      (decide (state = LIBINPUT_BUTTON_STATE_PRESSED)) with
  | none => none
  | some (device, down_count) =>
    if (state = LIBINPUT_BUTTON_STATE_PRESSED ∧ down_count = 1) ∨
        (state = LIBINPUT_BUTTON_STATE_RELEASED ∧ down_count = 0) then
      let d1 := emit device (libinput_event.pointer_button time button state)
      let d2 :=
        if state = LIBINPUT_BUTTON_STATE_RELEASED ∧
            d1.buttons.has_change_to_left_handed then
          evdev_change_to_left_handed d1
        else d1
      let d3 :=
        if state = LIBINPUT_BUTTON_STATE_RELEASED ∧
            d2.scroll.has_change_scroll_method then
          evdev_change_scroll_method d2
        else d2
      some d3
    else some device

/-! ## evdev device: scrolling -/

/-- Numeric value of a scroll axis in `enum libinput_pointer_axis`, used as a
bit index into `scroll.direction`. -/
def libinput_pointer_axis.toNat : libinput_pointer_axis → Nat
  | LIBINPUT_POINTER_AXIS_SCROLL_VERTICAL => 0
  | LIBINPUT_POINTER_AXIS_SCROLL_HORIZONTAL => 1

/-- Source function `evdev_notify_axis`: negate under natural scrolling, then
hand the axis event to the client. -/
def evdev_notify_axis (device : evdev_device) (time : Nat)
    (axis : libinput_pointer_axis) (value : ℚ) : evdev_device :=
  let value := if device.scroll.natural_scrolling_enabled then value * (-1) else value
  emit device (libinput_event.pointer_axis time axis value)

/-- Source function `evdev_is_scrolling`. -/
def evdev_is_scrolling (device : evdev_device) (axis : libinput_pointer_axis) :
    Bool :=
  device.scroll.direction &&& (1 <<< axis.toNat) ≠ 0

/-- Source function `evdev_start_scrolling`. -/
def evdev_start_scrolling (device : evdev_device)
    (axis : libinput_pointer_axis) : evdev_device :=
  { device with scroll := { device.scroll with
      direction := device.scroll.direction ||| (1 <<< axis.toNat) } }

/-- Source function `evdev_post_scroll`. The build-ups are of type `double`:
`buildup += delta` is the rounded sum `double_add`, and the threshold is
compared with the value so stored. -/
def evdev_post_scroll (device : evdev_device) (time : Nat) (dx dy : ℚ) :
    evdev_device :=
  let d1 :=
    if !evdev_is_scrolling device LIBINPUT_POINTER_AXIS_SCROLL_VERTICAL then
      { device with scroll := { device.scroll with
          buildup_vertical := double_add device.scroll.buildup_vertical dy } }
    else device
  let d2 :=
    if !evdev_is_scrolling d1 LIBINPUT_POINTER_AXIS_SCROLL_HORIZONTAL then
      { d1 with scroll := { d1.scroll with
          buildup_horizontal := double_add d1.scroll.buildup_horizontal dx } }
    else d1
  let trigger_vert := d2.scroll.buildup_vertical
  let trigger_horiz := d2.scroll.buildup_horizontal
  let d3 :=
    if !evdev_is_scrolling d2 LIBINPUT_POINTER_AXIS_SCROLL_HORIZONTAL ∧
        !evdev_is_scrolling d2 LIBINPUT_POINTER_AXIS_SCROLL_VERTICAL then
      let a :=
        if |trigger_vert| ≥ d2.scroll.threshold then
          evdev_start_scrolling d2 LIBINPUT_POINTER_AXIS_SCROLL_VERTICAL
        else d2
      if |trigger_horiz| ≥ a.scroll.threshold then
        evdev_start_scrolling a LIBINPUT_POINTER_AXIS_SCROLL_HORIZONTAL
      else a
    else if !evdev_is_scrolling d2 LIBINPUT_POINTER_AXIS_SCROLL_VERTICAL then
      if |dy| ≥ d2.scroll.threshold then
        evdev_start_scrolling d2 LIBINPUT_POINTER_AXIS_SCROLL_VERTICAL
      else d2
    else if !evdev_is_scrolling d2 LIBINPUT_POINTER_AXIS_SCROLL_HORIZONTAL then
      if |dx| ≥ d2.scroll.threshold then
        evdev_start_scrolling d2 LIBINPUT_POINTER_AXIS_SCROLL_HORIZONTAL
      else d2
    else d2
  let d4 :=
    if dy ≠ 0 ∧ evdev_is_scrolling d3 LIBINPUT_POINTER_AXIS_SCROLL_VERTICAL then
      evdev_notify_axis d3 time LIBINPUT_POINTER_AXIS_SCROLL_VERTICAL dy
    else d3
  if dx ≠ 0 ∧ evdev_is_scrolling d4 LIBINPUT_POINTER_AXIS_SCROLL_HORIZONTAL then
    evdev_notify_axis d4 time LIBINPUT_POINTER_AXIS_SCROLL_HORIZONTAL dx
  else d4

/-- Source function `evdev_stop_scroll`. -/
def evdev_stop_scroll (device : evdev_device) (time : Nat) : evdev_device :=
  let d1 :=
    if device.scroll.direction &&&
        (1 <<< LIBINPUT_POINTER_AXIS_SCROLL_VERTICAL.toNat) ≠ 0 then
      emit device
        (libinput_event.pointer_axis time LIBINPUT_POINTER_AXIS_SCROLL_VERTICAL 0)
    else device
  let d2 :=
    if d1.scroll.direction &&&
        (1 <<< LIBINPUT_POINTER_AXIS_SCROLL_HORIZONTAL.toNat) ≠ 0 then
      emit d1
        (libinput_event.pointer_axis time LIBINPUT_POINTER_AXIS_SCROLL_HORIZONTAL 0)
    else d1
  { d2 with scroll := { d2.scroll with
      buildup_horizontal := 0
      buildup_vertical := 0
      direction := 0 } }

/-! ## evdev device: flushing the pending event -/

/-- Source function `transform_absolute`. -/
def transform_absolute (device : evdev_device) (x y : Int) : Int × Int :=
  if !device.abs.apply_calibration then (x, y)
  else matrix_mult_vec device.abs.calibration x y

/-- The entry `device->mt.slots[slot]`. The index is in range in every run of
the C program that has a meaning; outside the array the model reads a blank
entry. -/
def mt_slot_get (device : evdev_device) (slot : Int) : mt_slot :=
  if 0 ≤ slot then
    device.mt.slots.getD slot.toNat { seat_slot := -1, x := 0, y := 0 }
  else { seat_slot := -1, x := 0, y := 0 }

/-- The assignment `device->mt.slots[slot].seat_slot = seat_slot`; outside the
array the model drops the write. -/
def mt_slot_set_seat_slot (device : evdev_device) (slot : Int) (seat_slot : Int) :
    evdev_device :=
  if 0 ≤ slot then
    { device with mt := { device.mt with
        slots := device.mt.slots.modify
          (fun s => { s with seat_slot := seat_slot }) slot.toNat } }
  else device

/-- The statement `seat_slot = ffs(~seat->slot_map) - 1` on the 32-bit
`slot_map`. -/
def next_seat_slot (seat : libinput_seat) : Int :=
  (ffs (seat.slot_map ^^^ 0xffffffff) : Int) - 1

/-- The statement `seat->slot_map |= 1 << seat_slot`. -/
def seat_slot_take (device : evdev_device) (seat_slot : Int) : evdev_device :=
  { device with seat := { device.seat with
      slot_map := device.seat.slot_map ||| (1 <<< seat_slot.toNat) } }

/-- The statement `seat->slot_map &= ~(1 << seat_slot)` on the 32-bit
`slot_map`. -/
def seat_slot_give (device : evdev_device) (seat_slot : Int) : evdev_device :=
  { device with seat := { device.seat with
      slot_map := device.seat.slot_map &&& (0xffffffff ^^^ (1 <<< seat_slot.toNat)) } }

/-- The case `EVDEV_RELATIVE_MOTION` of `evdev_flush_pending_event`, up to its
`break`. The unaccelerated delta `rel.dx / ((double) dpi / DEFAULT_MOUSE_DPI)`
is two divisions in `double`. -/
def flush_relative_motion (device : evdev_device) (time : Nat) : evdev_device :=
  let dx_unaccel : ℚ :=
    double_div (device.rel.dx : ℚ) (double_div (device.dpi : ℚ) DEFAULT_MOUSE_DPI)
  let dy_unaccel : ℚ :=
    double_div (device.rel.dy : ℚ) (double_div (device.dpi : ℚ) DEFAULT_MOUSE_DPI)
  let d1 := { device with rel := { dx := 0, dy := 0 } }
  if d1.scroll.method = LIBINPUT_CONFIG_SCROLL_ON_BUTTON_DOWN ∧
      hw_is_key_down d1 d1.scroll.button then
    if d1.scroll.button_scroll_active then
      evdev_post_scroll d1 time dx_unaccel dy_unaccel
    else d1
  else
    let r := filter_dispatch d1.pointer.filter (dx_unaccel, dy_unaccel) time
    let d2 := { d1 with pointer := { d1.pointer with filter := r.1 } }
    let motion := r.2
    if motion.1 = 0 ∧ motion.2 = 0 ∧ dx_unaccel = 0 ∧ dy_unaccel = 0 then d2
    else
      emit d2
        (libinput_event.pointer_motion time motion.1 motion.2 dx_unaccel dy_unaccel)

/-- The case `EVDEV_ABSOLUTE_MT_DOWN` of `evdev_flush_pending_event`. -/
def flush_mt_down (device : evdev_device) (time : Nat) : evdev_device :=
  let slot := device.mt.slot
  if !device.seat_caps.touch then device
  else if (mt_slot_get device slot).seat_slot ≠ -1 then device
  else
    let seat_slot := next_seat_slot device.seat
    let d1 := mt_slot_set_seat_slot device slot seat_slot
    if seat_slot = -1 then d1
    else
      let d2 := seat_slot_take d1 seat_slot
      let p := transform_absolute d2 (mt_slot_get d2 slot).x (mt_slot_get d2 slot).y
      emit d2 (libinput_event.touch_down time slot seat_slot p.1 p.2)

/-- The case `EVDEV_ABSOLUTE_MT_MOTION` of `evdev_flush_pending_event`. -/
def flush_mt_motion (device : evdev_device) (time : Nat) : evdev_device :=
  let slot := device.mt.slot
  if !device.seat_caps.touch then device
  else
    let seat_slot := (mt_slot_get device slot).seat_slot
    if seat_slot = -1 then device
    else
      let p := transform_absolute device
        (mt_slot_get device slot).x (mt_slot_get device slot).y
      emit device (libinput_event.touch_motion time slot seat_slot p.1 p.2)

/-- The case `EVDEV_ABSOLUTE_MT_UP` of `evdev_flush_pending_event`. -/
def flush_mt_up (device : evdev_device) (time : Nat) : evdev_device :=
  let slot := device.mt.slot
  if !device.seat_caps.touch then device
  else
    let seat_slot := (mt_slot_get device slot).seat_slot
    let d1 := mt_slot_set_seat_slot device slot (-1)
    if seat_slot = -1 then d1
    else
      emit (seat_slot_give d1 seat_slot) (libinput_event.touch_up time slot seat_slot)

/-- The case `EVDEV_ABSOLUTE_TOUCH_DOWN` of `evdev_flush_pending_event`. -/
def flush_touch_down (device : evdev_device) (time : Nat) : evdev_device :=
  if !device.seat_caps.touch then device
  else if device.abs.seat_slot ≠ -1 then device
  else
    let seat_slot := next_seat_slot device.seat
    let d1 := { device with abs := { device.abs with seat_slot := seat_slot } }
    if seat_slot = -1 then d1
    else
      let d2 := seat_slot_take d1 seat_slot
      let p := transform_absolute d2 d2.abs.x d2.abs.y
      emit d2 (libinput_event.touch_down time (-1) seat_slot p.1 p.2)

/-- The case `EVDEV_ABSOLUTE_MOTION` of `evdev_flush_pending_event`. -/
def flush_absolute_motion (device : evdev_device) (time : Nat) : evdev_device :=
  let p := transform_absolute device device.abs.x device.abs.y
  if device.seat_caps.touch then
    let seat_slot := device.abs.seat_slot
    if seat_slot = -1 then device
    else emit device (libinput_event.touch_motion time (-1) seat_slot p.1 p.2)
  else if device.seat_caps.pointer then
    emit device (libinput_event.pointer_motion_absolute time p.1 p.2)
  else device

/-- The case `EVDEV_ABSOLUTE_TOUCH_UP` of `evdev_flush_pending_event`. -/
def flush_touch_up (device : evdev_device) (time : Nat) : evdev_device :=
  if !device.seat_caps.touch then device
  else
    let seat_slot := device.abs.seat_slot
    let d1 := { device with abs := { device.abs with seat_slot := -1 } }
    if seat_slot = -1 then d1
    else
      emit (seat_slot_give d1 seat_slot) (libinput_event.touch_up time (-1) seat_slot)

/-- Source function `evdev_flush_pending_event`: `EVDEV_NONE` returns at once;
every other kind runs its case and then resets `pending_event`. -/
def evdev_flush_pending_event (device : evdev_device) (time : Nat) :
    evdev_device :=
  match device.pending_event with
  | EVDEV_NONE => device
  | EVDEV_RELATIVE_MOTION =>
    { flush_relative_motion device time with pending_event := EVDEV_NONE }
  | EVDEV_ABSOLUTE_MT_DOWN =>
    { flush_mt_down device time with pending_event := EVDEV_NONE }
  | EVDEV_ABSOLUTE_MT_MOTION =>
    { flush_mt_motion device time with pending_event := EVDEV_NONE }
  | EVDEV_ABSOLUTE_MT_UP =>
    { flush_mt_up device time with pending_event := EVDEV_NONE }
  | EVDEV_ABSOLUTE_TOUCH_DOWN =>
    { flush_touch_down device time with pending_event := EVDEV_NONE }
  | EVDEV_ABSOLUTE_MOTION =>
    { flush_absolute_motion device time with pending_event := EVDEV_NONE }
  | EVDEV_ABSOLUTE_TOUCH_UP =>
    { flush_touch_up device time with pending_event := EVDEV_NONE }

/-! ## evdev device: key events -/

/-- Source function `get_key_type`. -/
def get_key_type (code : Nat) : evdev_key_type :=
  if code = BTN_TOUCH then EVDEV_KEY_TYPE_NONE
  else if KEY_ESC ≤ code ∧ code ≤ KEY_MICMUTE then EVDEV_KEY_TYPE_KEY
  else if BTN_MISC ≤ code ∧ code ≤ BTN_GEAR_UP then EVDEV_KEY_TYPE_BUTTON
  else if KEY_OK ≤ code ∧ code ≤ KEY_LIGHTS_TOGGLE then EVDEV_KEY_TYPE_KEY
  else if BTN_DPAD_UP ≤ code ∧ code ≤ BTN_TRIGGER_HAPPY40 then EVDEV_KEY_TYPE_BUTTON
  else EVDEV_KEY_TYPE_NONE

/-- Source function `evdev_button_scroll_timeout`. -/
def evdev_button_scroll_timeout (_time : Nat) (device : evdev_device) :
    evdev_device :=
  { device with scroll := { device.scroll with button_scroll_active := true } }

/-- Source function `evdev_button_scroll_button`; the sum armed on a press is
a `uint64_t`. -/
def evdev_button_scroll_button (kc_mod : Nat) (device : evdev_device)
    (time : Nat) (is_press : Int) : Option evdev_device :=
  if is_press ≠ 0 then
    some { device with scroll := { device.scroll with
      timer := libinput_timer_set device.scroll.timer
        ((time + DEFAULT_MIDDLE_BUTTON_SCROLL_TIMEOUT) % 2 ^ 64) } }
  else
    let d1 := { device with scroll := { device.scroll with
      timer := libinput_timer_cancel device.scroll.timer } }
    if d1.scroll.button_scroll_active then
      let d2 := evdev_stop_scroll d1 time
      some { d2 with scroll := { d2.scroll with button_scroll_active := false } }
    else
      match evdev_pointer_notify_button kc_mod d1 time d1.scroll.button
          LIBINPUT_BUTTON_STATE_PRESSED with
      | none => none
      | some d2 =>
        evdev_pointer_notify_button kc_mod d2 time d2.scroll.button
          LIBINPUT_BUTTON_STATE_RELEASED

/-- Source function `evdev_process_touch_button`. -/
def evdev_process_touch_button (device : evdev_device) (time : Nat)
    (value : Int) : evdev_device :=
  let d1 :=
    if device.pending_event ≠ EVDEV_NONE ∧
        device.pending_event ≠ EVDEV_ABSOLUTE_MOTION then
      evdev_flush_pending_event device time
    else device
  { d1 with pending_event :=
      if value ≠ 0 then EVDEV_ABSOLUTE_TOUCH_DOWN else EVDEV_ABSOLUTE_TOUCH_UP }

/-- Source function `evdev_process_key`. The result is `none` when an
assertion of `update_key_down_count` fails on the way. -/
def evdev_process_key (kc_mod : Nat) (device : evdev_device) (e : input_event)
    (time : Nat) : Option evdev_device :=
  if e.value = 2 then some device
  else if e.code = BTN_TOUCH then
    if !device.is_mt then some (evdev_process_touch_button device time e.value)
    else some device
  else
    let d1 := evdev_flush_pending_event device time
    let type := get_key_type e.code
    let never_pressed : Bool :=
      if e.value = 0 then
        match type with
        | EVDEV_KEY_TYPE_NONE => false
        | EVDEV_KEY_TYPE_KEY => !hw_is_key_down d1 e.code
        | EVDEV_KEY_TYPE_BUTTON => !hw_is_key_down d1 e.code
      else false
    if never_pressed then some d1
    else
      let d2 := hw_set_key_down d1 e.code e.value
      match type with
      | EVDEV_KEY_TYPE_NONE => some d2
      | EVDEV_KEY_TYPE_KEY =>
        evdev_keyboard_notify_key kc_mod d2 time e.code
          (if e.value ≠ 0 then LIBINPUT_KEY_STATE_PRESSED
           else LIBINPUT_KEY_STATE_RELEASED)
      | EVDEV_KEY_TYPE_BUTTON =>
        if d2.scroll.method = LIBINPUT_CONFIG_SCROLL_ON_BUTTON_DOWN ∧
            e.code = d2.scroll.button then
          evdev_button_scroll_button kc_mod d2 time e.value
        else
          evdev_pointer_notify_button kc_mod d2 time
            (evdev_to_left_handed d2 e.code)
            (if e.value ≠ 0 then LIBINPUT_BUTTON_STATE_PRESSED
             else LIBINPUT_BUTTON_STATE_RELEASED)

/-- Whether an event handed to the client is a key or a button event. -/
def libinput_event.is_key_or_button : libinput_event → Bool
  | libinput_event.keyboard_key _ _ _ => true
  | libinput_event.pointer_button _ _ _ => true
  | _ => false

/-- The step from `d` to `d1` leaves the hardware key bitmap and every press
count as they were and hands the client no key and no button event. -/
def keys_untouched (d d1 : evdev_device) : Prop :=
  d1.hw_key_mask = d.hw_key_mask ∧ d1.key_count = d.key_count ∧
  ∃ new : List libinput_event, d1.emitted = d.emitted ++ new ∧
    ∀ ev ∈ new, ev.is_key_or_button = false

/-- A device as `evdev_device_create` leaves it before `evdev_configure_device`
runs: zero-allocated, then no capability, no pending event, no accumulated
delta, no seat slot, scroll threshold 5, identity calibration, on a seat with
no slot taken. The capability map of the hardware, the filter and the
resolution are arguments. -/
def fresh_device (has_key_code : Nat → Bool) (filter : motion_filter) (dpi : Int) :
    evdev_device where
  seat := { slot_map := 0 }
  seat_caps := { pointer := false, keyboard := false, touch := false }
  is_mt := false
  dpi := dpi
  pending_event := EVDEV_NONE
  mt := { slot := 0, slots := [] }
  abs := { x := 0, y := 0, seat_slot := -1, apply_calibration := false,
           calibration := { val := fun i j => if i = j then 1 else 0 }
           usermatrix := { val := fun i j => if i = j then 1 else 0 }
           default_calibration := { val := fun i j => if i = j then 1 else 0 }
           absinfo_x := none, absinfo_y := none }
  rel := { dx := 0, dy := 0 }
  scroll := { timer := none
              method := LIBINPUT_CONFIG_SCROLL_NO_SCROLL
              want_method := LIBINPUT_CONFIG_SCROLL_NO_SCROLL
              button := 0
              want_button := 0
              button_scroll_active := false
              threshold := 5
              direction := 0
              buildup_vertical := 0
              buildup_horizontal := 0
              natural_scrolling_enabled := false
              has_change_scroll_method := false }
  buttons := { left_handed := false, want_left_handed := false,
               has_change_to_left_handed := false }
  pointer := { filter := filter }
  hw_key_mask := fun _ => false
  key_count := fun _ => 0
  has_key_code := has_key_code
  emitted := []

/-- A filter that leaves every motion as it is. -/
def identity_filter : motion_filter where
  filter := fun _ motion _ => motion
  seen := []

/-- A fresh device on which `BTN_LEFT` has been pressed once: its press count
is 1 and its bit in the hardware key bitmap is set. -/
def device_left_down : evdev_device :=
  { fresh_device (fun _ => true) identity_filter 1000 with
    hw_key_mask := fun code => decide (code = BTN_LEFT)
    key_count := fun code => if code = BTN_LEFT then 1 else 0 }

/-- The tap engine only ever sets the bits 1, 2 and 3 of `buttons_pressed`
(`1 << nfingers` for one, two and three fingers). -/
def tap_buttons_in_range (buttons_pressed : Nat) : Prop :=
  buttons_pressed < 16 ∧ buttons_pressed % 2 = 0

/-- The tap states in which the engine has pressed `BTN_LEFT` and not yet
released it. -/
def holds_left : tp_tap_state → Bool
  | TAP_STATE_TAPPED => true
  | TAP_STATE_DRAGGING_OR_DOUBLETAP => true
  | TAP_STATE_DRAGGING => true
  | TAP_STATE_DRAGGING_WAIT => true
  | TAP_STATE_DRAGGING_2 => true
  | TAP_STATE_MULTITAP_DOWN => true
  | _ => false

/-- A touch that counts as a tap: it sits where it began and its tap state is
`TAP_TOUCH_STATE_TOUCH`. -/
def tapping_touch : tp_touch where
  state := TOUCH_UPDATE
  dirty := true
  point := { x := 1000, y := 1000 }
  tap := { state := TAP_TOUCH_STATE_TOUCH, initial := { x := 1000, y := 1000 } }

/-- A tap dispatch at rest: `IDLE`, timer unarmed, nothing pressed, tapping
enabled, no touch, nothing notified. -/
def tp_at_rest : tp_dispatch where
  tap := { state := TAP_STATE_IDLE, timer := none, buttons_pressed := 0,
           multitap_last_time := 0, enabled := true, suspended := false }
  nfingers_down := 0
  touches := []
  notified := []

/-- The button bitmap agrees with the state: the `BTN_LEFT` bit, `1 << 1`, is
set in the states of `holds_left` and no bit is set in the others. -/
def tap_buttons_consistent (tp : tp_dispatch) : Prop :=
  tp.tap.buttons_pressed = if holds_left tp.tap.state then 1 <<< 1 else 0

/-! ## Reachable states of the tap engine -/

/-- States of the tap engine reachable from `tp_init_tap` by calls of
`tp_tap_handle_event` alone. Between two calls the touchpad front end may
change the touches and the number of fingers down. -/
inductive tap_event_reachable : tp_dispatch → Prop where
  | init (tp : tp_dispatch) (has_btn_left : Bool)
      (hb : tp.tap.buttons_pressed = 0) (hn : tp.notified = []) :
      tap_event_reachable (tp_init_tap tp has_btn_left)
  | frame (tp : tp_dispatch) (touches : List tp_touch) (nfingers_down : Nat) :
      tap_event_reachable tp →
      tap_event_reachable { tp with touches := touches, nfingers_down := nfingers_down }
  | event (tp : tp_dispatch) (t : Option tp_touch) (event : tap_event) (time : Nat) :
      tap_event_reachable tp →
      tap_event_reachable (tp_tap_handle_event tp t event time)

/-- States of the tap engine reachable from `tp_init_tap` by all its entry
points. `tp_tap_handle_event` is static: touch, motion, release and button
events come from `tp_tap_handle_state`, which returns at once unless
`tp_tap_enabled`; the timeout event comes from `tp_tap_handle_timeout`. A
freshly allocated dispatch has no tap button pressed and is not suspended. -/
inductive tap_reachable : tp_dispatch → Prop where
  | init (tp : tp_dispatch) (has_btn_left : Bool)
      (hb : tp.tap.buttons_pressed = 0) (hs : tp.tap.suspended = false)
      (hn : tp.notified = []) :
      tap_reachable (tp_init_tap tp has_btn_left)
  | frame (tp : tp_dispatch) (touches : List tp_touch) (nfingers_down : Nat) :
      tap_reachable tp →
      tap_reachable { tp with touches := touches, nfingers_down := nfingers_down }
  | event (tp : tp_dispatch) (t : Option tp_touch) (event : tap_event) (time : Nat) :
      tap_reachable tp → tp_tap_enabled tp = true → event ≠ TAP_EVENT_TIMEOUT →
      tap_reachable (tp_tap_handle_event tp t event time)
  | timeout (tp : tp_dispatch) (time : Nat) :
      tap_reachable tp → tap_reachable (tp_tap_handle_timeout time tp)
  | release_all (tp : tp_dispatch) (now : Nat) :
      tap_reachable tp → tap_reachable (tp_release_all_taps tp now)
  | enabled_update (tp : tp_dispatch) (suspended enabled : Bool) (time : Nat) :
      tap_reachable tp →
      tap_reachable (tp_tap_enabled_update tp suspended enabled time)

/-! ## evdev device: the fallback dispatch -/

/-- Event type `EV_SYN` of `linux/input.h`. -/
def EV_SYN : Nat := 0

/-- Event type `EV_KEY` of `linux/input.h`. -/
def EV_KEY : Nat := 1

/-- Event type `EV_REL` of `linux/input.h`. -/
def EV_REL : Nat := 2

/-- Event type `EV_ABS` of `linux/input.h`. -/
def EV_ABS : Nat := 3

/-- Relative axis `REL_X` of `linux/input.h`. -/
def REL_X : Nat := 0

/-- Relative axis `REL_Y` of `linux/input.h`. -/
def REL_Y : Nat := 1

/-- Relative axis `REL_HWHEEL` of `linux/input.h`. -/
def REL_HWHEEL : Nat := 6

/-- Relative axis `REL_WHEEL` of `linux/input.h`. -/
def REL_WHEEL : Nat := 8

/-- Absolute axis `ABS_X` of `linux/input.h`. -/
def ABS_X : Nat := 0

/-- Absolute axis `ABS_Y` of `linux/input.h`. -/
def ABS_Y : Nat := 1

/-- Absolute axis `ABS_MT_SLOT` of `linux/input.h`. -/
def ABS_MT_SLOT : Nat := 0x2f

/-- Absolute axis `ABS_MT_POSITION_X` of `linux/input.h`. -/
def ABS_MT_POSITION_X : Nat := 0x35

/-- Absolute axis `ABS_MT_POSITION_Y` of `linux/input.h`. -/
def ABS_MT_POSITION_Y : Nat := 0x36

/-- Absolute axis `ABS_MT_TRACKING_ID` of `linux/input.h`. -/
def ABS_MT_TRACKING_ID : Nat := 0x39

/-- The assignment `device->mt.slots[slot].x = value`; outside the array the
model drops the write. -/
def mt_slot_set_x (device : evdev_device) (slot : Int) (value : Int) :
    evdev_device :=
  if 0 ≤ slot then
    { device with mt := { device.mt with
        slots := device.mt.slots.modify (fun s => { s with x := value }) slot.toNat } }
  else device

/-- The assignment `device->mt.slots[slot].y = value`; outside the array the
model drops the write. -/
def mt_slot_set_y (device : evdev_device) (slot : Int) (value : Int) :
    evdev_device :=
  if 0 ≤ slot then
    { device with mt := { device.mt with
        slots := device.mt.slots.modify (fun s => { s with y := value }) slot.toNat } }
  else device

/-- Source function `evdev_process_touch`. -/
def evdev_process_touch (device : evdev_device) (e : input_event) (time : Nat) :
    evdev_device :=
  if e.code = ABS_MT_SLOT then
    let d1 := evdev_flush_pending_event device time
    { d1 with mt := { d1.mt with slot := e.value } }
  else if e.code = ABS_MT_TRACKING_ID then
    let d1 :=
      if device.pending_event ≠ EVDEV_NONE ∧
          device.pending_event ≠ EVDEV_ABSOLUTE_MT_MOTION then
        evdev_flush_pending_event device time
      else device
    if e.value ≥ 0 then { d1 with pending_event := EVDEV_ABSOLUTE_MT_DOWN }
    else { d1 with pending_event := EVDEV_ABSOLUTE_MT_UP }
  else if e.code = ABS_MT_POSITION_X then
    let d1 := mt_slot_set_x device device.mt.slot e.value
    if d1.pending_event = EVDEV_NONE then
      { d1 with pending_event := EVDEV_ABSOLUTE_MT_MOTION }
    else d1
  else if e.code = ABS_MT_POSITION_Y then
    let d1 := mt_slot_set_y device device.mt.slot e.value
    if d1.pending_event = EVDEV_NONE then
      { d1 with pending_event := EVDEV_ABSOLUTE_MT_MOTION }
    else d1
  else device

/-- Source function `evdev_process_absolute_motion`. -/
def evdev_process_absolute_motion (device : evdev_device) (e : input_event) :
    evdev_device :=
  if e.code = ABS_X then
    let d1 := { device with abs := { device.abs with x := e.value } }
    if d1.pending_event = EVDEV_NONE then
      { d1 with pending_event := EVDEV_ABSOLUTE_MOTION }
    else d1
  else if e.code = ABS_Y then
    let d1 := { device with abs := { device.abs with y := e.value } }
    if d1.pending_event = EVDEV_NONE then
      { d1 with pending_event := EVDEV_ABSOLUTE_MOTION }
    else d1
  else device

/-- Source function `evdev_process_relative`. The sums `rel.dx += value` are
of C type `int` and taken not to overflow. -/
def evdev_process_relative (device : evdev_device) (e : input_event) (time : Nat) :
    evdev_device :=
  if e.code = REL_X then
    let d1 :=
      if device.pending_event ≠ EVDEV_RELATIVE_MOTION then
        evdev_flush_pending_event device time
      else device
    { d1 with rel := { d1.rel with dx := d1.rel.dx + e.value }
              pending_event := EVDEV_RELATIVE_MOTION }
  else if e.code = REL_Y then
    let d1 :=
      if device.pending_event ≠ EVDEV_RELATIVE_MOTION then
        evdev_flush_pending_event device time
      else device
    { d1 with rel := { d1.rel with dy := d1.rel.dy + e.value }
              pending_event := EVDEV_RELATIVE_MOTION }
  else if e.code = REL_WHEEL then
    evdev_notify_axis (evdev_flush_pending_event device time) time
      LIBINPUT_POINTER_AXIS_SCROLL_VERTICAL
      ((-1 * e.value * (DEFAULT_AXIS_STEP_DISTANCE : Int) : Int) : ℚ)
  else if e.code = REL_HWHEEL then
    evdev_notify_axis (evdev_flush_pending_event device time) time
      LIBINPUT_POINTER_AXIS_SCROLL_HORIZONTAL
      ((e.value * (DEFAULT_AXIS_STEP_DISTANCE : Int) : Int) : ℚ)
  else device

/-- Source function `evdev_process_absolute`. -/
def evdev_process_absolute (device : evdev_device) (e : input_event) (time : Nat) :
    evdev_device :=
  if device.is_mt then evdev_process_touch device e time
  else evdev_process_absolute_motion device e

/-- Source function `evdev_need_touch_frame`. -/
def evdev_need_touch_frame (device : evdev_device) : Bool :=
  if !device.seat_caps.touch then false
  else
    match device.pending_event with
    | EVDEV_NONE => false
    | EVDEV_RELATIVE_MOTION => false
    | EVDEV_ABSOLUTE_MT_DOWN => true
    | EVDEV_ABSOLUTE_MT_MOTION => true
    | EVDEV_ABSOLUTE_MT_UP => true
    | EVDEV_ABSOLUTE_TOUCH_DOWN => true
    | EVDEV_ABSOLUTE_TOUCH_UP => true
    | EVDEV_ABSOLUTE_MOTION => true

/-- Source function `fallback_process`. The result is `none` when an assertion
of `update_key_down_count` fails on the way. -/
def fallback_process (kc_mod : Nat) (device : evdev_device) (event : input_event)
    (time : Nat) : Option evdev_device :=
  if event.type = EV_REL then some (evdev_process_relative device event time)
  else if event.type = EV_ABS then some (evdev_process_absolute device event time)
  else if event.type = EV_KEY then evdev_process_key kc_mod device event time
  else if event.type = EV_SYN then
    let need_frame := evdev_need_touch_frame device
    let d1 := evdev_flush_pending_event device time
    if need_frame then some (emit d1 (libinput_event.touch_frame time))
    else some d1
  else some device

/-- Feed a list of events, each with its time, to `fallback_process`, oldest
first, as `evdev_device_dispatch` does for the events it reads. -/
def fallback_process_all (kc_mod : Nat) (device : evdev_device) :
    List (input_event × Nat) → Option evdev_device
  | [] => some device
  | (event, time) :: rest =>
    match fallback_process kc_mod device event time with
    | none => none
    | some d1 => fallback_process_all kc_mod d1 rest

/-! ## evdev device: configuration and suspend -/

/-- Source function `evdev_left_handed_set`: record the wanted value, then call
the hook stored in `buttons.change_to_left_handed`, which this configuration
is only hooked up with (`evdev_init_left_handed`). -/
def evdev_left_handed_set (device : evdev_device) (left_handed : Int) :
    evdev_device :=
  evdev_change_to_left_handed
    { device with buttons := { device.buttons with
        want_left_handed := decide (left_handed ≠ 0) } }

/-- Source function `evdev_left_handed_get`: the wanted value, whether or not
it has taken effect. -/
def evdev_left_handed_get (device : evdev_device) : Bool :=
  device.buttons.want_left_handed

/-- How a run of code that may loop or fail an assertion ends. -/
inductive run_result where
  | returned (device : evdev_device)
  | assertion_failed
  | out_of_fuel

/-- The loop `while (get_key_down_count(device, code) > 0)` of
`release_pressed_keys`, run for at most `fuel` rounds. A code of type
`EVDEV_KEY_TYPE_NONE` with a count above 0 changes nothing in a round. -/
def release_pressed_keys_while (kc_mod : Nat) (time : Nat) (code : Nat) :
    Nat → evdev_device → run_result
  | 0, device =>
    if get_key_down_count device code > 0 then run_result.out_of_fuel
    else run_result.returned device
  | fuel + 1, device =>
    if get_key_down_count device code > 0 then
      match get_key_type code with
      | EVDEV_KEY_TYPE_NONE => release_pressed_keys_while kc_mod time code fuel device
      | EVDEV_KEY_TYPE_KEY =>
        match evdev_keyboard_notify_key kc_mod device time code
            LIBINPUT_KEY_STATE_RELEASED with
        | none => run_result.assertion_failed
        | some d1 => release_pressed_keys_while kc_mod time code fuel d1
      | EVDEV_KEY_TYPE_BUTTON =>
        match evdev_pointer_notify_button kc_mod device time
            (evdev_to_left_handed device code) LIBINPUT_BUTTON_STATE_RELEASED with
        | none => run_result.assertion_failed
        | some d1 => release_pressed_keys_while kc_mod time code fuel d1
    else run_result.returned device

/-- The loop `for (code = 0; code < KEY_CNT; code++)` of `release_pressed_keys`
over the codes of the list, each `while` loop run for at most `fuel` rounds. -/
def release_pressed_keys_for (kc_mod : Nat) (fuel : Nat) (time : Nat) :
    List Nat → evdev_device → run_result
  | [], device => run_result.returned device
  | code :: rest, device =>
    match release_pressed_keys_while kc_mod time code fuel device with
    | run_result.returned d1 => release_pressed_keys_for kc_mod fuel time rest d1
    | run_result.assertion_failed => run_result.assertion_failed
    | run_result.out_of_fuel => run_result.out_of_fuel

/-- Source function `release_pressed_keys`; `now` is what `libinput_now`
returns, and 0 makes the function return at once. -/
def release_pressed_keys (kc_mod : Nat) (fuel : Nat) (device : evdev_device)
    (now : Nat) : run_result :=
  if now = 0 then run_result.returned device
  else release_pressed_keys_for kc_mod fuel now (List.range KEY_CNT) device

/-- Source function `evdev_device_suspend`, as far as the key state goes: the
call of `release_pressed_keys`. Closing the file descriptor and telling the
other devices of the seat are left out. -/
def evdev_device_suspend (kc_mod : Nat) (fuel : Nat) (device : evdev_device)
    (now : Nat) : run_result :=
  release_pressed_keys kc_mod fuel device now

/-- Whether a run ended in a failed assertion. -/
def run_result.is_assertion_failed : run_result → Bool
  | run_result.assertion_failed => true
  | _ => false

/-- Feed a list of `EV_KEY` events, each with its time, to `evdev_process_key`,
oldest first. The result is `none` when an assertion fails on the way. -/
def evdev_process_keys (kc_mod : Nat) (device : evdev_device) :
    List (input_event × Nat) → Option evdev_device
  | [] => some device
  | (e, time) :: rest =>
    match evdev_process_key kc_mod device e time with
    | none => none
    | some d1 => evdev_process_keys kc_mod d1 rest

/-- The number of press notifications for `code` among the events handed to the
client. -/
def presses_emitted (code : Nat) : List libinput_event → Nat
  | [] => 0
  | libinput_event.keyboard_key _ key LIBINPUT_KEY_STATE_PRESSED :: rest =>
    (if key = code then 1 else 0) + presses_emitted code rest
  | libinput_event.pointer_button _ button LIBINPUT_BUTTON_STATE_PRESSED :: rest =>
    (if button = code then 1 else 0) + presses_emitted code rest
  | _ :: rest => presses_emitted code rest

/-- The number of release notifications for `code` among the events handed to
the client. -/
def releases_emitted (code : Nat) : List libinput_event → Nat
  | [] => 0
  | libinput_event.keyboard_key _ key LIBINPUT_KEY_STATE_RELEASED :: rest =>
    (if key = code then 1 else 0) + releases_emitted code rest
  | libinput_event.pointer_button _ button LIBINPUT_BUTTON_STATE_RELEASED :: rest =>
    (if button = code then 1 else 0) + releases_emitted code rest
  | _ :: rest => releases_emitted code rest

/-! ## evdev device: calibration -/

/-- The six numbers `float matrix[6]` of the calibration configuration, named
as in the comment of `evdev_device_calibrate`: rows `a b c` and `d e f`. -/
structure farray6 where
  a : ℚ
  b : ℚ
  c : ℚ
  d : ℚ
  e : ℚ
  f : ℚ
  deriving DecidableEq, Repr

/-- Modelled from the spec: `matrix_init_identity` of `libinput-util.h` (not
among the sources). -/
def matrix_init_identity : matrix where
  val := fun i j => if i = j then 1 else 0

/-- Modelled from the spec: `matrix_init_scale` of `libinput-util.h` (not among
the sources): the identity with the scale factors on the diagonal. -/
def matrix_init_scale (sx sy : ℚ) : matrix where
  val := fun i j =>
    if i = 0 ∧ j = 0 then sx
    else if i = 1 ∧ j = 1 then sy
    else if i = j then 1 else 0

/-- Modelled from the spec: `matrix_init_translate` of `libinput-util.h` (not
among the sources): the identity with the translation in the last column. -/
def matrix_init_translate (x y : ℚ) : matrix where
  val := fun i j =>
    if i = 0 ∧ j = 2 then x
    else if i = 1 ∧ j = 2 then y
    else if i = j then 1 else 0

/-- Modelled from the spec: `matrix_is_identity` of `libinput-util.h` (not
among the sources). -/
def matrix_is_identity (m : matrix) : Bool :=
  decide (m.val 0 0 = 1 ∧ m.val 0 1 = 0 ∧ m.val 0 2 = 0 ∧
          m.val 1 0 = 0 ∧ m.val 1 1 = 1 ∧ m.val 1 2 = 0 ∧
          m.val 2 0 = 0 ∧ m.val 2 1 = 0 ∧ m.val 2 2 = 1)

/-- Modelled from the spec: `matrix_mult` of `libinput-util.h` (not among the
sources): the matrix product `m1 * m2`. -/
def matrix_mult (m1 m2 : matrix) : matrix where
  val := fun row col =>
    m1.val row 0 * m2.val 0 col + m1.val row 1 * m2.val 1 col +
      m1.val row 2 * m2.val 2 col

/-- Modelled from the spec: `matrix_from_farray6` of `libinput-util.h` (not
among the sources): the six numbers fill the first two rows, the last row is
`0 0 1`. -/
def matrix_from_farray6 (v : farray6) : matrix where
  val := fun i j =>
    if i = 0 then (if j = 0 then v.a else if j = 1 then v.b else v.c)
    else if i = 1 then (if j = 0 then v.d else if j = 1 then v.e else v.f)
    else (if j = 2 then 1 else 0)

/-- Modelled from the spec: `matrix_to_farray6` of `libinput-util.h` (not among
the sources): the first two rows of the matrix. -/
def matrix_to_farray6 (m : matrix) : farray6 where
  a := m.val 0 0
  b := m.val 0 1
  c := m.val 0 2
  d := m.val 1 0
  e := m.val 1 1
  f := m.val 1 2

/-- Source function `evdev_device_calibrate`. The result is `none` when a
non-identity matrix meets a `NULL` `absinfo_x` or `absinfo_y`. -/
def evdev_device_calibrate (device : evdev_device) (calibration : farray6) :
    Option evdev_device :=
  let transform := matrix_from_farray6 calibration
  let d1 := { device with abs := { device.abs with
    apply_calibration := !matrix_is_identity transform } }
  if !d1.abs.apply_calibration then
    some { d1 with abs := { d1.abs with calibration := matrix_init_identity } }
  else
    match d1.abs.absinfo_x, d1.abs.absinfo_y with
    | some absinfo_x, some absinfo_y =>
      let sx : ℚ := ((absinfo_x.maximum - absinfo_x.minimum + 1 : Int) : ℚ)
      let sy : ℚ := ((absinfo_y.maximum - absinfo_y.minimum + 1 : Int) : ℚ)
      let d2 := { d1 with abs := { d1.abs with
        usermatrix := matrix_from_farray6 calibration } }
      let translate := matrix_init_translate absinfo_x.minimum absinfo_y.minimum
      let scale := matrix_init_scale sx sy
      let scale := matrix_mult translate scale
      let transform := matrix_mult scale transform
      let translate := matrix_init_translate
        (((-absinfo_x.minimum : Int) : ℚ) / sx) (((-absinfo_y.minimum : Int) : ℚ) / sy)
      let scale := matrix_init_scale (1 / sx) (1 / sy)
      let scale := matrix_mult translate scale
      some { d2 with abs := { d2.abs with calibration := matrix_mult transform scale } }
    | _, _ => none

/-- Source function `evdev_calibration_has_matrix`. -/
def evdev_calibration_has_matrix (device : evdev_device) : Bool :=
  device.abs.absinfo_x.isSome && device.abs.absinfo_y.isSome

/-- Source function `evdev_calibration_set_matrix`. -/
def evdev_calibration_set_matrix (device : evdev_device) (m : farray6) :
    Option evdev_device :=
  evdev_device_calibrate device m

/-- Source function `evdev_calibration_get_matrix`: the six numbers written to
the caller, and the return value, 1 unless the user matrix is the identity. -/
def evdev_calibration_get_matrix (device : evdev_device) : farray6 × Nat :=
  (matrix_to_farray6 device.abs.usermatrix,
    if matrix_is_identity device.abs.usermatrix then 0 else 1)

/-- Source function `evdev_device_set_default_calibration`. -/
def evdev_device_set_default_calibration (device : evdev_device)
    (calibration : farray6) : Option evdev_device :=
  evdev_device_calibrate
    { device with abs := { device.abs with
        default_calibration := matrix_from_farray6 calibration } } calibration

/-- The identity as six numbers. -/
def farray6_identity : farray6 where
  a := 1
  b := 0
  c := 0
  d := 0
  e := 1
  f := 0

/-- The affine map of a matrix applied to a point with rational coordinates. -/
def matrix_apply (m : matrix) (p : ℚ × ℚ) : ℚ × ℚ :=
  (m.val 0 0 * p.1 + m.val 0 1 * p.2 + m.val 0 2,
   m.val 1 0 * p.1 + m.val 1 1 * p.2 + m.val 1 2)

/-- Normalize, in the words of the comment of `evdev_device_calibrate`: scale
the device coordinates to [0,1], `x` to `(x - min_x) / sx`. -/
def normalize_point (ax ay : input_absinfo) (p : ℚ × ℚ) : ℚ × ℚ :=
  ((p.1 - ax.minimum) / (ax.maximum - ax.minimum + 1),
   (p.2 - ay.minimum) / (ay.maximum - ay.minimum + 1))

/-- Un-Normalize, in the words of the comment of `evdev_device_calibrate`:
scale back up to device coordinates, `n` to `n * sx + min_x`. -/
def unnormalize_point (ax ay : input_absinfo) (p : ℚ × ℚ) : ℚ × ℚ :=
  (p.1 * (ax.maximum - ax.minimum + 1) + ax.minimum,
   p.2 * (ay.maximum - ay.minimum + 1) + ay.minimum)

/-! ## A seat and its devices -/

/-- A seat with the devices on it. The seat of the world stands for the one
`struct libinput_seat` that all `device->base.seat` pointers refer to; the
field `seat` of a device in the list is overwritten from it at each flush. -/
structure seat_world where
  seat : libinput_seat
  devices : List evdev_device

/-- The number of slots of a device, `mt.slots[k].seat_slot` and
`abs.seat_slot`, that hold the seat slot `i`. -/
def device_holds (device : evdev_device) (i : Int) : Nat :=
  device.mt.slots.countP (fun s => decide (s.seat_slot = i)) +
    (if device.abs.seat_slot = i then 1 else 0)

/-- The number of device slots of the seat that hold the seat slot `i`. -/
def seat_holders (w : seat_world) (i : Int) : Nat :=
  (w.devices.map (fun d => device_holds d i)).sum

/-- The three multitouch kinds of pending event. -/
def evdev_event_type.is_mt : evdev_event_type → Bool
  | EVDEV_ABSOLUTE_MT_DOWN => true
  | EVDEV_ABSOLUTE_MT_MOTION => true
  | EVDEV_ABSOLUTE_MT_UP => true
  | _ => false

/-- One flush on the seat: device number `k` has the event `kind` pending for
its active slot `slot`, and `evdev_flush_pending_event` runs on it against the
seat of the world. -/
def seat_flush (w : seat_world) (k : Nat) (kind : evdev_event_type) (slot : Int)
    (time : Nat) : seat_world :=
  match w.devices[k]? with
  | none => w
  | some d =>
    let d1 := evdev_flush_pending_event
      { d with seat := w.seat, pending_event := kind, mt := { d.mt with slot := slot } }
      time
    { seat := d1.seat, devices := w.devices.set k d1 }

/-- The worlds reachable from a seat with no slot taken, `slot_map == 0` and
every `seat_slot` field -1, by flushes of pending events on its devices.
Between two flushes a device may change in any way that leaves its
`seat_slot` fields alone, as the processing of raw events does. A multitouch
kind is flushed for a slot of the slot array. -/
inductive seat_reachable : seat_world → Prop where
  | init (w : seat_world) (hm : w.seat.slot_map = 0)
      (hd : ∀ d ∈ w.devices, d.abs.seat_slot = -1 ∧ ∀ s ∈ d.mt.slots, s.seat_slot = -1) :
      seat_reachable w
  | update (w : seat_world) (k : Nat) (d1 : evdev_device) :
      seat_reachable w →
      (∀ d, w.devices[k]? = some d → d1.abs.seat_slot = d.abs.seat_slot ∧
        d1.mt.slots.map (fun s => s.seat_slot) = d.mt.slots.map (fun s => s.seat_slot)) →
      seat_reachable { w with devices := w.devices.set k d1 }
  | flush (w : seat_world) (k : Nat) (kind : evdev_event_type) (slot : Int)
      (time : Nat) :
      seat_reachable w →
      (∀ d, w.devices[k]? = some d → kind.is_mt = true →
        0 ≤ slot ∧ slot.toNat < d.mt.slots.length) →
      seat_reachable (seat_flush w k kind slot time)

/-! ## Devices used as examples -/

/-- A multitouch touch screen with two slots, both free: a fresh device that
`evdev_configure_device` gave the TOUCH capability and a slot array. -/
def touch_screen : evdev_device :=
  { fresh_device (fun _ => false) identity_filter 1000 with
    seat_caps := { pointer := false, keyboard := false, touch := true }
    is_mt := true
    mt := { slot := 0, slots := [{ seat_slot := -1, x := 0, y := 0 },
                                  { seat_slot := -1, x := 0, y := 0 }] }
    abs := { (fresh_device (fun _ => false) identity_filter 1000).abs with
      absinfo_x := some { minimum := 0, maximum := 1023, resolution := 1 }
      absinfo_y := some { minimum := 0, maximum := 767, resolution := 1 } } }

/-- A mouse with the left-handed configuration hooked up: a fresh device that
`evdev_configure_device` gave the POINTER capability and on which
`evdev_init_left_handed` stored `evdev_change_to_left_handed`. -/
def mouse : evdev_device :=
  { fresh_device (fun code => decide (BTN_LEFT ≤ code ∧ code ≤ BTN_MIDDLE))
      identity_filter 1000 with
    seat_caps := { pointer := true, keyboard := false, touch := false }
    buttons := { left_handed := false, want_left_handed := false,
                 has_change_to_left_handed := true } }

/-- Key code `BTN_TOOL_FINGER` of `linux/input.h`. -/
def BTN_TOOL_FINGER : Nat := 0x145

/-! ## Runs of relative motion events -/

/-- The sum of the values of the `REL_X` events of a run. -/
def rel_sum_x : List (input_event × Nat) → Int
  | [] => 0
  | (e, _) :: rest => (if e.code = REL_X then e.value else 0) + rel_sum_x rest

/-- The sum of the values of the `REL_Y` events of a run. -/
def rel_sum_y : List (input_event × Nat) → Int
  | [] => 0
  | (e, _) :: rest => (if e.code = REL_Y then e.value else 0) + rel_sum_y rest

/-- The device after the values of a run of `REL_X` and `REL_Y` events have
been added to `rel.dx` and `rel.dy`, the sum waiting as a pending relative
motion. -/
def rel_accumulate (device : evdev_device) (es : List (input_event × Nat)) :
    evdev_device :=
  { device with
    rel := { dx := device.rel.dx + rel_sum_x es, dy := device.rel.dy + rel_sum_y es }
    pending_event := EVDEV_RELATIVE_MOTION }

/-! ## Book-keeping of the seat slots -/

/-- Whether bit `i` of the 32-bit `slot_map` of the seat is set. -/
def seat_slot_taken (seat : libinput_seat) (i : Int) : Bool :=
  decide (0 ≤ i ∧ i < 32) && seat.slot_map.testBit i.toNat

/-- The step from `d0` to `d1` keeps the books of the seat slots: `slot_map`
stays a 32-bit value, and for every seat slot the device holds it once more
exactly if the step set its bit, and once less exactly if it cleared it. -/
def seat_slots_balanced (d0 d1 : evdev_device) : Prop :=
  (d0.seat.slot_map < 2 ^ 32 → d1.seat.slot_map < 2 ^ 32) ∧
  ∀ i : Int, i ≠ -1 →
    device_holds d1 i + (if seat_slot_taken d0.seat i then 1 else 0) =
      device_holds d0 i + (if seat_slot_taken d1.seat i then 1 else 0)

/-! ## Presses and releases handed to the client -/

/-- For every code the client has been handed at least as many presses as
releases, and one press more than releases while the press count of the code
is above 0. -/
def press_release_ordered (d : evdev_device) : Prop :=
  ∀ c : Nat, releases_emitted c d.emitted ≤ presses_emitted c d.emitted ∧
    (1 ≤ d.key_count c → releases_emitted c d.emitted + 1 ≤ presses_emitted c d.emitted)

/-- The call of `evdev_keyboard_notify_key` or `evdev_pointer_notify_button`
for `code` led from `d` to `d1`: the press counts and the numbers of presses
and releases handed to the client changed for `code` alone, as
`update_key_down_count` and the test of the new count prescribe. -/
def key_notified (kc_mod : Nat) (d d1 : evdev_device) (code : Nat) (pressed : Bool) :
    Prop :=
  d1.hw_key_mask = d.hw_key_mask ∧
  ∀ c : Nat,
    if pressed then
      d1.key_count c =
        (if c = code then (d.key_count code + 1) % kc_mod else d.key_count c) ∧
      presses_emitted c d1.emitted = presses_emitted c d.emitted +
        (if c = code ∧ (d.key_count code + 1) % kc_mod = 1 then 1 else 0) ∧
      releases_emitted c d1.emitted = releases_emitted c d.emitted
    else
      0 < d.key_count code ∧
      d1.key_count c = (if c = code then d.key_count code - 1 else d.key_count c) ∧
      presses_emitted c d1.emitted = presses_emitted c d.emitted ∧
      releases_emitted c d1.emitted = releases_emitted c d.emitted +
        (if c = code ∧ d.key_count code = 1 then 1 else 0)

/-- A part `π` of the device that does not depend on anything a flush of the
pending event writes: the build-ups and the direction of `scroll`, the record
of emitted events, `rel`, the filter, `mt`, `abs`, the seat and
`pending_event`. -/
def flush_blind {α : Type} (π : evdev_device → α) : Prop :=
  (∀ (d : evdev_device) (v : ℚ),
    π { d with scroll := { d.scroll with buildup_vertical := v } } = π d) ∧
  (∀ (d : evdev_device) (v : ℚ),
    π { d with scroll := { d.scroll with buildup_horizontal := v } } = π d) ∧
  (∀ (d : evdev_device) (v : Nat),
    π { d with scroll := { d.scroll with direction := v } } = π d) ∧
  (∀ (d : evdev_device) (e : libinput_event), π (emit d e) = π d) ∧
  (∀ (d : evdev_device) (r : evdev_rel), π { d with rel := r } = π d) ∧
  (∀ (d : evdev_device) (p : evdev_pointer), π { d with pointer := p } = π d) ∧
  (∀ (d : evdev_device) (m : evdev_mt), π { d with mt := m } = π d) ∧
  (∀ (d : evdev_device) (a : evdev_abs), π { d with abs := a } = π d) ∧
  (∀ (d : evdev_device) (s : libinput_seat), π { d with seat := s } = π d) ∧
  (∀ (d : evdev_device) (p : evdev_event_type), π { d with pending_event := p } = π d)

/-- The key state of a device on which every press came while the hardware
bitmap had the code up: neither left-handed mode nor button scrolling is on or
wanted, the press count of a code is 1 if the bitmap has the code down and the
code is a key or a button, and 0 otherwise, and the client has been handed as
many presses as releases plus the press count. -/
def keys_settled (d : evdev_device) : Prop :=
  d.buttons.left_handed = false ∧ d.buttons.want_left_handed = false ∧
  d.scroll.method = LIBINPUT_CONFIG_SCROLL_NO_SCROLL ∧
  d.scroll.want_method = LIBINPUT_CONFIG_SCROLL_NO_SCROLL ∧
  d.scroll.want_button = d.scroll.button ∧
  ∀ c : Nat,
    d.key_count c =
      (if d.hw_key_mask c = true ∧ get_key_type c ≠ EVDEV_KEY_TYPE_NONE then 1 else 0) ∧
    presses_emitted c d.emitted = releases_emitted c d.emitted + d.key_count c

/-- No event of the run presses a code (a value other than 0 and 2) while the
hardware bitmap has the code down, as the kernel guarantees: it sends a press
only for a code that is up. -/
def presses_only_when_up (kc_mod : Nat) :
    evdev_device → List (input_event × Nat) → Prop
  | _, [] => True
  | device, (e, time) :: rest =>
    (e.value ≠ 0 → e.value ≠ 2 → hw_is_key_down device e.code = false) ∧
    match evdev_process_key kc_mod device e time with
    | none => True
    | some d1 => presses_only_when_up kc_mod d1 rest

/-! ## Runs of taps -/

/-- Feed a list of taps to the tap engine: for each entry a `TAP_EVENT_TOUCH`
with its touch and time, then a `TAP_EVENT_RELEASE` with its touch and time. -/
def tap_touch_release_cycles (tp : tp_dispatch) :
    List ((Option tp_touch × Nat) × (Option tp_touch × Nat)) → tp_dispatch
  | [] => tp
  | ((a, t_touch), (b, t_release)) :: rest =>
    tap_touch_release_cycles
      (tp_tap_handle_event (tp_tap_handle_event tp a TAP_EVENT_TOUCH t_touch) b
        TAP_EVENT_RELEASE t_release) rest

/-- One `BTN_LEFT` press at the time of the touch and one `BTN_LEFT` release at
the time of the release, for each tap of the list. -/
def tap_cycle_buttons :
    List ((Option tp_touch × Nat) × (Option tp_touch × Nat)) → List button_notify
  | [] => []
  | ((_, t_touch), (_, t_release)) :: rest =>
    { time := t_touch, button := BTN_LEFT, state := LIBINPUT_BUTTON_STATE_PRESSED } ::
    { time := t_release, button := BTN_LEFT, state := LIBINPUT_BUTTON_STATE_RELEASED } ::
    tap_cycle_buttons rest

/-! ## Button scrolling: events, runs and example devices -/

/-- Whether an event handed to the client is a scroll axis event. -/
def libinput_event.is_axis : libinput_event → Bool
  | libinput_event.pointer_axis _ _ _ => true
  | _ => false

/-- The step from `d` to `d1` hands the client only events on which `P`
holds. -/
def emits_only (P : libinput_event → Bool) (d d1 : evdev_device) : Prop :=
  ∃ new : List libinput_event, d1.emitted = d.emitted ++ new ∧
    ∀ ev ∈ new, P ev = true

/-- A pointing stick: the `mouse` on which `evdev_init_button_scroll` set the
scroll method `LIBINPUT_CONFIG_SCROLL_ON_BUTTON_DOWN` with the button
`BTN_MIDDLE` and stored `evdev_change_scroll_method`. -/
def trackpoint : evdev_device :=
  { mouse with scroll := { mouse.scroll with
      method := LIBINPUT_CONFIG_SCROLL_ON_BUTTON_DOWN
      want_method := LIBINPUT_CONFIG_SCROLL_ON_BUTTON_DOWN
      button := BTN_MIDDLE
      want_button := BTN_MIDDLE
      has_change_scroll_method := true } }

/-- Frames of vertical motion: for each entry a `REL_Y` event with the entry's
value and the `EV_SYN` (`SYN_REPORT`) that ends the frame, both at the entry's
time. -/
def scroll_frames : List (Int × Nat) → List (input_event × Nat)
  | [] => []
  | (v, t) :: rest =>
    ({ type := EV_REL, code := REL_Y, value := v }, t) ::
      ({ type := EV_SYN, code := 0, value := 0 }, t) :: scroll_frames rest

/-- The vertical delta that the flush computes for a frame of value `v`: the
quotient of `v` by `dpi / DEFAULT_MOUSE_DPI`, both divisions in `double`. -/
def scroll_delta (dpi : Int) (v : Int) : ℚ :=
  double_div (v : ℚ) (double_div (dpi : ℚ) DEFAULT_MOUSE_DPI)

/-- The vertical build-up after a run of frames, starting from `start`: each
frame adds its delta with `+=` on a `double`, as `evdev_post_scroll` does while
the axis is not scrolling. -/
def scroll_buildup (dpi : Int) (start : ℚ) : List (Int × Nat) → ℚ
  | [] => start
  | (v, _) :: rest => scroll_buildup dpi (double_add start (scroll_delta dpi v)) rest

/-- Whether an event handed to the client is a vertical axis event with a value
other than 0. -/
def libinput_event.is_vertical_scroll : libinput_event → Bool
  | libinput_event.pointer_axis _ LIBINPUT_POINTER_AXIS_SCROLL_VERTICAL v => decide (v ≠ 0)
  | _ => false

/-- The device is in button scrolling: the method is on, the scroll button is
held and the timer has fired; no event is pending and no relative motion is
accumulated; nothing scrolls or has built up horizontally; the vertical
build-up is a `double`; and while the vertical axis is not scrolling its
build-up is below the threshold. -/
def button_scrolling (x : evdev_device) : Prop :=
  double_round x.scroll.buildup_vertical = x.scroll.buildup_vertical ∧
  x.scroll.method = LIBINPUT_CONFIG_SCROLL_ON_BUTTON_DOWN ∧
  hw_is_key_down x x.scroll.button = true ∧
  x.scroll.button_scroll_active = true ∧
  x.pending_event = EVDEV_NONE ∧ x.rel = { dx := 0, dy := 0 } ∧
  x.scroll.buildup_horizontal = 0 ∧
  evdev_is_scrolling x LIBINPUT_POINTER_AXIS_SCROLL_HORIZONTAL = false ∧
  0 < x.scroll.threshold ∧ x.dpi ≠ 0 ∧
  (evdev_is_scrolling x LIBINPUT_POINTER_AXIS_SCROLL_VERTICAL = false →
    |x.scroll.buildup_vertical| < x.scroll.threshold)

/-- The pointing stick with `BTN_MIDDLE` held since 0 ms: its bit is set in
the hardware bitmap and the scroll timer is armed for 200 ms. -/
def trackpoint_held : evdev_device :=
  { trackpoint with
    hw_key_mask := fun code => decide (code = BTN_MIDDLE)
    scroll := { trackpoint.scroll with timer := some 200 } }

/-! ## Left-handed configuration: example devices -/

/-- A mouse that also has the button `BTN_0` (`BTN_MISC`, code 0x100): the
`mouse` with that code added to its capability map. -/
def mouse_with_btn_0 : evdev_device :=
  { mouse with
    has_key_code := fun code =>
      decide (code = BTN_MISC ∨ (BTN_LEFT ≤ code ∧ code ≤ BTN_MIDDLE)) }

/-- The `mouse` with `BTN_LEFT` held: its bit is set in the hardware bitmap and
its press count is 1. -/
def mouse_left_held : evdev_device :=
  { mouse with
    hw_key_mask := fun code => decide (code = BTN_LEFT)
    key_count := fun code => if code = BTN_LEFT then 1 else 0 }

/-! ## Command-line tool: option parsing (`tools/shared.c`) -/

/-- The option codes of `enum options`. -/
inductive options where
  | OPT_DEVICE
  | OPT_UDEV
  | OPT_HELP
  | OPT_VERBOSE
  | OPT_TAP_ENABLE
  | OPT_TAP_DISABLE
  | OPT_NATURAL_SCROLL_ENABLE
  | OPT_NATURAL_SCROLL_DISABLE
  | OPT_LEFT_HANDED_ENABLE
  | OPT_LEFT_HANDED_DISABLE
  | OPT_MIDDLEBUTTON_ENABLE
  | OPT_MIDDLEBUTTON_DISABLE
  | OPT_CLICK_METHOD
  | OPT_SCROLL_METHOD
  | OPT_SCROLL_BUTTON
  | OPT_SPEED
  deriving DecidableEq, Repr

/-- The backends of `enum tools_backend`. -/
inductive tools_backend where
  | BACKEND_DEVICE
  | BACKEND_UDEV
  deriving DecidableEq, Repr

/-- The click methods of `enum libinput_config_click_method` that the tool
can set. -/
inductive libinput_config_click_method where
  | LIBINPUT_CONFIG_CLICK_METHOD_NONE
  | LIBINPUT_CONFIG_CLICK_METHOD_BUTTON_AREAS
  | LIBINPUT_CONFIG_CLICK_METHOD_CLICKFINGER
  deriving DecidableEq, Repr

/-- The fields of `struct tools_options` that `tools_parse_args` writes
(`shared.h` is not among the sources). `device` is `none` for the `NULL`
pointer; `click_method` and `scroll_method` are `none` for the value -1 that
stands for "not given"; `speed` is a `double`. -/
structure tools_options where
  backend : tools_backend
  device : Option String
  seat : String
  verbose : Int
  tapping : Int
  natural_scroll : Int
  left_handed : Int
  middlebutton : Int
  click_method : Option libinput_config_click_method
  scroll_method : Option libinput_config_scroll_method
  scroll_button : Int
  speed : ℚ
  deriving DecidableEq

/-- One entry of the table `opts[]` passed to `getopt_long`: the name, whether
the option takes an argument (`has_arg` 1) and the value returned for it. -/
structure long_option where
  name : String
  has_arg : Bool
  val : options
  deriving DecidableEq

/-- What one call of `getopt_long` returns in `c`: the value of a long option
of the table, the short option `h`, or `?` for an element it rejects. -/
inductive getopt_code where
  | long (o : options)
  | short_h
  | question
  deriving DecidableEq, Repr

/-- The result of one call of `getopt_long`: either -1 (no option element is
left), with whether `optind < argc` holds afterwards, or a code with `optarg`
and the elements still to scan. -/
inductive getopt_result where
  | finished (optind_lt_argc : Bool)
  | found (c : getopt_code) (optarg : Option String) (rest : List String)
      (skipped : Nat)

/-- How `tools_parse_args` ends: it returns a value, leaving `options` as
given; or it calls `exit`; or the model ran out of rounds of the loop. -/
inductive tools_outcome where
  | returned (ret : Int) (options : tools_options)
  | exited (status : Int)
  | out_of_fuel

/-- The table `opts[]` of `tools_parse_args`, in source order. -/
def opts : List long_option :=
  [ { name := "device", has_arg := true, val := options.OPT_DEVICE },
    { name := "udev", has_arg := false, val := options.OPT_UDEV },
    { name := "help", has_arg := false, val := options.OPT_HELP },
    { name := "verbose", has_arg := false, val := options.OPT_VERBOSE },
    { name := "enable-tap", has_arg := false, val := options.OPT_TAP_ENABLE },
    { name := "disable-tap", has_arg := false, val := options.OPT_TAP_DISABLE },
    { name := "enable-natural-scrolling", has_arg := false,
      val := options.OPT_NATURAL_SCROLL_ENABLE },
    { name := "disable-natural-scrolling", has_arg := false,
      val := options.OPT_NATURAL_SCROLL_DISABLE },
    { name := "enable-left-handed", has_arg := false,
      val := options.OPT_LEFT_HANDED_ENABLE },
    { name := "disable-left-handed", has_arg := false,
      val := options.OPT_LEFT_HANDED_DISABLE },
    { name := "enable-middlebutton", has_arg := false,
      val := options.OPT_MIDDLEBUTTON_ENABLE },
    { name := "disable-middlebutton", has_arg := false,
      val := options.OPT_MIDDLEBUTTON_DISABLE },
    { name := "set-click-method", has_arg := true, val := options.OPT_CLICK_METHOD },
    { name := "set-scroll-method", has_arg := true, val := options.OPT_SCROLL_METHOD },
    { name := "set-scroll-button", has_arg := true, val := options.OPT_SCROLL_BUTTON },
    { name := "speed", has_arg := true, val := options.OPT_SPEED } ]

/-- The name part of a long option element `--name` or `--name=value`. -/
def long_option_name (arg : String) : List Char :=
  (arg.toList.drop 2).takeWhile (fun ch => ch ≠ '=')

/-- The value part of a long option element `--name=value`, if it has one. -/
def long_option_value (arg : String) : Option String :=
  match (arg.toList.drop 2).dropWhile (fun ch => ch ≠ '=') with
  | [] => none
  | _ :: value => some (String.mk value)

/-- C library function `getopt_long` (GNU), the lookup of a long option name in
the table: an exact match wins; otherwise the name must be a prefix of exactly
one entry (the entries of `opts[]` differ in `val`, so two candidates are
ambiguous). -/
def getopt_lookup (table : List long_option) (name : List Char) :
    Option long_option :=
  match table.find? (fun o => o.name.toList = name) with
  | some o => some o
  | none =>
    match table.filter (fun o => name.isPrefixOf o.name.toList) with
    | [o] => some o
    | _ => none

/-- C library function `getopt_long` (GNU, `POSIXLY_CORRECT` unset) with the
short options `"h"`, on the elements of `argv` from `optind` on. An element
that is not an option is passed over (the library moves it behind the
options, so that `optind` ends on it); `skipped` counts them. The element
`--` ends the scan. A long option is looked up in the table: an unknown or
ambiguous name, a value given to an option that takes none and a missing
argument all yield `?`; an option with `has_arg` 1 takes its argument after
`=` or from the next element. Of a short option element only the first letter
matters here: `h` is the one short option, any other letter yields `?`, and
`tools_parse_args` leaves its loop on either. -/
def getopt_long (table : List long_option) : List String → Nat → getopt_result
  | [], skipped => getopt_result.finished (decide (0 < skipped))
  | arg :: rest, skipped =>
    if arg = "--" then getopt_result.finished (decide (0 < skipped + rest.length))
    else if "--".toList.isPrefixOf arg.toList then
      match getopt_lookup table (long_option_name arg) with
      | none => getopt_result.found getopt_code.question none rest skipped
      | some o =>
        match long_option_value arg with
        | some value =>
          if o.has_arg then
            getopt_result.found (getopt_code.long o.val) (some value) rest skipped
          else getopt_result.found getopt_code.question none rest skipped
        | none =>
          if o.has_arg then
            match rest with
            | [] => getopt_result.found getopt_code.question none rest skipped
            | next :: rest2 =>
              getopt_result.found (getopt_code.long o.val) (some next) rest2 skipped
          else getopt_result.found (getopt_code.long o.val) none rest skipped
    else
      match arg.toList with
      | '-' :: ch :: _ =>
        if ch = 'h' then getopt_result.found getopt_code.short_h none rest skipped
        else getopt_result.found getopt_code.question none rest skipped
      | _ => getopt_long table rest (skipped + 1)

/-- Source function `tools_init_options`. -/
def tools_init_options : tools_options where
  backend := tools_backend.BACKEND_UDEV
  device := none
  seat := "seat0"
  verbose := 0
  tapping := -1
  natural_scroll := -1
  left_handed := -1
  middlebutton := -1
  click_method := none
  scroll_method := none
  scroll_button := -1
  speed := 0

/-- The `switch` of `tools_parse_args` on the code `c` of one option. The
result is either the outcome with which the function ends, or the options with
which the loop goes on; `tool_options` stands for the parameter `options`. Printing the usage text leaves no trace in the model.
`atof` and `libevdev_event_code_from_name` are the library functions of those
names. -/
def tools_parse_option (atof : String → ℚ)
    (libevdev_event_code_from_name : String → Int) (c : getopt_code)
    (optarg : Option String) (tool_options : tools_options) :
    tools_outcome ⊕ tools_options :=
  match c with
  | getopt_code.short_h => Sum.inl (tools_outcome.exited 0)
  | getopt_code.long options.OPT_HELP => Sum.inl (tools_outcome.exited 0)
  | getopt_code.long options.OPT_DEVICE =>
    let o1 := { tool_options with backend := tools_backend.BACKEND_DEVICE }
    match optarg with
    | none => Sum.inl (tools_outcome.returned 1 o1)
    | some arg => Sum.inr { o1 with device := some arg }
  | getopt_code.long options.OPT_UDEV =>
    let o1 := { tool_options with backend := tools_backend.BACKEND_UDEV }
    match optarg with
    | none => Sum.inr o1
    | some arg => Sum.inr { o1 with seat := arg }
  | getopt_code.long options.OPT_VERBOSE => Sum.inr { tool_options with verbose := 1 }
  | getopt_code.long options.OPT_TAP_ENABLE => Sum.inr { tool_options with tapping := 1 }
  | getopt_code.long options.OPT_TAP_DISABLE => Sum.inr { tool_options with tapping := 0 }
  | getopt_code.long options.OPT_NATURAL_SCROLL_ENABLE =>
    Sum.inr { tool_options with natural_scroll := 1 }
  | getopt_code.long options.OPT_NATURAL_SCROLL_DISABLE =>
    Sum.inr { tool_options with natural_scroll := 0 }
  | getopt_code.long options.OPT_LEFT_HANDED_ENABLE =>
    Sum.inr { tool_options with left_handed := 1 }
  | getopt_code.long options.OPT_LEFT_HANDED_DISABLE =>
    Sum.inr { tool_options with left_handed := 0 }
  | getopt_code.long options.OPT_MIDDLEBUTTON_ENABLE =>
    Sum.inr { tool_options with middlebutton := 1 }
  | getopt_code.long options.OPT_MIDDLEBUTTON_DISABLE =>
    Sum.inr { tool_options with middlebutton := 0 }
  | getopt_code.long options.OPT_CLICK_METHOD =>
    match optarg with
    | none => Sum.inl (tools_outcome.returned 1 tool_options)
    | some arg =>
      if arg = "none" then
        Sum.inr { tool_options with
          click_method := some libinput_config_click_method.LIBINPUT_CONFIG_CLICK_METHOD_NONE }
      else if arg = "clickfinger" then
        Sum.inr { tool_options with
          click_method := some libinput_config_click_method.LIBINPUT_CONFIG_CLICK_METHOD_CLICKFINGER }
      else if arg = "buttonareas" then
        Sum.inr { tool_options with
          click_method := some libinput_config_click_method.LIBINPUT_CONFIG_CLICK_METHOD_BUTTON_AREAS }
      else Sum.inl (tools_outcome.returned 1 tool_options)
  | getopt_code.long options.OPT_SCROLL_METHOD =>
    match optarg with
    | none => Sum.inl (tools_outcome.returned 1 tool_options)
    | some arg =>
      if arg = "none" then
        Sum.inr { tool_options with
          scroll_method := some libinput_config_scroll_method.LIBINPUT_CONFIG_SCROLL_NO_SCROLL }
      else if arg = "twofinger" then
        Sum.inr { tool_options with
          scroll_method := some libinput_config_scroll_method.LIBINPUT_CONFIG_SCROLL_2FG }
      else if arg = "edge" then
        Sum.inr { tool_options with
          scroll_method := some libinput_config_scroll_method.LIBINPUT_CONFIG_SCROLL_EDGE }
      else if arg = "button" then
        Sum.inr { tool_options with
          scroll_method := some libinput_config_scroll_method.LIBINPUT_CONFIG_SCROLL_ON_BUTTON_DOWN }
      else Sum.inl (tools_outcome.returned 1 tool_options)
  | getopt_code.long options.OPT_SCROLL_BUTTON =>
    match optarg with
    | none => Sum.inl (tools_outcome.returned 1 tool_options)
    | some arg =>
      let o1 := { tool_options with scroll_button := libevdev_event_code_from_name arg }
      if o1.scroll_button = -1 then Sum.inl (tools_outcome.returned 1 o1)
      else Sum.inr o1
  | getopt_code.long options.OPT_SPEED =>
    match optarg with
    | none => Sum.inl (tools_outcome.returned 1 tool_options)
    | some arg => Sum.inr { tool_options with speed := atof arg }
  | getopt_code.question => Sum.inl (tools_outcome.returned 1 tool_options)

/-- The loop `while (1)` of `tools_parse_args` and the test after it: `fuel`
bounds the number of rounds; `rest` holds the elements of `argv` still to
scan. -/
def tools_parse_loop (atof : String → ℚ)
    (libevdev_event_code_from_name : String → Int) :
    Nat → List String → Nat → tools_options → tools_outcome
  | 0, _, _, _ => tools_outcome.out_of_fuel
  | fuel + 1, rest, skipped, tool_options =>
    match getopt_long opts rest skipped with
    | getopt_result.finished optind_lt_argc =>
      if optind_lt_argc then tools_outcome.returned 1 tool_options
      else tools_outcome.returned 0 tool_options
    | getopt_result.found c optarg rest1 skipped1 =>
      match tools_parse_option atof libevdev_event_code_from_name c optarg tool_options with
      | Sum.inl outcome => outcome
      | Sum.inr options1 =>
        tools_parse_loop atof libevdev_event_code_from_name fuel rest1 skipped1 options1

/-- Source function `tools_parse_args` on the argument vector `argv`, whose
first element is the program name. Every round of the loop but the last
takes at least one element, so one round more than there are elements is
enough. -/
def tools_parse_args (atof : String → ℚ)
    (libevdev_event_code_from_name : String → Int) (argv : List String)
    (options : tools_options) : tools_outcome :=
  tools_parse_loop atof libevdev_event_code_from_name (argv.length + 1) argv.tail 0
    options

/-! ## Device creation: capabilities and the choice of the dispatch -/

/-- Key code `BTN_DIGI` of `linux/input.h`. -/
def BTN_DIGI : Nat := 0x140

/-- Key code `BTN_TOOL_PEN` of `linux/input.h`. -/
def BTN_TOOL_PEN : Nat := 0x140

/-- Constant `KEY_MAX` of `linux/input.h`. -/
def KEY_MAX : Nat := 0x2ff

/-- Event type `EV_LED` of `linux/input.h`. -/
def EV_LED : Nat := 0x11

/-- Device property `INPUT_PROP_DIRECT` of `linux/input.h`. -/
def INPUT_PROP_DIRECT : Nat := 0x01

/-- Device property `INPUT_PROP_POINTING_STICK` of `linux/input.h`. -/
def INPUT_PROP_POINTING_STICK : Nat := 0x05

/-- The capability descriptor of a device, as the libevdev handle
`device->evdev` answers for it: `libevdev_has_event_type`,
`libevdev_has_event_code` (type, then code), `libevdev_has_property`,
`libevdev_get_abs_info` (`none` for `NULL`), `libevdev_get_num_slots` and
`libevdev_get_current_slot`. -/
structure libevdev where
  has_event_type : Nat → Bool
  has_event_code : Nat → Nat → Bool
  has_property : Nat → Bool
  get_abs_info : Nat → Option input_absinfo
  get_num_slots : Int
  get_current_slot : Int

/-- The two dispatch variants a device can get. -/
inductive evdev_dispatch where
  | fallback
  | touchpad
  deriving DecidableEq, Repr

/-- What the collaborators of the device creation answer. `mtdev` is the
result of `mtdev_new_open` (`none` for `NULL`, else `caps.slot.minimum`,
`caps.slot.maximum` and `caps.slot.value`); `calloc_slots`, `zalloc_dispatch`
and `add_fd` tell whether `calloc`, the `zalloc` of `fallback_dispatch_create`
and `libinput_add_fd` succeed; `accelerator` is the result of
`create_pointer_accelerator_filter` (`none` for `NULL`); `dpi` is the result of
`evdev_read_dpi_prop`; `touchpad` is the answer of the touchpad set-up, see
`evdev_mt_touchpad_create`. -/
structure device_collaborators where
  mtdev : Option (Int × Int × Int)
  calloc_slots : Bool
  zalloc_dispatch : Bool
  add_fd : Bool
  accelerator : Option motion_filter
  dpi : Int
  touchpad : Option evdev_seat_caps

/-- Modelled from the spec: `evdev_mt_touchpad_create` of `evdev-mt-touchpad.c`
(not among the sources). It yields the touchpad dispatch, or `NULL` when its
set-up fails (`env.touchpad` is `none`); on success `env.touchpad` holds the
capabilities it leaves in `device->seat_caps`. The result is the device, `none`
for `NULL`. -/
def evdev_mt_touchpad_create (env : device_collaborators) (device : evdev_device) :
    Option evdev_device :=
  env.touchpad.map fun caps => { device with seat_caps := caps }

/-- Source function `evdev_device_init_pointer_acceleration`: the result is
`none` where it returns -1. -/
def evdev_device_init_pointer_acceleration (env : device_collaborators)
    (device : evdev_device) : Option evdev_device :=
  env.accelerator.map fun f => { device with pointer := { filter := f } }

/-- Source function `evdev_fix_abs_resolution`, as the descriptor it leaves
behind the pointer: a resolution of 0 becomes 1. -/
def evdev_fix_abs_resolution (absinfo : input_absinfo) : input_absinfo :=
  if absinfo.resolution = 0 then { absinfo with resolution := 1 } else absinfo

/-- Source function `evdev_need_mtdev`. -/
def evdev_need_mtdev (evdev : libevdev) : Bool :=
  evdev.has_event_code EV_ABS ABS_MT_POSITION_X &&
    evdev.has_event_code EV_ABS ABS_MT_POSITION_Y &&
    !evdev.has_event_code EV_ABS ABS_MT_SLOT

/-- The local variables `has_abs`, `has_mt` and `has_touch` of
`evdev_configure_device` after its block on `EV_ABS`, with the device. -/
structure configure_abs where
  device : evdev_device
  has_abs : Bool
  has_mt : Bool
  has_touch : Bool

/-- The block `if (libevdev_has_event_type(evdev, EV_ABS))` of
`evdev_configure_device`. The result is `none` where the function returns -1.
The flag `abs.fake_resolution` is not part of the model. -/
def evdev_configure_abs (env : device_collaborators) (evdev : libevdev)
    (device : evdev_device) : Option configure_abs :=
  if !evdev.has_event_type EV_ABS then
    some { device := device, has_abs := false, has_mt := false, has_touch := false }
  else
    let d1 :=
      match evdev.get_abs_info ABS_X with
      | some absinfo =>
        { device with abs := { device.abs with
            absinfo_x := some (evdev_fix_abs_resolution absinfo) } }
      | none => device
    let d2 :=
      match evdev.get_abs_info ABS_Y with
      | some absinfo =>
        { d1 with abs := { d1.abs with
            absinfo_y := some (evdev_fix_abs_resolution absinfo) } }
      | none => d1
    let has_abs : Bool :=
      (evdev.get_abs_info ABS_X).isSome || (evdev.get_abs_info ABS_Y).isSome
    if evdev.has_event_code EV_ABS ABS_MT_SLOT ∧ evdev.get_num_slots = -1 then
      some { device := d2, has_abs := has_abs, has_mt := false, has_touch := false }
    else if evdev.has_event_code EV_ABS ABS_MT_POSITION_X ∧
        evdev.has_event_code EV_ABS ABS_MT_POSITION_Y then
      let d3 := { d2 with
        abs := { d2.abs with
          absinfo_x := (evdev.get_abs_info ABS_MT_POSITION_X).map evdev_fix_abs_resolution
          absinfo_y := (evdev.get_abs_info ABS_MT_POSITION_Y).map evdev_fix_abs_resolution }
        is_mt := true }
      let slots : Option (Int × Int) :=
        if evdev_need_mtdev evdev then
          match env.mtdev with
          | none => none
          | some (minimum, maximum, value) =>
            if minimum < 0 ∨ maximum ≤ 0 then none else some (maximum, value)
        else some (evdev.get_num_slots, evdev.get_current_slot)
      match slots with
      | none => none
      | some (num_slots, active_slot) =>
        if !env.calloc_slots then none
        else
          some { device := { d3 with
                   mt := { slot := active_slot
                           slots := List.replicate num_slots.toNat
                             { seat_slot := -1, x := 0, y := 0 } } }
                 has_abs := has_abs, has_mt := true, has_touch := true }
    else some { device := d2, has_abs := has_abs, has_mt := false, has_touch := false }

/-- The result of `evdev_configure_device`: the value it returns, the device
as it leaves it, and `device->dispatch` (`none` for `NULL`). -/
structure configure_result where
  rc : Int
  device : evdev_device
  dispatch : Option evdev_dispatch

/-- Source function `evdev_configure_device`. -/
def evdev_configure_device (env : device_collaborators) (evdev : libevdev)
    (device : evdev_device) : configure_result :=
  if (List.range' BTN_JOYSTICK (BTN_DIGI - BTN_JOYSTICK)).any
      (fun i => evdev.has_event_code EV_KEY i) then
    { rc := -1, device := device, dispatch := none }
  else
    match evdev_configure_abs env evdev device with
    | none => { rc := -1, device := device, dispatch := none }
    | some a =>
      let has_rel : Bool :=
        evdev.has_event_code EV_REL REL_X || evdev.has_event_code EV_REL REL_Y
      if evdev.has_event_type EV_KEY ∧ !evdev.has_property INPUT_PROP_DIRECT ∧
          evdev.has_event_code EV_KEY BTN_TOOL_FINGER ∧
          !evdev.has_event_code EV_KEY BTN_TOOL_PEN ∧ (a.has_abs ∨ a.has_mt) then
        match evdev_mt_touchpad_create env a.device with
        | none => { rc := -1, device := a.device, dispatch := none }
        | some d1 => { rc := 0, device := d1, dispatch := some evdev_dispatch.touchpad }
      else
        let has_keyboard0 : Bool :=
          evdev.has_event_type EV_KEY &&
            (List.range KEY_MAX).any (fun i =>
              evdev.has_event_code EV_KEY i && decide (get_key_type i = EVDEV_KEY_TYPE_KEY))
        let has_button : Bool :=
          evdev.has_event_type EV_KEY &&
            (List.range KEY_MAX).any (fun i =>
              evdev.has_event_code EV_KEY i &&
                decide (get_key_type i = EVDEV_KEY_TYPE_BUTTON))
        let has_touch : Bool :=
          a.has_touch ||
            (evdev.has_event_type EV_KEY && evdev.has_event_code EV_KEY BTN_TOUCH)
        let has_keyboard : Bool := has_keyboard0 || evdev.has_event_type EV_LED
        let pointer : Option evdev_device :=
          if (a.has_abs || has_rel) && has_button then
            (evdev_device_init_pointer_acceleration env a.device).map fun d =>
              { d with
                seat_caps := { d.seat_caps with pointer := true }
                buttons := { d.buttons with want_left_handed := true }
                scroll := { d.scroll with natural_scrolling_enabled := true } }
          else some a.device
        match pointer with
        | none => { rc := -1, device := a.device, dispatch := none }
        | some d1 =>
          let d2 :=
            if has_rel && has_button then
              { d1 with scroll := { d1.scroll with want_button := 1 } }
            else d1
          let d3 :=
            if has_keyboard then
              { d2 with seat_caps := { d2.seat_caps with keyboard := true } }
            else d2
          let d4 :=
            if has_touch && !has_button then
              { d3 with seat_caps := { d3.seat_caps with touch := true } }
            else d3
          { rc := 0, device := d4, dispatch := none }

/-- Source function `evdev_init_left_handed`. -/
def evdev_init_left_handed (device : evdev_device) : evdev_device :=
  { device with buttons := { left_handed := false, want_left_handed := false
                             has_change_to_left_handed := true } }

/-- Source function `evdev_scroll_get_default_method`. -/
def evdev_scroll_get_default_method (evdev : libevdev) : libinput_config_scroll_method :=
  if evdev.has_property INPUT_PROP_POINTING_STICK then
    LIBINPUT_CONFIG_SCROLL_ON_BUTTON_DOWN
  else LIBINPUT_CONFIG_SCROLL_NO_SCROLL

/-- Source function `evdev_scroll_get_default_button`. -/
def evdev_scroll_get_default_button (evdev : libevdev) : Nat :=
  if evdev.has_property INPUT_PROP_POINTING_STICK then BTN_MIDDLE else 0

/-- Source function `evdev_init_button_scroll`. -/
def evdev_init_button_scroll (evdev : libevdev) (device : evdev_device) :
    evdev_device :=
  { device with scroll := { device.scroll with
      timer := none
      method := evdev_scroll_get_default_method evdev
      want_method := evdev_scroll_get_default_method evdev
      button := evdev_scroll_get_default_button evdev
      want_button := evdev_scroll_get_default_button evdev
      has_change_scroll_method := true } }

/-- Source function `evdev_init_natural_scroll`. -/
def evdev_init_natural_scroll (device : evdev_device) : evdev_device :=
  { device with scroll := { device.scroll with natural_scrolling_enabled := false } }

/-- Source function `fallback_dispatch_create`: `none` for `NULL`. The tables
of the calibration and of the send-events configuration hold no state of the
model. -/
def fallback_dispatch_create (env : device_collaborators) (evdev : libevdev)
    (device : evdev_device) : Option evdev_device :=
  if !env.zalloc_dispatch then none
  else
    let d1 := if device.buttons.want_left_handed then evdev_init_left_handed device
      else device
    let d2 := if d1.scroll.want_button ≠ 0 then evdev_init_button_scroll evdev d1 else d1
    let d3 := if d2.scroll.natural_scrolling_enabled then evdev_init_natural_scroll d2
      else d2
    some d3

/-- How `evdev_device_create` ends once the device node is open and the
libevdev handle exists: with the device and its dispatch, with
`EVDEV_UNHANDLED_DEVICE`, or with `NULL`. -/
inductive create_result where
  | created (device : evdev_device) (dispatch : evdev_dispatch)
  | unhandled
  | failed

/-- The device as `evdev_device_create` hands it to `evdev_configure_device`;
the filter of the zero-allocated device is not set yet, the model holds the
identity filter in its place. -/
def evdev_device_create_init (env : device_collaborators) (evdev : libevdev) :
    evdev_device :=
  fresh_device (fun code => evdev.has_event_code EV_KEY code) identity_filter env.dpi

/-- Source function `evdev_device_create`, from `evdev_configure_device` on. -/
def evdev_device_create (env : device_collaborators) (evdev : libevdev) :
    create_result :=
  let r := evdev_configure_device env evdev (evdev_device_create_init env evdev)
  if r.rc = -1 then create_result.failed
  else if r.device.seat_caps.pointer = false ∧ r.device.seat_caps.keyboard = false ∧
      r.device.seat_caps.touch = false then create_result.unhandled
  else
    let set_up : Option (evdev_device × evdev_dispatch) :=
      match r.dispatch with
      | some dispatch => some (r.device, dispatch)
      | none =>
        (fallback_dispatch_create env evdev r.device).map fun d =>
          (d, evdev_dispatch.fallback)
    match set_up with
    | none => create_result.failed
    | some (d, dispatch) =>
      if !env.add_fd then create_result.failed
      else create_result.created d dispatch

/-- The selection rule in the words of the specification: no
`INPUT_PROP_DIRECT`, `BTN_TOOL_FINGER`, no `BTN_TOOL_PEN`, and `ABS_X` or
`ABS_Y` or the two multitouch position axes. -/
def touchpad_rule_spec (evdev : libevdev) : Bool :=
  !evdev.has_property INPUT_PROP_DIRECT &&
    evdev.has_event_code EV_KEY BTN_TOOL_FINGER &&
    !evdev.has_event_code EV_KEY BTN_TOOL_PEN &&
    (evdev.has_event_code EV_ABS ABS_X || evdev.has_event_code EV_ABS ABS_Y ||
      (evdev.has_event_code EV_ABS ABS_MT_POSITION_X &&
        evdev.has_event_code EV_ABS ABS_MT_POSITION_Y))

/-- The selection rule with the two conditions the words of the specification
leave out: the device has the event type `EV_KEY`, and its absolute or
multitouch axes count only under the event type `EV_ABS`, the multitouch axes
only if the device is not a fake multitouch device (`ABS_MT_SLOT` with
`libevdev_get_num_slots` at -1). -/
def touchpad_rule (evdev : libevdev) : Bool :=
  evdev.has_event_type EV_KEY &&
    !evdev.has_property INPUT_PROP_DIRECT &&
    evdev.has_event_code EV_KEY BTN_TOOL_FINGER &&
    !evdev.has_event_code EV_KEY BTN_TOOL_PEN &&
    (evdev.has_event_type EV_ABS &&
      ((evdev.get_abs_info ABS_X).isSome || (evdev.get_abs_info ABS_Y).isSome ||
        (!(evdev.has_event_code EV_ABS ABS_MT_SLOT && decide (evdev.get_num_slots = -1)) &&
          evdev.has_event_code EV_ABS ABS_MT_POSITION_X &&
          evdev.has_event_code EV_ABS ABS_MT_POSITION_Y)))

/-- Collaborators that all succeed: every allocation works, the accelerator
is the identity filter, the resolution is the default, and the touchpad set-up
leaves the POINTER capability. -/
def all_succeed : device_collaborators where
  mtdev := some (0, 9, 0)
  calloc_slots := true
  zalloc_dispatch := true
  add_fd := true
  accelerator := some identity_filter
  dpi := 1000
  touchpad := some { pointer := true, keyboard := false, touch := false }

/-- A fake multitouch device: it has `BTN_LEFT` and `BTN_TOOL_FINGER`,
`REL_X` and `REL_Y`, and among its absolute axes `ABS_MT_SLOT` with the axis
below it (code 0x2e), `ABS_MT_POSITION_X` and `ABS_MT_POSITION_Y`, but neither
`ABS_X` nor `ABS_Y`; libevdev reports -1 slots for it. -/
def fake_mt_pad : libevdev where
  has_event_type := fun t => decide (t = EV_KEY ∨ t = EV_REL ∨ t = EV_ABS)
  has_event_code := fun t c =>
    decide ((t = EV_KEY ∧ (c = BTN_LEFT ∨ c = BTN_TOOL_FINGER)) ∨
      (t = EV_REL ∧ (c = REL_X ∨ c = REL_Y)) ∨
      (t = EV_ABS ∧ (c = 0x2e ∨ c = ABS_MT_SLOT ∨ c = ABS_MT_POSITION_X ∨
        c = ABS_MT_POSITION_Y)))
  has_property := fun _ => false
  get_abs_info := fun c =>
    if c = 0x2e ∨ c = ABS_MT_SLOT ∨ c = ABS_MT_POSITION_X ∨ c = ABS_MT_POSITION_Y then
      some { minimum := 0, maximum := 1023, resolution := 1 }
    else none
  get_num_slots := -1
  get_current_slot := -1

/-- A lid switch: a device whose only event type is `EV_SW` (5), with no key,
no relative and no absolute axis. -/
def lid_switch : libevdev where
  has_event_type := fun t => decide (t = 5)
  has_event_code := fun _ _ => false
  has_property := fun _ => false
  get_abs_info := fun _ => none
  get_num_slots := -1
  get_current_slot := -1

/-- A mouse: `BTN_LEFT`, `BTN_RIGHT` and `BTN_MIDDLE`, `REL_X` and `REL_Y`. -/
def usb_mouse : libevdev where
  has_event_type := fun t => decide (t = EV_KEY ∨ t = EV_REL)
  has_event_code := fun t c =>
    decide ((t = EV_KEY ∧ BTN_LEFT ≤ c ∧ c ≤ BTN_MIDDLE) ∨
      (t = EV_REL ∧ (c = REL_X ∨ c = REL_Y)))
  has_property := fun _ => false
  get_abs_info := fun _ => none
  get_num_slots := -1
  get_current_slot := -1

/-- A touchpad: `BTN_LEFT`, `BTN_TOOL_FINGER` and `BTN_TOUCH`, and the absolute
axes `ABS_X` and `ABS_Y`. -/
def plain_touchpad : libevdev where
  has_event_type := fun t => decide (t = EV_KEY ∨ t = EV_ABS)
  has_event_code := fun t c =>
    decide ((t = EV_KEY ∧ (c = BTN_LEFT ∨ c = BTN_TOOL_FINGER ∨ c = BTN_TOUCH)) ∨
      (t = EV_ABS ∧ (c = ABS_X ∨ c = ABS_Y)))
  has_property := fun _ => false
  get_abs_info := fun c =>
    if c = ABS_X ∨ c = ABS_Y then some { minimum := 0, maximum := 1023, resolution := 1 }
    else none
  get_num_slots := -1
  get_current_slot := -1

/-! ## Tap engine and scrolling: further example states and the axis scaling -/

/-- A dispatch in the middle of a tap-and-drag: `DRAGGING` with `BTN_LEFT`
held by the tap engine, pressed at 50 ms. -/
def tp_dragging : tp_dispatch :=
  { tp_at_rest with
    tap := { tp_at_rest.tap with state := TAP_STATE_DRAGGING, buttons_pressed := 1 <<< 1 }
    notified := [{ time := 50, button := BTN_LEFT,
                   state := LIBINPUT_BUTTON_STATE_PRESSED }] }

/-- A dispatch with tapping disabled and one finger down. -/
def tp_disabled_finger_down : tp_dispatch :=
  { tp_at_rest with
    tap := { tp_at_rest.tap with enabled := false }
    nfingers_down := 1 }

/-- Source function `scale_axis`; the difference of the bounds is taken in the
integers, without overflow. -/
def scale_axis (absinfo : input_absinfo) (val to_range : ℚ) : ℚ :=
  (val - absinfo.minimum) * to_range /
    ((absinfo.maximum - absinfo.minimum + 1 : Int) : ℚ)

/-- Source function `evdev_device_transform_x`: `none` where the C code reads
through the `NULL` pointer `abs.absinfo_x`. -/
def evdev_device_transform_x (device : evdev_device) (x : ℚ) (width : Nat) : Option ℚ :=
  device.abs.absinfo_x.map fun absinfo => scale_axis absinfo x width

/-- Source function `evdev_device_transform_y`: `none` where the C code reads
through the `NULL` pointer `abs.absinfo_y`. -/
def evdev_device_transform_y (device : evdev_device) (y : ℚ) (height : Nat) : Option ℚ :=
  device.abs.absinfo_y.map fun absinfo => scale_axis absinfo y height

/-- The pointing stick with `BTN_MIDDLE` held since 0 ms and a relative motion
of 3 by 4 units pending. -/
def trackpoint_held_moving : evdev_device :=
  { trackpoint_held with
    rel := { dx := 3, dy := 4 }
    pending_event := EVDEV_RELATIVE_MOTION }

/-- The pointing stick with `BTN_MIDDLE` held and the scroll timer fired,
nothing scrolling yet. -/
def trackpoint_scroll_mode : evdev_device :=
  { trackpoint_held with
    scroll := { trackpoint_held.scroll with button_scroll_active := true } }

/-! ## Tap engine: the buttons it reports as pressed -/

/-- Whether `button` is currently reported pressed in a record of button calls:
the calls are scanned in order and the latest call for `button` decides; a
button never reported is not pressed. -/
def reported_pressed (notified : List button_notify) (button : Nat) : Bool :=
  notified.foldl (fun pressed n =>
    if n.button = button then decide (n.state = LIBINPUT_BUTTON_STATE_PRESSED)
    else pressed) false

/-- The record of button calls agrees with the state: `BTN_LEFT` is reported
pressed in the states of `holds_left` and in no other, `BTN_RIGHT` and
`BTN_MIDDLE` are not reported pressed. -/
def tap_reports_consistent (tp : tp_dispatch) : Prop :=
  reported_pressed tp.notified BTN_LEFT = holds_left tp.tap.state ∧
  reported_pressed tp.notified BTN_RIGHT = false ∧
  reported_pressed tp.notified BTN_MIDDLE = false

/-- A dispatch right after a one-finger tap: touch at 0 ms, release at 10 ms. -/
def tp_just_tapped : tp_dispatch :=
  tp_tap_handle_event
    (tp_tap_handle_event (tp_init_tap tp_at_rest false) (some tapping_touch)
      TAP_EVENT_TOUCH 0)
    (some tapping_touch) TAP_EVENT_RELEASE 10

/-! ## Tap engine: the per-frame entry point -/

/-- A delta in normalized coordinates, `struct normalized_coords`. -/
structure normalized_coords where
  x : ℚ
  y : ℚ

/-- What `tp_tap_handle_state` uses of the touchpad front end, whose code
(`evdev-mt-touchpad.h`, `evdev-mt-touchpad.c`, `libinput-private.h`) is not
among the sources: the flag `tp->buttons.is_clickpad`, the palm test
`tp_palm_tap_is_palm`, the conversion `tp_normalize_delta`, the length
`normalized_length`, and the value of the macro `DEFAULT_TAP_MOVE_THRESHOLD`,
which is `TP_MM_TO_DPI_NORMALIZED(3)`. -/
structure tp_frontend where
  is_clickpad : Bool
  tp_palm_tap_is_palm : tp_dispatch → tp_touch → Bool
  tp_normalize_delta : tp_dispatch → device_coords → normalized_coords
  normalized_length : normalized_coords → ℚ
  DEFAULT_TAP_MOVE_THRESHOLD : ℚ

/-- Modelled from the spec: `device_delta` of `libinput-private.h`, the
displacement of the point `a` from the point `b`. -/
def device_delta (a b : device_coords) : device_coords :=
  { x := a.x - b.x, y := a.y - b.y }

/-- Source function `tp_tap_exceeds_motion_threshold`. -/
def tp_tap_exceeds_motion_threshold (fe : tp_frontend) (tp : tp_dispatch)
    (t : tp_touch) : Bool :=
  let norm := fe.tp_normalize_delta tp (device_delta t.point t.tap.initial)
  decide (fe.normalized_length norm > fe.DEFAULT_TAP_MOVE_THRESHOLD)

/-- The assignment `t->tap.state = s`. -/
def set_touch_tap_state (t : tp_touch) (s : tp_tap_touch_state) : tp_touch :=
  { t with tap := { t.tap with state := s } }

/-- A write through the pointer `t` of the loop, which points at
`tp->touches[i]`. -/
def set_touch (tp : tp_dispatch) (i : Nat) (t : tp_touch) : tp_dispatch :=
  { tp with touches := tp.touches.set i t }

/-- The inner loop of `tp_tap_handle_state`: every touch of the device whose
tap state is `TAP_TOUCH_STATE_TOUCH` becomes `TAP_TOUCH_STATE_DEAD`. -/
def touches_to_dead (tp : tp_dispatch) : tp_dispatch :=
  { tp with touches := tp.touches.map fun tmp =>
      if tmp.tap.state = TAP_TOUCH_STATE_TOUCH then
        set_touch_tap_state tmp TAP_TOUCH_STATE_DEAD
      else tmp }

/-- The first statement of the loop body of `tp_tap_handle_state`: on a
clickpad with a button press queued the touch is marked dead. -/
def clickpad_press_touch (fe : tp_frontend) (queued_button_press : Bool)
    (t : tp_touch) : tp_touch :=
  if fe.is_clickpad = true ∧ queued_button_press = true then
    set_touch_tap_state t TAP_TOUCH_STATE_DEAD
  else t

/-- The body of the loop `tp_for_each_touch` of `tp_tap_handle_state`, for the
touch at index `i` of `tp->touches`. `queued_button_press` is the test
`tp->queued & TOUCHPAD_EVENT_BUTTON_PRESS`. -/
def tp_tap_handle_state_touch (fe : tp_frontend) (queued_button_press : Bool)
    (time : Nat) (tp : tp_dispatch) (i : Nat) : tp_dispatch :=
  match tp.touches[i]? with
  | none => tp
  | some t =>
    if t.dirty = false ∨ t.state = TOUCH_NONE then tp
    else
      let t1 := clickpad_press_touch fe queued_button_press t
      let tp1 := set_touch tp i t1
      if t1.state = TOUCH_BEGIN then
        let t2 : tp_touch :=
          { t1 with tap := { state := TAP_TOUCH_STATE_TOUCH, initial := t1.point } }
        let tp2 := set_touch tp1 i t2
        let tp3 := tp_tap_handle_event tp2 (some t2) TAP_EVENT_TOUCH time
        if fe.tp_palm_tap_is_palm tp3 t2 = true then
          tp_tap_handle_event tp3 (some t2) TAP_EVENT_MOTION time
        else tp3
      else if t1.state = TOUCH_END then
        let tp2 := tp_tap_handle_event tp1 (some t1) TAP_EVENT_RELEASE time
        set_touch tp2 i (set_touch_tap_state t1 TAP_TOUCH_STATE_IDLE)
      else if tp1.tap.state ≠ TAP_STATE_IDLE ∧
          tp_tap_exceeds_motion_threshold fe tp1 t1 = true then
        let tp2 := touches_to_dead tp1
        tp_tap_handle_event tp2 tp2.touches[i]? TAP_EVENT_MOTION time
      else tp1

/-- Source function `tp_tap_handle_state`: the updated dispatch and the value
returned, `filter_motion`. The loop `tp_for_each_touch` visits the touches of
`tp->touches` in order. -/
def tp_tap_handle_state (fe : tp_frontend) (queued_button_press : Bool)
    (tp : tp_dispatch) (time : Nat) : tp_dispatch × Int :=
  if tp_tap_enabled tp = false then (tp, 0)
  else
    let tp1 :=
      if fe.is_clickpad = true ∧ queued_button_press = true then
        tp_tap_handle_event tp none TAP_EVENT_BUTTON time
      else tp
    let tp2 := (List.range tp1.touches.length).foldl
      (tp_tap_handle_state_touch fe queued_button_press time) tp1
    let filter_motion : Int :=
      match tp2.tap.state with
      | TAP_STATE_TOUCH => 1
      | TAP_STATE_TAPPED => 1
      | TAP_STATE_DRAGGING_OR_DOUBLETAP => 1
      | TAP_STATE_TOUCH_2 => 1
      | TAP_STATE_TOUCH_3 => 1
      | TAP_STATE_MULTITAP_DOWN => 1
      | _ => 0
    (tp2, filter_motion)

/-- An example front end: a touchpad with separate buttons at 1000 dpi, so
that deltas are normalized as they are, no touch taken for a palm, the length
of a delta rounded down to a whole unit, and the threshold of 3 mm at
1000 dpi, 118 units. -/
def plain_frontend : tp_frontend where
  is_clickpad := false
  tp_palm_tap_is_palm := fun _ _ => false
  tp_normalize_delta := fun _ d => { x := d.x, y := d.y }
  normalized_length := fun n =>
    (Nat.sqrt ((n.x * n.x + n.y * n.y).floor.toNat) : ℚ)
  DEFAULT_TAP_MOVE_THRESHOLD := 118

/-- An ongoing touch, dirty in this frame, that counts as a tap and has moved
500 units from where it began. -/
def moved_touch : tp_touch where
  state := TOUCH_UPDATE
  dirty := true
  point := { x := 1500, y := 1000 }
  tap := { state := TAP_TOUCH_STATE_TOUCH, initial := { x := 1000, y := 1000 } }

/-- A dispatch in `IDLE` with tapping enabled and the touch `moved_touch`. -/
def tp_idle_moved_touch : tp_dispatch :=
  { tp_at_rest with nfingers_down := 1, touches := [moved_touch] }

/-- A dispatch in `TOUCH` with tapping enabled, the timer armed, and the touch
`moved_touch`. -/
def tp_touch_moved_touch : tp_dispatch :=
  { tp_at_rest with
    tap := { tp_at_rest.tap with state := TAP_STATE_TOUCH, timer := some 180 }
    nfingers_down := 1
    touches := [moved_touch] }

/-! ## Scroll configuration: the setters -/

/-- Source function `evdev_scroll_set_method`: record the wanted method, then
call the hook stored in `scroll.change_scroll_method`, which this
configuration is only hooked up with (`evdev_init_button_scroll`). -/
def evdev_scroll_set_method (device : evdev_device)
    (method : libinput_config_scroll_method) : evdev_device :=
  evdev_change_scroll_method
    { device with scroll := { device.scroll with want_method := method } }

/-- Source function `evdev_scroll_get_method`: the wanted method, whether or
not it has taken effect. -/
def evdev_scroll_get_method (device : evdev_device) :
    libinput_config_scroll_method :=
  device.scroll.want_method

/-- Source function `evdev_scroll_set_button`: record the wanted button, then
call the hook stored in `scroll.change_scroll_method`. -/
def evdev_scroll_set_button (device : evdev_device) (button : Nat) :
    evdev_device :=
  evdev_change_scroll_method
    { device with scroll := { device.scroll with want_button := button } }

/-- Source function `evdev_scroll_get_button`: the wanted button, whether or
not it has taken effect. -/
def evdev_scroll_get_button (device : evdev_device) : Nat :=
  device.scroll.want_button

/-- The mouse `mouse_with_btn_0` with the scroll configuration hooked up and
set, with no button down, to scroll while `BTN_0` (code `BTN_MISC`) is held. -/
def mouse_scroll_on_btn_0 : evdev_device :=
  evdev_scroll_set_method
    (evdev_scroll_set_button
      { mouse_with_btn_0 with
        scroll := { mouse_with_btn_0.scroll with has_change_scroll_method := true } }
      BTN_MISC)
    LIBINPUT_CONFIG_SCROLL_ON_BUTTON_DOWN

/-- The mouse `mouse_with_btn_0` with the scroll configuration hooked up by
`evdev_init_button_scroll` and no scroll method set yet. -/
def mouse_with_btn_0_hooked : evdev_device :=
  { mouse_with_btn_0 with
    scroll := { mouse_with_btn_0.scroll with has_change_scroll_method := true } }

/-! ## Touchpad: the tap engine and the device it reports to -/

/-- A touchpad as far as its buttons go: the tap engine and the device
`tp->device` on which `tp_tap_notify` calls `evdev_pointer_notify_button`. -/
structure touchpad where
  tp : tp_dispatch
  device : evdev_device

/-- The calls of `evdev_pointer_notify_button` of a record, made on the device
oldest first; `none` when an assertion of `update_key_down_count` fails. -/
def notify_buttons (kc_mod : Nat) (device : evdev_device) :
    List button_notify → Option evdev_device
  | [] => some device
  | n :: rest =>
    match evdev_pointer_notify_button kc_mod device n.time n.button n.state with
    | none => none
    | some d1 => notify_buttons kc_mod d1 rest

/-- An operation `op` of the tap engine run on a touchpad. The calls that
`tp_tap_notify` makes during the operation are the ones the operation adds to
`notified`; they reach the device in order. The tap engine reads nothing of
the device. -/
def tap_operation (kc_mod : Nat) (op : tp_dispatch → tp_dispatch) (w : touchpad) :
    Option touchpad :=
  match notify_buttons kc_mod w.device
      ((op w.tp).notified.drop w.tp.notified.length) with
  | none => none
  | some d1 => some { tp := op w.tp, device := d1 }

/-- What happens to a touchpad, one step at a time: the front end changes the
touches, the tap engine is fed an event, the tap timer expires,
`tp_release_all_taps` or `tp_tap_enabled_update` is called, or the device gets
an `EV_KEY` event. -/
inductive touchpad_op where
  | frame (touches : List tp_touch) (nfingers_down : Nat)
  | event (t : Option tp_touch) (ev : tap_event) (time : Nat)
  | timeout (time : Nat)
  | release_all (now : Nat)
  | enabled_update (suspended enabled : Bool) (time : Nat)
  | key (e : input_event) (time : Nat)

/-- One step of a touchpad; `none` when an assertion fails. -/
def touchpad_step (kc_mod : Nat) (w : touchpad) : touchpad_op → Option touchpad
  | touchpad_op.frame touches n =>
    some { w with tp := { w.tp with touches := touches, nfingers_down := n } }
  | touchpad_op.event t ev time =>
    tap_operation kc_mod (fun tp => tp_tap_handle_event tp t ev time) w
  | touchpad_op.timeout time => tap_operation kc_mod (tp_tap_handle_timeout time) w
  | touchpad_op.release_all now =>
    tap_operation kc_mod (fun tp => tp_release_all_taps tp now) w
  | touchpad_op.enabled_update suspended enabled time =>
    tap_operation kc_mod (fun tp => tp_tap_enabled_update tp suspended enabled time) w
  | touchpad_op.key e time =>
    match evdev_process_key kc_mod w.device e time with
    | none => none
    | some d1 => some { w with device := d1 }

/-- The steps the callers make: `tp_tap_handle_state` feeds touch, motion,
release and button events only while tapping is enabled; the timeout event
comes from the timer; the kernel sends a press only for a code that is up. -/
def touchpad_op_admissible (w : touchpad) : touchpad_op → Prop
  | touchpad_op.event _ ev _ => tp_tap_enabled w.tp = true ∧ ev ≠ TAP_EVENT_TIMEOUT
  | touchpad_op.key e _ =>
    e.value ≠ 0 → e.value ≠ 2 → hw_is_key_down w.device e.code = false
  | _ => True

/-- A run of steps, oldest first; `none` when an assertion fails on the way. -/
def touchpad_run (kc_mod : Nat) : touchpad → List touchpad_op → Option touchpad
  | w, [] => some w
  | w, op :: rest =>
    match touchpad_step kc_mod w op with
    | none => none
    | some w1 => touchpad_run kc_mod w1 rest

/-- Every step of the run is one the callers make. -/
def touchpad_ops_admissible (kc_mod : Nat) : touchpad → List touchpad_op → Prop
  | _, [] => True
  | w, op :: rest =>
    touchpad_op_admissible w op ∧
    match touchpad_step kc_mod w op with
    | none => True
    | some w1 => touchpad_ops_admissible kc_mod w1 rest

/-- The key state of a device that a tap engine reports to. Neither
left-handed mode nor button scrolling is on or wanted; the press count of a
code is 1 if the hardware bitmap has the code down and the code is a key or a
button, plus 1 for `BTN_LEFT` while the tap engine holds it (`held`). -/
def keys_track_taps (held : Bool) (d : evdev_device) : Prop :=
  d.buttons.left_handed = false ∧ d.buttons.want_left_handed = false ∧
  d.scroll.method = LIBINPUT_CONFIG_SCROLL_NO_SCROLL ∧
  d.scroll.want_method = LIBINPUT_CONFIG_SCROLL_NO_SCROLL ∧
  d.scroll.want_button = d.scroll.button ∧
  ∀ c : Nat,
    d.key_count c =
      (if d.hw_key_mask c = true ∧ get_key_type c ≠ EVDEV_KEY_TYPE_NONE then 1 else 0) +
      (if c = BTN_LEFT ∧ held = true then 1 else 0)

/-- The touchpad is consistent: the button bitmap of the tap engine agrees with
its state, the machine is in `IDLE` or `DEAD` while tapping is disabled or
suspended, and the press counts of the device account for the hardware and for
the button the tap engine holds. -/
def touchpad_consistent (w : touchpad) : Prop :=
  tap_buttons_consistent w.tp ∧
  (tp_tap_enabled w.tp = false →
    w.tp.tap.state = TAP_STATE_IDLE ∨ w.tp.tap.state = TAP_STATE_DEAD) ∧
  keys_track_taps (holds_left w.tp.tap.state) w.device

/-- The calls one operation of the tap engine makes at `time`, between a moment
at which it holds `BTN_LEFT` or not (`before`) and the next (`after`): none; a
press of `BTN_LEFT`; a release of it; a release, a press and a release of it;
or a press and a release of `BTN_RIGHT` or of `BTN_MIDDLE`. -/
def tap_calls (time : Nat) (before after : Bool) (calls : List button_notify) : Prop :=
  (calls = [] ∧ after = before) ∨
  (calls = [{ time := time, button := BTN_LEFT, state := LIBINPUT_BUTTON_STATE_PRESSED }] ∧
    before = false ∧ after = true) ∨
  (calls = [{ time := time, button := BTN_LEFT, state := LIBINPUT_BUTTON_STATE_RELEASED }] ∧
    before = true ∧ after = false) ∨
  (calls = [{ time := time, button := BTN_LEFT, state := LIBINPUT_BUTTON_STATE_RELEASED },
            { time := time, button := BTN_LEFT, state := LIBINPUT_BUTTON_STATE_PRESSED },
            { time := time, button := BTN_LEFT, state := LIBINPUT_BUTTON_STATE_RELEASED }] ∧
    before = true ∧ after = false) ∨
  (calls = [{ time := time, button := BTN_RIGHT, state := LIBINPUT_BUTTON_STATE_PRESSED },
            { time := time, button := BTN_RIGHT, state := LIBINPUT_BUTTON_STATE_RELEASED }] ∧
    after = before) ∨
  (calls = [{ time := time, button := BTN_MIDDLE, state := LIBINPUT_BUTTON_STATE_PRESSED },
            { time := time, button := BTN_MIDDLE, state := LIBINPUT_BUTTON_STATE_RELEASED }] ∧
    after = before)

/-- A touchpad device with a left button and nothing down: a fresh device that
`evdev_configure_device` gave the POINTER capability. -/
def touchpad_device : evdev_device :=
  { fresh_device (fun code => decide (code = BTN_LEFT)) identity_filter 1000 with
    seat_caps := { pointer := true, keyboard := false, touch := false } }

/-- A touchpad right after `tp_init_tap`, tapping enabled. -/
def touchpad_at_rest : touchpad where
  tp := tp_init_tap tp_at_rest false
  device := touchpad_device

/-- One call of `tp_tap_handle_event` keeps the button bitmap in agreement with
the state. -/
theorem tp_tap_handle_event_consistent (tp : tp_dispatch) (t : Option tp_touch)
    (event : tap_event) (time : Nat) (h : tap_buttons_consistent tp) :
    tap_buttons_consistent (tp_tap_handle_event tp t event time) := by
  obtain ⟨⟨s, tm, bp, ml, en, su⟩, nf, ts, nt⟩ := tp
  simp only [tap_buttons_consistent] at h
  cases s <;> simp only [holds_left, if_true, if_false] at h <;> rw [h] <;>
    cases event <;>
    simp [tap_buttons_consistent, holds_left, tp_tap_handle_event,
      tp_tap_idle_handle_event, tp_tap_touch_handle_event, tp_tap_hold_handle_event,
      tp_tap_tapped_handle_event, tp_tap_touch2_handle_event,
      tp_tap_touch2_hold_handle_event, tp_tap_touch3_handle_event,
      tp_tap_touch3_hold_handle_event, tp_tap_dragging_or_doubletap_handle_event,
      tp_tap_dragging_handle_event, tp_tap_dragging_wait_handle_event,
      tp_tap_dragging2_handle_event, tp_tap_multitap_handle_event,
      tp_tap_multitap_down_handle_event, tp_tap_dead_handle_event,
      tp_tap_notify, tp_tap_set_timer, tp_tap_set_drag_timer, tp_tap_clear_timer,
      touch_is_tap_touch, set_tap_state, libinput_timer_set, libinput_timer_cancel] <;>
    (try split) <;> (try simp [holds_left, tp_tap_notify]) <;> (try decide)

/-- The last statement of `tp_tap_handle_event`: a machine that settles in
`IDLE` has its timer cancelled. -/
theorem settle_idle_timer (tp1 : tp_dispatch)
    (h : (if tp1.tap.state = TAP_STATE_IDLE ∨ tp1.tap.state = TAP_STATE_DEAD then
      tp_tap_clear_timer tp1 else tp1).tap.state = TAP_STATE_IDLE) :
    (if tp1.tap.state = TAP_STATE_IDLE ∨ tp1.tap.state = TAP_STATE_DEAD then
      tp_tap_clear_timer tp1 else tp1).tap.timer = none := by
  by_cases hc : tp1.tap.state = TAP_STATE_IDLE ∨ tp1.tap.state = TAP_STATE_DEAD
  · simp [hc, tp_tap_clear_timer, libinput_timer_cancel]
  · rw [if_neg hc] at h
    exact absurd (Or.inl h) hc

/-- Whenever `tp_tap_handle_event` leaves the machine in `IDLE`, it has
cancelled the timer. -/
theorem tp_tap_handle_event_idle_timer (tp : tp_dispatch) (t : Option tp_touch)
    (event : tap_event) (time : Nat)
    (h : (tp_tap_handle_event tp t event time).tap.state = TAP_STATE_IDLE) :
    (tp_tap_handle_event tp t event time).tap.timer = none :=
  settle_idle_timer _ h

/-- A call of `tp_tap_handle_event` changes neither `tap.enabled` nor
`tap.suspended`. -/
theorem tp_tap_handle_event_enabled (tp : tp_dispatch) (t : Option tp_touch)
    (event : tap_event) (time : Nat) :
    tp_tap_enabled (tp_tap_handle_event tp t event time) = tp_tap_enabled tp := by
  obtain ⟨⟨s, tm, bp, ml, en, su⟩, nf, ts, nt⟩ := tp
  cases s <;> cases event <;>
    simp [tp_tap_enabled, tp_tap_handle_event,
      tp_tap_idle_handle_event, tp_tap_touch_handle_event, tp_tap_hold_handle_event,
      tp_tap_tapped_handle_event, tp_tap_touch2_handle_event,
      tp_tap_touch2_hold_handle_event, tp_tap_touch3_handle_event,
      tp_tap_touch3_hold_handle_event, tp_tap_dragging_or_doubletap_handle_event,
      tp_tap_dragging_handle_event, tp_tap_dragging_wait_handle_event,
      tp_tap_dragging2_handle_event, tp_tap_multitap_handle_event,
      tp_tap_multitap_down_handle_event, tp_tap_dead_handle_event,
      tp_tap_notify, tp_tap_set_timer, tp_tap_set_drag_timer, tp_tap_clear_timer,
      touch_is_tap_touch, set_tap_state, libinput_timer_set, libinput_timer_cancel] <;>
    (try split) <;> (try simp [tp_tap_notify])

/-- A timeout that finds the machine in `IDLE` or `DEAD` leaves it there. -/
theorem tp_tap_handle_event_timeout_settled (tp : tp_dispatch) (time : Nat)
    (h : tp.tap.state = TAP_STATE_IDLE ∨ tp.tap.state = TAP_STATE_DEAD) :
    (tp_tap_handle_event tp none TAP_EVENT_TIMEOUT time).tap.state = TAP_STATE_IDLE ∨
    (tp_tap_handle_event tp none TAP_EVENT_TIMEOUT time).tap.state = TAP_STATE_DEAD := by
  obtain ⟨⟨s, tm, bp, ml, en, su⟩, nf, ts, nt⟩ := tp
  simp only at h
  rcases h with h | h <;> subst h <;>
    simp [tp_tap_handle_event, tp_tap_idle_handle_event, tp_tap_dead_handle_event,
      tp_tap_clear_timer]

/-- The timeout handler acts on `tp->tap` as the TIMEOUT event does. -/
theorem tp_tap_handle_timeout_tap (tp : tp_dispatch) (time : Nat) :
    (tp_tap_handle_timeout time tp).tap =
      (tp_tap_handle_event tp none TAP_EVENT_TIMEOUT time).tap := rfl

/-- From a state whose button bitmap agrees with it, `tp_release_all_taps`
leaves no button pressed and the machine in `IDLE` or `DEAD`, and does not
touch the enabled flags. -/
theorem tp_release_all_taps_settles (tp : tp_dispatch) (now : Nat)
    (h : tap_buttons_consistent tp) :
    (tp_release_all_taps tp now).tap.buttons_pressed = 0 ∧
    ((tp_release_all_taps tp now).tap.state = TAP_STATE_IDLE ∨
     (tp_release_all_taps tp now).tap.state = TAP_STATE_DEAD) ∧
    (tp_release_all_taps tp now).tap.enabled = tp.tap.enabled ∧
    (tp_release_all_taps tp now).tap.suspended = tp.tap.suspended := by
  obtain ⟨⟨s, tm, bp, ml, en, su⟩, nf, ts, nt⟩ := tp
  simp only [tap_buttons_consistent] at h
  by_cases hl : holds_left s = true
  · simp only [hl, if_true] at h
    subst h
    by_cases hn : nf = 0 <;>
      simp +decide [tp_release_all_taps, tp_release_all_taps_round, tp_tap_notify,
        set_tap_state, hn]
  · simp only [hl, if_false] at h
    subst h
    by_cases hn : nf = 0 <;>
      simp +decide [tp_release_all_taps, tp_release_all_taps_round, tp_tap_notify,
        set_tap_state, hn]

/-- One round of the loop of `tp_release_all_taps` leaves the timer as it is. -/
theorem tp_release_all_taps_round_timer (now : Nat) (tp : tp_dispatch) (i : Nat) :
    (tp_release_all_taps_round now tp i).tap.timer = tp.tap.timer := by
  unfold tp_release_all_taps_round tp_tap_notify
  split
  · split <;> rfl
  · rfl

/-- Neither `tp_release_all_taps` nor `tp_tap_enabled_update` sets or cancels
the tap timer. -/
theorem tp_release_all_taps_timer (tp : tp_dispatch) (now : Nat) :
    (tp_release_all_taps tp now).tap.timer = tp.tap.timer := by
  simp only [tp_release_all_taps, set_tap_state, List.foldl,
    tp_release_all_taps_round_timer]

theorem tp_tap_enabled_update_timer (tp : tp_dispatch) (suspended enabled : Bool)
    (time : Nat) :
    (tp_tap_enabled_update tp suspended enabled time).tap.timer = tp.tap.timer := by
  unfold tp_tap_enabled_update
  simp only
  split
  · rfl
  · split
    · rfl
    · rw [tp_release_all_taps_timer]

/-! ## Tap engine: invariants of the reachable states -/

/-- Every state reachable by `tp_tap_handle_event` alone has its button bitmap
in agreement with its state, and an unarmed timer when it is `IDLE`. -/
theorem tap_event_reachable_inv (tp : tp_dispatch) (h : tap_event_reachable tp) :
    tap_buttons_consistent tp ∧ (tp.tap.state = TAP_STATE_IDLE → tp.tap.timer = none) := by
  induction h with
  | init tp b hb hn =>
    simp [tap_buttons_consistent, tp_init_tap, holds_left, hb]
  | frame tp ts n _ ih => exact ih
  | event tp t ev time _ ih =>
    exact ⟨tp_tap_handle_event_consistent tp t ev time ih.1,
      tp_tap_handle_event_idle_timer tp t ev time⟩

/-- Every state reachable through the entry points of the tap engine has its
button bitmap in agreement with its state, and is in `IDLE` or `DEAD` while
tapping is disabled or suspended. -/
theorem tap_reachable_inv (tp : tp_dispatch) (h : tap_reachable tp) :
    tap_buttons_consistent tp ∧
    (tp_tap_enabled tp = false →
      tp.tap.state = TAP_STATE_IDLE ∨ tp.tap.state = TAP_STATE_DEAD) := by
  induction h with
  | init tp b hb hs hn =>
    simp [tap_buttons_consistent, tp_init_tap, holds_left, hb]
  | frame tp ts n _ ih => exact ih
  | event tp t ev time _ hen _ ih =>
    refine ⟨tp_tap_handle_event_consistent tp t ev time ih.1, ?_⟩
    intro hd
    rw [tp_tap_handle_event_enabled, hen] at hd
    exact absurd hd (by simp)
  | timeout tp time _ ih =>
    refine ⟨?_, ?_⟩
    · have := tp_tap_handle_event_consistent tp none TAP_EVENT_TIMEOUT time ih.1
      simpa [tap_buttons_consistent, tp_tap_handle_timeout_tap] using this
    · intro hd
      have he : tp_tap_enabled (tp_tap_handle_timeout time tp) = tp_tap_enabled tp := by
        rw [← tp_tap_handle_event_enabled tp none TAP_EVENT_TIMEOUT time]
        simp [tp_tap_enabled, tp_tap_handle_timeout_tap]
      rw [he] at hd
      have := tp_tap_handle_event_timeout_settled tp time (ih.2 hd)
      simpa [tp_tap_handle_timeout_tap] using this
  | release_all tp now _ ih =>
    obtain ⟨hb, hs, _, _⟩ := tp_release_all_taps_settles tp now ih.1
    refine ⟨?_, fun _ => hs⟩
    rw [tap_buttons_consistent, hb]
    rcases hs with hs | hs <;> simp [hs, holds_left]
  | enabled_update tp su en time _ ih =>
    unfold tp_tap_enabled_update
    simp only
    split
    · rename_i heq
      refine ⟨ih.1, ?_⟩
      intro hd
      rw [heq] at hd
      exact ih.2 hd
    · split
      · rename_i hne hen
        have hd : tp_tap_enabled tp = false := by
          cases hx : tp_tap_enabled tp
          · rfl
          · rw [hx] at hne
            exact absurd hen hne
        have hst := ih.2 hd
        have hb : tp.tap.buttons_pressed = 0 := by
          rw [ih.1]
          rcases hst with hs | hs <;> simp [hs, holds_left]
        refine ⟨?_, ?_⟩
        · simp only [tap_buttons_consistent, set_tap_state, hb]
          split <;> simp [holds_left]
        · intro hd2
          simp only [set_tap_state]
          split <;> simp
      · obtain ⟨hb, hs, _, _⟩ := tp_release_all_taps_settles
          { tp with tap := { tp.tap with suspended := su, enabled := en } } time ih.1
        refine ⟨?_, fun _ => hs⟩
        rw [tap_buttons_consistent, hb]
        rcases hs with hs | hs <;> simp [hs, holds_left]

/-- Every reachable state has only bits 1 to 3 set in `buttons_pressed`. -/
theorem tap_reachable_in_range (tp : tp_dispatch) (h : tap_reachable tp) :
    tap_buttons_in_range tp.tap.buttons_pressed := by
  rw [(tap_reachable_inv tp h).1]
  split <;> exact ⟨by decide, by decide⟩

/-! ## Tap engine: scenarios (C1 to C4) -/

/-- C1. From `IDLE` with no tap button pressed, TOUCH at `t0`, RELEASE at `t1`
and TIMEOUT at `t2` make the tap engine emit exactly `BTN_LEFT` pressed at `t1`
(on the step from `TOUCH` to `TAPPED`) and `BTN_LEFT` released at `t2` (on the
timeout in `TAPPED`), in this order, and the machine ends in `IDLE` with
`buttons_pressed == 0`. -/
theorem tap_single_finger_tap (tp : tp_dispatch) (a b c : Option tp_touch)
    (t0 t1 t2 : Nat)
    (hs : tp.tap.state = TAP_STATE_IDLE) (hb : tp.tap.buttons_pressed = 0) :
    (tp_tap_handle_event tp a TAP_EVENT_TOUCH t0).tap.state = TAP_STATE_TOUCH ∧
    (tp_tap_handle_event tp a TAP_EVENT_TOUCH t0).notified = tp.notified ∧
    (tp_tap_handle_event (tp_tap_handle_event tp a TAP_EVENT_TOUCH t0) b
      TAP_EVENT_RELEASE t1).tap.state = TAP_STATE_TAPPED ∧
    (tp_tap_handle_event (tp_tap_handle_event tp a TAP_EVENT_TOUCH t0) b
      TAP_EVENT_RELEASE t1).notified = tp.notified ++
      [{ time := t1, button := BTN_LEFT, state := LIBINPUT_BUTTON_STATE_PRESSED }] ∧
    (tp_tap_handle_event (tp_tap_handle_event
      (tp_tap_handle_event tp a TAP_EVENT_TOUCH t0) b TAP_EVENT_RELEASE t1) c
      TAP_EVENT_TIMEOUT t2).notified = tp.notified ++
      [{ time := t1, button := BTN_LEFT, state := LIBINPUT_BUTTON_STATE_PRESSED },
       { time := t2, button := BTN_LEFT, state := LIBINPUT_BUTTON_STATE_RELEASED }] ∧
    (tp_tap_handle_event (tp_tap_handle_event
      (tp_tap_handle_event tp a TAP_EVENT_TOUCH t0) b TAP_EVENT_RELEASE t1) c
      TAP_EVENT_TIMEOUT t2).tap.state = TAP_STATE_IDLE ∧
    (tp_tap_handle_event (tp_tap_handle_event
      (tp_tap_handle_event tp a TAP_EVENT_TOUCH t0) b TAP_EVENT_RELEASE t1) c
      TAP_EVENT_TIMEOUT t2).tap.buttons_pressed = 0 := by
  obtain ⟨⟨s, tm, bp, ml, en, su⟩, nf, ts, nt⟩ := tp
  simp only at hs hb
  subst hs hb
  simp [tp_tap_handle_event, tp_tap_idle_handle_event, tp_tap_touch_handle_event,
    tp_tap_tapped_handle_event, tp_tap_notify, tp_tap_set_timer, tp_tap_clear_timer,
    set_tap_state, libinput_timer_set, libinput_timer_cancel]
  decide

/-- Witness of C1 on the dispatch at rest, with the events at 0, 50 and 230 ms. -/
theorem tap_single_finger_tap_witness :
    tp_at_rest.tap.state = TAP_STATE_IDLE ∧ tp_at_rest.tap.buttons_pressed = 0 ∧
    (tp_tap_handle_event (tp_tap_handle_event
      (tp_tap_handle_event tp_at_rest none TAP_EVENT_TOUCH 0) none
      TAP_EVENT_RELEASE 50) none TAP_EVENT_TIMEOUT 230).notified =
      [{ time := 50, button := BTN_LEFT, state := LIBINPUT_BUTTON_STATE_PRESSED },
       { time := 230, button := BTN_LEFT, state := LIBINPUT_BUTTON_STATE_RELEASED }] :=
  ⟨rfl, rfl,
    (tap_single_finger_tap tp_at_rest none none none 0 50 230 rfl rfl).2.2.2.2.1⟩

/-- C2. From `IDLE`, two TOUCH events followed by two RELEASE events, with no
TIMEOUT or MOTION in between and the first released touch still in
`TAP_TOUCH_STATE_TOUCH`, make the tap engine emit exactly `BTN_RIGHT` pressed
immediately followed by `BTN_RIGHT` released, both at the time of the first
RELEASE; no other button event is emitted and the machine ends in `IDLE`. -/
theorem tap_two_finger_tap (tp : tp_dispatch) (a b d : Option tp_touch)
    (c : tp_touch) (t0 t1 t2 t3 : Nat)
    (hs : tp.tap.state = TAP_STATE_IDLE)
    (hc : c.tap.state = TAP_TOUCH_STATE_TOUCH) :
    (tp_tap_handle_event (tp_tap_handle_event tp a TAP_EVENT_TOUCH t0) b
      TAP_EVENT_TOUCH t1).notified = tp.notified ∧
    (tp_tap_handle_event (tp_tap_handle_event (tp_tap_handle_event tp a
      TAP_EVENT_TOUCH t0) b TAP_EVENT_TOUCH t1) (some c)
      TAP_EVENT_RELEASE t2).notified = tp.notified ++
      [{ time := t2, button := BTN_RIGHT, state := LIBINPUT_BUTTON_STATE_PRESSED },
       { time := t2, button := BTN_RIGHT, state := LIBINPUT_BUTTON_STATE_RELEASED }] ∧
    (tp_tap_handle_event (tp_tap_handle_event (tp_tap_handle_event
      (tp_tap_handle_event tp a TAP_EVENT_TOUCH t0) b TAP_EVENT_TOUCH t1) (some c)
      TAP_EVENT_RELEASE t2) d TAP_EVENT_RELEASE t3).notified = tp.notified ++
      [{ time := t2, button := BTN_RIGHT, state := LIBINPUT_BUTTON_STATE_PRESSED },
       { time := t2, button := BTN_RIGHT, state := LIBINPUT_BUTTON_STATE_RELEASED }] ∧
    (tp_tap_handle_event (tp_tap_handle_event (tp_tap_handle_event
      (tp_tap_handle_event tp a TAP_EVENT_TOUCH t0) b TAP_EVENT_TOUCH t1) (some c)
      TAP_EVENT_RELEASE t2) d TAP_EVENT_RELEASE t3).tap.state = TAP_STATE_IDLE := by
  obtain ⟨⟨s, tm, bp, ml, en, su⟩, nf, ts, nt⟩ := tp
  simp only at hs
  subst hs
  simp [tp_tap_handle_event, tp_tap_idle_handle_event, tp_tap_touch_handle_event,
    tp_tap_touch2_handle_event, tp_tap_hold_handle_event, touch_is_tap_touch, hc,
    tp_tap_notify, tp_tap_set_timer, tp_tap_clear_timer,
    set_tap_state, libinput_timer_set, libinput_timer_cancel]

/-- Witness of C2 on the dispatch at rest: both fingers down at 0, both up at
50 ms. -/
theorem tap_two_finger_tap_witness :
    tp_at_rest.tap.state = TAP_STATE_IDLE ∧
    (tp_tap_handle_event (tp_tap_handle_event (tp_tap_handle_event
      (tp_tap_handle_event tp_at_rest none TAP_EVENT_TOUCH 0) none TAP_EVENT_TOUCH 0)
      (some { state := TOUCH_END, dirty := true, point := { x := 0, y := 0 },
              tap := { state := TAP_TOUCH_STATE_TOUCH, initial := { x := 0, y := 0 } } })
      TAP_EVENT_RELEASE 50) none TAP_EVENT_RELEASE 50).notified =
      [{ time := 50, button := BTN_RIGHT, state := LIBINPUT_BUTTON_STATE_PRESSED },
       { time := 50, button := BTN_RIGHT, state := LIBINPUT_BUTTON_STATE_RELEASED }] :=
  ⟨rfl, (tap_two_finger_tap tp_at_rest none none none _ 0 0 50 50 rfl rfl).2.2.1⟩

/-- C3, counterexample. On the dispatch at rest, TOUCH at 0, RELEASE at 50,
TOUCH at 100 and MOTION at 150 ms emit a single button event, `BTN_LEFT`
pressed at 50: the sequence pressed, released, pressed is not what the tap
engine emits. -/
theorem tap_double_tap_drag_counterexample :
    (tp_tap_handle_event (tp_tap_handle_event (tp_tap_handle_event
      (tp_tap_handle_event tp_at_rest (some tapping_touch) TAP_EVENT_TOUCH 0)
      (some tapping_touch)
      TAP_EVENT_RELEASE 50) (some tapping_touch) TAP_EVENT_TOUCH 100)
      (some tapping_touch)
      TAP_EVENT_MOTION 150).notified =
      [{ time := 50, button := BTN_LEFT, state := LIBINPUT_BUTTON_STATE_PRESSED }] ∧
    (tp_tap_handle_event (tp_tap_handle_event (tp_tap_handle_event
      (tp_tap_handle_event tp_at_rest (some tapping_touch) TAP_EVENT_TOUCH 0)
      (some tapping_touch)
      TAP_EVENT_RELEASE 50) (some tapping_touch) TAP_EVENT_TOUCH 100)
      (some tapping_touch)
      TAP_EVENT_MOTION 150).notified.map (fun n => (n.button, n.state)) ≠
      [(BTN_LEFT, LIBINPUT_BUTTON_STATE_PRESSED),
       (BTN_LEFT, LIBINPUT_BUTTON_STATE_RELEASED),
       (BTN_LEFT, LIBINPUT_BUTTON_STATE_PRESSED)] := by
  decide

/-- C3, amended. From `IDLE` with no tap button pressed, TOUCH, RELEASE at
`t1`, TOUCH again and then MOTION emit exactly one button event, `BTN_LEFT`
pressed at `t1`; the second TOUCH leaves the machine in
`DRAGGING_OR_DOUBLETAP`, the MOTION in `DRAGGING`, a dragging state, with the
`BTN_LEFT` bit of `buttons_pressed` still set. -/
theorem tap_double_tap_drag (tp : tp_dispatch) (a b c d : Option tp_touch)
    (t0 t1 t2 t3 : Nat)
    (hs : tp.tap.state = TAP_STATE_IDLE) (hb : tp.tap.buttons_pressed = 0) :
    (tp_tap_handle_event (tp_tap_handle_event (tp_tap_handle_event tp a
      TAP_EVENT_TOUCH t0) b TAP_EVENT_RELEASE t1) c
      TAP_EVENT_TOUCH t2).tap.state = TAP_STATE_DRAGGING_OR_DOUBLETAP ∧
    (tp_tap_handle_event (tp_tap_handle_event (tp_tap_handle_event
      (tp_tap_handle_event tp a TAP_EVENT_TOUCH t0) b TAP_EVENT_RELEASE t1) c
      TAP_EVENT_TOUCH t2) d TAP_EVENT_MOTION t3).notified = tp.notified ++
      [{ time := t1, button := BTN_LEFT, state := LIBINPUT_BUTTON_STATE_PRESSED }] ∧
    (tp_tap_handle_event (tp_tap_handle_event (tp_tap_handle_event
      (tp_tap_handle_event tp a TAP_EVENT_TOUCH t0) b TAP_EVENT_RELEASE t1) c
      TAP_EVENT_TOUCH t2) d TAP_EVENT_MOTION t3).tap.state = TAP_STATE_DRAGGING ∧
    tp_tap_dragging (tp_tap_handle_event (tp_tap_handle_event (tp_tap_handle_event
      (tp_tap_handle_event tp a TAP_EVENT_TOUCH t0) b TAP_EVENT_RELEASE t1) c
      TAP_EVENT_TOUCH t2) d TAP_EVENT_MOTION t3) = true ∧
    (tp_tap_handle_event (tp_tap_handle_event (tp_tap_handle_event
      (tp_tap_handle_event tp a TAP_EVENT_TOUCH t0) b TAP_EVENT_RELEASE t1) c
      TAP_EVENT_TOUCH t2) d TAP_EVENT_MOTION t3).tap.buttons_pressed = 1 <<< 1 := by
  obtain ⟨⟨s, tm, bp, ml, en, su⟩, nf, ts, nt⟩ := tp
  simp only at hs hb
  subst hs hb
  simp [tp_tap_handle_event, tp_tap_idle_handle_event, tp_tap_touch_handle_event,
    tp_tap_tapped_handle_event, tp_tap_dragging_or_doubletap_handle_event,
    tp_tap_dragging, tp_tap_notify, tp_tap_set_timer, tp_tap_clear_timer,
    set_tap_state, libinput_timer_set, libinput_timer_cancel]

/-- Witness of the amended C3 on the dispatch at rest. -/
theorem tap_double_tap_drag_witness :
    tp_at_rest.tap.state = TAP_STATE_IDLE ∧ tp_at_rest.tap.buttons_pressed = 0 ∧
    (tp_tap_handle_event (tp_tap_handle_event (tp_tap_handle_event
      (tp_tap_handle_event tp_at_rest none TAP_EVENT_TOUCH 0) none
      TAP_EVENT_RELEASE 50) none TAP_EVENT_TOUCH 100) none
      TAP_EVENT_MOTION 150).tap.state = TAP_STATE_DRAGGING :=
  ⟨rfl, rfl,
    (tap_double_tap_drag tp_at_rest none none none none 0 50 100 150 rfl rfl).2.2.1⟩

/-- C4. From `IDLE`, TOUCH, MOTION and RELEASE emit no button event at all; the
machine is in `HOLD` after the MOTION and ends in `IDLE` with the tap timer
cancelled. -/
theorem tap_motion_suppresses_tap (tp : tp_dispatch) (a b c : Option tp_touch)
    (t0 t1 t2 : Nat) (hs : tp.tap.state = TAP_STATE_IDLE) :
    (tp_tap_handle_event (tp_tap_handle_event tp a TAP_EVENT_TOUCH t0) b
      TAP_EVENT_MOTION t1).tap.state = TAP_STATE_HOLD ∧
    (tp_tap_handle_event (tp_tap_handle_event (tp_tap_handle_event tp a
      TAP_EVENT_TOUCH t0) b TAP_EVENT_MOTION t1) c
      TAP_EVENT_RELEASE t2).notified = tp.notified ∧
    (tp_tap_handle_event (tp_tap_handle_event (tp_tap_handle_event tp a
      TAP_EVENT_TOUCH t0) b TAP_EVENT_MOTION t1) c
      TAP_EVENT_RELEASE t2).tap.state = TAP_STATE_IDLE ∧
    (tp_tap_handle_event (tp_tap_handle_event (tp_tap_handle_event tp a
      TAP_EVENT_TOUCH t0) b TAP_EVENT_MOTION t1) c
      TAP_EVENT_RELEASE t2).tap.timer = none := by
  obtain ⟨⟨s, tm, bp, ml, en, su⟩, nf, ts, nt⟩ := tp
  simp only at hs
  subst hs
  simp [tp_tap_handle_event, tp_tap_idle_handle_event, tp_tap_touch_handle_event,
    tp_tap_hold_handle_event, tp_tap_set_timer, tp_tap_clear_timer,
    set_tap_state, libinput_timer_set, libinput_timer_cancel]

/-- Witness of C4 on the dispatch at rest. -/
theorem tap_motion_suppresses_tap_witness :
    tp_at_rest.tap.state = TAP_STATE_IDLE ∧
    (tp_tap_handle_event (tp_tap_handle_event (tp_tap_handle_event tp_at_rest none
      TAP_EVENT_TOUCH 0) none TAP_EVENT_MOTION 20) none
      TAP_EVENT_RELEASE 40).notified = [] :=
  ⟨rfl, (tap_motion_suppresses_tap tp_at_rest none none none 0 20 40 rfl).2.1⟩

/-! ## Tap engine: button event, idle state and disabling (C5 to C8) -/

/-- C5, counterexample. Two taps in a row bring the dispatch at rest to
`MULTITAP`; a BUTTON event there leaves the machine in `IDLE`, not in `DEAD`. -/
theorem tap_button_counterexample :
    (tp_tap_handle_event (tp_tap_handle_event (tp_tap_handle_event
      (tp_tap_handle_event tp_at_rest (some tapping_touch) TAP_EVENT_TOUCH 0)
      (some tapping_touch) TAP_EVENT_RELEASE 50)
      (some tapping_touch) TAP_EVENT_TOUCH 100)
      (some tapping_touch) TAP_EVENT_RELEASE 150).tap.state = TAP_STATE_MULTITAP ∧
    (tp_tap_handle_event (tp_tap_handle_event (tp_tap_handle_event
      (tp_tap_handle_event (tp_tap_handle_event tp_at_rest
      (some tapping_touch) TAP_EVENT_TOUCH 0)
      (some tapping_touch) TAP_EVENT_RELEASE 50)
      (some tapping_touch) TAP_EVENT_TOUCH 100)
      (some tapping_touch) TAP_EVENT_RELEASE 150)
      none TAP_EVENT_BUTTON 200).tap.state = TAP_STATE_IDLE ∧
    (tp_tap_handle_event (tp_tap_handle_event (tp_tap_handle_event
      (tp_tap_handle_event (tp_tap_handle_event tp_at_rest
      (some tapping_touch) TAP_EVENT_TOUCH 0)
      (some tapping_touch) TAP_EVENT_RELEASE 50)
      (some tapping_touch) TAP_EVENT_TOUCH 100)
      (some tapping_touch) TAP_EVENT_RELEASE 150)
      none TAP_EVENT_BUTTON 200).tap.state ≠ TAP_STATE_DEAD := by
  decide

/-- C5, amended. In every state reachable through `tp_tap_handle_event`, a
BUTTON event leaves the machine in `DEAD` from each of the fourteen states
other than `MULTITAP`, and in `IDLE` with the timer cancelled from `MULTITAP`.
If the tap engine held `BTN_LEFT` the call emits exactly its release, otherwise
it emits nothing, and `buttons_pressed == 0` afterwards. -/
theorem tap_button_event (tp : tp_dispatch) (t : Option tp_touch) (time : Nat)
    (h : tap_event_reachable tp) :
    (tp.tap.state ≠ TAP_STATE_MULTITAP →
      (tp_tap_handle_event tp t TAP_EVENT_BUTTON time).tap.state = TAP_STATE_DEAD) ∧
    (tp.tap.state = TAP_STATE_MULTITAP →
      (tp_tap_handle_event tp t TAP_EVENT_BUTTON time).tap.state = TAP_STATE_IDLE ∧
      (tp_tap_handle_event tp t TAP_EVENT_BUTTON time).tap.timer = none) ∧
    (tp.tap.buttons_pressed &&& (1 <<< 1) ≠ 0 →
      (tp_tap_handle_event tp t TAP_EVENT_BUTTON time).notified = tp.notified ++
        [{ time := time, button := BTN_LEFT,
           state := LIBINPUT_BUTTON_STATE_RELEASED }]) ∧
    (tp.tap.buttons_pressed &&& (1 <<< 1) = 0 →
      (tp_tap_handle_event tp t TAP_EVENT_BUTTON time).notified = tp.notified) ∧
    (tp_tap_handle_event tp t TAP_EVENT_BUTTON time).tap.buttons_pressed = 0 := by
  have hc := (tap_event_reachable_inv tp h).1
  obtain ⟨⟨s, tm, bp, ml, en, su⟩, nf, ts, nt⟩ := tp
  simp only [tap_buttons_consistent] at hc
  cases s <;> simp only [holds_left, if_true, if_false] at hc <;> rw [hc] <;>
    simp [tp_tap_handle_event,
      tp_tap_idle_handle_event, tp_tap_touch_handle_event, tp_tap_hold_handle_event,
      tp_tap_tapped_handle_event, tp_tap_touch2_handle_event,
      tp_tap_touch2_hold_handle_event, tp_tap_touch3_handle_event,
      tp_tap_touch3_hold_handle_event, tp_tap_dragging_or_doubletap_handle_event,
      tp_tap_dragging_handle_event, tp_tap_dragging_wait_handle_event,
      tp_tap_dragging2_handle_event, tp_tap_multitap_handle_event,
      tp_tap_multitap_down_handle_event, tp_tap_dead_handle_event,
      tp_tap_notify, tp_tap_clear_timer, set_tap_state, libinput_timer_cancel] <;>
    decide

/-- Witness of the amended C5: the state `TAPPED`, reached from `tp_init_tap`
by a touch and its release, holds `BTN_LEFT`; a BUTTON event at 60 ms releases
it. -/
theorem tap_button_event_witness :
    tap_event_reachable (tp_tap_handle_event (tp_tap_handle_event
      (tp_init_tap tp_at_rest false) (some tapping_touch) TAP_EVENT_TOUCH 0)
      (some tapping_touch) TAP_EVENT_RELEASE 50) ∧
    (tp_tap_handle_event (tp_tap_handle_event (tp_tap_handle_event
      (tp_init_tap tp_at_rest false) (some tapping_touch) TAP_EVENT_TOUCH 0)
      (some tapping_touch) TAP_EVENT_RELEASE 50)
      none TAP_EVENT_BUTTON 60).tap.buttons_pressed = 0 :=
  ⟨tap_event_reachable.event _ _ _ _
      (tap_event_reachable.event _ _ _ _
        (tap_event_reachable.init tp_at_rest false rfl rfl)),
    (tap_button_event _ none 60
      (tap_event_reachable.event _ _ _ _
        (tap_event_reachable.event _ _ _ _
          (tap_event_reachable.init tp_at_rest false rfl rfl)))).2.2.2.2⟩

/-- C6, counterexample. After `tp_init_tap` with tapping enabled, a touch at 0
and its release at 50 ms arm the tap timer for 230 ms; `tp_tap_suspend` at
60 ms then releases `BTN_LEFT` and puts the machine in `IDLE` while the timer
is still armed. -/
theorem tap_idle_timer_counterexample :
    tap_reachable (tp_tap_suspend (tp_tap_handle_event (tp_tap_handle_event
      (tp_init_tap tp_at_rest false) (some tapping_touch) TAP_EVENT_TOUCH 0)
      (some tapping_touch) TAP_EVENT_RELEASE 50) 60) ∧
    (tp_tap_suspend (tp_tap_handle_event (tp_tap_handle_event
      (tp_init_tap tp_at_rest false) (some tapping_touch) TAP_EVENT_TOUCH 0)
      (some tapping_touch) TAP_EVENT_RELEASE 50) 60).tap.state = TAP_STATE_IDLE ∧
    (tp_tap_suspend (tp_tap_handle_event (tp_tap_handle_event
      (tp_init_tap tp_at_rest false) (some tapping_touch) TAP_EVENT_TOUCH 0)
      (some tapping_touch) TAP_EVENT_RELEASE 50) 60).tap.timer = some 230 ∧
    (tp_tap_suspend (tp_tap_handle_event (tp_tap_handle_event
      (tp_init_tap tp_at_rest false) (some tapping_touch) TAP_EVENT_TOUCH 0)
      (some tapping_touch) TAP_EVENT_RELEASE 50) 60).notified =
      [{ time := 50, button := BTN_LEFT, state := LIBINPUT_BUTTON_STATE_PRESSED },
       { time := 60, button := BTN_LEFT, state := LIBINPUT_BUTTON_STATE_RELEASED }] :=
  ⟨tap_reachable.enabled_update _ _ _ _
      (tap_reachable.event _ _ _ _
        (tap_reachable.event _ _ _ _
          (tap_reachable.init tp_at_rest false rfl rfl rfl) (by decide) (by decide))
        (by decide) (by decide)),
    by decide, by decide, by decide⟩

/-- C6, amended. In every state reachable from `tp_init_tap` through
`tp_tap_handle_state` events, `tp_tap_handle_timeout`, `tp_release_all_taps` and
`tp_tap_enabled_update`, if `tap.state` is `IDLE` then `buttons_pressed == 0`;
and whenever `tp_tap_handle_event` or `tp_tap_handle_timeout` leaves such a
state in `IDLE`, the tap timer is not armed. `tp_release_all_taps` and
`tp_tap_enabled_update` leave the timer as they find it. -/
theorem tap_idle_no_button (tp : tp_dispatch) (h : tap_reachable tp) :
    (tp.tap.state = TAP_STATE_IDLE → tp.tap.buttons_pressed = 0) ∧
    (∀ (t : Option tp_touch) (event : tap_event) (time : Nat),
      (tp_tap_handle_event tp t event time).tap.state = TAP_STATE_IDLE →
      (tp_tap_handle_event tp t event time).tap.timer = none) ∧
    (∀ time : Nat,
      (tp_tap_handle_timeout time tp).tap.state = TAP_STATE_IDLE →
      (tp_tap_handle_timeout time tp).tap.timer = none) ∧
    (∀ now : Nat, (tp_release_all_taps tp now).tap.timer = tp.tap.timer) ∧
    (∀ (suspended enabled : Bool) (time : Nat),
      (tp_tap_enabled_update tp suspended enabled time).tap.timer = tp.tap.timer) := by
  refine ⟨?_, ?_, ?_, tp_release_all_taps_timer tp, tp_tap_enabled_update_timer tp⟩
  · intro hs
    rw [(tap_reachable_inv tp h).1, hs]
    rfl
  · intro t event time
    exact tp_tap_handle_event_idle_timer tp t event time
  · intro time hs
    rw [tp_tap_handle_timeout_tap] at hs ⊢
    exact tp_tap_handle_event_idle_timer tp none TAP_EVENT_TIMEOUT time hs

/-- Witness of the amended C6 on the state of the counterexample: suspended in
`IDLE`, it has no button pressed. -/
theorem tap_idle_no_button_witness :
    tap_reachable (tp_tap_suspend (tp_tap_handle_event (tp_tap_handle_event
      (tp_init_tap tp_at_rest false) (some tapping_touch) TAP_EVENT_TOUCH 0)
      (some tapping_touch) TAP_EVENT_RELEASE 50) 60) ∧
    (tp_tap_suspend (tp_tap_handle_event (tp_tap_handle_event
      (tp_init_tap tp_at_rest false) (some tapping_touch) TAP_EVENT_TOUCH 0)
      (some tapping_touch) TAP_EVENT_RELEASE 50) 60).tap.buttons_pressed = 0 :=
  ⟨tap_reachable.enabled_update _ _ _ _
      (tap_reachable.event _ _ _ _
        (tap_reachable.event _ _ _ _
          (tap_reachable.init tp_at_rest false rfl rfl rfl) (by decide) (by decide))
        (by decide) (by decide)),
    (tap_idle_no_button _
      (tap_reachable.enabled_update _ _ _ _
        (tap_reachable.event _ _ _ _
          (tap_reachable.event _ _ _ _
            (tap_reachable.init tp_at_rest false rfl rfl rfl) (by decide) (by decide))
          (by decide) (by decide)))).1 (by decide)⟩

/-- C7, counterexample. After `tp_init_tap`, a touch at 0 followed by a MOTION at
20 ms leaves the machine in `HOLD` with no timer armed and no button held: the
timer and the buttons being clear does not make the state `IDLE`. -/
theorem tap_idle_iff_counterexample :
    tap_event_reachable (tp_tap_handle_event (tp_tap_handle_event
      (tp_init_tap tp_at_rest false) (some tapping_touch) TAP_EVENT_TOUCH 0)
      (some tapping_touch) TAP_EVENT_MOTION 20) ∧
    (tp_tap_handle_event (tp_tap_handle_event
      (tp_init_tap tp_at_rest false) (some tapping_touch) TAP_EVENT_TOUCH 0)
      (some tapping_touch) TAP_EVENT_MOTION 20).tap.timer = none ∧
    (tp_tap_handle_event (tp_tap_handle_event
      (tp_init_tap tp_at_rest false) (some tapping_touch) TAP_EVENT_TOUCH 0)
      (some tapping_touch) TAP_EVENT_MOTION 20).tap.buttons_pressed = 0 ∧
    (tp_tap_handle_event (tp_tap_handle_event
      (tp_init_tap tp_at_rest false) (some tapping_touch) TAP_EVENT_TOUCH 0)
      (some tapping_touch) TAP_EVENT_MOTION 20).tap.state = TAP_STATE_HOLD ∧
    ¬ ((tp_tap_handle_event (tp_tap_handle_event
      (tp_init_tap tp_at_rest false) (some tapping_touch) TAP_EVENT_TOUCH 0)
      (some tapping_touch) TAP_EVENT_MOTION 20).tap.state = TAP_STATE_IDLE ↔
      ((tp_tap_handle_event (tp_tap_handle_event
        (tp_init_tap tp_at_rest false) (some tapping_touch) TAP_EVENT_TOUCH 0)
        (some tapping_touch) TAP_EVENT_MOTION 20).tap.timer = none ∧
       (tp_tap_handle_event (tp_tap_handle_event
        (tp_init_tap tp_at_rest false) (some tapping_touch) TAP_EVENT_TOUCH 0)
        (some tapping_touch) TAP_EVENT_MOTION 20).tap.buttons_pressed = 0)) :=
  ⟨tap_event_reachable.event _ _ _ _
      (tap_event_reachable.event _ _ _ _
        (tap_event_reachable.init tp_at_rest false rfl rfl)),
    by decide, by decide, by decide, by decide⟩

/-- C7, amended. In every state reachable from `tp_init_tap` through
`tp_tap_handle_event`, if `tap.state` is `IDLE` then no tap timer is armed and
`buttons_pressed == 0`. The converse does not hold. -/
theorem tap_idle_implies_clear (tp : tp_dispatch) (h : tap_event_reachable tp)
    (hs : tp.tap.state = TAP_STATE_IDLE) :
    tp.tap.timer = none ∧ tp.tap.buttons_pressed = 0 := by
  obtain ⟨hc, ht⟩ := tap_event_reachable_inv tp h
  refine ⟨ht hs, ?_⟩
  rw [hc, hs]
  rfl

/-- Witness of the amended C7: after a touch, a motion and the release the
machine is back in `IDLE`, with the timer unarmed and no button held. -/
theorem tap_idle_implies_clear_witness :
    tap_event_reachable (tp_tap_handle_event (tp_tap_handle_event
      (tp_tap_handle_event (tp_init_tap tp_at_rest false)
      (some tapping_touch) TAP_EVENT_TOUCH 0)
      (some tapping_touch) TAP_EVENT_MOTION 20)
      (some tapping_touch) TAP_EVENT_RELEASE 40) ∧
    (tp_tap_handle_event (tp_tap_handle_event
      (tp_tap_handle_event (tp_init_tap tp_at_rest false)
      (some tapping_touch) TAP_EVENT_TOUCH 0)
      (some tapping_touch) TAP_EVENT_MOTION 20)
      (some tapping_touch) TAP_EVENT_RELEASE 40).tap.state = TAP_STATE_IDLE ∧
    (tp_tap_handle_event (tp_tap_handle_event
      (tp_tap_handle_event (tp_init_tap tp_at_rest false)
      (some tapping_touch) TAP_EVENT_TOUCH 0)
      (some tapping_touch) TAP_EVENT_MOTION 20)
      (some tapping_touch) TAP_EVENT_RELEASE 40).tap.timer = none :=
  ⟨tap_event_reachable.event _ _ _ _ (tap_event_reachable.event _ _ _ _
      (tap_event_reachable.event _ _ _ _
        (tap_event_reachable.init tp_at_rest false rfl rfl))),
    by decide,
    (tap_idle_implies_clear _
      (tap_event_reachable.event _ _ _ _ (tap_event_reachable.event _ _ _ _
        (tap_event_reachable.event _ _ _ _
          (tap_event_reachable.init tp_at_rest false rfl rfl))))
      (by decide)).1⟩

/-- C8. `tp_release_all_taps` emits one release, at time `now`, for every button
whose bit is set in `buttons_pressed` (in the order left, right, middle) and no
other event, leaves `buttons_pressed == 0`, and sets `tap.state` to `DEAD` if
`nfingers_down != 0` and to `IDLE` otherwise. -/
theorem tp_release_all_taps_releases (tp : tp_dispatch) (now : Nat)
    (h : tap_buttons_in_range tp.tap.buttons_pressed) :
    (tp_release_all_taps tp now).notified = tp.notified ++
      ((if tp.tap.buttons_pressed &&& (1 <<< 1) ≠ 0 then
          [{ time := now, button := BTN_LEFT,
             state := LIBINPUT_BUTTON_STATE_RELEASED }] else []) ++
       (if tp.tap.buttons_pressed &&& (1 <<< 2) ≠ 0 then
          [{ time := now, button := BTN_RIGHT,
             state := LIBINPUT_BUTTON_STATE_RELEASED }] else []) ++
       (if tp.tap.buttons_pressed &&& (1 <<< 3) ≠ 0 then
          [{ time := now, button := BTN_MIDDLE,
             state := LIBINPUT_BUTTON_STATE_RELEASED }] else [])) ∧
    (tp_release_all_taps tp now).tap.buttons_pressed = 0 ∧
    (tp_release_all_taps tp now).tap.state =
      (if tp.nfingers_down ≠ 0 then TAP_STATE_DEAD else TAP_STATE_IDLE) := by
  obtain ⟨⟨s, tm, bp, ml, en, su⟩, nf, ts, nt⟩ := tp
  obtain ⟨hlt, hev⟩ := h
  simp only at hlt hev
  interval_cases bp <;> simp at hev <;>
    simp +decide [tp_release_all_taps, tp_release_all_taps_round, tp_tap_notify,
      set_tap_state]

/-- Witness of C8: with all three tap buttons pressed and one finger down,
three releases are emitted and the machine restarts in `DEAD`. -/
theorem tp_release_all_taps_releases_witness :
    tap_buttons_in_range 14 ∧
    (tp_release_all_taps { tp_at_rest with
        tap := { tp_at_rest.tap with buttons_pressed := 14 }
        nfingers_down := 1 } 7).notified =
      [{ time := 7, button := BTN_LEFT, state := LIBINPUT_BUTTON_STATE_RELEASED },
       { time := 7, button := BTN_RIGHT, state := LIBINPUT_BUTTON_STATE_RELEASED },
       { time := 7, button := BTN_MIDDLE, state := LIBINPUT_BUTTON_STATE_RELEASED }] ∧
    (tp_release_all_taps { tp_at_rest with
        tap := { tp_at_rest.tap with buttons_pressed := 14 }
        nfingers_down := 1 } 7).tap.state = TAP_STATE_DEAD :=
  ⟨⟨by decide, by decide⟩,
    (tp_release_all_taps_releases { tp_at_rest with
        tap := { tp_at_rest.tap with buttons_pressed := 14 }
        nfingers_down := 1 } 7 ⟨by decide, by decide⟩).1,
    by decide⟩

/-! ## evdev device: steps that leave the key state alone -/

theorem keys_untouched_refl (d : evdev_device) : keys_untouched d d :=
  ⟨rfl, rfl, [], by simp, by simp⟩

theorem keys_untouched_trans {a b c : evdev_device} (h1 : keys_untouched a b)
    (h2 : keys_untouched b c) : keys_untouched a c := by
  obtain ⟨m1, k1, n1, e1, p1⟩ := h1
  obtain ⟨m2, k2, n2, e2, p2⟩ := h2
  refine ⟨m2.trans m1, k2.trans k1, n1 ++ n2, ?_, ?_⟩
  · rw [e2, e1, List.append_assoc]
  · intro ev hev
    rcases List.mem_append.mp hev with h | h
    · exact p1 ev h
    · exact p2 ev h

theorem keys_untouched_ite (d a b : evdev_device) (c : Prop) [Decidable c]
    (ha : keys_untouched d a) (hb : keys_untouched d b) :
    keys_untouched d (if c then a else b) := by
  split
  · exact ha
  · exact hb

theorem keys_untouched_emit (d : evdev_device) (e : libinput_event)
    (he : e.is_key_or_button = false) : keys_untouched d (emit d e) :=
  ⟨rfl, rfl, [e], rfl, by simpa using he⟩

/-- A step that changes neither the key state nor the record of emitted events
leaves the key state alone. -/
theorem keys_untouched_of_eq (d d1 : evdev_device)
    (hm : d1.hw_key_mask = d.hw_key_mask) (hk : d1.key_count = d.key_count)
    (he : d1.emitted = d.emitted) : keys_untouched d d1 :=
  ⟨hm, hk, [], by simp [he], by simp⟩

theorem keys_untouched_notify_axis (d : evdev_device) (time : Nat)
    (axis : libinput_pointer_axis) (value : ℚ) :
    keys_untouched d (evdev_notify_axis d time axis value) :=
  keys_untouched_emit d _ rfl

theorem keys_untouched_start_scrolling (d : evdev_device)
    (axis : libinput_pointer_axis) :
    keys_untouched d (evdev_start_scrolling d axis) :=
  keys_untouched_of_eq _ _ rfl rfl rfl

theorem keys_untouched_post_scroll (d : evdev_device) (time : Nat) (dx dy : ℚ) :
    keys_untouched d (evdev_post_scroll d time dx dy) := by
  unfold evdev_post_scroll
  refine keys_untouched_trans (b := if !evdev_is_scrolling d
      LIBINPUT_POINTER_AXIS_SCROLL_VERTICAL then
      { d with scroll := { d.scroll with
          buildup_vertical := double_add d.scroll.buildup_vertical dy } } else d) ?_ ?_
  · exact keys_untouched_ite _ _ _ _ (keys_untouched_of_eq _ _ rfl rfl rfl)
      (keys_untouched_refl _)
  generalize (if !evdev_is_scrolling d LIBINPUT_POINTER_AXIS_SCROLL_VERTICAL then
      { d with scroll := { d.scroll with
          buildup_vertical := double_add d.scroll.buildup_vertical dy } } else d) = d1
  simp only
  refine keys_untouched_trans (b := if !evdev_is_scrolling d1
      LIBINPUT_POINTER_AXIS_SCROLL_HORIZONTAL then
      { d1 with scroll := { d1.scroll with
          buildup_horizontal := double_add d1.scroll.buildup_horizontal dx } } else d1) ?_ ?_
  · exact keys_untouched_ite _ _ _ _ (keys_untouched_of_eq _ _ rfl rfl rfl)
      (keys_untouched_refl _)
  generalize (if !evdev_is_scrolling d1 LIBINPUT_POINTER_AXIS_SCROLL_HORIZONTAL then
      { d1 with scroll := { d1.scroll with
          buildup_horizontal := double_add d1.scroll.buildup_horizontal dx } } else d1) = d2
  have h3 : ∀ x : evdev_device, keys_untouched d2 x →
      keys_untouched d2
        (if dx ≠ 0 ∧ evdev_is_scrolling
            (if dy ≠ 0 ∧ evdev_is_scrolling x LIBINPUT_POINTER_AXIS_SCROLL_VERTICAL then
              evdev_notify_axis x time LIBINPUT_POINTER_AXIS_SCROLL_VERTICAL dy
             else x) LIBINPUT_POINTER_AXIS_SCROLL_HORIZONTAL then
          evdev_notify_axis
            (if dy ≠ 0 ∧ evdev_is_scrolling x LIBINPUT_POINTER_AXIS_SCROLL_VERTICAL then
              evdev_notify_axis x time LIBINPUT_POINTER_AXIS_SCROLL_VERTICAL dy
             else x) time LIBINPUT_POINTER_AXIS_SCROLL_HORIZONTAL dx
         else
          (if dy ≠ 0 ∧ evdev_is_scrolling x LIBINPUT_POINTER_AXIS_SCROLL_VERTICAL then
              evdev_notify_axis x time LIBINPUT_POINTER_AXIS_SCROLL_VERTICAL dy
           else x)) := by
    intro x hx
    have h4 : keys_untouched d2
        (if dy ≠ 0 ∧ evdev_is_scrolling x LIBINPUT_POINTER_AXIS_SCROLL_VERTICAL then
          evdev_notify_axis x time LIBINPUT_POINTER_AXIS_SCROLL_VERTICAL dy
         else x) :=
      keys_untouched_ite _ _ _ _
        (keys_untouched_trans hx (keys_untouched_notify_axis _ _ _ _)) hx
    exact keys_untouched_ite _ _ _ _
      (keys_untouched_trans h4 (keys_untouched_notify_axis _ _ _ _)) h4
  apply h3
  repeat' apply keys_untouched_ite
  all_goals exact keys_untouched_of_eq _ _ rfl rfl rfl

theorem keys_untouched_flush_relative_motion (d : evdev_device) (time : Nat) :
    keys_untouched d (flush_relative_motion d time) := by
  unfold flush_relative_motion
  simp only
  apply keys_untouched_ite
  · apply keys_untouched_ite
    · exact keys_untouched_trans (b := { d with rel := { dx := 0, dy := 0 } })
        (keys_untouched_of_eq _ _ rfl rfl rfl) (keys_untouched_post_scroll _ _ _ _)
    · exact keys_untouched_of_eq _ _ rfl rfl rfl
  · apply keys_untouched_ite
    · exact keys_untouched_of_eq _ _ rfl rfl rfl
    · exact ⟨rfl, rfl, _, rfl, by simp [libinput_event.is_key_or_button]⟩

theorem keys_untouched_mt_slot_set_seat_slot (d : evdev_device) (slot v : Int) :
    keys_untouched d (mt_slot_set_seat_slot d slot v) := by
  unfold mt_slot_set_seat_slot
  split <;> exact keys_untouched_of_eq _ _ rfl rfl rfl

theorem keys_untouched_seat_slot_take (d : evdev_device) (v : Int) :
    keys_untouched d (seat_slot_take d v) :=
  keys_untouched_of_eq _ _ rfl rfl rfl

theorem keys_untouched_seat_slot_give (d : evdev_device) (v : Int) :
    keys_untouched d (seat_slot_give d v) :=
  keys_untouched_of_eq _ _ rfl rfl rfl

theorem keys_untouched_flush_mt_down (d : evdev_device) (time : Nat) :
    keys_untouched d (flush_mt_down d time) := by
  unfold flush_mt_down
  simp only
  apply keys_untouched_ite
  · exact keys_untouched_refl _
  apply keys_untouched_ite
  · exact keys_untouched_refl _
  apply keys_untouched_ite
  · exact keys_untouched_mt_slot_set_seat_slot _ _ _
  · exact keys_untouched_trans (keys_untouched_mt_slot_set_seat_slot _ _ _)
      (keys_untouched_trans (keys_untouched_seat_slot_take _ _)
        (keys_untouched_emit _ _ rfl))

theorem keys_untouched_flush_mt_motion (d : evdev_device) (time : Nat) :
    keys_untouched d (flush_mt_motion d time) := by
  unfold flush_mt_motion
  simp only
  apply keys_untouched_ite
  · exact keys_untouched_refl _
  apply keys_untouched_ite
  · exact keys_untouched_refl _
  · exact keys_untouched_emit _ _ rfl

theorem keys_untouched_flush_mt_up (d : evdev_device) (time : Nat) :
    keys_untouched d (flush_mt_up d time) := by
  unfold flush_mt_up
  simp only
  apply keys_untouched_ite
  · exact keys_untouched_refl _
  apply keys_untouched_ite
  · exact keys_untouched_mt_slot_set_seat_slot _ _ _
  · exact keys_untouched_trans (keys_untouched_mt_slot_set_seat_slot _ _ _)
      (keys_untouched_trans (keys_untouched_seat_slot_give _ _)
        (keys_untouched_emit _ _ rfl))

theorem keys_untouched_flush_touch_down (d : evdev_device) (time : Nat) :
    keys_untouched d (flush_touch_down d time) := by
  unfold flush_touch_down
  simp only
  apply keys_untouched_ite
  · exact keys_untouched_refl _
  apply keys_untouched_ite
  · exact keys_untouched_refl _
  apply keys_untouched_ite
  · exact keys_untouched_of_eq _ _ rfl rfl rfl
  · exact keys_untouched_trans (b := { d with abs := { d.abs with
        seat_slot := next_seat_slot d.seat } })
      (keys_untouched_of_eq _ _ rfl rfl rfl)
      (keys_untouched_trans (keys_untouched_seat_slot_take _ _)
        (keys_untouched_emit _ _ rfl))

theorem keys_untouched_flush_absolute_motion (d : evdev_device) (time : Nat) :
    keys_untouched d (flush_absolute_motion d time) := by
  unfold flush_absolute_motion
  simp only
  apply keys_untouched_ite
  · apply keys_untouched_ite
    · exact keys_untouched_refl _
    · exact keys_untouched_emit _ _ rfl
  · apply keys_untouched_ite
    · exact keys_untouched_emit _ _ rfl
    · exact keys_untouched_refl _

theorem keys_untouched_flush_touch_up (d : evdev_device) (time : Nat) :
    keys_untouched d (flush_touch_up d time) := by
  unfold flush_touch_up
  simp only
  apply keys_untouched_ite
  · exact keys_untouched_refl _
  apply keys_untouched_ite
  · exact keys_untouched_of_eq _ _ rfl rfl rfl
  · exact keys_untouched_trans (b := { d with abs := { d.abs with seat_slot := -1 } })
      (keys_untouched_of_eq _ _ rfl rfl rfl)
      (keys_untouched_trans (keys_untouched_seat_slot_give _ _)
        (keys_untouched_emit _ _ rfl))

/-- Resetting `pending_event` after a case of the flush leaves the key state
alone if the case did. -/
theorem keys_untouched_reset (d d1 : evdev_device) (h : keys_untouched d d1) :
    keys_untouched d { d1 with pending_event := EVDEV_NONE } :=
  keys_untouched_trans h (keys_untouched_of_eq _ _ rfl rfl rfl)

/-- Flushing the pending event changes neither the hardware key bitmap nor a
press count, and hands the client no key and no button event. -/
theorem keys_untouched_flush (d : evdev_device) (time : Nat) :
    keys_untouched d (evdev_flush_pending_event d time) := by
  unfold evdev_flush_pending_event
  split
  · exact keys_untouched_refl _
  · exact keys_untouched_reset _ _ (keys_untouched_flush_relative_motion d time)
  · exact keys_untouched_reset _ _ (keys_untouched_flush_mt_down d time)
  · exact keys_untouched_reset _ _ (keys_untouched_flush_mt_motion d time)
  · exact keys_untouched_reset _ _ (keys_untouched_flush_mt_up d time)
  · exact keys_untouched_reset _ _ (keys_untouched_flush_touch_down d time)
  · exact keys_untouched_reset _ _ (keys_untouched_flush_absolute_motion d time)
  · exact keys_untouched_reset _ _ (keys_untouched_flush_touch_up d time)

/-! ## evdev device: press counts and notification (C9, C10) -/

/-- C9. `evdev_keyboard_notify_key` and `evdev_pointer_notify_button` forward a
press to the client exactly when it raises the press count of the code from 0
to 1, and a release exactly when it lowers the count from 1 to 0; every other
press or release only changes the count and emits nothing. The count is within
its type, the code within `KEY_CNT`, and a release finds the count above 0, as
`update_key_down_count` asserts. -/
theorem evdev_notify_on_edges (kc_mod : Nat) (device : evdev_device)
    (time code : Nat) (hm : 1 < kc_mod) (hc : code < KEY_CNT)
    (hk : device.key_count code < kc_mod) :
    (∃ d, evdev_keyboard_notify_key kc_mod device time code
        LIBINPUT_KEY_STATE_PRESSED = some d ∧
      d.key_count = Function.update device.key_count code
        ((device.key_count code + 1) % kc_mod) ∧
      (device.key_count code = 0 → d.key_count code = 1 ∧
        d.emitted = device.emitted ++ [libinput_event.keyboard_key (time % 2 ^ 32)
          code LIBINPUT_KEY_STATE_PRESSED]) ∧
      (device.key_count code ≠ 0 → d.key_count code ≠ 1 ∧
        d = { device with key_count := d.key_count })) ∧
    (0 < device.key_count code →
      ∃ d, evdev_keyboard_notify_key kc_mod device time code
        LIBINPUT_KEY_STATE_RELEASED = some d ∧
      d.key_count = Function.update device.key_count code
        (device.key_count code - 1) ∧
      (device.key_count code = 1 → d.key_count code = 0 ∧
        d.emitted = device.emitted ++ [libinput_event.keyboard_key (time % 2 ^ 32)
          code LIBINPUT_KEY_STATE_RELEASED]) ∧
      (device.key_count code ≠ 1 → d.key_count code ≠ 0 ∧
        d = { device with key_count := d.key_count })) ∧
    (∃ d, evdev_pointer_notify_button kc_mod device time code
        LIBINPUT_BUTTON_STATE_PRESSED = some d ∧
      d.key_count = Function.update device.key_count code
        ((device.key_count code + 1) % kc_mod) ∧
      (device.key_count code = 0 → d.key_count code = 1 ∧
        d.emitted = device.emitted ++ [libinput_event.pointer_button (time % 2 ^ 32)
          code LIBINPUT_BUTTON_STATE_PRESSED]) ∧
      (device.key_count code ≠ 0 → d.key_count code ≠ 1 ∧
        d = { device with key_count := d.key_count })) ∧
    (0 < device.key_count code →
      ∃ d, evdev_pointer_notify_button kc_mod device time code
        LIBINPUT_BUTTON_STATE_RELEASED = some d ∧
      d.key_count = Function.update device.key_count code
        (device.key_count code - 1) ∧
      (device.key_count code = 1 → d.key_count code = 0 ∧
        d.emitted = device.emitted ++ [libinput_event.pointer_button (time % 2 ^ 32)
          code LIBINPUT_BUTTON_STATE_RELEASED]) ∧
      (device.key_count code ≠ 1 → d.key_count code ≠ 0 ∧
        d = { device with key_count := d.key_count })) := by
  have h1 : ∀ n : Nat, n < kc_mod → ((n + 1) % kc_mod = 1 ↔ n = 0) := by
    intro n hn
    constructor
    · intro h
      by_cases hlt : n + 1 < kc_mod
      · rw [Nat.mod_eq_of_lt hlt] at h
        omega
      · have : n + 1 = kc_mod := by omega
        rw [this, Nat.mod_self] at h
        omega
    · intro h
      subst h
      exact Nat.mod_eq_of_lt hm
  refine ⟨?_, ?_, ?_, ?_⟩
  · by_cases h0 : device.key_count code = 0
    · simp [evdev_keyboard_notify_key, update_key_down_count, hc, h0,
        Nat.mod_eq_of_lt hm, emit]
    · have hne : (device.key_count code + 1) % kc_mod ≠ 1 := fun h => h0 ((h1 _ hk).1 h)
      simp [evdev_keyboard_notify_key, update_key_down_count, hc, h0, hne]
  · intro hpos
    by_cases h0 : device.key_count code = 1
    · simp [evdev_keyboard_notify_key, update_key_down_count, hc, h0, emit]
    · have hne : device.key_count code - 1 ≠ 0 := by omega
      simp [evdev_keyboard_notify_key, update_key_down_count, hc, h0, hne, hpos]
  · by_cases h0 : device.key_count code = 0
    · simp [evdev_pointer_notify_button, update_key_down_count, hc, h0,
        Nat.mod_eq_of_lt hm, emit]
    · have hne : (device.key_count code + 1) % kc_mod ≠ 1 := fun h => h0 ((h1 _ hk).1 h)
      simp [evdev_pointer_notify_button, update_key_down_count, hc, h0, hne]
  · intro hpos
    by_cases h0 : device.key_count code = 1
    · simp only [evdev_pointer_notify_button, update_key_down_count, hc, h0, emit]
      simp only [evdev_change_to_left_handed, evdev_change_scroll_method]
      simp
      split_ifs <;> simp
    · have hne : device.key_count code - 1 ≠ 0 := by omega
      simp [evdev_pointer_notify_button, update_key_down_count, hc, h0, hne, hpos]

/-- Witness of C9: on a device whose `BTN_LEFT` count is 1, with an 8-bit
counter, the release at time 7 is forwarded to the client. -/
theorem evdev_notify_on_edges_witness :
    1 < 256 ∧ BTN_LEFT < KEY_CNT ∧ device_left_down.key_count BTN_LEFT < 256 ∧
    ∃ d, evdev_pointer_notify_button 256 device_left_down 7 BTN_LEFT
        LIBINPUT_BUTTON_STATE_RELEASED = some d ∧
      d.key_count BTN_LEFT = 0 ∧
      d.emitted = [libinput_event.pointer_button 7 BTN_LEFT
        LIBINPUT_BUTTON_STATE_RELEASED] := by
  refine ⟨by decide, by decide, by decide, ?_⟩
  obtain ⟨d, h1, _, h3, _⟩ :=
    (evdev_notify_on_edges 256 device_left_down 7 BTN_LEFT (by decide) (by decide)
      (by decide)).2.2.2 (by decide)
  exact ⟨d, h1, (h3 rfl).1, (h3 rfl).2⟩

/-- C10. In `evdev_process_key`, an `EV_KEY` event with value 0 for a code
classified as key or button whose bit is not set in `hw_key_mask` emits no key
and no button event and leaves `hw_key_mask` and every press count unchanged:
the call returns the device as the flush of the pending event left it. -/
theorem evdev_process_key_release_without_press (kc_mod : Nat)
    (device : evdev_device) (e : input_event) (time : Nat) (hv : e.value = 0)
    (ht : get_key_type e.code = EVDEV_KEY_TYPE_KEY ∨
      get_key_type e.code = EVDEV_KEY_TYPE_BUTTON)
    (hd : hw_is_key_down device e.code = false) :
    ∃ d, evdev_process_key kc_mod device e time = some d ∧
      d = evdev_flush_pending_event device time ∧
      d.hw_key_mask = device.hw_key_mask ∧ d.key_count = device.key_count ∧
      ∃ new : List libinput_event, d.emitted = device.emitted ++ new ∧
        ∀ ev ∈ new, ev.is_key_or_button = false := by
  have hne : e.code ≠ BTN_TOUCH := by
    intro h
    rw [h] at ht
    simp [get_key_type] at ht
  have hf := keys_untouched_flush device time
  have hdown : hw_is_key_down (evdev_flush_pending_event device time) e.code = false := by
    unfold hw_is_key_down at hd ⊢
    rw [hf.1]
    exact hd
  refine ⟨evdev_flush_pending_event device time, ?_, rfl, hf⟩
  unfold evdev_process_key
  rcases ht with h | h <;> simp [hv, hne, h, hdown]

/-- Witness of C10: a release of `KEY_ESC` on a fresh device, on which no key
is down, is dropped. -/
theorem evdev_process_key_release_without_press_witness :
    ({ type := 1, code := KEY_ESC, value := 0 } : input_event).value = 0 ∧
    get_key_type KEY_ESC = EVDEV_KEY_TYPE_KEY ∧
    hw_is_key_down (fresh_device (fun _ => true) identity_filter 1000) KEY_ESC = false ∧
    ∃ d, evdev_process_key 256 (fresh_device (fun _ => true) identity_filter 1000)
        { type := 1, code := KEY_ESC, value := 0 } 7 = some d ∧
      d.key_count KEY_ESC = 0 ∧ d.emitted = [] := by
  refine ⟨rfl, by decide, rfl, ?_⟩
  obtain ⟨d, h1, h2, _, _, _⟩ :=
    evdev_process_key_release_without_press 256
      (fresh_device (fun _ => true) identity_filter 1000)
      { type := 1, code := KEY_ESC, value := 0 } 7 rfl (Or.inl (by decide)) rfl
  refine ⟨d, h1, ?_, ?_⟩ <;> rw [h2] <;> rfl

/-! ## evdev device: a release at count 0 (C11) -/

/-- C11, counterexample. On a fresh device, where every press count is 0, a
release of `KEY_ESC` through `update_key_down_count` fails the assertion, and
so do the two notify functions that call it: the count is not clamped. -/
theorem release_at_zero_counterexample :
    (fresh_device (fun _ => true) identity_filter 1000).key_count KEY_ESC = 0 ∧
    (update_key_down_count 256 (fresh_device (fun _ => true) identity_filter 1000)
      KEY_ESC false).isNone = true ∧
    (evdev_keyboard_notify_key 256 (fresh_device (fun _ => true) identity_filter 1000)
      7 KEY_ESC LIBINPUT_KEY_STATE_RELEASED).isNone = true ∧
    (evdev_pointer_notify_button 256 (fresh_device (fun _ => true) identity_filter 1000)
      7 BTN_LEFT LIBINPUT_BUTTON_STATE_RELEASED).isNone = true :=
  ⟨rfl, rfl, rfl, rfl⟩

/-- C11, amended. A release applied through `update_key_down_count` to a code
whose press count is 0 fails the assertion `key_count[code] > 0`, from either
notify function: the call does not return and no count is changed. A release
of a code below `KEY_CNT` with a count above 0 returns and leaves the count one
lower, so every count is at least 0 after every operation that returns. -/
theorem release_at_zero_asserts (kc_mod : Nat) (device : evdev_device)
    (time code : Nat) (hc : code < KEY_CNT) :
    (device.key_count code = 0 →
      update_key_down_count kc_mod device code false = none ∧
      evdev_keyboard_notify_key kc_mod device time code
        LIBINPUT_KEY_STATE_RELEASED = none ∧
      evdev_pointer_notify_button kc_mod device time code
        LIBINPUT_BUTTON_STATE_RELEASED = none) ∧
    (0 < device.key_count code →
      ∃ d, update_key_down_count kc_mod device code false =
          some (d, device.key_count code - 1) ∧
        d.key_count code = device.key_count code - 1 ∧
        (∀ other, other ≠ code → d.key_count other = device.key_count other) ∧
        0 ≤ d.key_count code) := by
  constructor
  · intro h0
    simp [update_key_down_count, evdev_keyboard_notify_key,
      evdev_pointer_notify_button, hc, h0]
  · intro hpos
    refine ⟨_, by simp [update_key_down_count, hc, hpos]; rfl, ?_, ?_, Nat.zero_le _⟩
    · simp
    · intro other ho
      simp [Function.update, ho]

/-- Witness of the amended C11: on a device whose `BTN_LEFT` count is 1 the
release returns and leaves 0; a second release would meet the count 0. -/
theorem release_at_zero_asserts_witness :
    BTN_LEFT < KEY_CNT ∧ 0 < device_left_down.key_count BTN_LEFT ∧
    ∃ d, update_key_down_count 256 device_left_down BTN_LEFT false = some (d, 0) ∧
      d.key_count BTN_LEFT = 0 ∧
      update_key_down_count 256 d BTN_LEFT false = none := by
  obtain ⟨d, h1, h2, _, _⟩ :=
    (release_at_zero_asserts 256 device_left_down 7 BTN_LEFT (by decide)).2 (by decide)
  exact ⟨by decide, by decide, d, h1, h2,
    ((release_at_zero_asserts 256 d 7 BTN_LEFT (by decide)).1 h2).1⟩

/-! ## evdev device: the pending event at a SYN boundary (C14) -/

/-- C14. After every call of `evdev_flush_pending_event`, whichever of the
eight kinds was pending and whether or not anything was emitted,
`pending_event` is `EVDEV_NONE`; hence `fallback_process` returns from any
`EV_SYN` event with `pending_event == EVDEV_NONE`. -/
theorem flush_resets_pending_event (kc_mod : Nat) (device : evdev_device)
    (time code : Nat) (value : Int) :
    (evdev_flush_pending_event device time).pending_event = EVDEV_NONE ∧
    ∃ d, fallback_process kc_mod device
        { type := EV_SYN, code := code, value := value } time = some d ∧
      d.pending_event = EVDEV_NONE := by
  have h : (evdev_flush_pending_event device time).pending_event = EVDEV_NONE := by
    unfold evdev_flush_pending_event
    split <;> simp_all
  refine ⟨h, ?_⟩
  by_cases hf : evdev_need_touch_frame device = true
  · exact ⟨_, by simp [fallback_process, EV_SYN, EV_REL, EV_ABS, EV_KEY, hf]; rfl,
      by simpa [emit] using h⟩
  · exact ⟨_, by simp [fallback_process, EV_SYN, EV_REL, EV_ABS, EV_KEY, hf], h⟩

/-! ## evdev device: suspend with left-handed mode in effect (C13) -/

/-- A code whose press count is 0 is passed over by the `while` loop of
`release_pressed_keys`, whatever the fuel. -/
theorem release_pressed_keys_while_zero (kc_mod time code fuel : Nat)
    (d : evdev_device) (h : d.key_count code = 0) :
    release_pressed_keys_while kc_mod time code fuel d = run_result.returned d := by
  cases fuel <;> simp [release_pressed_keys_while, get_key_down_count, h]

/-- The `for` loop of `release_pressed_keys` passes over a stretch of codes
whose press counts are all 0. -/
theorem release_pressed_keys_for_append (kc_mod fuel time : Nat) (l1 l2 : List Nat)
    (d : evdev_device) (h : ∀ c ∈ l1, d.key_count c = 0) :
    release_pressed_keys_for kc_mod fuel time (l1 ++ l2) d =
      release_pressed_keys_for kc_mod fuel time l2 d := by
  induction l1 with
  | nil => rfl
  | cons c rest ih =>
    simp only [List.cons_append, release_pressed_keys_for,
      release_pressed_keys_while_zero kc_mod time c fuel d (h c (List.mem_cons_self _ _))]
    exact ih (fun c hc => h c (List.mem_cons_of_mem _ hc))

/-- C13, the code at the failing input. On a mouse with left-handed mode in
effect a press of the physical `BTN_LEFT` is counted and notified under
`BTN_RIGHT`. `evdev_device_suspend` then reaches code `BTN_RIGHT` with count 1
and releases `evdev_to_left_handed(device, BTN_RIGHT)`, which is `BTN_LEFT`
with count 0: the assertion of `update_key_down_count` fails, for every
number of rounds the `while` loop is given. -/
theorem suspend_left_handed_asserts (fuel : Nat) :
    ∃ d, evdev_process_key 256 (evdev_left_handed_set mouse 1)
        { type := EV_KEY, code := BTN_LEFT, value := 1 } 10 = some d ∧
      d.buttons.left_handed = true ∧
      d.hw_key_mask BTN_LEFT = true ∧
      d.key_count BTN_LEFT = 0 ∧ d.key_count BTN_RIGHT = 1 ∧
      d.emitted = [libinput_event.pointer_button 10 BTN_RIGHT
        LIBINPUT_BUTTON_STATE_PRESSED] ∧
      evdev_device_suspend 256 (fuel + 1) d 20 = run_result.assertion_failed := by
  refine ⟨_, rfl, rfl, rfl, rfl, rfl, rfl, ?_⟩
  have hr : List.range KEY_CNT = List.range' 0 273 ++ List.range' 273 495 := by
    rw [List.range_eq_range', show KEY_CNT = 495 + 273 from rfl, ← List.range'_append_1]
  simp only [evdev_device_suspend, release_pressed_keys, hr]
  rw [if_neg (by decide), release_pressed_keys_for_append]
  · rfl
  · intro c hc
    have hc1 : c < 273 := by simpa using (List.mem_range'_1.1 hc).2
    have hc2 : c ≠ 273 := by omega
    show Function.update (fun _ => 0) 273 1 c = 0
    simp [Function.update, hc2]

/-! ## evdev device: the touch frame (C17) -/

/-- C17, the code at the failing input. On a multitouch touch screen a frame
that puts a finger down in slot 0 and then names slot 1 (or reports a key)
before its `EV_SYN` hands the client the touch-down when the slot change (or
the key) flushes it; at the `EV_SYN` nothing is pending, so
`evdev_need_touch_frame` is false and no touch-frame event follows. -/
theorem touch_frame_missing_after_flush :
    (∃ d, fallback_process_all 256 touch_screen
        [({ type := EV_ABS, code := ABS_MT_SLOT, value := 0 }, 1),
         ({ type := EV_ABS, code := ABS_MT_TRACKING_ID, value := 7 }, 1),
         ({ type := EV_ABS, code := ABS_MT_POSITION_X, value := 100 }, 1),
         ({ type := EV_ABS, code := ABS_MT_POSITION_Y, value := 50 }, 1),
         ({ type := EV_ABS, code := ABS_MT_SLOT, value := 1 }, 1),
         ({ type := EV_SYN, code := 0, value := 0 }, 1)] = some d ∧
      d.emitted = [libinput_event.touch_down 1 0 0 100 50] ∧
      d.pending_event = EVDEV_NONE) ∧
    (∃ d, fallback_process_all 256 touch_screen
        [({ type := EV_ABS, code := ABS_MT_TRACKING_ID, value := 7 }, 1),
         ({ type := EV_ABS, code := ABS_MT_POSITION_X, value := 100 }, 1),
         ({ type := EV_ABS, code := ABS_MT_POSITION_Y, value := 50 }, 1),
         ({ type := EV_KEY, code := BTN_TOOL_FINGER, value := 1 }, 1),
         ({ type := EV_SYN, code := 0, value := 0 }, 1)] = some d ∧
      d.emitted = [libinput_event.touch_down 1 0 0 100 50,
        libinput_event.pointer_button 1 BTN_TOOL_FINGER
          LIBINPUT_BUTTON_STATE_PRESSED] ∧
      d.pending_event = EVDEV_NONE) :=
  ⟨⟨_, rfl, rfl, rfl⟩, ⟨_, rfl, rfl, rfl⟩⟩

/-! ## evdev device: reading the calibration back (C19) -/

/-- C19, the code at the failing input. On a touch screen with axis ranges, set
the calibration `1 0 1 / 0 1 0` and then the identity:
`evdev_device_calibrate` returns for the identity before it backs up the user
matrix, so `evdev_calibration_get_matrix` still writes back `1 0 1 / 0 1 0`
and returns 1, while the calibration itself is switched off. -/
theorem calibration_identity_not_read_back :
    ∃ d1 d2,
      evdev_calibration_set_matrix touch_screen
        { a := 1, b := 0, c := 1, d := 0, e := 1, f := 0 } = some d1 ∧
      evdev_calibration_get_matrix d1 =
        ({ a := 1, b := 0, c := 1, d := 0, e := 1, f := 0 }, 1) ∧
      evdev_calibration_set_matrix d1 farray6_identity = some d2 ∧
      evdev_calibration_get_matrix d2 =
        ({ a := 1, b := 0, c := 1, d := 0, e := 1, f := 0 }, 1) ∧
      evdev_calibration_get_matrix d2 ≠ (farray6_identity, 0) ∧
      d2.abs.apply_calibration = false := by
  refine ⟨_, _, rfl, ?_, rfl, ?_, ?_, rfl⟩
  · decide
  · decide
  · decide

/-! ## evdev device: the effective calibration matrix (C20) -/

/-- The conversion of a `double` that holds an integer gives that integer. -/
theorem double_to_int_intCast (z : Int) : double_to_int (z : ℚ) = z := by
  unfold double_to_int
  split <;> simp

/-- C20. For a device with axis ranges whose widths `sx = max_x - min_x + 1`
and `sy = max_y - min_y + 1` are not 0 and a non-identity user matrix `C`,
`evdev_device_calibrate` returns, switches the calibration on and stores the
matrix of UnNormalize after `C` after Normalize: it maps every point as the
three maps in turn do and its last row is `0 0 1`. For the translation with
`c = 1`, `f = 0` every device point `(x, y)` goes to `(x + sx, y)`. -/
theorem evdev_device_calibrate_composes (device : evdev_device) (C : farray6)
    (ax ay : input_absinfo)
    (hx : device.abs.absinfo_x = some ax) (hy : device.abs.absinfo_y = some ay)
    (hsx : ax.maximum - ax.minimum + 1 ≠ 0) (hsy : ay.maximum - ay.minimum + 1 ≠ 0)
    (hC : matrix_is_identity (matrix_from_farray6 C) = false) :
    ∃ d, evdev_device_calibrate device C = some d ∧
      d.abs.apply_calibration = true ∧
      (∀ p : ℚ × ℚ, matrix_apply d.abs.calibration p =
        unnormalize_point ax ay
          (matrix_apply (matrix_from_farray6 C) (normalize_point ax ay p))) ∧
      (d.abs.calibration.val 2 0 = 0 ∧ d.abs.calibration.val 2 1 = 0 ∧
        d.abs.calibration.val 2 2 = 1) ∧
      (C = { a := 1, b := 0, c := 1, d := 0, e := 1, f := 0 } →
        ∀ x y : Int, transform_absolute d x y =
          (x + (ax.maximum - ax.minimum + 1), y)) := by
  have hsxq : ((ax.maximum : ℚ) - ax.minimum + 1) ≠ 0 := by
    exact_mod_cast hsx
  have hsyq : ((ay.maximum : ℚ) - ay.minimum + 1) ≠ 0 := by
    exact_mod_cast hsy
  refine ⟨_, by simp [evdev_device_calibrate, hx, hy, hC]; rfl, ?_, ?_, ?_, ?_⟩
  · simp [hC]
  · intro p
    simp [matrix_apply, matrix_mult, matrix_init_translate, matrix_init_scale,
      matrix_from_farray6, normalize_point, unnormalize_point]
    constructor <;> field_simp <;> ring
  · simp [matrix_mult, matrix_init_translate, matrix_init_scale,
      matrix_from_farray6]
  · intro hCe x y
    subst hCe
    simp [transform_absolute, matrix_mult_vec, hC, matrix_mult, matrix_init_translate,
      matrix_init_scale, matrix_from_farray6]
    refine ⟨(congrArg double_to_int ?_).trans (double_to_int_intCast _),
      (congrArg double_to_int ?_).trans (double_to_int_intCast _)⟩
    · push_cast
      field_simp
      ring
    · field_simp
      ring

/-- C20 at the touch screen of 1024 by 768 units: the translation by one
device width moves every point 1024 units to the right. -/
theorem evdev_device_calibrate_composes_witness :
    ∃ d, evdev_device_calibrate touch_screen
        { a := 1, b := 0, c := 1, d := 0, e := 1, f := 0 } = some d ∧
      d.abs.apply_calibration = true ∧
      ∀ x y : Int, transform_absolute d x y = (x + 1024, y) := by
  obtain ⟨d, h1, h2, _, _, h5⟩ := evdev_device_calibrate_composes touch_screen
    { a := 1, b := 0, c := 1, d := 0, e := 1, f := 0 }
    { minimum := 0, maximum := 1023, resolution := 1 }
    { minimum := 0, maximum := 767, resolution := 1 }
    rfl rfl (by decide) (by decide) (by decide)
  exact ⟨d, h1, h2, fun x y => by simpa using h5 rfl x y⟩

/-! ## evdev device: steps that leave a part of the device alone -/

/-- A part of the device that both branches leave at `v` is at `v` after the
`if`. -/
theorem preserved_ite {α : Type} (π : evdev_device → α) (c : Prop) [Decidable c]
    (a b : evdev_device) (v : α) (ha : π a = v) (hb : π b = v) :
    π (if c then a else b) = v := by
  split
  · exact ha
  · exact hb

/-- `evdev_post_scroll` changes only the two build-ups and the direction of
`scroll` and the record of emitted events. -/
theorem evdev_post_scroll_preserves {α : Type} (π : evdev_device → α)
    (hv : ∀ (d : evdev_device) (v : ℚ),
      π { d with scroll := { d.scroll with buildup_vertical := v } } = π d)
    (hh : ∀ (d : evdev_device) (v : ℚ),
      π { d with scroll := { d.scroll with buildup_horizontal := v } } = π d)
    (hd : ∀ (d : evdev_device) (v : Nat),
      π { d with scroll := { d.scroll with direction := v } } = π d)
    (he : ∀ (d : evdev_device) (e : libinput_event), π (emit d e) = π d)
    (d : evdev_device) (time : Nat) (dx dy : ℚ) :
    π (evdev_post_scroll d time dx dy) = π d := by
  have hn : ∀ (x : evdev_device) (t : Nat) (a : libinput_pointer_axis) (v : ℚ),
      π (evdev_notify_axis x t a v) = π x := fun _ _ _ _ => he _ _
  have hst : ∀ (x : evdev_device) (a : libinput_pointer_axis),
      π (evdev_start_scrolling x a) = π x := fun _ _ => hd _ _
  unfold evdev_post_scroll
  lift_lets
  extract_lets s1 d1 s2 d2 tv th a d3 d4
  have h1 : π d1 = π d := preserved_ite π _ _ _ _ (hv _ _) rfl
  have h2 : π d2 = π d := preserved_ite π _ _ _ _ ((hh _ _).trans h1) h1
  have ha : π a = π d := preserved_ite π _ _ _ _ ((hst _ _).trans h2) h2
  have h3 : π d3 = π d :=
    preserved_ite π _ _ _ _ (preserved_ite π _ _ _ _ ((hst _ _).trans ha) ha)
      (preserved_ite π _ _ _ _ (preserved_ite π _ _ _ _ ((hst _ _).trans h2) h2)
        (preserved_ite π _ _ _ _ (preserved_ite π _ _ _ _ ((hst _ _).trans h2) h2) h2))
  have h4 : π d4 = π d := preserved_ite π _ _ _ _ ((hn _ _ _ _).trans h3) h3
  exact preserved_ite π _ _ _ _ ((hn _ _ _ _).trans h4) h4

/-- The flush of a relative motion changes only `rel`, the filter, the two
build-ups and the direction of `scroll` and the record of emitted events. -/
theorem flush_relative_motion_preserves {α : Type} (π : evdev_device → α)
    (hv : ∀ (d : evdev_device) (v : ℚ),
      π { d with scroll := { d.scroll with buildup_vertical := v } } = π d)
    (hh : ∀ (d : evdev_device) (v : ℚ),
      π { d with scroll := { d.scroll with buildup_horizontal := v } } = π d)
    (hd : ∀ (d : evdev_device) (v : Nat),
      π { d with scroll := { d.scroll with direction := v } } = π d)
    (he : ∀ (d : evdev_device) (e : libinput_event), π (emit d e) = π d)
    (hrel : ∀ (d : evdev_device) (r : evdev_rel), π { d with rel := r } = π d)
    (hfil : ∀ (d : evdev_device) (p : evdev_pointer), π { d with pointer := p } = π d)
    (d : evdev_device) (time : Nat) :
    π (flush_relative_motion d time) = π d := by
  unfold flush_relative_motion
  exact preserved_ite π _ _ _ _
    (preserved_ite π _ _ _ _
      ((evdev_post_scroll_preserves π hv hh hd he _ _ _ _).trans (hrel _ _))
      (hrel _ _))
    (preserved_ite π _ _ _ _ ((hfil _ _).trans (hrel _ _))
      ((he _ _).trans ((hfil _ _).trans (hrel _ _))))

/-- The flush of a relative motion leaves `rel.dx` and `rel.dy` at 0. -/
theorem flush_relative_motion_rel (d : evdev_device) (time : Nat) :
    (flush_relative_motion d time).rel = { dx := 0, dy := 0 } := by
  unfold flush_relative_motion
  exact preserved_ite evdev_device.rel _ _ _ _
    (preserved_ite evdev_device.rel _ _ _ _
      (evdev_post_scroll_preserves evdev_device.rel (fun _ _ => rfl) (fun _ _ => rfl)
        (fun _ _ => rfl) (fun _ _ => rfl) _ _ _ _)
      rfl)
    (preserved_ite evdev_device.rel _ _ _ _ rfl rfl)

/-! ## Rounding to a `double` -/

/-- An integer rounds to itself. -/
theorem round_half_even_intCast (z : ℤ) : round_half_even (z : ℚ) = z := by
  simp [round_half_even]

/-- The rounded value is the integer below or the one after it. -/
theorem round_half_even_bounds (m : ℚ) :
    ⌊m⌋ ≤ round_half_even m ∧ round_half_even m ≤ ⌊m⌋ + 1 := by
  unfold round_half_even
  simp only
  split_ifs <;> constructor <;> omega

/-- The exponent that `double_round` scales by, from bounds on the value. -/
theorem double_round_exponent (q : ℚ) (e : ℤ) (h1 : (2 : ℚ) ^ (e + 52) ≤ |q|)
    (h2 : |q| < (2 : ℚ) ^ (e + 53)) : Int.log 2 |q| - 52 = e := by
  have hpos : 0 < |q| := lt_of_lt_of_le (by positivity) h1
  have a := (Int.zpow_le_iff_le_log (R := ℚ) (b := 2) (by norm_num) hpos).1
    (by simpa using h1)
  have b := (Int.lt_zpow_iff_log_lt (R := ℚ) (b := 2) (by norm_num) hpos).1
    (by simpa using h2)
  omega

/-- A value with at most 53 significant bits is a `double`: rounding leaves it
as it is. -/
theorem double_round_repr (n k : ℤ) (hn : |n| < 2 ^ 53) :
    double_round ((n : ℚ) * 2 ^ k) = (n : ℚ) * 2 ^ k := by
  by_cases h0 : n = 0
  · subst h0
    simp [double_round, round_half_even]
  have hnq : (0 : ℚ) < |(n : ℚ)| := by
    rw [abs_pos]
    exact_mod_cast h0
  have h2pos : ∀ z : ℤ, (0 : ℚ) < 2 ^ z := fun z => by positivity
  -- the exponent of `n`
  have hl1 : ((2 : ℕ) : ℚ) ^ Int.log 2 |(n : ℚ)| ≤ |(n : ℚ)| :=
    Int.zpow_log_le_self (by norm_num) hnq
  have hl2 : |(n : ℚ)| < ((2 : ℕ) : ℚ) ^ (Int.log 2 |(n : ℚ)| + 1) :=
    Int.lt_zpow_succ_log_self (by norm_num) _
  rw [Nat.cast_ofNat] at hl1 hl2
  have hL0 : 0 ≤ Int.log 2 |(n : ℚ)| := by
    apply (Int.zpow_le_iff_le_log (R := ℚ) (b := 2) (by norm_num) hnq).1
    simp only [zpow_zero]
    have : (1 : ℤ) ≤ |n| := Int.one_le_abs h0
    have : ((1 : ℤ) : ℚ) ≤ ((|n| : ℤ) : ℚ) := Int.cast_le.mpr this
    simpa using this
  have hL1 : Int.log 2 |(n : ℚ)| < 53 := by
    apply (Int.lt_zpow_iff_log_lt (R := ℚ) (b := 2) (by norm_num) hnq).1
    have : |(n : ℚ)| < 2 ^ 53 := by exact_mod_cast hn
    have h53 : ((2 : ℕ) : ℚ) ^ (53 : ℤ) = 2 ^ 53 := by norm_num
    rw [h53]
    exact this
  generalize hL : Int.log 2 |(n : ℚ)| = L at hl1 hl2 hL0 hL1
  have habs : |(n : ℚ) * 2 ^ k| = |(n : ℚ)| * 2 ^ k := by
    rw [abs_mul, abs_of_pos (h2pos k)]
  have he : Int.log 2 |(n : ℚ) * 2 ^ k| - 52 = L + k - 52 := by
    apply double_round_exponent
    · rw [habs, show L + k - 52 + 52 = L + k by ring, zpow_add₀ (by norm_num)]
      exact mul_le_mul_of_nonneg_right hl1 (le_of_lt (h2pos k))
    · rw [habs, show L + k - 52 + 53 = L + 1 + k by ring, zpow_add₀ (by norm_num)]
      exact mul_lt_mul_of_pos_right hl2 (h2pos k)
  unfold double_round
  simp only [he]
  have hm : (n : ℚ) * 2 ^ k / 2 ^ (L + k - 52) = ((n * 2 ^ (52 - L).toNat : ℤ) : ℚ) := by
    have hz : ((52 - L).toNat : ℤ) = 52 - L := Int.toNat_of_nonneg (by omega)
    push_cast
    rw [← zpow_natCast (2 : ℚ) (52 - L).toNat, hz, mul_div_assoc, ← zpow_sub₀ (by norm_num)]
    congr 2
    ring
  rw [hm, round_half_even_intCast, ← hm]
  rw [div_mul_cancel₀]
  exact ne_of_gt (h2pos _)

/-- Zero is a `double`. -/
theorem double_round_zero : double_round 0 = 0 := by
  have := double_round_repr 0 0 (by norm_num)
  simpa using this

/-- An integer below 2^53 in absolute value is a `double`. -/
theorem double_round_intCast (n : ℤ) (hn : |n| < 2 ^ 53) : double_round (n : ℚ) = n := by
  have := double_round_repr n 0 hn
  simpa using this

/-- The result of a rounding is a `double`: rounding it again leaves it as it
is. -/
theorem double_round_idem (q : ℚ) : double_round (double_round q) = double_round q := by
  by_cases hq : q = 0
  · subst hq
    rw [double_round_zero, double_round_zero]
  have h2pos : ∀ z : ℤ, (0 : ℚ) < 2 ^ z := fun z => by positivity
  have hl2 : |q| < ((2 : ℕ) : ℚ) ^ (Int.log 2 |q| + 1) :=
    Int.lt_zpow_succ_log_self (by norm_num) _
  rw [Nat.cast_ofNat] at hl2
  set e : ℤ := Int.log 2 |q| - 52 with he
  have hl3 : |q| < (2 : ℚ) ^ (e + 53) := by
    have : Int.log 2 |q| + 1 = e + 53 := by rw [he]; ring
    rw [← this]
    exact hl2
  have hval : double_round q = (round_half_even (q / 2 ^ e) : ℚ) * 2 ^ e := rfl
  have hm : |q / 2 ^ e| < 2 ^ 53 := by
    rw [abs_div, abs_of_pos (h2pos e), div_lt_iff₀ (h2pos e)]
    have : (2 : ℚ) ^ (e + 53) = 2 ^ 53 * 2 ^ e := by
      rw [zpow_add₀ (by norm_num), mul_comm]
      norm_num
    rw [← this]
    exact hl3
  obtain ⟨hb1, hb2⟩ := round_half_even_bounds (q / 2 ^ e)
  have hm' := abs_lt.mp hm
  have hf1 : ⌊q / 2 ^ e⌋ < 2 ^ 53 := by
    rw [Int.floor_lt]
    exact_mod_cast hm'.2
  have hf2 : -(2 ^ 53) ≤ ⌊q / 2 ^ e⌋ := by
    rw [Int.le_floor]
    have := le_of_lt hm'.1
    exact_mod_cast this
  generalize round_half_even (q / 2 ^ e) = n at hval hb1 hb2
  rw [hval]
  by_cases hlt : |n| < 2 ^ 53
  · exact double_round_repr n e hlt
  · have hn : n = 2 ^ 53 ∨ n = -(2 ^ 53) := by
      rw [abs_lt] at hlt
      omega
    rcases hn with hn | hn
    · have : (n : ℚ) * 2 ^ e = ((2 ^ 52 : ℤ) : ℚ) * 2 ^ (e + 1) := by
        rw [hn, zpow_add₀ (by norm_num)]
        push_cast
        ring
      rw [this]
      exact double_round_repr (2 ^ 52) (e + 1) (by norm_num)
    · have : (n : ℚ) * 2 ^ e = ((-(2 ^ 52) : ℤ) : ℚ) * 2 ^ (e + 1) := by
        rw [hn, zpow_add₀ (by norm_num)]
        push_cast
        ring
      rw [this]
      exact double_round_repr (-(2 ^ 52)) (e + 1) (by norm_num)

/-- Adding `0.0` to a `double` leaves it as it is. -/
theorem double_add_zero (a : ℚ) (h : double_round a = a) : double_add a 0 = a := by
  rw [double_add, add_zero, h]

/-- A sum of `double`s is a `double`. -/
theorem double_round_add (a b : ℚ) : double_round (double_add a b) = double_add a b :=
  double_round_idem _

/-- The quotient of `0.0` by a `double` is `0.0` in the model. -/
theorem double_div_zero (b : ℚ) : double_div 0 b = 0 := by
  rw [double_div, zero_div, double_round_zero]

/-- At 1000 dpi the delta of a frame is its value. -/
theorem scroll_delta_1000 (v : Int) (hv : |v| < 2 ^ 53) : scroll_delta 1000 v = v := by
  have e1 : double_round (1 : ℚ) = 1 := by
    simpa using double_round_intCast 1 (by norm_num)
  simp only [scroll_delta, double_div, DEFAULT_MOUSE_DPI]
  norm_num [e1]
  exact double_round_intCast v hv

/-- A value within half a unit of an integer rounds to it. -/
theorem round_half_even_near (m : ℚ) (n : ℤ) (h1 : (n : ℚ) - 1 / 2 < m)
    (h2 : m < (n : ℚ) + 1 / 2) : round_half_even m = n := by
  unfold round_half_even
  simp only
  by_cases hm : (n : ℚ) ≤ m
  · have hf : ⌊m⌋ = n := by
      rw [Int.floor_eq_iff]
      constructor
      · exact hm
      · linarith
    rw [hf, if_pos (by linarith)]
  · have hf : ⌊m⌋ = n - 1 := by
      rw [Int.floor_eq_iff]
      push_cast
      constructor
      · linarith
      · linarith
    have hr : (1 : ℚ) / 2 < m - ((n - 1 : ℤ) : ℚ) := by
      push_cast
      linarith
    rw [hf, if_neg (by linarith), if_pos hr]
    ring

/-- A value half a unit above an even integer rounds down to it. -/
theorem round_half_even_tie_up (m : ℚ) (n : ℤ) (h : m = (n : ℚ) + 1 / 2)
    (he : n % 2 = 0) : round_half_even m = n := by
  have hf : ⌊m⌋ = n := by
    rw [Int.floor_eq_iff, h]
    constructor <;> linarith
  unfold round_half_even
  simp only
  rw [hf, h]
  norm_num [he]

/-- A value half a unit below an even integer rounds up to it. -/
theorem round_half_even_tie_down (m : ℚ) (n : ℤ) (h : m = (n : ℚ) - 1 / 2)
    (he : n % 2 = 0) : round_half_even m = n := by
  have hf : ⌊m⌋ = n - 1 := by
    rw [Int.floor_eq_iff, h]
    push_cast
    constructor <;> linarith
  have ho : (n - 1) % 2 ≠ 0 := by omega
  unfold round_half_even
  simp only
  rw [hf, h]
  push_cast
  norm_num [ho]

/-- The `double` nearest to a value, from its exponent and its 53-bit
mantissa. -/
theorem double_round_eq (q : ℚ) (n e : ℤ) (h1 : (2 : ℚ) ^ (e + 52) ≤ |q|)
    (h2 : |q| < (2 : ℚ) ^ (e + 53)) (h3 : round_half_even (q / 2 ^ e) = n) :
    double_round q = (n : ℚ) * 2 ^ e := by
  unfold double_round
  simp only [double_round_exponent q e h1 h2]
  rw [h3]

/-- At 1800 dpi nine frames of one unit build up less than 5, although nine
times the exact quotient `1000 / 1800` is 5: the `double` sum is
4.999999999999999. -/
theorem scroll_buildup_1800_below :
    scroll_buildup 1800 0
        [(1, 0), (1, 10), (1, 20), (1, 30), (1, 40), (1, 50), (1, 60), (1, 70), (1, 80)]
      < 5 ∧
    9 * ((1 : ℚ) / ((1800 : ℚ) / 1000)) = 5 := by
  have hs : double_round ((1800 : ℚ) / 1000) = (8106479329266893 / 4503599627370496 : ℚ) := by
    rw [double_round_eq ((1800 : ℚ) / 1000) 8106479329266893 (-52)
      (by rw [abs_of_pos (by norm_num)]; norm_num)
      (by rw [abs_of_pos (by norm_num)]; norm_num)
      (round_half_even_near _ _ (by norm_num) (by norm_num))]
    norm_num
  have hq : double_round ((1 : ℚ) / (8106479329266893 / 4503599627370496 : ℚ)) =
      (2501999792983609 / 4503599627370496 : ℚ) := by
    rw [double_round_eq ((1 : ℚ) / (8106479329266893 / 4503599627370496 : ℚ))
      5003999585967218 (-53)
      (by rw [abs_of_pos (by norm_num)]; norm_num)
      (by rw [abs_of_pos (by norm_num)]; norm_num)
      (round_half_even_near _ _ (by norm_num) (by norm_num))]
    norm_num
  have hx : scroll_delta 1800 1 = (2501999792983609 / 4503599627370496 : ℚ) := by
    simp only [scroll_delta, double_div, DEFAULT_MOUSE_DPI, Int.cast_ofNat, Int.cast_one,
      Nat.cast_ofNat, hs, hq]
  have a1 : double_add (0 : ℚ)
      (2501999792983609 / 4503599627370496 : ℚ) =
      (2501999792983609 / 4503599627370496 : ℚ) := by
    rw [double_add, double_round_eq
      ((0 : ℚ) +
        (2501999792983609 / 4503599627370496 : ℚ)) 5003999585967218 (-53)
      (by rw [abs_of_pos (by norm_num)]; norm_num)
      (by rw [abs_of_pos (by norm_num)]; norm_num)
      (round_half_even_near _ _ (by norm_num) (by norm_num))]
    norm_num
  have a2 : double_add (2501999792983609 / 4503599627370496 : ℚ)
      (2501999792983609 / 4503599627370496 : ℚ) =
      (2501999792983609 / 2251799813685248 : ℚ) := by
    rw [double_add, double_round_eq
      ((2501999792983609 / 4503599627370496 : ℚ) +
        (2501999792983609 / 4503599627370496 : ℚ)) 5003999585967218 (-52)
      (by rw [abs_of_pos (by norm_num)]; norm_num)
      (by rw [abs_of_pos (by norm_num)]; norm_num)
      (round_half_even_near _ _ (by norm_num) (by norm_num))]
    norm_num
  have a3 : double_add (2501999792983609 / 2251799813685248 : ℚ)
      (2501999792983609 / 4503599627370496 : ℚ) =
      (7505999378950827 / 4503599627370496 : ℚ) := by
    rw [double_add, double_round_eq
      ((2501999792983609 / 2251799813685248 : ℚ) +
        (2501999792983609 / 4503599627370496 : ℚ)) 7505999378950827 (-52)
      (by rw [abs_of_pos (by norm_num)]; norm_num)
      (by rw [abs_of_pos (by norm_num)]; norm_num)
      (round_half_even_near _ _ (by norm_num) (by norm_num))]
    norm_num
  have a4 : double_add (7505999378950827 / 4503599627370496 : ℚ)
      (2501999792983609 / 4503599627370496 : ℚ) =
      (2501999792983609 / 1125899906842624 : ℚ) := by
    rw [double_add, double_round_eq
      ((7505999378950827 / 4503599627370496 : ℚ) +
        (2501999792983609 / 4503599627370496 : ℚ)) 5003999585967218 (-51)
      (by rw [abs_of_pos (by norm_num)]; norm_num)
      (by rw [abs_of_pos (by norm_num)]; norm_num)
      (round_half_even_near _ _ (by norm_num) (by norm_num))]
    norm_num
  have a5 : double_add (2501999792983609 / 1125899906842624 : ℚ)
      (2501999792983609 / 4503599627370496 : ℚ) =
      (3127499741229511 / 1125899906842624 : ℚ) := by
    rw [double_add, double_round_eq
      ((2501999792983609 / 1125899906842624 : ℚ) +
        (2501999792983609 / 4503599627370496 : ℚ)) 6254999482459022 (-51)
      (by rw [abs_of_pos (by norm_num)]; norm_num)
      (by rw [abs_of_pos (by norm_num)]; norm_num)
      (round_half_even_tie_up _ _ (by norm_num) (by decide))]
    norm_num
  have a6 : double_add (3127499741229511 / 1125899906842624 : ℚ)
      (2501999792983609 / 4503599627370496 : ℚ) =
      (3752999689475413 / 1125899906842624 : ℚ) := by
    rw [double_add, double_round_eq
      ((3127499741229511 / 1125899906842624 : ℚ) +
        (2501999792983609 / 4503599627370496 : ℚ)) 7505999378950826 (-51)
      (by rw [abs_of_pos (by norm_num)]; norm_num)
      (by rw [abs_of_pos (by norm_num)]; norm_num)
      (round_half_even_tie_up _ _ (by norm_num) (by decide))]
    norm_num
  have a7 : double_add (3752999689475413 / 1125899906842624 : ℚ)
      (2501999792983609 / 4503599627370496 : ℚ) =
      (4378499637721315 / 1125899906842624 : ℚ) := by
    rw [double_add, double_round_eq
      ((3752999689475413 / 1125899906842624 : ℚ) +
        (2501999792983609 / 4503599627370496 : ℚ)) 8756999275442630 (-51)
      (by rw [abs_of_pos (by norm_num)]; norm_num)
      (by rw [abs_of_pos (by norm_num)]; norm_num)
      (round_half_even_tie_up _ _ (by norm_num) (by decide))]
    norm_num
  have a8 : double_add (4378499637721315 / 1125899906842624 : ℚ)
      (2501999792983609 / 4503599627370496 : ℚ) =
      (5003999585967217 / 1125899906842624 : ℚ) := by
    rw [double_add, double_round_eq
      ((4378499637721315 / 1125899906842624 : ℚ) +
        (2501999792983609 / 4503599627370496 : ℚ)) 5003999585967217 (-50)
      (by rw [abs_of_pos (by norm_num)]; norm_num)
      (by rw [abs_of_pos (by norm_num)]; norm_num)
      (round_half_even_near _ _ (by norm_num) (by norm_num))]
    norm_num
  have a9 : double_add (5003999585967217 / 1125899906842624 : ℚ)
      (2501999792983609 / 4503599627370496 : ℚ) =
      (5629499534213119 / 1125899906842624 : ℚ) := by
    rw [double_add, double_round_eq
      ((5003999585967217 / 1125899906842624 : ℚ) +
        (2501999792983609 / 4503599627370496 : ℚ)) 5629499534213119 (-50)
      (by rw [abs_of_pos (by norm_num)]; norm_num)
      (by rw [abs_of_pos (by norm_num)]; norm_num)
      (round_half_even_near _ _ (by norm_num) (by norm_num))]
    norm_num
  constructor
  · simp only [scroll_buildup, hx, a1, a2, a3, a4, a5, a6, a7, a8, a9]
    norm_num
  · norm_num

/-- At 1400 dpi seven frames of one unit build up exactly 5, although the
build-up of six frames and the delta of the seventh, 4.285714285714286 and
0.7142857142857143, add up to less than 5: the sum rounds up. -/
theorem scroll_buildup_1400_reaches :
    scroll_buildup 1400 0 [(1, 0), (1, 10), (1, 20), (1, 30), (1, 40), (1, 50), (1, 60)] = 5 ∧
    scroll_buildup 1400 0 [(1, 0), (1, 10), (1, 20), (1, 30), (1, 40), (1, 50)] +
      scroll_delta 1400 1 < 5 := by
  have hs : double_round ((1400 : ℚ) / 1000) = (3152519739159347 / 2251799813685248 : ℚ) := by
    rw [double_round_eq ((1400 : ℚ) / 1000) 6305039478318694 (-52)
      (by rw [abs_of_pos (by norm_num)]; norm_num)
      (by rw [abs_of_pos (by norm_num)]; norm_num)
      (round_half_even_near _ _ (by norm_num) (by norm_num))]
    norm_num
  have hq : double_round ((1 : ℚ) / (3152519739159347 / 2251799813685248 : ℚ)) =
      (6433713753386423 / 9007199254740992 : ℚ) := by
    rw [double_round_eq ((1 : ℚ) / (3152519739159347 / 2251799813685248 : ℚ)) 6433713753386423 (-53)
      (by rw [abs_of_pos (by norm_num)]; norm_num)
      (by rw [abs_of_pos (by norm_num)]; norm_num)
      (round_half_even_near _ _ (by norm_num) (by norm_num))]
    norm_num
  have hx : scroll_delta 1400 1 = (6433713753386423 / 9007199254740992 : ℚ) := by
    simp only [scroll_delta, double_div, DEFAULT_MOUSE_DPI, Int.cast_ofNat, Int.cast_one,
      Nat.cast_ofNat, hs, hq]
  have a1 : double_add (0 : ℚ)
      (6433713753386423 / 9007199254740992 : ℚ) =
      (6433713753386423 / 9007199254740992 : ℚ) := by
    rw [double_add, double_round_eq
      ((0 : ℚ) +
        (6433713753386423 / 9007199254740992 : ℚ)) 6433713753386423 (-53)
      (by rw [abs_of_pos (by norm_num)]; norm_num)
      (by rw [abs_of_pos (by norm_num)]; norm_num)
      (round_half_even_near _ _ (by norm_num) (by norm_num))]
    norm_num
  have a2 : double_add (6433713753386423 / 9007199254740992 : ℚ)
      (6433713753386423 / 9007199254740992 : ℚ) =
      (6433713753386423 / 4503599627370496 : ℚ) := by
    rw [double_add, double_round_eq
      ((6433713753386423 / 9007199254740992 : ℚ) +
        (6433713753386423 / 9007199254740992 : ℚ)) 6433713753386423 (-52)
      (by rw [abs_of_pos (by norm_num)]; norm_num)
      (by rw [abs_of_pos (by norm_num)]; norm_num)
      (round_half_even_near _ _ (by norm_num) (by norm_num))]
    norm_num
  have a3 : double_add (6433713753386423 / 4503599627370496 : ℚ)
      (6433713753386423 / 9007199254740992 : ℚ) =
      (4825285315039817 / 2251799813685248 : ℚ) := by
    rw [double_add, double_round_eq
      ((6433713753386423 / 4503599627370496 : ℚ) +
        (6433713753386423 / 9007199254740992 : ℚ)) 4825285315039817 (-51)
      (by rw [abs_of_pos (by norm_num)]; norm_num)
      (by rw [abs_of_pos (by norm_num)]; norm_num)
      (round_half_even_near _ _ (by norm_num) (by norm_num))]
    norm_num
  have a4 : double_add (4825285315039817 / 2251799813685248 : ℚ)
      (6433713753386423 / 9007199254740992 : ℚ) =
      (6433713753386423 / 2251799813685248 : ℚ) := by
    rw [double_add, double_round_eq
      ((4825285315039817 / 2251799813685248 : ℚ) +
        (6433713753386423 / 9007199254740992 : ℚ)) 6433713753386423 (-51)
      (by rw [abs_of_pos (by norm_num)]; norm_num)
      (by rw [abs_of_pos (by norm_num)]; norm_num)
      (round_half_even_near _ _ (by norm_num) (by norm_num))]
    norm_num
  have a5 : double_add (6433713753386423 / 2251799813685248 : ℚ)
      (6433713753386423 / 9007199254740992 : ℚ) =
      (8042142191733029 / 2251799813685248 : ℚ) := by
    rw [double_add, double_round_eq
      ((6433713753386423 / 2251799813685248 : ℚ) +
        (6433713753386423 / 9007199254740992 : ℚ)) 8042142191733029 (-51)
      (by rw [abs_of_pos (by norm_num)]; norm_num)
      (by rw [abs_of_pos (by norm_num)]; norm_num)
      (round_half_even_near _ _ (by norm_num) (by norm_num))]
    norm_num
  have a6 : double_add (8042142191733029 / 2251799813685248 : ℚ)
      (6433713753386423 / 9007199254740992 : ℚ) =
      (4825285315039817 / 1125899906842624 : ℚ) := by
    rw [double_add, double_round_eq
      ((8042142191733029 / 2251799813685248 : ℚ) +
        (6433713753386423 / 9007199254740992 : ℚ)) 4825285315039817 (-50)
      (by rw [abs_of_pos (by norm_num)]; norm_num)
      (by rw [abs_of_pos (by norm_num)]; norm_num)
      (round_half_even_near _ _ (by norm_num) (by norm_num))]
    norm_num
  have a7 : double_add (4825285315039817 / 1125899906842624 : ℚ)
      (6433713753386423 / 9007199254740992 : ℚ) =
      (5 : ℚ) := by
    rw [double_add, double_round_eq
      ((4825285315039817 / 1125899906842624 : ℚ) +
        (6433713753386423 / 9007199254740992 : ℚ)) 5629499534213120 (-50)
      (by rw [abs_of_pos (by norm_num)]; norm_num)
      (by rw [abs_of_pos (by norm_num)]; norm_num)
      (round_half_even_near _ _ (by norm_num) (by norm_num))]
    norm_num
  constructor
  · simp only [scroll_buildup, hx, a1, a2, a3, a4, a5, a6, a7]
  · simp only [scroll_buildup, hx, a1, a2, a3, a4, a5, a6]
    norm_num

/-! ## evdev device: coalescing of relative motion (C18) -/

/-- A run of `REL_X` and `REL_Y` events on a device with a relative motion
pending, or with nothing pending, only adds to `rel.dx` and `rel.dy`. -/
theorem fallback_process_all_rel (kc_mod : Nat) (es : List (input_event × Nat))
    (hes : ∀ p ∈ es, p.1.type = EV_REL ∧ (p.1.code = REL_X ∨ p.1.code = REL_Y)) :
    ∀ device : evdev_device,
      (device.pending_event = EVDEV_RELATIVE_MOTION ∨
        (device.pending_event = EVDEV_NONE ∧ es ≠ [])) →
      fallback_process_all kc_mod device es = some (rel_accumulate device es) := by
  induction es with
  | nil =>
    intro device h
    rcases h with h | ⟨_, h⟩
    · obtain ⟨_, _, _, _, _, _, _, ⟨_, _⟩, _, _, _, _, _, _, _⟩ := device
      simp only at h
      subst h
      simp [fallback_process_all, rel_accumulate, rel_sum_x, rel_sum_y]
    · exact absurd rfl h
  | cons p rest ih =>
    intro device h
    obtain ⟨e, t⟩ := p
    have he := hes (e, t) (List.mem_cons_self _ _)
    have hrest : ∀ p ∈ rest, p.1.type = EV_REL ∧ (p.1.code = REL_X ∨ p.1.code = REL_Y) :=
      fun p hp => hes p (List.mem_cons_of_mem _ hp)
    have hflush : (if device.pending_event ≠ EVDEV_RELATIVE_MOTION then
        evdev_flush_pending_event device t else device) = device := by
      rcases h with h | ⟨h, _⟩
      · simp [h]
      · simp [h, evdev_flush_pending_event]
    simp only at he
    rcases he with ⟨hty, hx | hy⟩
    · have hstep : fallback_process kc_mod device e t =
          some { device with rel := { device.rel with dx := device.rel.dx + e.value }
                             pending_event := EVDEV_RELATIVE_MOTION } := by
        simp only [fallback_process, hty, if_true, evdev_process_relative, hx, hflush]
      simp only [fallback_process_all, hstep]
      rw [ih hrest _ (Or.inl rfl)]
      simp [rel_accumulate, rel_sum_x, rel_sum_y, hx, REL_X, REL_Y, add_assoc]
    · have hnx : e.code ≠ REL_X := by rw [hy]; decide
      have hstep : fallback_process kc_mod device e t =
          some { device with rel := { device.rel with dy := device.rel.dy + e.value }
                             pending_event := EVDEV_RELATIVE_MOTION } := by
        simp only [fallback_process, hty, if_true, evdev_process_relative, hnx, if_false,
          hy, hflush, (by decide : ¬ REL_Y = REL_X)]
      simp only [fallback_process_all, hstep]
      rw [ih hrest _ (Or.inl rfl)]
      simp [rel_accumulate, rel_sum_x, rel_sum_y, hy, REL_X, REL_Y, add_assoc]

/-- Feeding two runs of events one after the other. -/
theorem fallback_process_all_append (kc_mod : Nat) (a b : List (input_event × Nat)) :
    ∀ device : evdev_device,
      fallback_process_all kc_mod device (a ++ b) =
        (fallback_process_all kc_mod device a).bind
          (fun d1 => fallback_process_all kc_mod d1 b) := by
  induction a with
  | nil => intro device; rfl
  | cons p rest ih =>
    intro device
    obtain ⟨e, t⟩ := p
    simp only [List.cons_append, fallback_process_all]
    cases fallback_process kc_mod device e t with
    | none => rfl
    | some d1 => exact ih d1

/-- C18. A non-empty run of `REL_X` and `REL_Y` events on a device with nothing
pending and `rel.dx = rel.dy = 0` hands the client nothing and leaves the sums
of the `REL_X` and of the `REL_Y` values in `rel.dx` and `rel.dy`, pending as
one relative motion. The `EV_SYN` after the run flushes it once, with those
sums: afterwards `rel.dx` and `rel.dy` are 0, nothing is pending, and unless
the motion is diverted to button scrolling the filter has seen exactly one
more motion, the sums each divided by `dpi / 1000`, both divisions in
`double`. -/
theorem rel_motion_coalesced (kc_mod : Nat) (device : evdev_device)
    (es : List (input_event × Nat)) (code : Nat) (value : Int) (time : Nat)
    (hp : device.pending_event = EVDEV_NONE)
    (hr : device.rel = { dx := 0, dy := 0 }) (hne : es ≠ [])
    (hes : ∀ p ∈ es, p.1.type = EV_REL ∧ (p.1.code = REL_X ∨ p.1.code = REL_Y)) :
    fallback_process_all kc_mod device es =
      some { device with rel := { dx := rel_sum_x es, dy := rel_sum_y es }
                         pending_event := EVDEV_RELATIVE_MOTION } ∧
    ∃ d, fallback_process_all kc_mod device
        (es ++ [({ type := EV_SYN, code := code, value := value }, time)]) = some d ∧
      d = { flush_relative_motion
              { device with rel := { dx := rel_sum_x es, dy := rel_sum_y es }
                            pending_event := EVDEV_RELATIVE_MOTION } time with
            pending_event := EVDEV_NONE } ∧
      d.rel = { dx := 0, dy := 0 } ∧ d.pending_event = EVDEV_NONE ∧
      (¬(device.scroll.method = LIBINPUT_CONFIG_SCROLL_ON_BUTTON_DOWN ∧
          hw_is_key_down device device.scroll.button = true) →
        d.pointer.filter.seen = device.pointer.filter.seen ++
          [(double_div (rel_sum_x es : ℚ) (double_div (device.dpi : ℚ) 1000),
            double_div (rel_sum_y es : ℚ) (double_div (device.dpi : ℚ) 1000),
            time)]) := by
  have hacc := fallback_process_all_rel kc_mod es hes device (Or.inr ⟨hp, hne⟩)
  have hd1 : rel_accumulate device es =
      { device with rel := { dx := rel_sum_x es, dy := rel_sum_y es }
                    pending_event := EVDEV_RELATIVE_MOTION } := by
    simp [rel_accumulate, hr]
  rw [hd1] at hacc
  refine ⟨hacc, _, ?_, rfl, ?_, rfl, ?_⟩
  · rw [fallback_process_all_append, hacc]
    simp [fallback_process_all, fallback_process, EV_SYN, EV_REL, EV_ABS, EV_KEY,
      evdev_need_touch_frame, evdev_flush_pending_event]
  · exact flush_relative_motion_rel _ _
  · intro hns
    have hns1 : ¬(device.scroll.method = LIBINPUT_CONFIG_SCROLL_ON_BUTTON_DOWN ∧
        device.hw_key_mask device.scroll.button = true) := hns
    unfold flush_relative_motion
    simp only [hw_is_key_down, long_bit_is_set, hns1, if_false, filter_dispatch, emit]
    split_ifs <;> simp [DEFAULT_MOUSE_DPI]

/-- C18 at a mouse of 1000 dpi: `REL_X 3`, `REL_Y -2`, `REL_X 4`, `EV_SYN` is
flushed as the one motion `(7, -2)`. -/
theorem rel_motion_coalesced_witness :
    ∃ d, fallback_process_all 256 mouse
        ([({ type := EV_REL, code := REL_X, value := 3 }, 1),
          ({ type := EV_REL, code := REL_Y, value := -2 }, 2),
          ({ type := EV_REL, code := REL_X, value := 4 }, 3)] ++
         [({ type := EV_SYN, code := 0, value := 0 }, 5)]) = some d ∧
      d.rel = { dx := 0, dy := 0 } ∧ d.pending_event = EVDEV_NONE ∧
      d.pointer.filter.seen = [(7, -2, 5)] := by
  obtain ⟨_, d, h1, _, h3, h4, h5⟩ := rel_motion_coalesced 256 mouse
    [({ type := EV_REL, code := REL_X, value := 3 }, 1),
     ({ type := EV_REL, code := REL_Y, value := -2 }, 2),
     ({ type := EV_REL, code := REL_X, value := 4 }, 3)] 0 0 5 rfl rfl (by simp)
    (by simp [EV_REL, REL_X, REL_Y])
  refine ⟨d, h1, h3, h4, ?_⟩
  rw [h5 (by decide)]
  have e1 : double_div (1000 : ℚ) 1000 = 1 := by
    have := double_round_intCast 1 (by norm_num)
    rw [double_div]
    norm_num
    simpa using this
  have e2 : double_div (7 : ℚ) 1 = 7 := by
    have := double_round_intCast 7 (by norm_num)
    rw [double_div]
    simpa using this
  have e3 : double_div (-2 : ℚ) 1 = -2 := by
    have := double_round_intCast (-2) (by norm_num)
    rw [double_div]
    simpa using this
  simp [mouse, fresh_device, identity_filter, rel_sum_x, rel_sum_y, REL_X, REL_Y, e1, e2,
    e3]

/-! ## evdev device: allocation of a seat slot (C15) -/

/-- The first element of a stretch of numbers that satisfies `p`, if any, is
the least one. -/
theorem find_range_spec (p : Nat → Bool) (n : Nat) :
    ∀ s : Nat,
      ((List.range' s n).find? p = none ∧ ∀ j, s ≤ j → j < s + n → p j = false) ∨
      ∃ i, (List.range' s n).find? p = some i ∧ s ≤ i ∧ i < s + n ∧ p i = true ∧
        ∀ j, s ≤ j → j < i → p j = false := by
  induction n with
  | zero =>
    intro s
    exact Or.inl ⟨rfl, fun j h1 h2 => by omega⟩
  | succ n ih =>
    intro s
    by_cases hs : p s = true
    · exact Or.inr ⟨s, by simp [List.range'_succ, hs], le_refl _, by omega, hs,
        fun j h1 h2 => by omega⟩
    · have hs1 : p s = false := by simpa using hs
      rcases ih (s + 1) with ⟨h1, h2⟩ | ⟨i, h1, h2, h3, h4, h5⟩
      · refine Or.inl ⟨by simp [List.range'_succ, hs1, h1], fun j hj1 hj2 => ?_⟩
        by_cases hj : j = s
        · rw [hj]; exact hs1
        · exact h2 j (by omega) (by omega)
      · refine Or.inr ⟨i, by simp [List.range'_succ, hs1, h1], by omega, by omega, h4,
          fun j hj1 hj2 => ?_⟩
        by_cases hj : j = s
        · rw [hj]; exact hs1
        · exact h5 j (by omega) hj2

/-- `ffs` gives one plus the index of the lowest set bit among the low 32 bits,
or 0 if none of them is set. -/
theorem ffs_spec (w : Nat) :
    (ffs w = 0 ∧ ∀ j, j < 32 → w.testBit j = false) ∨
    ∃ i, ffs w = i + 1 ∧ i < 32 ∧ w.testBit i = true ∧
      ∀ j, j < i → w.testBit j = false := by
  unfold ffs
  rw [List.range_eq_range']
  rcases find_range_spec (fun i => w.testBit i) 32 0 with ⟨h1, h2⟩ | ⟨i, h1, _, h3, h4, h5⟩
  · rw [h1]
    exact Or.inl ⟨rfl, fun j hj => h2 j (Nat.zero_le _) (by omega)⟩
  · rw [h1]
    exact Or.inr ⟨i, rfl, by omega, h4, fun j hj => h5 j (Nat.zero_le _) hj⟩

/-- The complement on 32 bits flips each of the low 32 bits. -/
theorem testBit_not32 (w j : Nat) (hj : j < 32) :
    (w ^^^ 0xffffffff).testBit j = !w.testBit j := by
  rw [Nat.testBit_xor, show (0xffffffff : Nat) = 2 ^ 32 - 1 from rfl,
    Nat.testBit_two_pow_sub_one]
  simp [hj]

/-- `ffs(~slot_map) - 1` is -1 if all 32 bits of `slot_map` are set, and the
index of its lowest clear bit otherwise. -/
theorem next_seat_slot_spec (seat : libinput_seat) :
    (next_seat_slot seat = -1 ∧ ∀ j, j < 32 → seat.slot_map.testBit j = true) ∨
    ∃ i : Nat, next_seat_slot seat = (i : Int) ∧ i < 32 ∧
      seat.slot_map.testBit i = false ∧ ∀ j, j < i → seat.slot_map.testBit j = true := by
  unfold next_seat_slot
  rcases ffs_spec (seat.slot_map ^^^ 0xffffffff) with ⟨h1, h2⟩ | ⟨i, h1, h2, h3, h4⟩
  · refine Or.inl ⟨by rw [h1]; rfl, fun j hj => ?_⟩
    have := h2 j hj
    rw [testBit_not32 _ _ hj] at this
    simpa using this
  · refine Or.inr ⟨i, by rw [h1]; push_cast; ring, h2, ?_, fun j hj => ?_⟩
    · rw [testBit_not32 _ _ h2] at h3
      simpa using h3
    · have := h4 j hj
      rw [testBit_not32 _ _ (by omega)] at this
      simpa using this

/-- Reading a slot of the slot array back after its `seat_slot` was assigned. -/
theorem mt_slot_get_set_seat_slot (d : evdev_device) (slot v : Int)
    (h0 : 0 ≤ slot) (h1 : slot.toNat < d.mt.slots.length) :
    mt_slot_get (mt_slot_set_seat_slot d slot v) slot =
      { mt_slot_get d slot with seat_slot := v } := by
  simp [mt_slot_get, mt_slot_set_seat_slot, h0, List.getD_eq_getElem?_getD,
    List.getElem?_modify_eq, List.getElem?_eq_getElem h1]

/-- The bit taken by `slot_map |= 1 << i` is set. -/
theorem testBit_take (w i : Nat) : (w ||| 1 <<< i).testBit i = true := by
  simp [Nat.testBit_or, Nat.testBit_shiftLeft]

/-- The case `EVDEV_ABSOLUTE_MT_DOWN` on a TOUCH-capable device whose active
slot is free: with a clear bit among the 32 the lowest one is allocated and one
touch-down emitted, with none the slot stays free and nothing is emitted. -/
theorem flush_mt_down_spec (device : evdev_device) (time : Nat)
    (htouch : device.seat_caps.touch = true)
    (h0 : 0 ≤ device.mt.slot) (h1 : device.mt.slot.toNat < device.mt.slots.length)
    (hfree : (mt_slot_get device device.mt.slot).seat_slot = -1) :
    ((∃ j, j < 32 ∧ device.seat.slot_map.testBit j = false) →
      ∃ i : Nat, i < 32 ∧ device.seat.slot_map.testBit i = false ∧
        (∀ j, j < i → device.seat.slot_map.testBit j = true) ∧
        (mt_slot_get (flush_mt_down device time) device.mt.slot).seat_slot = (i : Int) ∧
        (flush_mt_down device time).seat.slot_map = device.seat.slot_map ||| 1 <<< i ∧
        (flush_mt_down device time).emitted = device.emitted ++
          [libinput_event.touch_down time device.mt.slot (i : Int)
            (transform_absolute device (mt_slot_get device device.mt.slot).x
              (mt_slot_get device device.mt.slot).y).1
            (transform_absolute device (mt_slot_get device device.mt.slot).x
              (mt_slot_get device device.mt.slot).y).2]) ∧
    ((∀ j, j < 32 → device.seat.slot_map.testBit j = true) →
      (flush_mt_down device time).emitted = device.emitted ∧
      (flush_mt_down device time).seat = device.seat ∧
      (flush_mt_down device time).mt.slot = device.mt.slot ∧
      (flush_mt_down device time).seat_caps = device.seat_caps ∧
      (flush_mt_down device time).mt.slots.length = device.mt.slots.length ∧
      (mt_slot_get (flush_mt_down device time) device.mt.slot).seat_slot = -1) := by
  have hflush : flush_mt_down device time =
      if next_seat_slot device.seat = -1 then
        mt_slot_set_seat_slot device device.mt.slot (next_seat_slot device.seat)
      else
        emit (seat_slot_take
            (mt_slot_set_seat_slot device device.mt.slot (next_seat_slot device.seat))
            (next_seat_slot device.seat))
          (libinput_event.touch_down time device.mt.slot (next_seat_slot device.seat)
            (transform_absolute device (mt_slot_get device device.mt.slot).x
              (mt_slot_get device device.mt.slot).y).1
            (transform_absolute device (mt_slot_get device device.mt.slot).x
              (mt_slot_get device device.mt.slot).y).2) := by
    simp only [flush_mt_down, htouch, hfree]
    simp [mt_slot_get, mt_slot_set_seat_slot, h0, seat_slot_take, transform_absolute,
      List.getD_eq_getElem?_getD, List.getElem?_modify_eq, List.getElem?_eq_getElem h1]
  rcases next_seat_slot_spec device.seat with ⟨hn, hall⟩ | ⟨i, hn, hi, hclear, hlow⟩
  · refine ⟨fun ⟨j, hj, hjc⟩ => ?_, fun _ => ?_⟩
    · rw [hall j hj] at hjc
      exact absurd hjc (by simp)
    · rw [hflush, hn, if_pos rfl]
      refine ⟨?_, ?_, ?_, ?_, ?_, ?_⟩
      · simp [mt_slot_set_seat_slot, h0]
      · simp [mt_slot_set_seat_slot, h0]
      · simp [mt_slot_set_seat_slot, h0]
      · simp [mt_slot_set_seat_slot, h0]
      · simp [mt_slot_set_seat_slot, h0]
      · rw [mt_slot_get_set_seat_slot _ _ _ h0 h1]
  · refine ⟨fun _ => ⟨i, hi, hclear, hlow, ?_, ?_, ?_⟩, fun hall => ?_⟩
    · rw [hflush, hn, if_neg (by omega)]
      show (mt_slot_get (mt_slot_set_seat_slot device device.mt.slot i)
        device.mt.slot).seat_slot = i
      rw [mt_slot_get_set_seat_slot _ _ _ h0 h1]
    · rw [hflush, hn, if_neg (by omega)]
      simp [mt_slot_set_seat_slot, h0, seat_slot_take, emit]
    · rw [hflush, hn, if_neg (by omega)]
      simp [mt_slot_set_seat_slot, h0, seat_slot_take, emit]
    · rw [hall i hi] at hclear
      exact absurd hclear (by simp)

/-- The case `EVDEV_ABSOLUTE_MT_UP` on a slot that holds no seat slot emits
nothing and leaves the seat alone. -/
theorem flush_mt_up_free (device : evdev_device) (time : Nat)
    (htouch : device.seat_caps.touch = true)
    (h0 : 0 ≤ device.mt.slot) (h1 : device.mt.slot.toNat < device.mt.slots.length)
    (hfree : (mt_slot_get device device.mt.slot).seat_slot = -1) :
    (flush_mt_up device time).emitted = device.emitted ∧
    (flush_mt_up device time).seat = device.seat ∧
    (mt_slot_get (flush_mt_up device time) device.mt.slot).seat_slot = -1 := by
  have hflush : flush_mt_up device time =
      mt_slot_set_seat_slot device device.mt.slot (-1) := by
    simp only [flush_mt_up, htouch, hfree]
    simp
  rw [hflush, mt_slot_get_set_seat_slot _ _ _ h0 h1]
  simp [mt_slot_set_seat_slot, h0]

/-- The case `EVDEV_ABSOLUTE_TOUCH_DOWN` on a TOUCH-capable device whose
`abs.seat_slot` is free, as `flush_mt_down_spec`. -/
theorem flush_touch_down_spec (device : evdev_device) (time : Nat)
    (htouch : device.seat_caps.touch = true)
    (hfree : device.abs.seat_slot = -1) :
    ((∃ j, j < 32 ∧ device.seat.slot_map.testBit j = false) →
      ∃ i : Nat, i < 32 ∧ device.seat.slot_map.testBit i = false ∧
        (∀ j, j < i → device.seat.slot_map.testBit j = true) ∧
        (flush_touch_down device time).abs.seat_slot = (i : Int) ∧
        (flush_touch_down device time).seat.slot_map = device.seat.slot_map ||| 1 <<< i ∧
        (flush_touch_down device time).emitted = device.emitted ++
          [libinput_event.touch_down time (-1) (i : Int)
            (transform_absolute device device.abs.x device.abs.y).1
            (transform_absolute device device.abs.x device.abs.y).2]) ∧
    ((∀ j, j < 32 → device.seat.slot_map.testBit j = true) →
      (flush_touch_down device time).emitted = device.emitted ∧
      (flush_touch_down device time).seat = device.seat ∧
      (flush_touch_down device time).seat_caps = device.seat_caps ∧
      (flush_touch_down device time).abs.seat_slot = -1) := by
  have hflush : flush_touch_down device time =
      if next_seat_slot device.seat = -1 then
        { device with abs := { device.abs with seat_slot := next_seat_slot device.seat } }
      else
        emit (seat_slot_take
            { device with abs := { device.abs with
                seat_slot := next_seat_slot device.seat } }
            (next_seat_slot device.seat))
          (libinput_event.touch_down time (-1) (next_seat_slot device.seat)
            (transform_absolute device device.abs.x device.abs.y).1
            (transform_absolute device device.abs.x device.abs.y).2) := by
    simp only [flush_touch_down, htouch, hfree]
    simp [seat_slot_take, transform_absolute]
  rcases next_seat_slot_spec device.seat with ⟨hn, hall⟩ | ⟨i, hn, hi, hclear, hlow⟩
  · refine ⟨fun ⟨j, hj, hjc⟩ => ?_, fun _ => ?_⟩
    · rw [hall j hj] at hjc
      exact absurd hjc (by simp)
    · rw [hflush, hn, if_pos rfl]
      exact ⟨rfl, rfl, rfl, rfl⟩
  · refine ⟨fun _ => ⟨i, hi, hclear, hlow, ?_, ?_, ?_⟩, fun hall => ?_⟩
    · rw [hflush, hn, if_neg (by omega)]
      rfl
    · rw [hflush, hn, if_neg (by omega)]
      simp [seat_slot_take, emit]
    · rw [hflush, hn, if_neg (by omega)]
      simp [seat_slot_take, emit]
    · rw [hall i hi] at hclear
      exact absurd hclear (by simp)

/-- The case `EVDEV_ABSOLUTE_TOUCH_UP` while `abs.seat_slot` is -1 emits nothing
and leaves the seat alone. -/
theorem flush_touch_up_free (device : evdev_device) (time : Nat)
    (htouch : device.seat_caps.touch = true)
    (hfree : device.abs.seat_slot = -1) :
    (flush_touch_up device time).emitted = device.emitted ∧
    (flush_touch_up device time).seat = device.seat ∧
    (flush_touch_up device time).abs.seat_slot = -1 := by
  simp only [flush_touch_up, htouch, hfree]
  simp

/-- C15. On a TOUCH-capable device whose slot has `seat_slot == -1`, the flush
of `EVDEV_ABSOLUTE_MT_DOWN` (first part) or `EVDEV_ABSOLUTE_TOUCH_DOWN` (second
part) gives the slot the index of the lowest clear bit of `seat->slot_map`,
sets that bit and emits exactly one touch-down; if all 32 bits are set, it
emits nothing, leaves `slot_map` as it is and `seat_slot` at -1, and the later
UP for that slot emits nothing and leaves `slot_map` as it is. -/
theorem seat_slot_allocation (device : evdev_device) (time later : Nat)
    (htouch : device.seat_caps.touch = true) :
    (device.pending_event = EVDEV_ABSOLUTE_MT_DOWN → 0 ≤ device.mt.slot →
      device.mt.slot.toNat < device.mt.slots.length →
      (mt_slot_get device device.mt.slot).seat_slot = -1 →
      ((∃ j, j < 32 ∧ device.seat.slot_map.testBit j = false) →
        ∃ i : Nat, i < 32 ∧ device.seat.slot_map.testBit i = false ∧
          (∀ j, j < i → device.seat.slot_map.testBit j = true) ∧
          (mt_slot_get (evdev_flush_pending_event device time)
            device.mt.slot).seat_slot = (i : Int) ∧
          (evdev_flush_pending_event device time).seat.slot_map =
            device.seat.slot_map ||| 1 <<< i ∧
          (evdev_flush_pending_event device time).seat.slot_map.testBit i = true ∧
          (evdev_flush_pending_event device time).emitted = device.emitted ++
            [libinput_event.touch_down time device.mt.slot (i : Int)
              (transform_absolute device (mt_slot_get device device.mt.slot).x
                (mt_slot_get device device.mt.slot).y).1
              (transform_absolute device (mt_slot_get device device.mt.slot).x
                (mt_slot_get device device.mt.slot).y).2]) ∧
      ((∀ j, j < 32 → device.seat.slot_map.testBit j = true) →
        (evdev_flush_pending_event device time).emitted = device.emitted ∧
        (evdev_flush_pending_event device time).seat = device.seat ∧
        (mt_slot_get (evdev_flush_pending_event device time)
          device.mt.slot).seat_slot = -1 ∧
        (evdev_flush_pending_event
          { evdev_flush_pending_event device time with
            pending_event := EVDEV_ABSOLUTE_MT_UP } later).emitted = device.emitted ∧
        (evdev_flush_pending_event
          { evdev_flush_pending_event device time with
            pending_event := EVDEV_ABSOLUTE_MT_UP } later).seat = device.seat)) ∧
    (device.pending_event = EVDEV_ABSOLUTE_TOUCH_DOWN → device.abs.seat_slot = -1 →
      ((∃ j, j < 32 ∧ device.seat.slot_map.testBit j = false) →
        ∃ i : Nat, i < 32 ∧ device.seat.slot_map.testBit i = false ∧
          (∀ j, j < i → device.seat.slot_map.testBit j = true) ∧
          (evdev_flush_pending_event device time).abs.seat_slot = (i : Int) ∧
          (evdev_flush_pending_event device time).seat.slot_map =
            device.seat.slot_map ||| 1 <<< i ∧
          (evdev_flush_pending_event device time).seat.slot_map.testBit i = true ∧
          (evdev_flush_pending_event device time).emitted = device.emitted ++
            [libinput_event.touch_down time (-1) (i : Int)
              (transform_absolute device device.abs.x device.abs.y).1
              (transform_absolute device device.abs.x device.abs.y).2]) ∧
      ((∀ j, j < 32 → device.seat.slot_map.testBit j = true) →
        (evdev_flush_pending_event device time).emitted = device.emitted ∧
        (evdev_flush_pending_event device time).seat = device.seat ∧
        (evdev_flush_pending_event device time).abs.seat_slot = -1 ∧
        (evdev_flush_pending_event
          { evdev_flush_pending_event device time with
            pending_event := EVDEV_ABSOLUTE_TOUCH_UP } later).emitted = device.emitted ∧
        (evdev_flush_pending_event
          { evdev_flush_pending_event device time with
            pending_event := EVDEV_ABSOLUTE_TOUCH_UP } later).seat = device.seat)) := by
  constructor
  · intro hp h0 h1 hfree
    have hf : evdev_flush_pending_event device time =
        { flush_mt_down device time with pending_event := EVDEV_NONE } := by
      simp [evdev_flush_pending_event, hp]
    have hspec := flush_mt_down_spec device time htouch h0 h1 hfree
    refine ⟨fun hex => ?_, fun hall => ?_⟩
    · obtain ⟨i, hi, hclear, hlow, hs, hm, he⟩ := hspec.1 hex
      refine ⟨i, hi, hclear, hlow, ?_, ?_, ?_, ?_⟩
      · rw [hf]; exact hs
      · rw [hf]; exact hm
      · rw [hf]
        show (flush_mt_down device time).seat.slot_map.testBit i = true
        rw [hm]
        exact testBit_take _ _
      · rw [hf]; exact he
    · obtain ⟨he, hs, hsl, hc, hlen, hfr⟩ := hspec.2 hall
      have hup := flush_mt_up_free
        { flush_mt_down device time with pending_event := EVDEV_ABSOLUTE_MT_UP } later
        (by show (flush_mt_down device time).seat_caps.touch = true; rw [hc]; exact htouch)
        (by show 0 ≤ (flush_mt_down device time).mt.slot; rw [hsl]; exact h0)
        (by show (flush_mt_down device time).mt.slot.toNat <
              (flush_mt_down device time).mt.slots.length
            rw [hsl, hlen]; exact h1)
        (by show (mt_slot_get (flush_mt_down device time)
              (flush_mt_down device time).mt.slot).seat_slot = -1
            rw [hsl]; exact hfr)
      refine ⟨by rw [hf]; exact he, by rw [hf]; exact hs, by rw [hf]; exact hfr, ?_, ?_⟩
      · rw [hf]
        simp only [evdev_flush_pending_event]
        exact hup.1.trans he
      · rw [hf]
        simp only [evdev_flush_pending_event]
        exact hup.2.1.trans hs
  · intro hp hfree
    have hf : evdev_flush_pending_event device time =
        { flush_touch_down device time with pending_event := EVDEV_NONE } := by
      simp [evdev_flush_pending_event, hp]
    have hspec := flush_touch_down_spec device time htouch hfree
    refine ⟨fun hex => ?_, fun hall => ?_⟩
    · obtain ⟨i, hi, hclear, hlow, hs, hm, he⟩ := hspec.1 hex
      refine ⟨i, hi, hclear, hlow, ?_, ?_, ?_, ?_⟩
      · rw [hf]; exact hs
      · rw [hf]; exact hm
      · rw [hf]
        show (flush_touch_down device time).seat.slot_map.testBit i = true
        rw [hm]
        exact testBit_take _ _
      · rw [hf]; exact he
    · obtain ⟨he, hs, hc, hfr⟩ := hspec.2 hall
      have hup := flush_touch_up_free
        { flush_touch_down device time with pending_event := EVDEV_ABSOLUTE_TOUCH_UP } later
        (by show (flush_touch_down device time).seat_caps.touch = true
            rw [hc]; exact htouch)
        hfr
      refine ⟨by rw [hf]; exact he, by rw [hf]; exact hs, by rw [hf]; exact hfr, ?_, ?_⟩
      · rw [hf]
        simp only [evdev_flush_pending_event]
        exact hup.1.trans he
      · rw [hf]
        simp only [evdev_flush_pending_event]
        exact hup.2.1.trans hs

/-- C15 at the touch screen: with `slot_map == 5` a touch gets a free seat
slot, with `slot_map == 0xffffffff` the down and the later up emit nothing, and
a single-touch screen allocates for `abs.seat_slot`. -/
theorem seat_slot_allocation_witness :
    (∃ i : Nat, i < 32 ∧ (5 : Nat).testBit i = false ∧
      (mt_slot_get (evdev_flush_pending_event
        { touch_screen with pending_event := EVDEV_ABSOLUTE_MT_DOWN
                            seat := { slot_map := 5 } } 7) 0).seat_slot = (i : Int) ∧
      (evdev_flush_pending_event
        { touch_screen with pending_event := EVDEV_ABSOLUTE_MT_DOWN
                            seat := { slot_map := 5 } } 7).seat.slot_map =
        5 ||| 1 <<< i) ∧
    ((evdev_flush_pending_event
        { touch_screen with pending_event := EVDEV_ABSOLUTE_MT_DOWN
                            seat := { slot_map := 0xffffffff } } 7).emitted = [] ∧
      (evdev_flush_pending_event
        { evdev_flush_pending_event
            { touch_screen with pending_event := EVDEV_ABSOLUTE_MT_DOWN
                                seat := { slot_map := 0xffffffff } } 7 with
          pending_event := EVDEV_ABSOLUTE_MT_UP } 9).seat.slot_map = 0xffffffff) ∧
    (∃ i : Nat, i < 32 ∧
      (evdev_flush_pending_event
        { touch_screen with pending_event := EVDEV_ABSOLUTE_TOUCH_DOWN
                            is_mt := false } 7).abs.seat_slot = (i : Int)) := by
  refine ⟨?_, ?_, ?_⟩
  · obtain ⟨i, hi, hclear, _, hs, hm, _, _⟩ :=
      ((seat_slot_allocation
        { touch_screen with pending_event := EVDEV_ABSOLUTE_MT_DOWN
                            seat := { slot_map := 5 } } 7 9 rfl).1
        rfl (by decide) (by decide) rfl).1 ⟨1, by decide, by decide⟩
    exact ⟨i, hi, hclear, hs, hm⟩
  · obtain ⟨he, _, _, _, hs⟩ :=
      ((seat_slot_allocation
        { touch_screen with pending_event := EVDEV_ABSOLUTE_MT_DOWN
                            seat := { slot_map := 0xffffffff } } 7 9 rfl).1
        rfl (by decide) (by decide) rfl).2
        (fun j hj => by
          show (2 ^ 32 - 1 : Nat).testBit j = true
          rw [Nat.testBit_two_pow_sub_one]
          simpa using hj)
    exact ⟨he, congrArg libinput_seat.slot_map hs⟩
  · obtain ⟨i, hi, _, _, hs, _⟩ :=
      ((seat_slot_allocation
        { touch_screen with pending_event := EVDEV_ABSOLUTE_TOUCH_DOWN
                            is_mt := false } 7 9 rfl).2 rfl rfl).1 ⟨0, by decide, by decide⟩
    exact ⟨i, hi, hs⟩

/-! ## The seat slot bitmap and its owners (C16) -/

/-- Replacing one element of a list changes the sum over the list by the
difference of the two elements. -/
theorem sum_map_set (f : evdev_device → Nat) (l : List evdev_device) :
    ∀ (k : Nat) (d d1 : evdev_device), l[k]? = some d →
      ((l.set k d1).map f).sum + f d = (l.map f).sum + f d1 := by
  induction l with
  | nil => intro k d d1 h; simp at h
  | cons a rest ih =>
    intro k d d1 h
    cases k with
    | zero =>
      simp at h
      subst h
      simp
      omega
    | succ k =>
      simp at h
      have := ih k d d1 h
      simp only [List.set_cons_succ, List.map_cons, List.sum_cons]
      omega

/-- An element of a list is at most the sum over the list. -/
theorem le_sum_map (f : evdev_device → Nat) (l : List evdev_device) :
    ∀ (k : Nat) (d : evdev_device), l[k]? = some d → f d ≤ (l.map f).sum := by
  induction l with
  | nil => intro k d h; simp at h
  | cons a rest ih =>
    intro k d h
    cases k with
    | zero =>
      simp at h
      subst h
      simp
    | succ k =>
      simp at h
      have := ih k d h
      simp
      omega

/-- Modifying one element of a list changes a count over the list by that
element alone. -/
theorem countP_modify (p : mt_slot → Bool) (f : mt_slot → mt_slot) (l : List mt_slot) :
    ∀ (n : Nat) (s : mt_slot), l[n]? = some s →
      (l.modify f n).countP p + (if p s then 1 else 0) =
        l.countP p + (if p (f s) then 1 else 0) := by
  induction l with
  | nil => intro n s h; simp at h
  | cons a rest ih =>
    intro n s h
    cases n with
    | zero =>
      simp at h
      subst h
      simp [List.countP_cons]
      omega
    | succ n =>
      simp at h
      have := ih n s h
      simp [List.countP_cons]
      omega

/-- The assignment to `mt.slots[slot].seat_slot` changes what the device holds
by that slot alone. -/
theorem device_holds_set_seat_slot (d : evdev_device) (slot v i : Int)
    (h0 : 0 ≤ slot) (h1 : slot.toNat < d.mt.slots.length) :
    device_holds (mt_slot_set_seat_slot d slot v) i +
        (if (mt_slot_get d slot).seat_slot = i then 1 else 0) =
      device_holds d i + (if v = i then 1 else 0) := by
  have hs : d.mt.slots[slot.toNat]? = some (mt_slot_get d slot) := by
    simp [mt_slot_get, h0, List.getD_eq_getElem?_getD, List.getElem?_eq_getElem h1]
  have := countP_modify (fun s => decide (s.seat_slot = i))
    (fun s => { s with seat_slot := v }) d.mt.slots slot.toNat _ hs
  simp only [decide_eq_true_eq] at this
  simp only [device_holds, mt_slot_set_seat_slot, h0, if_true]
  omega

theorem testBit_one_shiftLeft (n j : Nat) : (1 <<< n).testBit j = decide (n = j) := by
  rw [Nat.one_shiftLeft, Nat.testBit_two_pow]

/-- The statement `slot_map |= 1 << n` sets bit `n` and no other. -/
theorem seat_slot_taken_take (seat : libinput_seat) (n : Nat) (i : Int) (hn : n < 32) :
    seat_slot_taken { slot_map := seat.slot_map ||| 1 <<< n } i =
      (seat_slot_taken seat i || decide (i = (n : Int))) := by
  unfold seat_slot_taken
  by_cases hi : 0 ≤ i ∧ i < 32
  · have : (n = i.toNat) ↔ (i = (n : Int)) := by omega
    simp only [Nat.testBit_or, testBit_one_shiftLeft]
    simp [hi, this]
  · have : ¬ i = (n : Int) := by omega
    simp [hi, this]

/-- The statement `slot_map &= ~(1 << n)` clears bit `n` and no other. -/
theorem seat_slot_taken_give (seat : libinput_seat) (n : Nat) (i : Int) (hn : n < 32) :
    seat_slot_taken { slot_map := seat.slot_map &&& (0xffffffff ^^^ 1 <<< n) } i =
      (seat_slot_taken seat i && !decide (i = (n : Int))) := by
  unfold seat_slot_taken
  by_cases hi : 0 ≤ i ∧ i < 32
  · have h1 : (n = i.toNat) ↔ (i = (n : Int)) := by omega
    have h2 : i.toNat < 32 := by omega
    rw [Nat.testBit_and, Nat.testBit_xor, testBit_one_shiftLeft,
      show (0xffffffff : Nat) = 2 ^ 32 - 1 from rfl, Nat.testBit_two_pow_sub_one]
    simp [hi, h1, h2]
  · simp [hi]

theorem slot_map_take_lt (m n : Nat) (hm : m < 2 ^ 32) (hn : n < 32) :
    m ||| 1 <<< n < 2 ^ 32 := by
  apply Nat.or_lt_two_pow hm
  rw [Nat.one_shiftLeft]
  exact Nat.pow_lt_pow_right (by decide) hn

theorem slot_map_give_lt (m x : Nat) (hm : m < 2 ^ 32) : m &&& x < 2 ^ 32 :=
  lt_of_le_of_lt Nat.and_le_left hm

theorem seat_slots_balanced_refl (d : evdev_device) : seat_slots_balanced d d :=
  ⟨id, fun _ _ => rfl⟩

theorem seat_slots_balanced_of_eq (d0 d1 : evdev_device)
    (hs : d1.mt.slots = d0.mt.slots) (ha : d1.abs.seat_slot = d0.abs.seat_slot)
    (hseat : d1.seat = d0.seat) : seat_slots_balanced d0 d1 := by
  refine ⟨fun h => by rw [hseat]; exact h, fun i _ => ?_⟩
  simp [device_holds, hs, ha, hseat]

theorem seat_slots_balanced_flush_relative_motion (d : evdev_device) (time : Nat) :
    seat_slots_balanced d (flush_relative_motion d time) := by
  have h := flush_relative_motion_preserves
    (fun x => (x.mt.slots, x.abs.seat_slot, x.seat))
    (fun _ _ => rfl) (fun _ _ => rfl) (fun _ _ => rfl) (fun _ _ => rfl)
    (fun _ _ => rfl) (fun _ _ => rfl) d time
  simp only [Prod.mk.injEq] at h
  exact seat_slots_balanced_of_eq _ _ h.1 h.2.1 h.2.2

theorem seat_slots_balanced_flush_mt_down (d : evdev_device) (time : Nat)
    (h0 : 0 ≤ d.mt.slot) (h1 : d.mt.slot.toNat < d.mt.slots.length) :
    seat_slots_balanced d (flush_mt_down d time) := by
  unfold flush_mt_down
  simp only []
  split_ifs with c1 c2 c3
  · exact seat_slots_balanced_refl d
  · exact seat_slots_balanced_refl d
  · have hold : (mt_slot_get d d.mt.slot).seat_slot = -1 := by
      by_contra hne
      exact c2 hne
    refine ⟨fun h => by simpa [mt_slot_set_seat_slot, h0] using h, fun i hi => ?_⟩
    have hh := device_holds_set_seat_slot d d.mt.slot (next_seat_slot d.seat) i h0 h1
    rw [hold, c3, if_neg (fun h => hi h.symm)] at hh
    have hseat : (mt_slot_set_seat_slot d d.mt.slot (next_seat_slot d.seat)).seat =
        d.seat := by
      simp [mt_slot_set_seat_slot, h0]
    rw [hseat, c3]
    omega
  · have hold : (mt_slot_get d d.mt.slot).seat_slot = -1 := by
      by_contra hne
      exact c2 hne
    rcases next_seat_slot_spec d.seat with ⟨hn, _⟩ | ⟨n, hn, hn32, hclear, _⟩
    · exact absurd hn c3
    · have hseat : (emit (seat_slot_take
            (mt_slot_set_seat_slot d d.mt.slot (next_seat_slot d.seat))
            (next_seat_slot d.seat))
          (libinput_event.touch_down time d.mt.slot (next_seat_slot d.seat)
            (transform_absolute
              (seat_slot_take (mt_slot_set_seat_slot d d.mt.slot (next_seat_slot d.seat))
                (next_seat_slot d.seat))
              (mt_slot_get
                (seat_slot_take
                  (mt_slot_set_seat_slot d d.mt.slot (next_seat_slot d.seat))
                  (next_seat_slot d.seat)) d.mt.slot).x
              (mt_slot_get
                (seat_slot_take
                  (mt_slot_set_seat_slot d d.mt.slot (next_seat_slot d.seat))
                  (next_seat_slot d.seat)) d.mt.slot).y).1
            (transform_absolute
              (seat_slot_take (mt_slot_set_seat_slot d d.mt.slot (next_seat_slot d.seat))
                (next_seat_slot d.seat))
              (mt_slot_get
                (seat_slot_take
                  (mt_slot_set_seat_slot d d.mt.slot (next_seat_slot d.seat))
                  (next_seat_slot d.seat)) d.mt.slot).x
              (mt_slot_get
                (seat_slot_take
                  (mt_slot_set_seat_slot d d.mt.slot (next_seat_slot d.seat))
                  (next_seat_slot d.seat)) d.mt.slot).y).2)).seat =
          { slot_map := d.seat.slot_map ||| 1 <<< n } := by
        simp [emit, seat_slot_take, mt_slot_set_seat_slot, h0, hn]
      refine ⟨fun h => ?_, fun i hi => ?_⟩
      · rw [hseat]
        exact slot_map_take_lt _ _ h hn32
      · rw [hseat, seat_slot_taken_take _ _ _ hn32]
        have hh := device_holds_set_seat_slot d d.mt.slot (next_seat_slot d.seat) i h0 h1
        rw [hold, if_neg (fun h => hi h.symm)] at hh
        have hnt : seat_slot_taken d.seat (n : Int) = false := by
          simp [seat_slot_taken, hclear]
        show device_holds (mt_slot_set_seat_slot d d.mt.slot (next_seat_slot d.seat)) i +
          _ = _
        by_cases hin : i = (n : Int)
        · rw [hin] at hh ⊢
          simp only [hnt, hn, if_true] at hh ⊢
          simp
          omega
        · have hin2 : ¬ next_seat_slot d.seat = i := fun h => hin (h.symm.trans hn)
          simp only [hin, hin2, if_false, decide_False, Bool.or_false] at hh ⊢
          omega

theorem seat_slots_balanced_flush_mt_motion (d : evdev_device) (time : Nat) :
    seat_slots_balanced d (flush_mt_motion d time) := by
  unfold flush_mt_motion
  simp only []
  split_ifs
  · exact seat_slots_balanced_refl d
  · exact seat_slots_balanced_refl d
  · exact seat_slots_balanced_of_eq _ _ rfl rfl rfl

theorem seat_slots_balanced_flush_mt_up (d : evdev_device) (time : Nat)
    (h0 : 0 ≤ d.mt.slot) (h1 : d.mt.slot.toNat < d.mt.slots.length)
    (H : ∀ i : Int, i ≠ -1 → 1 ≤ device_holds d i → seat_slot_taken d.seat i = true) :
    seat_slots_balanced d (flush_mt_up d time) := by
  unfold flush_mt_up
  simp only []
  split_ifs with c1 c2
  · exact seat_slots_balanced_refl d
  · refine ⟨fun h => by simpa [mt_slot_set_seat_slot, h0] using h, fun i hi => ?_⟩
    have hh := device_holds_set_seat_slot d d.mt.slot (-1) i h0 h1
    rw [c2, if_neg (fun h => hi h.symm)] at hh
    have hseat : (mt_slot_set_seat_slot d d.mt.slot (-1)).seat = d.seat := by
      simp [mt_slot_set_seat_slot, h0]
    rw [hseat]
    omega
  · have hv := device_holds_set_seat_slot d d.mt.slot (-1)
      (mt_slot_get d d.mt.slot).seat_slot h0 h1
    rw [if_pos rfl, if_neg (fun h => c2 h.symm)] at hv
    have htaken := H _ c2 (by omega)
    have hrange : 0 ≤ (mt_slot_get d d.mt.slot).seat_slot ∧
        (mt_slot_get d d.mt.slot).seat_slot < 32 := by
      simp only [seat_slot_taken, Bool.and_eq_true, decide_eq_true_eq] at htaken
      exact htaken.1
    have hcast : (mt_slot_get d d.mt.slot).seat_slot =
        (((mt_slot_get d d.mt.slot).seat_slot.toNat : Nat) : Int) := by omega
    have hn32 : (mt_slot_get d d.mt.slot).seat_slot.toNat < 32 := by omega
    have hseat : (emit (seat_slot_give (mt_slot_set_seat_slot d d.mt.slot (-1))
          (mt_slot_get d d.mt.slot).seat_slot)
        (libinput_event.touch_up time d.mt.slot (mt_slot_get d d.mt.slot).seat_slot)).seat =
        { slot_map := d.seat.slot_map &&&
            (0xffffffff ^^^ 1 <<< (mt_slot_get d d.mt.slot).seat_slot.toNat) } := by
      simp [emit, seat_slot_give, mt_slot_set_seat_slot, h0]
    refine ⟨fun h => ?_, fun i hi => ?_⟩
    · rw [hseat]
      exact slot_map_give_lt _ _ h
    · rw [hseat, seat_slot_taken_give _ _ _ hn32, ← hcast]
      have hh := device_holds_set_seat_slot d d.mt.slot (-1) i h0 h1
      simp only [show ¬ ((-1 : Int) = i) from fun h => hi h.symm, if_false] at hh
      show device_holds (mt_slot_set_seat_slot d d.mt.slot (-1)) i + _ = _
      by_cases hin : i = (mt_slot_get d d.mt.slot).seat_slot
      · rw [hin] at hh ⊢
        simp only [htaken, if_true] at hh ⊢
        simp
        omega
      · have hin2 : ¬ (mt_slot_get d d.mt.slot).seat_slot = i := fun h => hin h.symm
        simp only [hin, hin2, if_false, decide_False, Bool.not_false, Bool.and_true] at hh ⊢
        omega

/-- The assignment to `abs.seat_slot` changes what the device holds by that
field alone. -/
theorem device_holds_set_abs (d : evdev_device) (v i : Int) :
    device_holds { d with abs := { d.abs with seat_slot := v } } i +
        (if d.abs.seat_slot = i then 1 else 0) =
      device_holds d i + (if v = i then 1 else 0) := by
  simp only [device_holds]
  omega

theorem seat_slots_balanced_flush_touch_down (d : evdev_device) (time : Nat) :
    seat_slots_balanced d (flush_touch_down d time) := by
  unfold flush_touch_down
  simp only []
  split_ifs with c1 c2 c3
  · exact seat_slots_balanced_refl d
  · exact seat_slots_balanced_refl d
  · have hold : d.abs.seat_slot = -1 := by
      by_contra hne
      exact c2 hne
    refine ⟨id, fun i hi => ?_⟩
    have hh := device_holds_set_abs d (next_seat_slot d.seat) i
    rw [hold, c3, if_neg (fun h => hi h.symm)] at hh
    rw [c3]
    show device_holds { d with abs := { d.abs with seat_slot := -1 } } i + _ =
      _ + (if seat_slot_taken d.seat i = true then 1 else 0)
    omega
  · have hold : d.abs.seat_slot = -1 := by
      by_contra hne
      exact c2 hne
    rcases next_seat_slot_spec d.seat with ⟨hn, _⟩ | ⟨n, hn, hn32, hclear, _⟩
    · exact absurd hn c3
    · have hseat : ∀ e : libinput_event, (emit (seat_slot_take
            { d with abs := { d.abs with seat_slot := next_seat_slot d.seat } }
            (next_seat_slot d.seat)) e).seat =
          { slot_map := d.seat.slot_map ||| 1 <<< n } := by
        intro e
        simp [emit, seat_slot_take, hn]
      refine ⟨fun h => ?_, fun i hi => ?_⟩
      · rw [hseat]
        exact slot_map_take_lt _ _ h hn32
      · rw [hseat, seat_slot_taken_take _ _ _ hn32]
        have hh := device_holds_set_abs d (next_seat_slot d.seat) i
        rw [hold, if_neg (fun h => hi h.symm)] at hh
        have hnt : seat_slot_taken d.seat (n : Int) = false := by
          simp [seat_slot_taken, hclear]
        show device_holds
          { d with abs := { d.abs with seat_slot := next_seat_slot d.seat } } i + _ = _
        by_cases hin : i = (n : Int)
        · rw [hin] at hh ⊢
          simp only [hnt, hn, if_true] at hh ⊢
          simp
          omega
        · have hin2 : ¬ next_seat_slot d.seat = i := fun h => hin (h.symm.trans hn)
          simp only [hin, hin2, if_false, decide_False, Bool.or_false] at hh ⊢
          omega

theorem seat_slots_balanced_flush_absolute_motion (d : evdev_device) (time : Nat) :
    seat_slots_balanced d (flush_absolute_motion d time) := by
  unfold flush_absolute_motion
  simp only []
  split_ifs
  · exact seat_slots_balanced_refl d
  · exact seat_slots_balanced_of_eq _ _ rfl rfl rfl
  · exact seat_slots_balanced_of_eq _ _ rfl rfl rfl
  · exact seat_slots_balanced_refl d

theorem seat_slots_balanced_flush_touch_up (d : evdev_device) (time : Nat)
    (H : ∀ i : Int, i ≠ -1 → 1 ≤ device_holds d i → seat_slot_taken d.seat i = true) :
    seat_slots_balanced d (flush_touch_up d time) := by
  unfold flush_touch_up
  simp only []
  split_ifs with c1 c2
  · exact seat_slots_balanced_refl d
  · refine ⟨id, fun i hi => ?_⟩
    have hh := device_holds_set_abs d (-1) i
    rw [c2, if_neg (fun h => hi h.symm)] at hh
    show device_holds { d with abs := { d.abs with seat_slot := -1 } } i + _ =
      _ + (if seat_slot_taken d.seat i = true then 1 else 0)
    omega
  · have hv := device_holds_set_abs d (-1) d.abs.seat_slot
    rw [if_pos rfl, if_neg (fun h => c2 h.symm)] at hv
    have htaken := H _ c2 (by omega)
    have hrange : 0 ≤ d.abs.seat_slot ∧ d.abs.seat_slot < 32 := by
      simp only [seat_slot_taken, Bool.and_eq_true, decide_eq_true_eq] at htaken
      exact htaken.1
    have hcast : d.abs.seat_slot = ((d.abs.seat_slot.toNat : Nat) : Int) := by omega
    have hn32 : d.abs.seat_slot.toNat < 32 := by omega
    have hseat : (emit (seat_slot_give { d with abs := { d.abs with seat_slot := -1 } }
          d.abs.seat_slot)
        (libinput_event.touch_up time (-1) d.abs.seat_slot)).seat =
        { slot_map := d.seat.slot_map &&&
            (0xffffffff ^^^ 1 <<< d.abs.seat_slot.toNat) } := by
      simp [emit, seat_slot_give]
    refine ⟨fun h => ?_, fun i hi => ?_⟩
    · rw [hseat]
      exact slot_map_give_lt _ _ h
    · rw [hseat, seat_slot_taken_give _ _ _ hn32, ← hcast]
      have hh := device_holds_set_abs d (-1) i
      simp only [show ¬ ((-1 : Int) = i) from fun h => hi h.symm, if_false] at hh
      show device_holds { d with abs := { d.abs with seat_slot := -1 } } i + _ = _
      by_cases hin : i = d.abs.seat_slot
      · rw [hin] at hh ⊢
        simp only [htaken, if_true] at hh ⊢
        simp
        omega
      · have hin2 : ¬ d.abs.seat_slot = i := fun h => hin h.symm
        simp only [hin, hin2, if_false, decide_False, Bool.not_false, Bool.and_true] at hh ⊢
        omega

/-- Every flush keeps the books of the seat slots, given that a multitouch
kind is flushed for a slot of the slot array and that every seat slot the
device holds has its bit set. -/
theorem seat_slots_balanced_flush (d : evdev_device) (time : Nat)
    (hr : d.pending_event.is_mt = true →
      0 ≤ d.mt.slot ∧ d.mt.slot.toNat < d.mt.slots.length)
    (H : ∀ i : Int, i ≠ -1 → 1 ≤ device_holds d i → seat_slot_taken d.seat i = true) :
    seat_slots_balanced d (evdev_flush_pending_event d time) := by
  unfold evdev_flush_pending_event
  split
  · exact seat_slots_balanced_refl d
  · exact seat_slots_balanced_flush_relative_motion d time
  · next heq =>
    have h := hr (by rw [heq]; rfl)
    exact seat_slots_balanced_flush_mt_down d time h.1 h.2
  · exact seat_slots_balanced_flush_mt_motion d time
  · next heq =>
    have h := hr (by rw [heq]; rfl)
    exact seat_slots_balanced_flush_mt_up d time h.1 h.2 H
  · exact seat_slots_balanced_flush_touch_down d time
  · exact seat_slots_balanced_flush_absolute_motion d time
  · exact seat_slots_balanced_flush_touch_up d time H

/-- What a device holds depends on its `seat_slot` fields only. -/
theorem device_holds_of_seat_slots (d d1 : evdev_device) (i : Int)
    (ha : d1.abs.seat_slot = d.abs.seat_slot)
    (hs : d1.mt.slots.map (fun s => s.seat_slot) = d.mt.slots.map (fun s => s.seat_slot)) :
    device_holds d1 i = device_holds d i := by
  have h : ∀ l : List mt_slot, l.countP (fun s => decide (s.seat_slot = i)) =
      (l.map (fun s => s.seat_slot)).countP (fun v => decide (v = i)) := by
    intro l
    rw [List.countP_map]
    rfl
  simp only [device_holds, h, hs, ha]

/-- In every reachable world `slot_map` is a 32-bit value and each seat slot
other than -1 is held by as many device slots as its bit says: one if set,
none if clear. -/
theorem seat_reachable_inv (w : seat_world) (h : seat_reachable w) :
    w.seat.slot_map < 2 ^ 32 ∧
    ∀ i : Int, i ≠ -1 →
      seat_holders w i = if seat_slot_taken w.seat i then 1 else 0 := by
  induction h with
  | init w hm hd =>
    refine ⟨by rw [hm]; decide, fun i hi => ?_⟩
    have ht : seat_slot_taken w.seat i = false := by
      simp [seat_slot_taken, hm]
    rw [ht]
    simp only [seat_holders, Bool.false_eq_true, if_false]
    apply List.sum_eq_zero
    intro x hx
    obtain ⟨d, hdm, rfl⟩ := List.mem_map.1 hx
    obtain ⟨ha, hs⟩ := hd d hdm
    have hne : ¬ ((-1 : Int) = i) := fun h => hi h.symm
    have hc : d.mt.slots.countP (fun s => decide (s.seat_slot = i)) = 0 := by
      rw [List.countP_eq_zero]
      intro s hsm
      simp [hs s hsm, hne]
    simp [device_holds, hc, ha, hne]
  | update w k d1 _ hsame ih =>
    refine ⟨ih.1, fun i hi => ?_⟩
    rw [← ih.2 i hi]
    cases hk : w.devices[k]? with
    | none =>
      have hlen : w.devices.length ≤ k := by
        simpa using hk
      simp only [seat_holders, List.set_eq_of_length_le hlen]
    | some d =>
      obtain ⟨ha, hs⟩ := hsame d hk
      have h1 := sum_map_set (fun x => device_holds x i) w.devices k d d1 hk
      have h2 := device_holds_of_seat_slots d d1 i ha hs
      simp only [seat_holders]
      simp only at h1
      omega
  | flush w k kind slot time _ hrange ih =>
    unfold seat_flush
    cases hk : w.devices[k]? with
    | none => exact ih
    | some d =>
      simp only []
      have hb := seat_slots_balanced_flush
        { d with seat := w.seat, pending_event := kind, mt := { d.mt with slot := slot } }
        time (fun hmt => hrange d hk hmt)
        (fun i hi hge => by
          have hle := le_sum_map (fun x => device_holds x i) w.devices k d hk
          have hinv := ih.2 i hi
          simp only [seat_holders] at hinv
          have hge1 : 1 ≤ device_holds d i := hge
          by_contra hnt
          simp only [] at hle
          rw [hinv] at hle
          have : seat_slot_taken w.seat i = false := by simpa using hnt
          rw [this] at hle
          simp at hle
          omega)
      refine ⟨hb.1 ih.1, fun i hi => ?_⟩
      have h1 := sum_map_set (fun x => device_holds x i) w.devices k d
        (evdev_flush_pending_event
          { d with seat := w.seat, pending_event := kind, mt := { d.mt with slot := slot } }
          time) hk
      have h2 := hb.2 i hi
      have h3 := ih.2 i hi
      have h4 : device_holds
          { d with seat := w.seat, pending_event := kind, mt := { d.mt with slot := slot } }
          i = device_holds d i := rfl
      rw [h4] at h2
      simp only [seat_holders] at h3 ⊢
      simp only at h1 h2
      omega

/-- C16. Across any sequence of flushes on the devices of one seat, starting
from `slot_map == 0` and every `seat_slot` field -1 (a multitouch kind being
flushed for a slot of the slot array), bit `i` of `seat->slot_map` is set if
and only if exactly one device slot, `mt.slots[k].seat_slot` or
`abs.seat_slot`, equals `i`; no seat slot is held by two slots, and
`slot_map` stays a 32-bit value. -/
theorem seat_slot_map_owners (w : seat_world) (h : seat_reachable w) :
    w.seat.slot_map < 2 ^ 32 ∧
    (∀ i : Nat, i < 32 →
      (w.seat.slot_map.testBit i = true ↔ seat_holders w (i : Int) = 1)) ∧
    (∀ i : Int, i ≠ -1 → seat_holders w i ≤ 1) := by
  obtain ⟨hlt, hinv⟩ := seat_reachable_inv w h
  refine ⟨hlt, fun i hi => ?_, fun i hi => ?_⟩
  · rw [hinv (i : Int) (by omega)]
    have ht : seat_slot_taken w.seat (i : Int) = w.seat.slot_map.testBit i := by
      have : (0 : Int) ≤ (i : Int) ∧ (i : Int) < 32 := by omega
      simp [seat_slot_taken, this]
    rw [ht]
    cases w.seat.slot_map.testBit i <;> simp
  · rw [hinv i hi]
    split <;> simp

/-- C16 at a seat with one touch screen after a first touch: bit 0 is set and
exactly one slot holds seat slot 0. -/
theorem seat_slot_map_owners_witness :
    seat_reachable (seat_flush { seat := { slot_map := 0 }, devices := [touch_screen] }
      0 EVDEV_ABSOLUTE_MT_DOWN 0 7) ∧
    (seat_flush { seat := { slot_map := 0 }, devices := [touch_screen] }
      0 EVDEV_ABSOLUTE_MT_DOWN 0 7).seat.slot_map = 1 ∧
    seat_holders (seat_flush { seat := { slot_map := 0 }, devices := [touch_screen] }
      0 EVDEV_ABSOLUTE_MT_DOWN 0 7) 0 = 1 := by
  have hr : seat_reachable (seat_flush
      { seat := { slot_map := 0 }, devices := [touch_screen] }
      0 EVDEV_ABSOLUTE_MT_DOWN 0 7) := by
    refine seat_reachable.flush _ 0 EVDEV_ABSOLUTE_MT_DOWN 0 7
      (seat_reachable.init _ rfl ?_) ?_
    · intro d hd
      simp only [List.mem_singleton] at hd
      subst hd
      refine ⟨rfl, fun s hs => ?_⟩
      simp only [touch_screen, List.mem_cons, List.mem_singleton, List.not_mem_nil,
        or_false] at hs
      rcases hs with rfl | rfl <;> rfl
    · intro d hd _
      simp only [List.getElem?_cons_zero, Option.some.injEq] at hd
      subst hd
      exact ⟨le_refl _, by decide⟩
  exact ⟨hr, rfl, ((seat_slot_map_owners _ hr).2.1 0 (by decide)).1 rfl⟩

/-! ## evdev device: presses and releases handed to the client (C12) -/

/-- The presses counted in two stretches of emitted events add up. -/
theorem presses_emitted_append (c : Nat) (a b : List libinput_event) :
    presses_emitted c (a ++ b) = presses_emitted c a + presses_emitted c b := by
  induction a with
  | nil => simp [presses_emitted]
  | cons e rest ih =>
    cases e with
    | keyboard_key t k st => cases st <;> simp [presses_emitted, ih, Nat.add_assoc]
    | pointer_button t k st => cases st <;> simp [presses_emitted, ih, Nat.add_assoc]
    | _ => simp [presses_emitted, ih]

/-- The releases counted in two stretches of emitted events add up. -/
theorem releases_emitted_append (c : Nat) (a b : List libinput_event) :
    releases_emitted c (a ++ b) = releases_emitted c a + releases_emitted c b := by
  induction a with
  | nil => simp [releases_emitted]
  | cons e rest ih =>
    cases e with
    | keyboard_key t k st => cases st <;> simp [releases_emitted, ih, Nat.add_assoc]
    | pointer_button t k st => cases st <;> simp [releases_emitted, ih, Nat.add_assoc]
    | _ => simp [releases_emitted, ih]

theorem presses_emitted_no_key (c : Nat) (l : List libinput_event)
    (h : ∀ ev ∈ l, ev.is_key_or_button = false) : presses_emitted c l = 0 := by
  induction l with
  | nil => rfl
  | cons e rest ih =>
    have he := h e (List.mem_cons_self _ _)
    have hr := ih (fun ev hev => h ev (List.mem_cons_of_mem _ hev))
    cases e <;> simp_all [presses_emitted, libinput_event.is_key_or_button]

theorem releases_emitted_no_key (c : Nat) (l : List libinput_event)
    (h : ∀ ev ∈ l, ev.is_key_or_button = false) : releases_emitted c l = 0 := by
  induction l with
  | nil => rfl
  | cons e rest ih =>
    have he := h e (List.mem_cons_self _ _)
    have hr := ih (fun ev hev => h ev (List.mem_cons_of_mem _ hev))
    cases e <;> simp_all [releases_emitted, libinput_event.is_key_or_button]

/-- A step that leaves the key state alone hands the client no press and no
release. -/
theorem keys_untouched_emitted (d d1 : evdev_device) (h : keys_untouched d d1) (c : Nat) :
    presses_emitted c d1.emitted = presses_emitted c d.emitted ∧
    releases_emitted c d1.emitted = releases_emitted c d.emitted := by
  obtain ⟨_, _, new, hnew, hk⟩ := h
  rw [hnew, presses_emitted_append, releases_emitted_append,
    presses_emitted_no_key c new hk, releases_emitted_no_key c new hk]
  simp

theorem press_release_ordered_of_untouched (d d1 : evdev_device)
    (h : keys_untouched d d1) (hj : press_release_ordered d) :
    press_release_ordered d1 := by
  intro c
  obtain ⟨hp, hr⟩ := keys_untouched_emitted d d1 h c
  rw [hp, hr, h.2.1]
  exact hj c

/-- A call of `evdev_keyboard_notify_key` that returns changes the count and
the emitted presses and releases of its key alone. -/
theorem key_notified_keyboard (kc_mod : Nat) (d d1 : evdev_device) (time key : Nat)
    (state : libinput_key_state)
    (h : evdev_keyboard_notify_key kc_mod d time key state = some d1) :
    key_notified kc_mod d d1 key (decide (state = LIBINPUT_KEY_STATE_PRESSED)) := by
  cases state with
  | LIBINPUT_KEY_STATE_PRESSED =>
    by_cases hc : key < KEY_CNT
    · by_cases h1 : (d.key_count key + 1) % kc_mod = 1
      · simp [evdev_keyboard_notify_key, update_key_down_count, hc, h1, emit] at h
        subst h
        refine ⟨rfl, fun c => ?_⟩
        by_cases hck : c = key
        · subst hck
          simp [Function.update, h1, presses_emitted_append, releases_emitted_append,
            presses_emitted, releases_emitted]
        · have hkc : ¬ key = c := fun h => hck h.symm
          simp [hck, hkc, Function.update, presses_emitted_append,
            releases_emitted_append, presses_emitted, releases_emitted]
      · simp [evdev_keyboard_notify_key, update_key_down_count, hc, h1] at h
        subst h
        refine ⟨rfl, fun c => ?_⟩
        by_cases hck : c = key
        · subst hck
          simp [Function.update, h1]
        · simp [hck, Function.update]
    · simp [evdev_keyboard_notify_key, update_key_down_count, hc] at h
  | LIBINPUT_KEY_STATE_RELEASED =>
    by_cases hc : key < KEY_CNT
    · by_cases hpos : 0 < d.key_count key
      · by_cases h1 : d.key_count key = 1
        · simp [evdev_keyboard_notify_key, update_key_down_count, hc, h1, emit] at h
          subst h
          refine ⟨rfl, fun c => ?_⟩
          by_cases hck : c = key
          · subst hck
            simp [Function.update, h1, presses_emitted_append, releases_emitted_append,
              presses_emitted, releases_emitted]
          · have hkc : ¬ key = c := fun h => hck h.symm
            simp [hck, hkc, h1, Function.update, presses_emitted_append,
              releases_emitted_append, presses_emitted, releases_emitted]
        · have hne : d.key_count key - 1 ≠ 0 := by omega
          simp [evdev_keyboard_notify_key, update_key_down_count, hc, hpos, hne] at h
          subst h
          refine ⟨rfl, fun c => ?_⟩
          by_cases hck : c = key
          · subst hck
            simp [Function.update, h1, hpos]
          · simp [hck, Function.update, hpos]
      · simp [evdev_keyboard_notify_key, update_key_down_count, hc, hpos] at h
    · simp [evdev_keyboard_notify_key, update_key_down_count, hc] at h

theorem evdev_change_to_left_handed_preserves {α : Type} (π : evdev_device → α)
    (hb : ∀ (d : evdev_device) (b : evdev_buttons), π { d with buttons := b } = π d)
    (d : evdev_device) : π (evdev_change_to_left_handed d) = π d := by
  unfold evdev_change_to_left_handed
  exact preserved_ite π _ _ _ _ rfl (preserved_ite π _ _ _ _ rfl (hb _ _))

theorem evdev_change_scroll_method_preserves {α : Type} (π : evdev_device → α)
    (hs : ∀ (d : evdev_device) (s : evdev_scroll), π { d with scroll := s } = π d)
    (d : evdev_device) : π (evdev_change_scroll_method d) = π d := by
  unfold evdev_change_scroll_method
  exact preserved_ite π _ _ _ _ rfl (preserved_ite π _ _ _ _ rfl (hs _ _))

/-- A call of `evdev_pointer_notify_button` that returns: the count comes from
`update_key_down_count`, the event is emitted on the edges of the count, and
the two configuration hooks leave the key state alone. -/
theorem evdev_pointer_notify_button_parts (kc_mod : Nat) (d d1 : evdev_device)
    (time button : Nat) (state : libinput_button_state)
    (h : evdev_pointer_notify_button kc_mod d time button state = some d1) :
    ∃ dev n, update_key_down_count kc_mod d button
        (decide (state = LIBINPUT_BUTTON_STATE_PRESSED)) = some (dev, n) ∧
      d1.hw_key_mask = dev.hw_key_mask ∧ d1.key_count = dev.key_count ∧
      d1.emitted =
        if (state = LIBINPUT_BUTTON_STATE_PRESSED ∧ n = 1) ∨
            (state = LIBINPUT_BUTTON_STATE_RELEASED ∧ n = 0) then
          dev.emitted ++ [libinput_event.pointer_button (time % 2 ^ 32) button state]
        else dev.emitted := by
  unfold evdev_pointer_notify_button at h
  cases hu : update_key_down_count kc_mod d button
      (decide (state = LIBINPUT_BUTTON_STATE_PRESSED)) with
  | none => simp [hu] at h
  | some p =>
    obtain ⟨dev, n⟩ := p
    simp only [hu] at h
    refine ⟨dev, n, rfl, ?_⟩
    by_cases hc : (state = LIBINPUT_BUTTON_STATE_PRESSED ∧ n = 1) ∨
        (state = LIBINPUT_BUTTON_STATE_RELEASED ∧ n = 0)
    · rw [if_pos hc] at h
      rw [if_pos hc]
      simp only [Option.some.injEq] at h
      have hπ : (fun x : evdev_device => (x.hw_key_mask, x.key_count, x.emitted)) d1 =
          (fun x : evdev_device => (x.hw_key_mask, x.key_count, x.emitted))
            (emit dev (libinput_event.pointer_button (time % 2 ^ 32) button state)) := by
        rw [← h]
        have h1 := preserved_ite
          (fun x : evdev_device => (x.hw_key_mask, x.key_count, x.emitted))
          (state = LIBINPUT_BUTTON_STATE_RELEASED ∧
            (emit dev (libinput_event.pointer_button (time % 2 ^ 32) button
              state)).buttons.has_change_to_left_handed = true)
          (evdev_change_to_left_handed
            (emit dev (libinput_event.pointer_button (time % 2 ^ 32) button state)))
          (emit dev (libinput_event.pointer_button (time % 2 ^ 32) button state)) _
          (evdev_change_to_left_handed_preserves
            (fun x : evdev_device => (x.hw_key_mask, x.key_count, x.emitted))
            (fun _ _ => rfl) _) rfl
        exact preserved_ite
          (fun x : evdev_device => (x.hw_key_mask, x.key_count, x.emitted)) _ _ _ _
          ((evdev_change_scroll_method_preserves
            (fun x : evdev_device => (x.hw_key_mask, x.key_count, x.emitted))
            (fun _ _ => rfl) _).trans h1) h1
      simp only [Prod.mk.injEq, emit] at hπ
      exact ⟨hπ.1, hπ.2.1, hπ.2.2⟩
    · rw [if_neg hc] at h
      rw [if_neg hc]
      simp only [Option.some.injEq] at h
      subst h
      exact ⟨rfl, rfl, rfl⟩

/-- A call of `evdev_pointer_notify_button` that returns changes the count and
the emitted presses and releases of its button alone. -/
theorem key_notified_pointer (kc_mod : Nat) (d d1 : evdev_device) (time button : Nat)
    (state : libinput_button_state)
    (h : evdev_pointer_notify_button kc_mod d time button state = some d1) :
    key_notified kc_mod d d1 button (decide (state = LIBINPUT_BUTTON_STATE_PRESSED)) := by
  obtain ⟨dev, n, hu, hw, hk, he⟩ := evdev_pointer_notify_button_parts _ _ _ _ _ _ h
  cases state with
  | LIBINPUT_BUTTON_STATE_PRESSED =>
    by_cases hc : button < KEY_CNT
    · simp [update_key_down_count, hc] at hu
      obtain ⟨hdev, hn⟩ := hu
      subst hdev
      refine ⟨hw, fun c => ?_⟩
      rw [hk, he]
      by_cases h1 : (d.key_count button + 1) % kc_mod = 1
      · by_cases hck : c = button
        · subst hck
          simp [Function.update, h1, ← hn, presses_emitted_append, releases_emitted_append,
            presses_emitted, releases_emitted]
        · have hkc : ¬ button = c := fun h => hck h.symm
          simp [hck, hkc, Function.update, ← hn, h1, presses_emitted_append,
            releases_emitted_append, presses_emitted, releases_emitted]
      · by_cases hck : c = button
        · subst hck
          simp [Function.update, h1, ← hn]
        · simp [hck, Function.update, ← hn, h1]
    · simp [update_key_down_count, hc] at hu
  | LIBINPUT_BUTTON_STATE_RELEASED =>
    by_cases hc : button < KEY_CNT
    · by_cases hpos : 0 < d.key_count button
      · simp [update_key_down_count, hc, hpos] at hu
        obtain ⟨hdev, hn⟩ := hu
        subst hdev
        refine ⟨hw, fun c => ?_⟩
        rw [hk, he]
        by_cases h1 : d.key_count button = 1
        · by_cases hck : c = button
          · subst hck
            simp [Function.update, h1, ← hn, presses_emitted_append,
              releases_emitted_append, presses_emitted, releases_emitted]
          · have hkc : ¬ button = c := fun h => hck h.symm
            simp [hck, hkc, h1, ← hn, Function.update, presses_emitted_append,
              releases_emitted_append, presses_emitted, releases_emitted]
        · have hne : d.key_count button - 1 ≠ 0 := by omega
          by_cases hck : c = button
          · subst hck
            simp [Function.update, h1, hpos, ← hn, hne]
          · simp [hck, Function.update, hpos, ← hn, hne]
      · simp [update_key_down_count, hc, hpos] at hu
    · simp [update_key_down_count, hc] at hu

/-- A notified press or release keeps the presses ahead of the releases. -/
theorem press_release_ordered_notified (kc_mod : Nat) (d d1 : evdev_device) (code : Nat)
    (pressed : Bool) (hn : key_notified kc_mod d d1 code pressed)
    (hj : press_release_ordered d) : press_release_ordered d1 := by
  intro c
  have h := hn.2 c
  have hjc := hj c
  have hmod := Nat.mod_le (d.key_count code + 1) kc_mod
  cases pressed with
  | true =>
    simp only [if_true] at h
    obtain ⟨hk, hp, hr⟩ := h
    rw [hk, hp, hr]
    by_cases hck : c = code
    · subst hck
      simp only [if_true, true_and]
      split_ifs <;> omega
    · simp only [hck, if_false, false_and]
      omega
  | false =>
    simp only [Bool.false_eq_true, if_false] at h
    obtain ⟨hpos, hk, hp, hr⟩ := h
    rw [hk, hp, hr]
    by_cases hck : c = code
    · subst hck
      simp only [if_true, true_and]
      split_ifs <;> omega
    · simp only [hck, if_false, false_and]
      omega

theorem keys_untouched_stop_scroll (d : evdev_device) (time : Nat) :
    keys_untouched d (evdev_stop_scroll d time) := by
  unfold evdev_stop_scroll
  lift_lets
  extract_lets d1 d2
  have h1 : keys_untouched d d1 :=
    keys_untouched_ite _ _ _ _ (keys_untouched_emit _ _ rfl) (keys_untouched_refl _)
  have h2 : keys_untouched d d2 :=
    keys_untouched_ite _ _ _ _ (keys_untouched_trans h1 (keys_untouched_emit _ _ rfl)) h1
  exact keys_untouched_trans h2 (keys_untouched_of_eq _ _ rfl rfl rfl)

theorem keys_untouched_process_touch_button (d : evdev_device) (time : Nat)
    (value : Int) : keys_untouched d (evdev_process_touch_button d time value) := by
  unfold evdev_process_touch_button
  lift_lets
  extract_lets d1
  have h1 : keys_untouched d d1 :=
    keys_untouched_ite _ _ _ _ (keys_untouched_flush _ _) (keys_untouched_refl _)
  exact keys_untouched_trans h1 (keys_untouched_of_eq _ _ rfl rfl rfl)

theorem press_release_ordered_scroll_button (kc_mod : Nat) (d d1 : evdev_device)
    (time : Nat) (is_press : Int)
    (h : evdev_button_scroll_button kc_mod d time is_press = some d1)
    (hj : press_release_ordered d) : press_release_ordered d1 := by
  unfold evdev_button_scroll_button at h
  by_cases hp : is_press ≠ 0
  · rw [if_pos hp] at h
    simp only [Option.some.injEq] at h
    subst h
    exact hj
  · rw [if_neg hp] at h
    simp only [] at h
    split_ifs at h with ha
    · simp only [Option.some.injEq] at h
      subst h
      exact press_release_ordered_of_untouched _ _
        (keys_untouched_trans (b := { d with scroll := { d.scroll with
            timer := libinput_timer_cancel d.scroll.timer } })
          (keys_untouched_of_eq _ _ rfl rfl rfl)
          (keys_untouched_trans (keys_untouched_stop_scroll _ time)
            (keys_untouched_of_eq _ _ rfl rfl rfl))) hj
    · split at h
      · exact absurd h (by simp)
      · next d2 hd2 =>
        have hj2 := press_release_ordered_notified _ _ _ _ _
          (key_notified_pointer _ _ _ _ _ _ hd2) hj
        exact press_release_ordered_notified _ _ _ _ _
          (key_notified_pointer _ _ _ _ _ _ h) hj2

/-- Every call of `evdev_process_key` that returns keeps the presses ahead of
the releases. -/
theorem press_release_ordered_process_key (kc_mod : Nat) (d d1 : evdev_device)
    (e : input_event) (time : Nat)
    (h : evdev_process_key kc_mod d e time = some d1)
    (hj : press_release_ordered d) : press_release_ordered d1 := by
  unfold evdev_process_key at h
  by_cases h2 : e.value = 2
  · rw [if_pos h2] at h
    simp only [Option.some.injEq] at h
    subst h
    exact hj
  rw [if_neg h2] at h
  by_cases ht : e.code = BTN_TOUCH
  · rw [if_pos ht] at h
    split_ifs at h
    · simp only [Option.some.injEq] at h
      subst h
      exact press_release_ordered_of_untouched _ _
        (keys_untouched_process_touch_button _ _ _) hj
    · simp only [Option.some.injEq] at h
      subst h
      exact hj
  rw [if_neg ht] at h
  have hj0 : press_release_ordered (evdev_flush_pending_event d time) :=
    press_release_ordered_of_untouched _ _ (keys_untouched_flush _ _) hj
  simp only [] at h
  cases hty : get_key_type e.code with
  | EVDEV_KEY_TYPE_NONE =>
    simp [hty] at h
    subst h
    exact hj0
  | EVDEV_KEY_TYPE_KEY =>
    by_cases hv : e.value = 0
    · by_cases hdown : hw_is_key_down (evdev_flush_pending_event d time) e.code = true
      · simp [hty, hv, hdown] at h
        exact press_release_ordered_notified _ _ _ _ _
          (key_notified_keyboard _ _ _ _ _ _ h) hj0
      · simp [hty, hv, hdown] at h
        subst h
        exact hj0
    · simp [hty, hv] at h
      exact press_release_ordered_notified _ _ _ _ _
        (key_notified_keyboard _ _ _ _ _ _ h) hj0
  | EVDEV_KEY_TYPE_BUTTON =>
    have hb : ∀ (x : evdev_device) (st : libinput_button_state) (v : Int),
        (if x.scroll.method = LIBINPUT_CONFIG_SCROLL_ON_BUTTON_DOWN ∧
            e.code = x.scroll.button then
          evdev_button_scroll_button kc_mod x time v
        else evdev_pointer_notify_button kc_mod x time (evdev_to_left_handed x e.code) st) =
          some d1 → press_release_ordered x → press_release_ordered d1 := by
      intro x st v hx hjx
      split at hx
      · exact press_release_ordered_scroll_button _ _ _ _ _ hx hjx
      · exact press_release_ordered_notified _ _ _ _ _
          (key_notified_pointer _ _ _ _ _ _ hx) hjx
    by_cases hv : e.value = 0
    · by_cases hdown : hw_is_key_down (evdev_flush_pending_event d time) e.code = true
      · simp only [hty, hv, hdown, if_true, Bool.not_true, Bool.false_eq_true, if_false,
          ne_eq, not_true_eq_false] at h
        exact hb (hw_set_key_down (evdev_flush_pending_event d time) e.code 0) _ _ h hj0
      · simp [hty, hv, hdown] at h
        subst h
        exact hj0
    · simp only [hty, hv, if_false, Bool.false_eq_true, ne_eq, not_false_eq_true,
        if_true] at h
      exact hb (hw_set_key_down (evdev_flush_pending_event d time) e.code e.value) _ _ h
        hj0

/-- A flush of the pending event changes nothing outside what it writes. -/
theorem evdev_flush_pending_event_preserves {α : Type} (π : evdev_device → α)
    (hπ : flush_blind π) (d : evdev_device) (time : Nat) :
    π (evdev_flush_pending_event d time) = π d := by
  obtain ⟨hv, hh, hd, he, hrel, hfil, hmt, habs, hseat, hpend⟩ := hπ
  have hset : ∀ (x : evdev_device) (slot v : Int),
      π (mt_slot_set_seat_slot x slot v) = π x := by
    intro x slot v
    unfold mt_slot_set_seat_slot
    exact preserved_ite π _ _ _ _ (hmt _ _) rfl
  have htake : ∀ (x : evdev_device) (v : Int), π (seat_slot_take x v) = π x :=
    fun _ _ => hseat _ _
  have hgive : ∀ (x : evdev_device) (v : Int), π (seat_slot_give x v) = π x :=
    fun _ _ => hseat _ _
  unfold evdev_flush_pending_event
  split
  · rfl
  · exact (hpend _ _).trans
      (flush_relative_motion_preserves π hv hh hd he hrel hfil d time)
  · refine (hpend _ _).trans ?_
    unfold flush_mt_down
    exact preserved_ite π _ _ _ _ rfl (preserved_ite π _ _ _ _ rfl
      (preserved_ite π _ _ _ _ (hset _ _ _)
        ((he _ _).trans ((htake _ _).trans (hset _ _ _)))))
  · refine (hpend _ _).trans ?_
    unfold flush_mt_motion
    exact preserved_ite π _ _ _ _ rfl (preserved_ite π _ _ _ _ rfl (he _ _))
  · refine (hpend _ _).trans ?_
    unfold flush_mt_up
    exact preserved_ite π _ _ _ _ rfl (preserved_ite π _ _ _ _ (hset _ _ _)
      ((he _ _).trans ((hgive _ _).trans (hset _ _ _))))
  · refine (hpend _ _).trans ?_
    unfold flush_touch_down
    exact preserved_ite π _ _ _ _ rfl (preserved_ite π _ _ _ _ rfl
      (preserved_ite π _ _ _ _ (habs _ _)
        ((he _ _).trans ((htake _ _).trans (habs _ _)))))
  · refine (hpend _ _).trans ?_
    unfold flush_absolute_motion
    exact preserved_ite π _ _ _ _ (preserved_ite π _ _ _ _ rfl (he _ _))
      (preserved_ite π _ _ _ _ (he _ _) rfl)
  · refine (hpend _ _).trans ?_
    unfold flush_touch_up
    exact preserved_ite π _ _ _ _ rfl (preserved_ite π _ _ _ _ (habs _ _)
      ((he _ _).trans ((hgive _ _).trans (habs _ _))))

/-- A code that is a key or a button is below `KEY_CNT`. -/
theorem get_key_type_lt (c : Nat) (h : get_key_type c ≠ EVDEV_KEY_TYPE_NONE) :
    c < KEY_CNT := by
  unfold get_key_type at h
  simp only [BTN_TOUCH, KEY_ESC, KEY_MICMUTE, BTN_MISC, BTN_GEAR_UP, KEY_OK,
    KEY_LIGHTS_TOGGLE, BTN_DPAD_UP, BTN_TRIGGER_HAPPY40] at h
  unfold KEY_CNT
  split_ifs at h <;> first | omega | exact absurd rfl h

/-- `evdev_keyboard_notify_key` returns for a code below `KEY_CNT` on a press,
and on a release while the press count is above 0; it leaves `buttons` and
`scroll` alone. -/
theorem evdev_keyboard_notify_key_returns (kc_mod : Nat) (d : evdev_device)
    (time key : Nat) (state : libinput_key_state) (hc : key < KEY_CNT)
    (h : state = LIBINPUT_KEY_STATE_PRESSED ∨ 0 < d.key_count key) :
    ∃ d1, evdev_keyboard_notify_key kc_mod d time key state = some d1 ∧
      d1.buttons = d.buttons ∧ d1.scroll = d.scroll := by
  cases state with
  | LIBINPUT_KEY_STATE_PRESSED =>
    simp only [evdev_keyboard_notify_key, update_key_down_count, hc, if_true, decide_True]
    split_ifs <;> exact ⟨_, rfl, rfl, rfl⟩
  | LIBINPUT_KEY_STATE_RELEASED =>
    have hpos : 0 < d.key_count key := by
      rcases h with h | h
      · exact absurd h (by decide)
      · exact h
    simp only [evdev_keyboard_notify_key, update_key_down_count, hc, hpos, if_true]
    simp only [show decide (LIBINPUT_KEY_STATE_RELEASED = LIBINPUT_KEY_STATE_PRESSED) = false
      from rfl, Bool.false_eq_true, if_false]
    split_ifs <;> exact ⟨_, rfl, rfl, rfl⟩

theorem ite_some_returns {α : Type} (c : Prop) [Decidable c] (a b : α) :
    ∃ x, (if c then some a else some b) = some x := by
  split
  · exact ⟨_, rfl⟩
  · exact ⟨_, rfl⟩

/-- `evdev_pointer_notify_button` returns for a code below `KEY_CNT` on a
press, and on a release while the press count is above 0. -/
theorem evdev_pointer_notify_button_returns (kc_mod : Nat) (d : evdev_device)
    (time button : Nat) (state : libinput_button_state) (hc : button < KEY_CNT)
    (h : state = LIBINPUT_BUTTON_STATE_PRESSED ∨ 0 < d.key_count button) :
    ∃ d1, evdev_pointer_notify_button kc_mod d time button state = some d1 := by
  cases state with
  | LIBINPUT_BUTTON_STATE_PRESSED =>
    simp only [evdev_pointer_notify_button, update_key_down_count, hc, if_true,
      decide_True]
    exact ite_some_returns _ _ _
  | LIBINPUT_BUTTON_STATE_RELEASED =>
    have hpos : 0 < d.key_count button := by
      rcases h with h | h
      · exact absurd h (by decide)
      · exact h
    simp only [evdev_pointer_notify_button, update_key_down_count, hc, hpos, if_true]
    simp only [show decide (LIBINPUT_BUTTON_STATE_RELEASED =
      LIBINPUT_BUTTON_STATE_PRESSED) = false from rfl, Bool.false_eq_true, if_false]
    exact ite_some_returns _ _ _

/-- While the wanted left-handed mode and scroll method are the ones in effect,
the hooks run by `evdev_pointer_notify_button` change nothing. -/
theorem evdev_pointer_notify_button_settled (kc_mod : Nat) (d d1 : evdev_device)
    (time button : Nat) (state : libinput_button_state)
    (h : evdev_pointer_notify_button kc_mod d time button state = some d1)
    (hl : d.buttons.want_left_handed = d.buttons.left_handed)
    (hs : d.scroll.want_method = d.scroll.method ∧
      d.scroll.want_button = d.scroll.button) :
    d1.buttons = d.buttons ∧ d1.scroll = d.scroll := by
  have hook1 : ∀ x : evdev_device, x.buttons = d.buttons →
      evdev_change_to_left_handed x = x := by
    intro x hx
    simp [evdev_change_to_left_handed, hx, hl]
  have hook2 : ∀ x : evdev_device, x.scroll = d.scroll →
      evdev_change_scroll_method x = x := by
    intro x hx
    simp [evdev_change_scroll_method, hx, hs]
  unfold evdev_pointer_notify_button at h
  cases hu : update_key_down_count kc_mod d button
      (decide (state = LIBINPUT_BUTTON_STATE_PRESSED)) with
  | none => simp [hu] at h
  | some p =>
    obtain ⟨dev, n⟩ := p
    simp only [hu] at h
    have hdev : dev.buttons = d.buttons ∧ dev.scroll = d.scroll := by
      unfold update_key_down_count at hu
      split_ifs at hu
      · simp only [Option.some.injEq, Prod.mk.injEq] at hu
        rw [← hu.1]
        exact ⟨rfl, rfl⟩
      · simp only [Option.some.injEq, Prod.mk.injEq] at hu
        rw [← hu.1]
        exact ⟨rfl, rfl⟩
    by_cases hc : (state = LIBINPUT_BUTTON_STATE_PRESSED ∧ n = 1) ∨
        (state = LIBINPUT_BUTTON_STATE_RELEASED ∧ n = 0)
    · rw [if_pos hc] at h
      simp only [Option.some.injEq] at h
      have hπ : (fun x : evdev_device => (x.buttons, x.scroll)) d1 =
          (fun x : evdev_device => (x.buttons, x.scroll)) d := by
        rw [← h]
        have h1 := preserved_ite
          (fun x : evdev_device => (x.buttons, x.scroll))
          (state = LIBINPUT_BUTTON_STATE_RELEASED ∧
            (emit dev (libinput_event.pointer_button (time % 2 ^ 32) button
              state)).buttons.has_change_to_left_handed = true)
          (evdev_change_to_left_handed
            (emit dev (libinput_event.pointer_button (time % 2 ^ 32) button state)))
          (emit dev (libinput_event.pointer_button (time % 2 ^ 32) button state))
          ((fun x : evdev_device => (x.buttons, x.scroll)) d)
          (by
            rw [hook1 (emit dev (libinput_event.pointer_button (time % 2 ^ 32) button
              state)) hdev.1]
            simp only [emit, hdev.1, hdev.2])
          (by simp only [emit, hdev.1, hdev.2])
        simp only [Prod.mk.injEq] at h1
        exact preserved_ite
          (fun x : evdev_device => (x.buttons, x.scroll)) _ _ _ _
          (by
            rw [hook2 (if state = LIBINPUT_BUTTON_STATE_RELEASED ∧
                (emit dev (libinput_event.pointer_button (time % 2 ^ 32) button
                  state)).buttons.has_change_to_left_handed = true then
              evdev_change_to_left_handed
                (emit dev (libinput_event.pointer_button (time % 2 ^ 32) button state))
            else emit dev (libinput_event.pointer_button (time % 2 ^ 32) button state))
              h1.2]
            simp only [h1.1, h1.2])
          (by simp only [h1.1, h1.2])
      simp only [Prod.mk.injEq] at hπ
      exact hπ
    · rw [if_neg hc] at h
      simp only [Option.some.injEq] at h
      subst h
      exact hdev

/-- A press of a code that was up, or a release of a code that was down, keeps
the key state settled. -/
theorem keys_settled_notified (kc_mod : Nat) (d0 d1 : evdev_device) (code : Nat)
    (v : Int) (hm : 1 < kc_mod) (hk : keys_settled d0)
    (hty : get_key_type code ≠ EVDEV_KEY_TYPE_NONE)
    (hn : key_notified kc_mod (hw_set_key_down d0 code v) d1 code (decide (v ≠ 0)))
    (hb : d1.buttons = d0.buttons) (hs : d1.scroll = d0.scroll)
    (hedge : d0.hw_key_mask code = decide (v = 0)) : keys_settled d1 := by
  obtain ⟨k1, k2, k3, k4, k5, k6⟩ := hk
  obtain ⟨hw, hn⟩ := hn
  have hw1 : d1.hw_key_mask = Function.update d0.hw_key_mask code (decide (v ≠ 0)) := hw
  refine ⟨by rw [hb]; exact k1, by rw [hb]; exact k2, by rw [hs]; exact k3,
    by rw [hs]; exact k4, by rw [hs]; exact k5, fun c => ?_⟩
  have hc := hn c
  have hkc := k6 c
  have hkcode := k6 code
  have hcount : ∀ x, (hw_set_key_down d0 code v).key_count x = d0.key_count x :=
    fun _ => rfl
  have hem : (hw_set_key_down d0 code v).emitted = d0.emitted := rfl
  rw [hcount c, hcount code, hem] at hc
  rw [hw1]
  by_cases hv : v = 0
  · have hdec : decide (v ≠ 0) = false := by simp [hv]
    rw [hdec] at hc ⊢
    simp only [Bool.false_eq_true, if_false] at hc
    obtain ⟨hpos, hcnt, hp, hr⟩ := hc
    have hdown : d0.hw_key_mask code = true := by rw [hedge]; simp [hv]
    have hone : d0.key_count code = 1 := by
      rw [hkcode.1, if_pos ⟨hdown, hty⟩]
    rw [hcnt, hp, hr]
    by_cases hcc : c = code
    · subst hcc
      simp [Function.update, hone]
      omega
    · simp only [Function.update, hcc, dite_false, if_false, false_and]
      exact ⟨hkc.1, by omega⟩
  · have hdec : decide (v ≠ 0) = true := by simp [hv]
    rw [hdec] at hc ⊢
    simp only [if_true] at hc
    obtain ⟨hcnt, hp, hr⟩ := hc
    have hup : d0.hw_key_mask code = false := by rw [hedge]; simp [hv]
    have hzero : d0.key_count code = 0 := by
      rw [hkcode.1, if_neg (fun h => by rw [hup] at h; exact absurd h.1 (by simp))]
    have hmod : (0 + 1) % kc_mod = 1 := Nat.mod_eq_of_lt hm
    rw [hcnt, hp, hr, hzero, hmod]
    by_cases hcc : c = code
    · subst hcc
      simp [Function.update, hty]
      omega
    · simp only [Function.update, hcc, dite_false, if_false, false_and]
      exact ⟨hkc.1, by omega⟩

theorem keys_settled_of_untouched (d d1 : evdev_device) (hu : keys_untouched d d1)
    (hc : (fun x : evdev_device => (x.buttons, x.scroll.method, x.scroll.want_method,
        x.scroll.want_button, x.scroll.button)) d1 =
      (fun x : evdev_device => (x.buttons, x.scroll.method, x.scroll.want_method,
        x.scroll.want_button, x.scroll.button)) d)
    (hk : keys_settled d) : keys_settled d1 := by
  simp only [Prod.mk.injEq] at hc
  obtain ⟨c1, c2, c3, c4, c5⟩ := hc
  obtain ⟨k1, k2, k3, k4, k5, k6⟩ := hk
  refine ⟨by rw [c1]; exact k1, by rw [c1]; exact k2, by rw [c2]; exact k3,
    by rw [c3]; exact k4, by rw [c4, c5]; exact k5, fun c => ?_⟩
  obtain ⟨hp, hr⟩ := keys_untouched_emitted d d1 hu c
  rw [hu.1, hu.2.1, hp, hr]
  exact k6 c

theorem flush_blind_config :
    flush_blind (fun x : evdev_device => (x.buttons, x.scroll.method,
      x.scroll.want_method, x.scroll.want_button, x.scroll.button)) :=
  ⟨fun _ _ => rfl, fun _ _ => rfl, fun _ _ => rfl, fun _ _ => rfl, fun _ _ => rfl,
    fun _ _ => rfl, fun _ _ => rfl, fun _ _ => rfl, fun _ _ => rfl, fun _ _ => rfl⟩

theorem keys_settled_flush (d : evdev_device) (time : Nat) (hk : keys_settled d) :
    keys_settled (evdev_flush_pending_event d time) :=
  keys_settled_of_untouched _ _ (keys_untouched_flush d time)
    (evdev_flush_pending_event_preserves _ flush_blind_config d time) hk

theorem keys_settled_process_touch_button (d : evdev_device) (time : Nat) (value : Int)
    (hk : keys_settled d) : keys_settled (evdev_process_touch_button d time value) := by
  refine keys_settled_of_untouched _ _ (keys_untouched_process_touch_button d time value)
    ?_ hk
  unfold evdev_process_touch_button
  exact preserved_ite
    (fun x : evdev_device => (x.buttons, x.scroll.method, x.scroll.want_method,
      x.scroll.want_button, x.scroll.button))
    (d.pending_event ≠ EVDEV_NONE ∧ d.pending_event ≠ EVDEV_ABSOLUTE_MOTION)
    (evdev_flush_pending_event d time) d _
    (evdev_flush_pending_event_preserves _ flush_blind_config d time) rfl

theorem keys_settled_hw_set_none (d : evdev_device) (code : Nat) (v : Int)
    (hty : get_key_type code = EVDEV_KEY_TYPE_NONE) (hk : keys_settled d) :
    keys_settled (hw_set_key_down d code v) := by
  obtain ⟨k1, k2, k3, k4, k5, k6⟩ := hk
  refine ⟨k1, k2, k3, k4, k5, fun c => ?_⟩
  show d.key_count c = (if Function.update d.hw_key_mask code (decide (v ≠ 0)) c = true ∧
      get_key_type c ≠ EVDEV_KEY_TYPE_NONE then 1 else 0) ∧
    presses_emitted c d.emitted = releases_emitted c d.emitted + d.key_count c
  by_cases hcc : c = code
  · subst hcc
    have := k6 c
    simp only [hty, ne_eq, not_true_eq_false, and_false, if_false] at this ⊢
    exact this
  · simp only [Function.update, hcc, dite_false]
    exact k6 c

/-- `evdev_process_key` returns and keeps the key state settled, given that a
press comes only for a code that the hardware bitmap has up. -/
theorem keys_settled_process_key (kc_mod : Nat) (d : evdev_device) (e : input_event)
    (time : Nat) (hm : 1 < kc_mod) (hk : keys_settled d)
    (hpress : e.value ≠ 0 → e.value ≠ 2 → hw_is_key_down d e.code = false) :
    ∃ d1, evdev_process_key kc_mod d e time = some d1 ∧ keys_settled d1 := by
  by_cases h2 : e.value = 2
  · exact ⟨d, by simp [evdev_process_key, h2], hk⟩
  by_cases ht : e.code = BTN_TOUCH
  · by_cases hmt : d.is_mt = true
    · exact ⟨d, by simp [evdev_process_key, h2, ht, hmt], hk⟩
    · exact ⟨_, by simp [evdev_process_key, h2, ht, hmt],
        keys_settled_process_touch_button d time e.value hk⟩
  have hk0 := keys_settled_flush d time hk
  have hw0 : (evdev_flush_pending_event d time).hw_key_mask = d.hw_key_mask :=
    (keys_untouched_flush d time).1
  cases hty : get_key_type e.code with
  | EVDEV_KEY_TYPE_NONE =>
    exact ⟨_, by simp [evdev_process_key, h2, ht, hty]; rfl,
      keys_settled_hw_set_none _ _ _ hty hk0⟩
  | EVDEV_KEY_TYPE_KEY =>
    have htn : get_key_type e.code ≠ EVDEV_KEY_TYPE_NONE := by rw [hty]; decide
    by_cases hv : e.value = 0
    · by_cases hdown : hw_is_key_down (evdev_flush_pending_event d time) e.code = true
      · have hone : (evdev_flush_pending_event d time).key_count e.code = 1 := by
          rw [(hk0.2.2.2.2.2 e.code).1, if_pos ⟨hdown, htn⟩]
        obtain ⟨d1, h1, hb, hs⟩ := evdev_keyboard_notify_key_returns kc_mod
          (hw_set_key_down (evdev_flush_pending_event d time) e.code 0) time e.code
          LIBINPUT_KEY_STATE_RELEASED (get_key_type_lt _ htn)
          (Or.inr (by show 0 < (evdev_flush_pending_event d time).key_count e.code
                      omega))
        refine ⟨d1, by simp [evdev_process_key, h2, ht, hty, hv, hdown, h1], ?_⟩
        have hn := key_notified_keyboard _ _ _ _ _ _ h1
        exact keys_settled_notified kc_mod _ d1 e.code 0 hm hk0 htn hn hb hs
          (by simpa using hdown)
      · exact ⟨_, by simp [evdev_process_key, h2, ht, hty, hv, hdown], hk0⟩
    · have hup : (evdev_flush_pending_event d time).hw_key_mask e.code = false := by
        rw [hw0]
        exact hpress hv h2
      obtain ⟨d1, h1, hb, hs⟩ := evdev_keyboard_notify_key_returns kc_mod
        (hw_set_key_down (evdev_flush_pending_event d time) e.code e.value) time e.code
        LIBINPUT_KEY_STATE_PRESSED (get_key_type_lt _ htn) (Or.inl rfl)
      refine ⟨d1, by simp [evdev_process_key, h2, ht, hty, hv, h1], ?_⟩
      have hn := key_notified_keyboard _ _ _ _ _ _ h1
      have hdec : decide (LIBINPUT_KEY_STATE_PRESSED = LIBINPUT_KEY_STATE_PRESSED) =
          decide (e.value ≠ 0) := by simp [hv]
      rw [hdec] at hn
      exact keys_settled_notified kc_mod _ d1 e.code e.value hm hk0 htn hn hb hs
        (by rw [hup]; simp [hv])
  | EVDEV_KEY_TYPE_BUTTON =>
    have htn : get_key_type e.code ≠ EVDEV_KEY_TYPE_NONE := by rw [hty]; decide
    obtain ⟨k1, k2, k3, k4, k5, k6⟩ := hk0
    have hlh : ∀ v : Int, evdev_to_left_handed
        (hw_set_key_down (evdev_flush_pending_event d time) e.code v) e.code = e.code := by
      intro v
      simp [evdev_to_left_handed, hw_set_key_down, k1]
    have hsm : ∀ v : Int,
        (hw_set_key_down (evdev_flush_pending_event d time) e.code v).scroll.method ≠
          LIBINPUT_CONFIG_SCROLL_ON_BUTTON_DOWN := by
      intro v
      show (evdev_flush_pending_event d time).scroll.method ≠ _
      rw [k3]
      decide
    have hk0 : keys_settled (evdev_flush_pending_event d time) :=
      ⟨k1, k2, k3, k4, k5, k6⟩
    have hl : ∀ v : Int,
        (hw_set_key_down (evdev_flush_pending_event d time) e.code v).buttons.want_left_handed
          = (hw_set_key_down (evdev_flush_pending_event d time) e.code
              v).buttons.left_handed := by
      intro v
      show (evdev_flush_pending_event d time).buttons.want_left_handed = _
      rw [k2]
      exact k1.symm
    have hsc : ∀ v : Int,
        (hw_set_key_down (evdev_flush_pending_event d time) e.code v).scroll.want_method =
          (hw_set_key_down (evdev_flush_pending_event d time) e.code v).scroll.method ∧
        (hw_set_key_down (evdev_flush_pending_event d time) e.code v).scroll.want_button =
          (hw_set_key_down (evdev_flush_pending_event d time) e.code v).scroll.button := by
      intro v
      exact ⟨k4.trans k3.symm, k5⟩
    by_cases hv : e.value = 0
    · by_cases hdown : hw_is_key_down (evdev_flush_pending_event d time) e.code = true
      · have hone : (evdev_flush_pending_event d time).key_count e.code = 1 := by
          rw [(k6 e.code).1, if_pos ⟨hdown, htn⟩]
        obtain ⟨d1, h1⟩ := evdev_pointer_notify_button_returns kc_mod
          (hw_set_key_down (evdev_flush_pending_event d time) e.code 0) time e.code
          LIBINPUT_BUTTON_STATE_RELEASED (get_key_type_lt _ htn)
          (Or.inr (by show 0 < (evdev_flush_pending_event d time).key_count e.code
                      omega))
        obtain ⟨hb, hs⟩ := evdev_pointer_notify_button_settled _ _ _ _ _ _ h1
          (hl 0) (hsc 0)
        refine ⟨d1, by simp [evdev_process_key, h2, ht, hty, hv, hdown, hlh, hsm, h1], ?_⟩
        have hn := key_notified_pointer _ _ _ _ _ _ h1
        exact keys_settled_notified kc_mod _ d1 e.code 0 hm hk0 htn hn hb hs
          (by simpa using hdown)
      · exact ⟨_, by simp [evdev_process_key, h2, ht, hty, hv, hdown], hk0⟩
    · have hup : (evdev_flush_pending_event d time).hw_key_mask e.code = false := by
        rw [hw0]
        exact hpress hv h2
      obtain ⟨d1, h1⟩ := evdev_pointer_notify_button_returns kc_mod
        (hw_set_key_down (evdev_flush_pending_event d time) e.code e.value) time e.code
        LIBINPUT_BUTTON_STATE_PRESSED (get_key_type_lt _ htn) (Or.inl rfl)
      obtain ⟨hb, hs⟩ := evdev_pointer_notify_button_settled _ _ _ _ _ _ h1
        (hl e.value) (hsc e.value)
      refine ⟨d1, by simp [evdev_process_key, h2, ht, hty, hv, hlh, hsm, h1], ?_⟩
      have hn := key_notified_pointer _ _ _ _ _ _ h1
      have hdec : decide (LIBINPUT_BUTTON_STATE_PRESSED = LIBINPUT_BUTTON_STATE_PRESSED) =
          decide (e.value ≠ 0) := by simp [hv]
      rw [hdec] at hn
      exact keys_settled_notified kc_mod _ d1 e.code e.value hm hk0 htn hn hb hs
        (by rw [hup]; simp [hv])

/-- A run of `evdev_process_key` that returns keeps the presses ahead of the
releases. -/
theorem press_release_ordered_process_keys (kc_mod : Nat)
    (es : List (input_event × Nat)) :
    ∀ d d1 : evdev_device, evdev_process_keys kc_mod d es = some d1 →
      press_release_ordered d → press_release_ordered d1 := by
  induction es with
  | nil =>
    intro d d1 h hj
    simp only [evdev_process_keys, Option.some.injEq] at h
    subst h
    exact hj
  | cons p rest ih =>
    intro d d1 h hj
    obtain ⟨e, t⟩ := p
    simp only [evdev_process_keys] at h
    cases hstep : evdev_process_key kc_mod d e t with
    | none => simp [hstep] at h
    | some d2 =>
      simp only [hstep] at h
      exact ih d2 d1 h (press_release_ordered_process_key _ _ _ _ _ hstep hj)

/-- A run in which presses come only for codes that are up returns and keeps
the key state settled. -/
theorem keys_settled_process_keys (kc_mod : Nat) (hm : 1 < kc_mod)
    (es : List (input_event × Nat)) :
    ∀ d : evdev_device, keys_settled d → presses_only_when_up kc_mod d es →
      ∃ d1, evdev_process_keys kc_mod d es = some d1 ∧ keys_settled d1 := by
  induction es with
  | nil =>
    intro d hk _
    exact ⟨d, rfl, hk⟩
  | cons p rest ih =>
    intro d hk hw
    obtain ⟨e, t⟩ := p
    simp only [presses_only_when_up] at hw
    obtain ⟨d2, hstep, hk2⟩ := keys_settled_process_key kc_mod d e t hm hk hw.1
    have hw2 := hw.2
    simp only [hstep] at hw2
    obtain ⟨d1, hrun, hk1⟩ := ih d2 hk2 hw2
    exact ⟨d1, by simp only [evdev_process_keys, hstep]; exact hrun, hk1⟩

theorem press_release_ordered_fresh (has_key_code : Nat → Bool) (filter : motion_filter)
    (dpi : Int) : press_release_ordered (fresh_device has_key_code filter dpi) :=
  fun _ => ⟨le_refl _, fun h => absurd h (Nat.not_succ_le_zero 0)⟩

theorem keys_settled_fresh (has_key_code : Nat → Bool) (filter : motion_filter)
    (dpi : Int) : keys_settled (fresh_device has_key_code filter dpi) :=
  ⟨rfl, rfl, rfl, rfl, rfl, fun _ => ⟨by simp [fresh_device], rfl⟩⟩

/-- C12, counterexample. On a fresh device two presses of `KEY_ESC` and one
release leave every code up in `hw_key_mask`, yet the client has been handed
one press of `KEY_ESC` and no release: the second press raised the press count
to 2 without a notification, and the release lowered it to 1 without one. -/
theorem double_press_counterexample :
    ∃ d, evdev_process_keys 256 (fresh_device (fun _ => true) identity_filter 1000)
        [({ type := EV_KEY, code := KEY_ESC, value := 1 }, 1),
         ({ type := EV_KEY, code := KEY_ESC, value := 1 }, 2),
         ({ type := EV_KEY, code := KEY_ESC, value := 0 }, 3)] = some d ∧
      (∀ code, hw_is_key_down d code = false) ∧
      presses_emitted KEY_ESC d.emitted = 1 ∧
      releases_emitted KEY_ESC d.emitted = 0 := by
  refine ⟨_, rfl, ?_, rfl, rfl⟩
  intro code
  show Function.update (Function.update (Function.update (fun _ => false) KEY_ESC true)
    KEY_ESC true) KEY_ESC false code = false
  by_cases h : code = KEY_ESC <;> simp [Function.update, h]

/-- C12, amended. For every sequence of `EV_KEY` events fed to
`evdev_process_key` on a fresh device, at every point the run reaches (the end
of every run whose calls all returned) and for every code, the presses handed
to the client are at least as many as the releases. If no event presses a code
while `hw_key_mask` has it down and `key_count` has more than one value, every
call returns, and the two numbers are equal whenever `hw_key_mask` has every
code up. -/
theorem presses_ahead_of_releases (kc_mod : Nat) (has_key_code : Nat → Bool)
    (filter : motion_filter) (dpi : Int) (es : List (input_event × Nat)) :
    (∀ (d : evdev_device) (code : Nat),
      evdev_process_keys kc_mod (fresh_device has_key_code filter dpi) es = some d →
      releases_emitted code d.emitted ≤ presses_emitted code d.emitted) ∧
    (1 < kc_mod →
      presses_only_when_up kc_mod (fresh_device has_key_code filter dpi) es →
      ∃ d, evdev_process_keys kc_mod (fresh_device has_key_code filter dpi) es = some d ∧
        ((∀ code, hw_is_key_down d code = false) →
          ∀ code, presses_emitted code d.emitted = releases_emitted code d.emitted)) := by
  refine ⟨fun d code h => ?_, fun hm hw => ?_⟩
  · exact (press_release_ordered_process_keys kc_mod es _ d h
      (press_release_ordered_fresh _ _ _) code).1
  · obtain ⟨d, hrun, hk⟩ := keys_settled_process_keys kc_mod hm es _
      (keys_settled_fresh _ _ _) hw
    refine ⟨d, hrun, fun hup code => ?_⟩
    obtain ⟨hc, hp⟩ := hk.2.2.2.2.2 code
    have hz : d.key_count code = 0 := by
      rw [hc, if_neg (fun h => by
        have := hup code
        simp only [hw_is_key_down, long_bit_is_set] at this
        rw [this] at h
        exact absurd h.1 (by simp))]
    rw [hp, hz]
    rfl

/-- C12, amended, at a run that presses and releases `KEY_ESC` and `BTN_LEFT`
with a repeat in between: all codes are up at the end and each code has one
press and one release. -/
theorem presses_ahead_of_releases_witness :
    ∃ d, evdev_process_keys 256 (fresh_device (fun _ => true) identity_filter 1000)
        [({ type := EV_KEY, code := KEY_ESC, value := 1 }, 1),
         ({ type := EV_KEY, code := BTN_LEFT, value := 1 }, 2),
         ({ type := EV_KEY, code := KEY_ESC, value := 2 }, 3),
         ({ type := EV_KEY, code := KEY_ESC, value := 0 }, 4),
         ({ type := EV_KEY, code := BTN_LEFT, value := 0 }, 5)] = some d ∧
      (∀ code, hw_is_key_down d code = false) ∧
      presses_emitted KEY_ESC d.emitted = 1 ∧ releases_emitted KEY_ESC d.emitted = 1 ∧
      presses_emitted BTN_LEFT d.emitted = releases_emitted BTN_LEFT d.emitted ∧
      releases_emitted BTN_RIGHT d.emitted ≤ presses_emitted BTN_RIGHT d.emitted := by
  obtain ⟨d, hrun, heq⟩ := (presses_ahead_of_releases 256 (fun _ => true) identity_filter
    1000
    [({ type := EV_KEY, code := KEY_ESC, value := 1 }, 1),
     ({ type := EV_KEY, code := BTN_LEFT, value := 1 }, 2),
     ({ type := EV_KEY, code := KEY_ESC, value := 2 }, 3),
     ({ type := EV_KEY, code := KEY_ESC, value := 0 }, 4),
     ({ type := EV_KEY, code := BTN_LEFT, value := 0 }, 5)]).2 (by decide)
    ⟨fun _ _ => rfl, fun _ _ => rfl, fun _ h => absurd rfl h,
      fun h _ => absurd rfl h, fun h _ => absurd rfl h, trivial⟩
  have hd : some d = some _ := hrun.symm.trans rfl
  simp only [Option.some.injEq] at hd
  have hup : ∀ code, hw_is_key_down d code = false := by
    intro code
    rw [hd]
    show Function.update (Function.update (Function.update (Function.update
      (fun _ => false) KEY_ESC true) BTN_LEFT true) KEY_ESC false) BTN_LEFT false code =
      false
    by_cases h1 : code = KEY_ESC <;> by_cases h2 : code = BTN_LEFT <;>
      simp [Function.update, h1, h2]
  refine ⟨d, hrun, hup, ?_, ?_, heq hup BTN_LEFT,
    (presses_ahead_of_releases 256 (fun _ => true) identity_filter 1000 _).1 d BTN_RIGHT
      hrun⟩
  · rw [hd]; rfl
  · rw [hd]; rfl

/-! ## Tap engine: multi-tap (C30) -/

/-- One tap from `MULTITAP`: the TOUCH presses `BTN_LEFT`, the RELEASE releases
it, and the machine is back in `MULTITAP` with no button held. -/
theorem tap_multitap_cycle (tp : tp_dispatch) (a b : Option tp_touch) (t0 t1 : Nat)
    (hs : tp.tap.state = TAP_STATE_MULTITAP) (hb : tp.tap.buttons_pressed = 0) :
    (tp_tap_handle_event (tp_tap_handle_event tp a TAP_EVENT_TOUCH t0) b
      TAP_EVENT_RELEASE t1).tap.state = TAP_STATE_MULTITAP ∧
    (tp_tap_handle_event (tp_tap_handle_event tp a TAP_EVENT_TOUCH t0) b
      TAP_EVENT_RELEASE t1).tap.buttons_pressed = 0 ∧
    (tp_tap_handle_event (tp_tap_handle_event tp a TAP_EVENT_TOUCH t0) b
      TAP_EVENT_RELEASE t1).notified = tp.notified ++
      [{ time := t0, button := BTN_LEFT, state := LIBINPUT_BUTTON_STATE_PRESSED },
       { time := t1, button := BTN_LEFT, state := LIBINPUT_BUTTON_STATE_RELEASED }] := by
  obtain ⟨⟨s, tm, bp, ml, en, su⟩, nf, ts, nt⟩ := tp
  simp only at hs hb
  subst hs hb
  simp [tp_tap_handle_event, tp_tap_multitap_handle_event,
    tp_tap_multitap_down_handle_event, tp_tap_notify, tp_tap_set_timer, tp_tap_clear_timer,
    set_tap_state, libinput_timer_set, libinput_timer_cancel]
  decide

/-- C30. From `TAP_STATE_DRAGGING_OR_DOUBLETAP`, holding `BTN_LEFT` as that
state does, a RELEASE emits `BTN_LEFT` released, pressed, released in that
order, all at the time of the RELEASE, and moves to `TAP_STATE_MULTITAP` with
no button held. From there any number of TOUCH and RELEASE pairs emits one
`BTN_LEFT` press at each TOUCH and one release at each RELEASE and ends in
`MULTITAP` with no button held. -/
theorem tap_multitap_repeats (tp : tp_dispatch) (t : Option tp_touch) (time : Nat)
    (cycles : List ((Option tp_touch × Nat) × (Option tp_touch × Nat)))
    (hs : tp.tap.state = TAP_STATE_DRAGGING_OR_DOUBLETAP)
    (hb : tap_buttons_consistent tp) :
    (tp_tap_handle_event tp t TAP_EVENT_RELEASE time).tap.state = TAP_STATE_MULTITAP ∧
    (tp_tap_handle_event tp t TAP_EVENT_RELEASE time).tap.buttons_pressed = 0 ∧
    (tp_tap_handle_event tp t TAP_EVENT_RELEASE time).notified = tp.notified ++
      [{ time := time, button := BTN_LEFT, state := LIBINPUT_BUTTON_STATE_RELEASED },
       { time := time, button := BTN_LEFT, state := LIBINPUT_BUTTON_STATE_PRESSED },
       { time := time, button := BTN_LEFT, state := LIBINPUT_BUTTON_STATE_RELEASED }] ∧
    (tap_touch_release_cycles (tp_tap_handle_event tp t TAP_EVENT_RELEASE time)
      cycles).tap.state = TAP_STATE_MULTITAP ∧
    (tap_touch_release_cycles (tp_tap_handle_event tp t TAP_EVENT_RELEASE time)
      cycles).tap.buttons_pressed = 0 ∧
    (tap_touch_release_cycles (tp_tap_handle_event tp t TAP_EVENT_RELEASE time)
      cycles).notified =
      (tp_tap_handle_event tp t TAP_EVENT_RELEASE time).notified ++
        tap_cycle_buttons cycles := by
  have h1 : (tp_tap_handle_event tp t TAP_EVENT_RELEASE time).tap.state =
        TAP_STATE_MULTITAP ∧
      (tp_tap_handle_event tp t TAP_EVENT_RELEASE time).tap.buttons_pressed = 0 ∧
      (tp_tap_handle_event tp t TAP_EVENT_RELEASE time).notified = tp.notified ++
        [{ time := time, button := BTN_LEFT, state := LIBINPUT_BUTTON_STATE_RELEASED },
         { time := time, button := BTN_LEFT, state := LIBINPUT_BUTTON_STATE_PRESSED },
         { time := time, button := BTN_LEFT, state := LIBINPUT_BUTTON_STATE_RELEASED }] := by
    obtain ⟨⟨s, tm, bp, ml, en, su⟩, nf, ts, nt⟩ := tp
    simp only [tap_buttons_consistent] at hs hb
    subst hs
    simp only [holds_left, if_true] at hb
    subst hb
    simp [tp_tap_handle_event, tp_tap_dragging_or_doubletap_handle_event, tp_tap_notify,
      set_tap_state]
    decide
  have h2 : ∀ (cs : List ((Option tp_touch × Nat) × (Option tp_touch × Nat)))
      (x : tp_dispatch), x.tap.state = TAP_STATE_MULTITAP → x.tap.buttons_pressed = 0 →
      (tap_touch_release_cycles x cs).tap.state = TAP_STATE_MULTITAP ∧
      (tap_touch_release_cycles x cs).tap.buttons_pressed = 0 ∧
      (tap_touch_release_cycles x cs).notified = x.notified ++ tap_cycle_buttons cs := by
    intro cs
    induction cs with
    | nil =>
      intro x hx hxb
      exact ⟨hx, hxb, by simp [tap_touch_release_cycles, tap_cycle_buttons]⟩
    | cons c rest ih =>
      intro x hx hxb
      obtain ⟨⟨a, ta⟩, ⟨b, tb⟩⟩ := c
      obtain ⟨c1, c2, c3⟩ := tap_multitap_cycle x a b ta tb hx hxb
      obtain ⟨i1, i2, i3⟩ := ih _ c1 c2
      refine ⟨i1, i2, ?_⟩
      simp only [tap_touch_release_cycles, tap_cycle_buttons]
      rw [i3, c3]
      simp
  exact ⟨h1.1, h1.2.1, h1.2.2, h2 cycles _ h1.1 h1.2.1⟩

/-- C30 on the dispatch at rest: a tap, a second touch released at 150 ms and
two more taps. -/
theorem tap_multitap_repeats_witness :
    (tap_touch_release_cycles
      (tp_tap_handle_event
        (tp_tap_handle_event (tp_tap_handle_event (tp_tap_handle_event tp_at_rest none
          TAP_EVENT_TOUCH 0) none TAP_EVENT_RELEASE 50) none TAP_EVENT_TOUCH 100)
        none TAP_EVENT_RELEASE 150)
      [((none, 200), (none, 250)), ((none, 300), (none, 350))]).notified =
      [{ time := 50, button := BTN_LEFT, state := LIBINPUT_BUTTON_STATE_PRESSED },
       { time := 150, button := BTN_LEFT, state := LIBINPUT_BUTTON_STATE_RELEASED },
       { time := 150, button := BTN_LEFT, state := LIBINPUT_BUTTON_STATE_PRESSED },
       { time := 150, button := BTN_LEFT, state := LIBINPUT_BUTTON_STATE_RELEASED },
       { time := 200, button := BTN_LEFT, state := LIBINPUT_BUTTON_STATE_PRESSED },
       { time := 250, button := BTN_LEFT, state := LIBINPUT_BUTTON_STATE_RELEASED },
       { time := 300, button := BTN_LEFT, state := LIBINPUT_BUTTON_STATE_PRESSED },
       { time := 350, button := BTN_LEFT, state := LIBINPUT_BUTTON_STATE_RELEASED }] :=
  (tap_multitap_repeats
    (tp_tap_handle_event (tp_tap_handle_event (tp_tap_handle_event tp_at_rest none
      TAP_EVENT_TOUCH 0) none TAP_EVENT_RELEASE 50) none TAP_EVENT_TOUCH 100)
    none 150 [((none, 200), (none, 250)), ((none, 300), (none, 350))]
    (by decide) (by unfold tap_buttons_consistent; decide)).2.2.2.2.2.trans (by decide)

/-! ## Tap engine: when the tap press is emitted (C28) -/

/-- C28, counterexample. On the dispatch at rest, a touch at 0 ms that is
released at 50 ms has `BTN_LEFT` pressed notified by the RELEASE itself, at
50 ms: a button event is emitted at touch-up time. -/
theorem tap_press_at_touch_up_counterexample :
    (tp_tap_handle_event (tp_tap_handle_event tp_at_rest (some tapping_touch)
      TAP_EVENT_TOUCH 0) (some tapping_touch) TAP_EVENT_RELEASE 50).notified =
      [{ time := 50, button := BTN_LEFT, state := LIBINPUT_BUTTON_STATE_PRESSED }] ∧
    (tp_tap_handle_event (tp_tap_handle_event tp_at_rest (some tapping_touch)
      TAP_EVENT_TOUCH 0) (some tapping_touch) TAP_EVENT_RELEASE 50).notified ≠ [] := by
  decide

/-- C28, amended. In the single-finger tap scenario (TOUCH, then RELEASE
50 ms later, from `IDLE` with no button held) the TOUCH emits nothing, the
RELEASE emits `BTN_LEFT` pressed with the touch-up time and arms the tap timer
for 180 ms after the touch-up, and `tp_tap_handle_timeout` at the expiry emits
`BTN_LEFT` released with the expiry time and leaves the machine in `IDLE` with
the timer cancelled. -/
theorem tap_press_at_touch_up (tp : tp_dispatch) (a b : Option tp_touch)
    (t0 expiry : Nat)
    (hs : tp.tap.state = TAP_STATE_IDLE) (hb : tp.tap.buttons_pressed = 0) :
    (tp_tap_handle_event tp a TAP_EVENT_TOUCH t0).notified = tp.notified ∧
    (tp_tap_handle_event (tp_tap_handle_event tp a TAP_EVENT_TOUCH t0) b
      TAP_EVENT_RELEASE (t0 + 50)).notified = tp.notified ++
      [{ time := t0 + 50, button := BTN_LEFT,
         state := LIBINPUT_BUTTON_STATE_PRESSED }] ∧
    (tp_tap_handle_event (tp_tap_handle_event tp a TAP_EVENT_TOUCH t0) b
      TAP_EVENT_RELEASE (t0 + 50)).tap.timer =
      some ((t0 + 50 + DEFAULT_TAP_TIMEOUT_PERIOD) % 2 ^ 64) ∧
    (tp_tap_handle_timeout expiry
      (tp_tap_handle_event (tp_tap_handle_event tp a TAP_EVENT_TOUCH t0) b
        TAP_EVENT_RELEASE (t0 + 50))).notified = tp.notified ++
      [{ time := t0 + 50, button := BTN_LEFT, state := LIBINPUT_BUTTON_STATE_PRESSED },
       { time := expiry, button := BTN_LEFT,
         state := LIBINPUT_BUTTON_STATE_RELEASED }] ∧
    (tp_tap_handle_timeout expiry
      (tp_tap_handle_event (tp_tap_handle_event tp a TAP_EVENT_TOUCH t0) b
        TAP_EVENT_RELEASE (t0 + 50))).tap.state = TAP_STATE_IDLE ∧
    (tp_tap_handle_timeout expiry
      (tp_tap_handle_event (tp_tap_handle_event tp a TAP_EVENT_TOUCH t0) b
        TAP_EVENT_RELEASE (t0 + 50))).tap.timer = none := by
  obtain ⟨⟨s, tm, bp, ml, en, su⟩, nf, ts, nt⟩ := tp
  simp only at hs hb
  subst hs hb
  simp [tp_tap_handle_timeout, tp_tap_handle_event, tp_tap_idle_handle_event,
    tp_tap_touch_handle_event, tp_tap_tapped_handle_event, tp_tap_notify,
    tp_tap_set_timer, tp_tap_clear_timer, set_tap_state, libinput_timer_set,
    libinput_timer_cancel]

/-- C28, amended, on the dispatch at rest with the touch at 0 ms: the press
carries 50 ms and the release 230 ms. -/
theorem tap_press_at_touch_up_witness :
    (tp_tap_handle_timeout 230
      (tp_tap_handle_event (tp_tap_handle_event tp_at_rest (some tapping_touch)
        TAP_EVENT_TOUCH 0) (some tapping_touch) TAP_EVENT_RELEASE (0 + 50))).notified =
      [{ time := 0 + 50, button := BTN_LEFT, state := LIBINPUT_BUTTON_STATE_PRESSED },
       { time := 230, button := BTN_LEFT, state := LIBINPUT_BUTTON_STATE_RELEASED }] :=
  (tap_press_at_touch_up tp_at_rest (some tapping_touch) (some tapping_touch) 0 230
    rfl rfl).2.2.2.1

/-! ## evdev device: scrolling (C21, C22, C23) -/

/-- The test `n & (1 << i)` reads bit `i` of `n`. -/
theorem and_bit_ne_zero (n i : Nat) : (n &&& (1 <<< i) ≠ 0) ↔ n.testBit i = true := by
  constructor
  · intro h
    by_contra hb
    apply h
    apply Nat.eq_of_testBit_eq
    intro j
    simp only [Nat.testBit_and, Nat.zero_testBit, Nat.one_shiftLeft, Nat.testBit_two_pow]
    by_cases hij : i = j
    · subst hij; simp [hb]
    · simp [hij]
  · intro h h0
    have := congrArg (fun m => m.testBit i) h0
    simp [Nat.testBit_and, Nat.one_shiftLeft, Nat.testBit_two_pow, h] at this

/-- `evdev_is_scrolling` reads the bit of the axis in `scroll.direction`. -/
theorem is_scrolling_testBit (d : evdev_device) (axis : libinput_pointer_axis) :
    evdev_is_scrolling d axis = d.scroll.direction.testBit axis.toNat := by
  unfold evdev_is_scrolling
  rw [Bool.eq_iff_iff]
  simp only [decide_eq_true_eq]
  exact and_bit_ne_zero _ _

/-- `evdev_start_scrolling` sets the bit of its axis and no other. -/
theorem is_scrolling_start (d : evdev_device) (a b : libinput_pointer_axis) :
    evdev_is_scrolling (evdev_start_scrolling d a) b =
      (evdev_is_scrolling d b || decide (a = b)) := by
  rw [is_scrolling_testBit, is_scrolling_testBit]
  simp only [evdev_start_scrolling, Nat.testBit_or, Nat.one_shiftLeft, Nat.testBit_two_pow]
  cases a <;> cases b <;> simp [libinput_pointer_axis.toNat]

/-- C22. After `evdev_post_scroll` an axis scrolls exactly if it scrolled
before or started in this call. While the other axis is not scrolling it starts
exactly when the absolute value of its build-up, the current delta included,
is at least `scroll.threshold`; the build-up is the `double` that `+=` leaves,
the sum rounded (`double_add`). While the other axis is scrolling it starts
exactly when the absolute value of the current delta alone is at least the
threshold, whatever its build-up. -/
theorem evdev_post_scroll_starts (d : evdev_device) (time : Nat) (dx dy : ℚ) :
    evdev_is_scrolling (evdev_post_scroll d time dx dy)
        LIBINPUT_POINTER_AXIS_SCROLL_VERTICAL =
      (evdev_is_scrolling d LIBINPUT_POINTER_AXIS_SCROLL_VERTICAL ||
        decide (if evdev_is_scrolling d LIBINPUT_POINTER_AXIS_SCROLL_HORIZONTAL = true
          then |dy| ≥ d.scroll.threshold
          else |double_add d.scroll.buildup_vertical dy| ≥ d.scroll.threshold)) ∧
    evdev_is_scrolling (evdev_post_scroll d time dx dy)
        LIBINPUT_POINTER_AXIS_SCROLL_HORIZONTAL =
      (evdev_is_scrolling d LIBINPUT_POINTER_AXIS_SCROLL_HORIZONTAL ||
        decide (if evdev_is_scrolling d LIBINPUT_POINTER_AXIS_SCROLL_VERTICAL = true
          then |dx| ≥ d.scroll.threshold
          else |double_add d.scroll.buildup_horizontal dx| ≥ d.scroll.threshold)) := by
  have e : ∀ (c : Prop) [Decidable c] (x : evdev_device) (t : Nat)
      (a b : libinput_pointer_axis) (v : ℚ),
      evdev_is_scrolling (if c then evdev_notify_axis x t a v else x) b =
        evdev_is_scrolling x b := by
    intros; split <;> rfl
  unfold evdev_post_scroll
  lift_lets
  extract_lets s1 d1 s2 d2 tv th a d3 d4
  rw [e, e]
  simp only [d4, e]
  simp only [is_scrolling_testBit, libinput_pointer_axis.toNat]
  cases hV : d.scroll.direction.testBit 0 <;>
    cases hH : d.scroll.direction.testBit 1 <;>
    by_cases h1 : d.scroll.threshold ≤ |double_add d.scroll.buildup_vertical dy| <;>
    by_cases h2 : d.scroll.threshold ≤ |double_add d.scroll.buildup_horizontal dx| <;>
    by_cases h3 : d.scroll.threshold ≤ |dy| <;>
    by_cases h4 : d.scroll.threshold ≤ |dx| <;>
    simp +decide [d3, a, tv, th, d2, s2, d1, s1, hV, hH, evdev_start_scrolling,
      is_scrolling_testBit, libinput_pointer_axis.toNat, Nat.testBit_or,
      Nat.one_shiftLeft, Nat.testBit_two_pow, h1, h2, h3, h4, -Nat.testBit_zero]

/-- What `evdev_stop_scroll` hands the client: a zero on the vertical axis if
it is scrolling, then a zero on the horizontal axis if it is scrolling. -/
theorem evdev_stop_scroll_emits (d : evdev_device) (time : Nat) :
    (evdev_stop_scroll d time).emitted = d.emitted ++
      (if evdev_is_scrolling d LIBINPUT_POINTER_AXIS_SCROLL_VERTICAL = true then
        [libinput_event.pointer_axis time LIBINPUT_POINTER_AXIS_SCROLL_VERTICAL 0]
       else []) ++
      (if evdev_is_scrolling d LIBINPUT_POINTER_AXIS_SCROLL_HORIZONTAL = true then
        [libinput_event.pointer_axis time LIBINPUT_POINTER_AXIS_SCROLL_HORIZONTAL 0]
       else []) := by
  by_cases hv : d.scroll.direction &&&
      (1 <<< LIBINPUT_POINTER_AXIS_SCROLL_VERTICAL.toNat) ≠ 0 <;>
    by_cases hh : d.scroll.direction &&&
      (1 <<< LIBINPUT_POINTER_AXIS_SCROLL_HORIZONTAL.toNat) ≠ 0 <;>
    simp [evdev_stop_scroll, evdev_is_scrolling, emit, hv, hh]

/-- C23. `evdev_stop_scroll` hands the client one axis event of value 0 for
the vertical axis if its bit is set in `scroll.direction`, then one for the
horizontal axis if its bit is set, and nothing else; afterwards
`scroll.direction`, `buildup_horizontal` and `buildup_vertical` are 0; and a
second call right after it hands the client nothing. -/
theorem evdev_stop_scroll_zeroes (d : evdev_device) (time later : Nat) :
    (evdev_stop_scroll d time).emitted = d.emitted ++
      (if evdev_is_scrolling d LIBINPUT_POINTER_AXIS_SCROLL_VERTICAL = true then
        [libinput_event.pointer_axis time LIBINPUT_POINTER_AXIS_SCROLL_VERTICAL 0]
       else []) ++
      (if evdev_is_scrolling d LIBINPUT_POINTER_AXIS_SCROLL_HORIZONTAL = true then
        [libinput_event.pointer_axis time LIBINPUT_POINTER_AXIS_SCROLL_HORIZONTAL 0]
       else []) ∧
    (evdev_stop_scroll d time).scroll.direction = 0 ∧
    (evdev_stop_scroll d time).scroll.buildup_horizontal = 0 ∧
    (evdev_stop_scroll d time).scroll.buildup_vertical = 0 ∧
    (evdev_stop_scroll (evdev_stop_scroll d time) later).emitted =
      (evdev_stop_scroll d time).emitted := by
  refine ⟨evdev_stop_scroll_emits d time, rfl, rfl, rfl, ?_⟩
  simp [evdev_stop_scroll, emit, libinput_pointer_axis.toNat]

/-- C21. A `REL_WHEEL` event with value `v` hands the client, after what the
flush of the pending event hands over, exactly one vertical axis event, of
value `-10 * v` with natural scrolling off and `10 * v` with it on; a
`REL_HWHEEL` event exactly one horizontal axis event, of value `10 * v` with
natural scrolling off and `-10 * v` with it on. The products are taken in the
integers, without overflow. -/
theorem evdev_wheel_axis (d : evdev_device) (v : Int) (time : Nat) :
    (evdev_process_relative d { type := EV_REL, code := REL_WHEEL, value := v }
      time).emitted = (evdev_flush_pending_event d time).emitted ++
      [libinput_event.pointer_axis time LIBINPUT_POINTER_AXIS_SCROLL_VERTICAL
        (if d.scroll.natural_scrolling_enabled then (10 * v : ℚ) else (-10 * v : ℚ))] ∧
    (evdev_process_relative d { type := EV_REL, code := REL_HWHEEL, value := v }
      time).emitted = (evdev_flush_pending_event d time).emitted ++
      [libinput_event.pointer_axis time LIBINPUT_POINTER_AXIS_SCROLL_HORIZONTAL
        (if d.scroll.natural_scrolling_enabled then (-10 * v : ℚ) else (10 * v : ℚ))] := by
  have hn : (evdev_flush_pending_event d time).scroll.natural_scrolling_enabled =
      d.scroll.natural_scrolling_enabled :=
    evdev_flush_pending_event_preserves
      (fun x : evdev_device => x.scroll.natural_scrolling_enabled)
      ⟨fun _ _ => rfl, fun _ _ => rfl, fun _ _ => rfl, fun _ _ => rfl, fun _ _ => rfl,
        fun _ _ => rfl, fun _ _ => rfl, fun _ _ => rfl, fun _ _ => rfl, fun _ _ => rfl⟩
      d time
  constructor
  · simp only [evdev_process_relative, REL_X, REL_Y, REL_WHEEL, REL_HWHEEL,
      evdev_notify_axis, emit, hn, DEFAULT_AXIS_STEP_DISTANCE]
    simp
    split <;> ring
  · simp only [evdev_process_relative, REL_X, REL_Y, REL_WHEEL, REL_HWHEEL,
      evdev_notify_axis, emit, hn, DEFAULT_AXIS_STEP_DISTANCE]
    simp
    split <;> ring

/-! ## evdev device: button scrolling (C24, C25) -/

theorem emits_only_of_eq (P : libinput_event → Bool) (d d1 : evdev_device)
    (he : d1.emitted = d.emitted) : emits_only P d d1 :=
  ⟨[], by simp [he], by simp⟩

theorem emits_only_trans {P : libinput_event → Bool} {a b c : evdev_device}
    (h1 : emits_only P a b) (h2 : emits_only P b c) : emits_only P a c := by
  obtain ⟨n1, e1, p1⟩ := h1
  obtain ⟨n2, e2, p2⟩ := h2
  refine ⟨n1 ++ n2, ?_, ?_⟩
  · rw [e2, e1, List.append_assoc]
  · intro ev hev
    rcases List.mem_append.mp hev with h | h
    · exact p1 ev h
    · exact p2 ev h

theorem emits_only_ite (P : libinput_event → Bool) (d a b : evdev_device) (c : Prop)
    [Decidable c] (ha : emits_only P d a) (hb : emits_only P d b) :
    emits_only P d (if c then a else b) := by
  split
  · exact ha
  · exact hb

theorem emits_only_emit (P : libinput_event → Bool) (d : evdev_device)
    (e : libinput_event) (he : P e = true) : emits_only P d (emit d e) :=
  ⟨[e], rfl, by simpa using he⟩

theorem emits_only_mt_slot_set_seat_slot (P : libinput_event → Bool)
    (d : evdev_device) (slot v : Int) :
    emits_only P d (mt_slot_set_seat_slot d slot v) := by
  unfold mt_slot_set_seat_slot
  split <;> exact emits_only_of_eq _ _ _ rfl

/-- While button scrolling is not active, flushing the pending event hands the
client neither a key or button event nor an axis event. -/
theorem flush_emits_motion_or_touch (d : evdev_device) (time : Nat)
    (h : d.scroll.button_scroll_active = false) :
    emits_only (fun ev => !ev.is_key_or_button && !ev.is_axis) d
      (evdev_flush_pending_event d time) := by
  have hr : ∀ x : evdev_device, emits_only
      (fun ev => !ev.is_key_or_button && !ev.is_axis) d x →
      emits_only (fun ev => !ev.is_key_or_button && !ev.is_axis) d
        { x with pending_event := EVDEV_NONE } :=
    fun x hx => emits_only_trans hx (emits_only_of_eq _ _ _ rfl)
  unfold evdev_flush_pending_event
  split
  · exact emits_only_of_eq _ _ _ rfl
  · apply hr
    unfold flush_relative_motion
    simp only [h]
    apply emits_only_ite
    · exact emits_only_of_eq _ _ _ rfl
    · apply emits_only_ite
      · exact emits_only_of_eq _ _ _ rfl
      · exact emits_only_emit _ _ _ rfl
  · apply hr
    unfold flush_mt_down
    simp only
    apply emits_only_ite
    · exact emits_only_of_eq _ _ _ rfl
    apply emits_only_ite
    · exact emits_only_of_eq _ _ _ rfl
    apply emits_only_ite
    · exact emits_only_mt_slot_set_seat_slot _ _ _ _
    · exact emits_only_trans (emits_only_mt_slot_set_seat_slot _ _ _ _)
        (emits_only_trans (emits_only_of_eq _ _ (seat_slot_take _ _) rfl)
          (emits_only_emit _ _ _ rfl))
  · apply hr
    unfold flush_mt_motion
    simp only
    apply emits_only_ite
    · exact emits_only_of_eq _ _ _ rfl
    apply emits_only_ite
    · exact emits_only_of_eq _ _ _ rfl
    · exact emits_only_emit _ _ _ rfl
  · apply hr
    unfold flush_mt_up
    simp only
    apply emits_only_ite
    · exact emits_only_of_eq _ _ _ rfl
    apply emits_only_ite
    · exact emits_only_mt_slot_set_seat_slot _ _ _ _
    · exact emits_only_trans (emits_only_mt_slot_set_seat_slot _ _ _ _)
        (emits_only_trans (emits_only_of_eq _ _ (seat_slot_give _ _) rfl)
          (emits_only_emit _ _ _ rfl))
  · apply hr
    unfold flush_touch_down
    simp only
    apply emits_only_ite
    · exact emits_only_of_eq _ _ _ rfl
    apply emits_only_ite
    · exact emits_only_of_eq _ _ _ rfl
    apply emits_only_ite
    · exact emits_only_of_eq _ _ _ rfl
    · exact emits_only_trans (b := seat_slot_take { d with abs := { d.abs with
          seat_slot := next_seat_slot d.seat } } (next_seat_slot d.seat))
        (emits_only_of_eq _ _ _ rfl) (emits_only_emit _ _ _ rfl)
  · apply hr
    unfold flush_absolute_motion
    simp only
    apply emits_only_ite
    · apply emits_only_ite
      · exact emits_only_of_eq _ _ _ rfl
      · exact emits_only_emit _ _ _ rfl
    · apply emits_only_ite
      · exact emits_only_emit _ _ _ rfl
      · exact emits_only_of_eq _ _ _ rfl
  · apply hr
    unfold flush_touch_up
    simp only
    apply emits_only_ite
    · exact emits_only_of_eq _ _ _ rfl
    apply emits_only_ite
    · exact emits_only_of_eq _ _ _ rfl
    · exact emits_only_trans (b := seat_slot_give { d with abs := { d.abs with
          seat_slot := -1 } } d.abs.seat_slot)
        (emits_only_of_eq _ _ _ rfl) (emits_only_emit _ _ _ rfl)

/-- The flush of the pending event does not write the scroll timer, the
scroll-mode flag, the threshold, the natural-scrolling flag, the resolution or
the capability map. -/
theorem flush_blind_button_scroll :
    flush_blind (fun x : evdev_device => (x.scroll.button_scroll_active,
      x.scroll.timer, x.scroll.threshold, x.scroll.natural_scrolling_enabled, x.dpi,
      x.has_key_code)) :=
  ⟨fun _ _ => rfl, fun _ _ => rfl, fun _ _ => rfl, fun _ _ => rfl, fun _ _ => rfl,
    fun _ _ => rfl, fun _ _ => rfl, fun _ _ => rfl, fun _ _ => rfl, fun _ _ => rfl⟩

/-- A press of the scroll button under `ON_BUTTON_DOWN` returns; after the
flush it only sets the bit of the button in the hardware bitmap and arms the
scroll timer. -/
theorem scroll_button_press (kc_mod : Nat) (d : evdev_device) (time : Nat)
    (hm : d.scroll.method = LIBINPUT_CONFIG_SCROLL_ON_BUTTON_DOWN)
    (hb : get_key_type d.scroll.button = EVDEV_KEY_TYPE_BUTTON) :
    ∃ d1, evdev_process_key kc_mod d
        { type := EV_KEY, code := d.scroll.button, value := 1 } time = some d1 ∧
      d1.emitted = (evdev_flush_pending_event d time).emitted ∧
      d1.scroll.timer = some ((time + DEFAULT_MIDDLE_BUTTON_SCROLL_TIMEOUT) % 2 ^ 64) ∧
      d1.scroll.button_scroll_active = d.scroll.button_scroll_active ∧
      d1.scroll.method = d.scroll.method ∧ d1.scroll.button = d.scroll.button ∧
      d1.key_count = d.key_count ∧
      d1.hw_key_mask = Function.update d.hw_key_mask d.scroll.button true := by
  have hne : d.scroll.button ≠ BTN_TOUCH := by
    intro h
    rw [h] at hb
    exact absurd hb (by decide)
  have hcfg := evdev_flush_pending_event_preserves _ flush_blind_config d time
  simp only [Prod.mk.injEq] at hcfg
  obtain ⟨-, hfm, -, -, hfb⟩ := hcfg
  have hbs := evdev_flush_pending_event_preserves _ flush_blind_button_scroll d time
  simp only [Prod.mk.injEq] at hbs
  obtain ⟨hact, -⟩ := hbs
  obtain ⟨hmask, hcount, -⟩ := keys_untouched_flush d time
  have hval : evdev_process_key kc_mod d
      { type := EV_KEY, code := d.scroll.button, value := 1 } time =
      some { hw_set_key_down (evdev_flush_pending_event d time) d.scroll.button 1 with
        scroll := { (evdev_flush_pending_event d time).scroll with
          timer := some ((time + DEFAULT_MIDDLE_BUTTON_SCROLL_TIMEOUT) % 2 ^ 64) } } := by
    simp [evdev_process_key, hne, hb, hw_set_key_down, hfm, hfb, hm,
      evdev_button_scroll_button, libinput_timer_set]
  refine ⟨_, hval, ?_⟩
  simp [hact, hfm, hfb, hcount, hmask, long_set_bit_state, hw_set_key_down]

/-- `evdev_pointer_notify_button` changes only the press counts, the record of
emitted events, `buttons`, and the method and button of `scroll`. -/
theorem evdev_pointer_notify_button_preserves {α : Type} (π : evdev_device → α)
    (hkc : ∀ (d : evdev_device) (k : Nat → Nat), π { d with key_count := k } = π d)
    (he : ∀ (d : evdev_device) (e : libinput_event), π (emit d e) = π d)
    (hb : ∀ (d : evdev_device) (b : evdev_buttons), π { d with buttons := b } = π d)
    (hs : ∀ (d : evdev_device) (m : libinput_config_scroll_method) (b : Nat),
      π { d with scroll := { d.scroll with method := m, button := b } } = π d)
    (kc_mod : Nat) (d d1 : evdev_device) (time button : Nat)
    (state : libinput_button_state)
    (h : evdev_pointer_notify_button kc_mod d time button state = some d1) :
    π d1 = π d := by
  have hl : ∀ x : evdev_device, π (evdev_change_to_left_handed x) = π x := by
    intro x
    unfold evdev_change_to_left_handed
    exact preserved_ite π _ _ _ _ rfl (preserved_ite π _ _ _ _ rfl (hb _ _))
  have hm : ∀ x : evdev_device, π (evdev_change_scroll_method x) = π x := by
    intro x
    unfold evdev_change_scroll_method
    exact preserved_ite π _ _ _ _ rfl (preserved_ite π _ _ _ _ rfl (hs _ _ _))
  unfold evdev_pointer_notify_button at h
  cases hu : update_key_down_count kc_mod d button
      (decide (state = LIBINPUT_BUTTON_STATE_PRESSED)) with
  | none => simp [hu] at h
  | some r =>
    obtain ⟨dev, n⟩ := r
    have hdev : π dev = π d := by
      unfold update_key_down_count at hu
      split_ifs at hu
      · simp only [Option.some.injEq, Prod.mk.injEq] at hu
        rw [← hu.1]
        exact hkc _ _
      · simp only [Option.some.injEq, Prod.mk.injEq] at hu
        rw [← hu.1]
        exact hkc _ _
    simp only [hu] at h
    by_cases hc : (state = LIBINPUT_BUTTON_STATE_PRESSED ∧ n = 1) ∨
        (state = LIBINPUT_BUTTON_STATE_RELEASED ∧ n = 0)
    · rw [if_pos hc] at h
      simp only [Option.some.injEq] at h
      rw [← h]
      have h1 : π (emit dev (libinput_event.pointer_button (time % 2 ^ 32) button state)) =
          π d := (he _ _).trans hdev
      have h2 := preserved_ite π (state = LIBINPUT_BUTTON_STATE_RELEASED ∧
          (emit dev (libinput_event.pointer_button (time % 2 ^ 32) button
            state)).buttons.has_change_to_left_handed = true)
        (evdev_change_to_left_handed
          (emit dev (libinput_event.pointer_button (time % 2 ^ 32) button state)))
        (emit dev (libinput_event.pointer_button (time % 2 ^ 32) button state))
        (π d) ((hl _).trans h1) h1
      exact preserved_ite π _ _ _ _ ((hm _).trans h2) h2
    · rw [if_neg hc] at h
      simp only [Option.some.injEq] at h
      rw [← h]
      exact hdev

/-- A release of the held scroll button before scroll mode is active, with its
press count at 0: after the flush the button is notified pressed and then
released, both at the time of the release. -/
theorem scroll_button_click_release (kc_mod : Nat) (d : evdev_device) (time : Nat)
    (hk : 1 < kc_mod)
    (hm : d.scroll.method = LIBINPUT_CONFIG_SCROLL_ON_BUTTON_DOWN)
    (hb : get_key_type d.scroll.button = EVDEV_KEY_TYPE_BUTTON)
    (hdown : hw_is_key_down d d.scroll.button = true)
    (hact : d.scroll.button_scroll_active = false)
    (hcnt : d.key_count d.scroll.button = 0) :
    ∃ d1, evdev_process_key kc_mod d
        { type := EV_KEY, code := d.scroll.button, value := 0 } time = some d1 ∧
      d1.emitted = (evdev_flush_pending_event d time).emitted ++
        [libinput_event.pointer_button (time % 2 ^ 32) d.scroll.button
          LIBINPUT_BUTTON_STATE_PRESSED,
         libinput_event.pointer_button (time % 2 ^ 32) d.scroll.button
          LIBINPUT_BUTTON_STATE_RELEASED] ∧
      d1.scroll.button_scroll_active = false ∧ d1.scroll.timer = none ∧
      d1.key_count d.scroll.button = 0 ∧ hw_is_key_down d1 d.scroll.button = false := by
  have hne : d.scroll.button ≠ BTN_TOUCH := by
    intro h
    rw [h] at hb
    exact absurd hb (by decide)
  have hlt : d.scroll.button < KEY_CNT := get_key_type_lt _ (by rw [hb]; decide)
  have hcfg := evdev_flush_pending_event_preserves _ flush_blind_config d time
  simp only [Prod.mk.injEq] at hcfg
  obtain ⟨-, hfm, -, -, hfb⟩ := hcfg
  have hbs := evdev_flush_pending_event_preserves _ flush_blind_button_scroll d time
  simp only [Prod.mk.injEq] at hbs
  obtain ⟨hfact, -⟩ := hbs
  obtain ⟨hmask, hcount, -⟩ := keys_untouched_flush d time
  have hfdown : hw_is_key_down (evdev_flush_pending_event d time) d.scroll.button = true := by
    simpa [hw_is_key_down, hmask] using hdown
  have h1 : (1 : Nat) % kc_mod = 1 := Nat.mod_eq_of_lt hk
  have hstep : evdev_process_key kc_mod d
      { type := EV_KEY, code := d.scroll.button, value := 0 } time =
      evdev_pointer_notify_button kc_mod
        (emit { hw_set_key_down (evdev_flush_pending_event d time) d.scroll.button 0 with
            scroll := { (evdev_flush_pending_event d time).scroll with timer := none }
            key_count := Function.update (evdev_flush_pending_event d time).key_count
              d.scroll.button 1 }
          (libinput_event.pointer_button (time % 2 ^ 32) d.scroll.button
            LIBINPUT_BUTTON_STATE_PRESSED))
        time d.scroll.button LIBINPUT_BUTTON_STATE_RELEASED := by
    simp [evdev_process_key, hne, hb, hw_set_key_down, hfm, hfb, hm, hfdown, hfact, hact,
      evdev_button_scroll_button, libinput_timer_cancel, evdev_pointer_notify_button,
      update_key_down_count, hlt, hcount, hcnt, h1, emit]
  obtain ⟨d1, hd1⟩ := evdev_pointer_notify_button_returns kc_mod
    (emit { hw_set_key_down (evdev_flush_pending_event d time) d.scroll.button 0 with
        scroll := { (evdev_flush_pending_event d time).scroll with timer := none }
        key_count := Function.update (evdev_flush_pending_event d time).key_count
          d.scroll.button 1 }
      (libinput_event.pointer_button (time % 2 ^ 32) d.scroll.button
        LIBINPUT_BUTTON_STATE_PRESSED))
    time d.scroll.button LIBINPUT_BUTTON_STATE_RELEASED hlt
    (Or.inr (by simp [emit]))
  have hkeep := evdev_pointer_notify_button_preserves
    (fun x : evdev_device => (x.scroll.button_scroll_active, x.scroll.timer, x.hw_key_mask))
    (fun _ _ => rfl) (fun _ _ => rfl) (fun _ _ => rfl) (fun _ _ _ => rfl)
    _ _ _ _ _ _ hd1
  simp only [Prod.mk.injEq] at hkeep
  obtain ⟨ka, kt, km⟩ := hkeep
  obtain ⟨dev, n, hu, -, hkc, hem⟩ := evdev_pointer_notify_button_parts _ _ _ _ _ _ hd1
  simp [update_key_down_count, hlt, emit] at hu
  obtain ⟨hdev, hn⟩ := hu
  subst hdev
  subst hn
  refine ⟨d1, hstep.trans hd1, ?_, ?_, ?_, ?_, ?_⟩
  · rw [hem]
    simp [emit, hw_set_key_down]
  · rw [ka]
    simp [emit, hw_set_key_down, hfact, hact]
  · rw [kt]
    simp [emit, hw_set_key_down]
  · rw [hkc]
    simp
  · unfold hw_is_key_down
    rw [km]
    simp [emit, hw_set_key_down, long_set_bit_state, long_bit_is_set]

/-- `evdev_post_scroll` with no horizontal delta on a device that is not
scrolling horizontally and has no horizontal build-up. -/
theorem evdev_post_scroll_vertical (x : evdev_device) (time : Nat) (dy : ℚ)
    (hH : evdev_is_scrolling x LIBINPUT_POINTER_AXIS_SCROLL_HORIZONTAL = false)
    (hbh : x.scroll.buildup_horizontal = 0) (hthr : 0 < x.scroll.threshold) :
    (evdev_post_scroll x time 0 dy).emitted = x.emitted ++
      (if dy ≠ 0 ∧ (evdev_is_scrolling x LIBINPUT_POINTER_AXIS_SCROLL_VERTICAL = true ∨
          x.scroll.threshold ≤ |double_add x.scroll.buildup_vertical dy|) then
        [libinput_event.pointer_axis time LIBINPUT_POINTER_AXIS_SCROLL_VERTICAL
          (if x.scroll.natural_scrolling_enabled then dy * (-1) else dy)]
       else []) ∧
    evdev_is_scrolling (evdev_post_scroll x time 0 dy)
        LIBINPUT_POINTER_AXIS_SCROLL_VERTICAL =
      (evdev_is_scrolling x LIBINPUT_POINTER_AXIS_SCROLL_VERTICAL ||
        decide (x.scroll.threshold ≤ |double_add x.scroll.buildup_vertical dy|)) ∧
    evdev_is_scrolling (evdev_post_scroll x time 0 dy)
        LIBINPUT_POINTER_AXIS_SCROLL_HORIZONTAL = false ∧
    (evdev_post_scroll x time 0 dy).scroll.buildup_horizontal = 0 ∧
    (evdev_post_scroll x time 0 dy).scroll.buildup_vertical =
      (if evdev_is_scrolling x LIBINPUT_POINTER_AXIS_SCROLL_VERTICAL = true then
        x.scroll.buildup_vertical else double_add x.scroll.buildup_vertical dy) := by
  have hnt : ¬ x.scroll.threshold ≤ 0 := not_le.mpr hthr
  simp only [is_scrolling_testBit, libinput_pointer_axis.toNat] at hH ⊢
  unfold evdev_post_scroll
  lift_lets
  extract_lets s1 d1 s2 d2 tv th a d3 d4
  have hz : double_add 0 0 = 0 := by rw [double_add, add_zero, double_round_zero]
  rcases eq_or_ne dy 0 with h5 | h5
  · subst h5
    cases hV : x.scroll.direction.testBit 0 <;>
      by_cases h1 : x.scroll.threshold ≤ |double_add x.scroll.buildup_vertical 0| <;>
      simp +decide [d4, d3, a, tv, th, d2, s2, d1, s1, is_scrolling_testBit, hV, hH, hbh,
        hnt, hz, evdev_start_scrolling, evdev_notify_axis, emit,
        libinput_pointer_axis.toNat, Nat.testBit_or,
        Nat.one_shiftLeft, Nat.testBit_two_pow, h1, -Nat.testBit_zero]
  · cases hV : x.scroll.direction.testBit 0 <;>
      by_cases h1 : x.scroll.threshold ≤ |double_add x.scroll.buildup_vertical dy| <;>
      simp +decide [d4, d3, a, tv, th, d2, s2, d1, s1, is_scrolling_testBit, hV, hH, hbh,
        hnt, hz, evdev_start_scrolling, evdev_notify_axis, emit,
        libinput_pointer_axis.toNat, Nat.testBit_or,
        Nat.one_shiftLeft, Nat.testBit_two_pow, h1, h5, -Nat.testBit_zero]

/-- One frame of vertical motion on a device with the scroll button held and
button scrolling active: the `REL_Y` event and the `EV_SYN` after it run
`evdev_post_scroll` with the vertical delta and no horizontal delta. -/
theorem scroll_frame_step (kc_mod : Nat) (x : evdev_device) (v : Int) (t : Nat)
    (hm : x.scroll.method = LIBINPUT_CONFIG_SCROLL_ON_BUTTON_DOWN)
    (hdown : hw_is_key_down x x.scroll.button = true)
    (hact : x.scroll.button_scroll_active = true)
    (hp : x.pending_event = EVDEV_NONE) (hr : x.rel = { dx := 0, dy := 0 }) :
    fallback_process_all kc_mod x
        [({ type := EV_REL, code := REL_Y, value := v }, t),
         ({ type := EV_SYN, code := 0, value := 0 }, t)] =
      some { evdev_post_scroll { x with rel := { dx := 0, dy := 0 }
                                        pending_event := EVDEV_RELATIVE_MOTION }
               t 0 (scroll_delta x.dpi v) with
             pending_event := EVDEV_NONE } := by
  obtain ⟨_, _, _, _, pe, _, _, rel, _, _, _, _, _, _, _⟩ := x
  simp only at hm hdown hact hp hr
  subst hp hr
  simp only [hw_is_key_down] at hdown
  simp [fallback_process_all, fallback_process, EV_REL, EV_ABS, EV_KEY, EV_SYN,
    evdev_process_relative, REL_X, REL_Y, evdev_flush_pending_event,
    evdev_need_touch_frame, flush_relative_motion, hm, hact, hw_is_key_down, hdown,
    scroll_delta, double_div_zero]

/-- One frame of vertical motion keeps the device in button scrolling; it hands
the client the vertical delta if it is not 0 and the axis scrolls after the
frame. -/
theorem scroll_frame_inv (kc_mod : Nat) (x : evdev_device) (v : Int) (t : Nat)
    (h : button_scrolling x) :
    ∃ x', fallback_process_all kc_mod x
        [({ type := EV_REL, code := REL_Y, value := v }, t),
         ({ type := EV_SYN, code := 0, value := 0 }, t)] = some x' ∧
      button_scrolling x' ∧
      (x'.scroll.button = x.scroll.button ∧ x'.dpi = x.dpi ∧
        x'.scroll.threshold = x.scroll.threshold ∧ x'.scroll.timer = x.scroll.timer ∧
        x'.key_count = x.key_count) ∧
      x'.emitted = x.emitted ++
        (if scroll_delta x.dpi v ≠ 0 ∧
            (evdev_is_scrolling x LIBINPUT_POINTER_AXIS_SCROLL_VERTICAL = true ∨
              x.scroll.threshold ≤
                |double_add x.scroll.buildup_vertical (scroll_delta x.dpi v)|) then
          [libinput_event.pointer_axis t LIBINPUT_POINTER_AXIS_SCROLL_VERTICAL
            (if x.scroll.natural_scrolling_enabled then
              scroll_delta x.dpi v * (-1)
             else scroll_delta x.dpi v)]
         else []) ∧
      evdev_is_scrolling x' LIBINPUT_POINTER_AXIS_SCROLL_VERTICAL =
        (evdev_is_scrolling x LIBINPUT_POINTER_AXIS_SCROLL_VERTICAL ||
          decide (x.scroll.threshold ≤
            |double_add x.scroll.buildup_vertical (scroll_delta x.dpi v)|)) ∧
      x'.scroll.buildup_vertical =
        (if evdev_is_scrolling x LIBINPUT_POINTER_AXIS_SCROLL_VERTICAL = true then
          x.scroll.buildup_vertical
         else double_add x.scroll.buildup_vertical (scroll_delta x.dpi v)) := by
  obtain ⟨hdbl, hm, hdown, hact, hp, hr, hbh, hH, hthr, hdpi, hlow⟩ := h
  have hpost := evdev_post_scroll_vertical
    { x with rel := { dx := 0, dy := 0 }, pending_event := EVDEV_RELATIVE_MOTION }
    t (scroll_delta x.dpi v) hH hbh hthr
  obtain ⟨pe, pv, ph, pbh, pbv⟩ := hpost
  have hkeep := evdev_post_scroll_preserves
    (fun y : evdev_device => (y.scroll.method, y.scroll.button,
      y.scroll.button_scroll_active, y.scroll.threshold, y.scroll.timer, y.dpi, y.rel,
      y.hw_key_mask, y.key_count))
    (fun _ _ => rfl) (fun _ _ => rfl) (fun _ _ => rfl) (fun _ _ => rfl)
    { x with rel := { dx := 0, dy := 0 }, pending_event := EVDEV_RELATIVE_MOTION }
    t 0 (scroll_delta x.dpi v)
  simp only [Prod.mk.injEq] at hkeep
  obtain ⟨km, kb, ka, kt, kti, kd, kr, kh, kk⟩ := hkeep
  refine ⟨_, scroll_frame_step kc_mod x v t hm hdown hact hp hr,
    ⟨?_, km.trans hm, ?_, ka.trans hact, rfl, kr, pbh, ph, ?_, ?_, ?_⟩,
    ⟨kb, kd, kt, kti, kk⟩, pe, pv, pbv⟩
  · show double_round (evdev_post_scroll _ _ _ _).scroll.buildup_vertical =
      (evdev_post_scroll _ _ _ _).scroll.buildup_vertical
    rw [pbv]
    split
    · exact hdbl
    · exact double_round_add _ _
  · show long_bit_is_set _ _ = true
    simp only [kh, kb]
    exact hdown
  · show 0 < (evdev_post_scroll _ _ _ _).scroll.threshold
    rw [kt]
    exact hthr
  · show (evdev_post_scroll _ _ _ _).dpi ≠ 0
    rw [kd]
    exact hdpi
  · intro hv
    change evdev_is_scrolling (evdev_post_scroll _ _ _ _) _ = false at hv
    rw [pv] at hv
    simp only [Bool.or_eq_false_iff, decide_eq_false_iff_not, not_le] at hv
    show |(evdev_post_scroll _ _ _ _).scroll.buildup_vertical| <
      (evdev_post_scroll _ _ _ _).scroll.threshold
    rw [pbv, kt]
    simp only [hv.1, Bool.false_eq_true, if_false]
    exact hv.2

/-- A run of frames of vertical motion in button scrolling: it returns, the
device stays in button scrolling, the client is handed only vertical axis
events with a value other than 0, and once the build-up with the deltas of a
prefix of the run reaches the threshold the vertical axis scrolls and at least
one event was handed over. -/
theorem scroll_frames_run (kc_mod : Nat) (vs : List (Int × Nat)) :
    ∀ x : evdev_device, button_scrolling x →
    ∃ (x' : evdev_device) (new : List libinput_event),
      fallback_process_all kc_mod x (scroll_frames vs) = some x' ∧
      button_scrolling x' ∧
      (x'.scroll.button = x.scroll.button ∧ x'.dpi = x.dpi ∧
        x'.scroll.threshold = x.scroll.threshold ∧ x'.scroll.timer = x.scroll.timer ∧
        x'.key_count = x.key_count) ∧
      x'.emitted = x.emitted ++ new ∧
      (∀ ev ∈ new, ev.is_vertical_scroll = true) ∧
      (evdev_is_scrolling x LIBINPUT_POINTER_AXIS_SCROLL_VERTICAL = true →
        evdev_is_scrolling x' LIBINPUT_POINTER_AXIS_SCROLL_VERTICAL = true) ∧
      (∀ k : Nat,
        x.scroll.threshold ≤
          |scroll_buildup x.dpi x.scroll.buildup_vertical (vs.take k)| →
        evdev_is_scrolling x LIBINPUT_POINTER_AXIS_SCROLL_VERTICAL = false →
        evdev_is_scrolling x' LIBINPUT_POINTER_AXIS_SCROLL_VERTICAL = true ∧ new ≠ []) := by
  induction vs with
  | nil =>
    intro x hx
    refine ⟨x, [], rfl, hx, ⟨rfl, rfl, rfl, rfl, rfl⟩, by simp, by simp, id, ?_⟩
    intro k hk hv
    have hlow := hx.2.2.2.2.2.2.2.2.2.2 hv
    simp only [List.take_nil, scroll_buildup] at hk
    exact absurd hk (not_le.mpr hlow)
  | cons p rest ih =>
    intro x hx
    obtain ⟨v, t⟩ := p
    obtain ⟨x1, hrun1, hinv1, ⟨cb, cd, ct, cti, ck⟩, he1, hv1, hbv1⟩ :=
      scroll_frame_inv kc_mod x v t hx
    obtain ⟨x2, new2, hrun2, hinv2, ⟨cb2, cd2, ct2, cti2, ck2⟩, he2, hall2, hmono2, hacc2⟩ :=
      ih x1 hinv1
    have hlow := hx.2.2.2.2.2.2.2.2.2.2
    have hdbl := hx.1
    have hrun : fallback_process_all kc_mod x (scroll_frames ((v, t) :: rest)) = some x2 := by
      have := fallback_process_all_append kc_mod
        [({ type := EV_REL, code := REL_Y, value := v }, t),
         ({ type := EV_SYN, code := 0, value := 0 }, t)] (scroll_frames rest) x
      simp only [scroll_frames]
      simp only [List.cons_append, List.nil_append] at this
      rw [this, hrun1]
      exact hrun2
    refine ⟨x2, _, hrun, hinv2,
      ⟨cb2.trans cb, cd2.trans cd, ct2.trans ct, cti2.trans cti, ck2.trans ck⟩,
      by rw [he2, he1, List.append_assoc], ?_, ?_, ?_⟩
    · intro ev hev
      rcases List.mem_append.mp hev with h | h
      · split_ifs at h with hc hn
        · simp only [List.mem_singleton] at h
          subst h
          simpa [libinput_event.is_vertical_scroll] using hc.1
        · simp only [List.mem_singleton] at h
          subst h
          simpa [libinput_event.is_vertical_scroll] using hc.1
        · simp at h
      · exact hall2 ev h
    · intro hv
      apply hmono2
      rw [hv1, hv]
      rfl
    · intro k hk hv
      cases k with
      | zero =>
        simp only [List.take_zero, scroll_buildup] at hk
        exact absurd hk (not_le.mpr (hlow hv))
      | succ k =>
        simp only [List.take_succ_cons, scroll_buildup] at hk
        by_cases hc : x.scroll.threshold ≤
            |double_add x.scroll.buildup_vertical (scroll_delta x.dpi v)|
        · have hdy : scroll_delta x.dpi v ≠ 0 := by
            intro h0
            rw [h0, double_add_zero _ hdbl] at hc
            exact absurd hc (not_le.mpr (hlow hv))
          refine ⟨hmono2 (by rw [hv1]; simp [hc]), ?_⟩
          simp [hdy, hc]
        · have hv1' : evdev_is_scrolling x1 LIBINPUT_POINTER_AXIS_SCROLL_VERTICAL = false := by
            rw [hv1, hv]
            simp [hc]
          have := hacc2 k (by
            rw [hbv1, ct, cd]
            simp only [hv, Bool.false_eq_true, if_false]
            exact hk) hv1'
          exact ⟨this.1, by simp [this.2]⟩

/-- `evdev_stop_scroll` changes only the two build-ups and the direction of
`scroll` and the record of emitted events. -/
theorem evdev_stop_scroll_preserves {α : Type} (π : evdev_device → α)
    (hs : ∀ (d : evdev_device) (h v : ℚ) (dir : Nat),
      π { d with scroll := { d.scroll with
        buildup_horizontal := h, buildup_vertical := v, direction := dir } } = π d)
    (he : ∀ (d : evdev_device) (e : libinput_event), π (emit d e) = π d)
    (d : evdev_device) (time : Nat) : π (evdev_stop_scroll d time) = π d := by
  unfold evdev_stop_scroll
  lift_lets
  extract_lets d1 d2
  have h1 : π d1 = π d := preserved_ite π _ _ _ _ (he _ _) rfl
  have h2 : π d2 = π d := preserved_ite π _ _ _ _ ((he _ _).trans h1) h1
  exact (hs _ _ _ _).trans h2

/-- With nothing pending the flush does nothing. -/
theorem evdev_flush_pending_event_none (d : evdev_device) (time : Nat)
    (hp : d.pending_event = EVDEV_NONE) : evdev_flush_pending_event d time = d := by
  unfold evdev_flush_pending_event
  rw [hp]

/-- Releasing the scroll button while button scrolling is active stops the
scrolling: the client is handed a zero on the vertical axis if it scrolls, and
no press or release of the button. -/
theorem scroll_button_release_active (kc_mod : Nat) (x : evdev_device) (time : Nat)
    (h : button_scrolling x)
    (hb : get_key_type x.scroll.button = EVDEV_KEY_TYPE_BUTTON) :
    ∃ x', evdev_process_key kc_mod x
        { type := EV_KEY, code := x.scroll.button, value := 0 } time = some x' ∧
      x'.emitted = x.emitted ++
        (if evdev_is_scrolling x LIBINPUT_POINTER_AXIS_SCROLL_VERTICAL = true then
          [libinput_event.pointer_axis time LIBINPUT_POINTER_AXIS_SCROLL_VERTICAL 0]
         else []) ∧
      x'.scroll.button_scroll_active = false ∧ x'.scroll.timer = none ∧
      x'.scroll.direction = 0 ∧ hw_is_key_down x' x.scroll.button = false := by
  obtain ⟨-, hm, hdown, hact, hp, hr, hbh, hH, hthr, hdpi, hlow⟩ := h
  have hne : x.scroll.button ≠ BTN_TOUCH := by
    intro h
    rw [h] at hb
    exact absurd hb (by decide)
  have hval : evdev_process_key kc_mod x
      { type := EV_KEY, code := x.scroll.button, value := 0 } time =
      some { evdev_stop_scroll
          { hw_set_key_down x x.scroll.button 0 with
            scroll := { x.scroll with timer := none } } time with
        scroll := { (evdev_stop_scroll
          { hw_set_key_down x x.scroll.button 0 with
            scroll := { x.scroll with timer := none } } time).scroll with
          button_scroll_active := false } } := by
    simp [evdev_process_key, hne, hb, hw_set_key_down, hm, hdown, hact,
      evdev_flush_pending_event_none x time hp,
      evdev_button_scroll_button, libinput_timer_cancel]
  have hkeep := evdev_stop_scroll_preserves
    (fun y : evdev_device => (y.scroll.timer, y.hw_key_mask))
    (fun _ _ _ _ => rfl) (fun _ _ => rfl)
    { hw_set_key_down x x.scroll.button 0 with
      scroll := { x.scroll with timer := none } } time
  simp only [Prod.mk.injEq] at hkeep
  refine ⟨_, hval, ?_, rfl, hkeep.1, rfl, ?_⟩
  rotate_left
  · show long_bit_is_set (evdev_stop_scroll _ _).hw_key_mask _ = false
    rw [hkeep.2]
    simp [hw_set_key_down, long_set_bit_state, long_bit_is_set]
  · have he := evdev_stop_scroll_emits
      { hw_set_key_down x x.scroll.button 0 with
        scroll := { x.scroll with timer := none } } time
    have hH' : evdev_is_scrolling { hw_set_key_down x x.scroll.button 0 with
        scroll := { x.scroll with timer := none } }
        LIBINPUT_POINTER_AXIS_SCROLL_HORIZONTAL = false := hH
    rw [hH'] at he
    simpa using he

/-- A press of the scroll button with nothing pending: the bit of the button
is set in the hardware bitmap and the scroll timer is armed; nothing else
changes. -/
theorem scroll_button_press_idle (kc_mod : Nat) (d : evdev_device) (time : Nat)
    (hm : d.scroll.method = LIBINPUT_CONFIG_SCROLL_ON_BUTTON_DOWN)
    (hb : get_key_type d.scroll.button = EVDEV_KEY_TYPE_BUTTON)
    (hp : d.pending_event = EVDEV_NONE) :
    evdev_process_key kc_mod d
        { type := EV_KEY, code := d.scroll.button, value := 1 } time =
      some { hw_set_key_down d d.scroll.button 1 with
        scroll := { d.scroll with
          timer := some ((time + DEFAULT_MIDDLE_BUTTON_SCROLL_TIMEOUT) % 2 ^ 64) } } := by
  have hne : d.scroll.button ≠ BTN_TOUCH := by
    intro h
    rw [h] at hb
    exact absurd hb (by decide)
  simp [evdev_process_key, hne, hb, hw_set_key_down, hm,
    evdev_flush_pending_event_none d time hp,
    evdev_button_scroll_button, libinput_timer_set]

/-- C25. On a device with the scroll method `ON_BUTTON_DOWN`, nothing pending
and nothing scrolling or built up: press the scroll button, let the timer fire
(`evdev_button_scroll_timeout`), then feed frames of vertical relative motion
(`REL_Y`, `EV_SYN`) whose deltas, added up over some prefix of the run as the
code adds them (each delta a `double` quotient, each sum rounded to a
`double`: `scroll_buildup`), reach the threshold. The press hands the client
nothing; the frames hand it at least
one event, each a vertical axis event with a value other than 0, so no pointer
motion; the release hands it exactly one vertical axis event of value 0, no
press or release of the scroll button, and leaves `button_scroll_active`
false. -/
theorem button_scroll_diverts_motion (kc_mod : Nat) (d : evdev_device)
    (t_press t_fire t_release : Nat) (vs : List (Int × Nat)) (k : Nat)
    (hm : d.scroll.method = LIBINPUT_CONFIG_SCROLL_ON_BUTTON_DOWN)
    (hb : get_key_type d.scroll.button = EVDEV_KEY_TYPE_BUTTON)
    (hp : d.pending_event = EVDEV_NONE) (hr : d.rel = { dx := 0, dy := 0 })
    (hdir : d.scroll.direction = 0) (hbv : d.scroll.buildup_vertical = 0)
    (hbh : d.scroll.buildup_horizontal = 0) (hthr : 0 < d.scroll.threshold)
    (hdpi : d.dpi ≠ 0)
    (hk : d.scroll.threshold ≤ |scroll_buildup d.dpi 0 (vs.take k)|) :
    ∃ (d1 d3 d4 : evdev_device) (new : List libinput_event),
      evdev_process_key kc_mod d
        { type := EV_KEY, code := d.scroll.button, value := 1 } t_press = some d1 ∧
      d1.emitted = d.emitted ∧
      fallback_process_all kc_mod (evdev_button_scroll_timeout t_fire d1)
        (scroll_frames vs) = some d3 ∧
      d3.emitted = d.emitted ++ new ∧ new ≠ [] ∧
      (∀ ev ∈ new, ev.is_vertical_scroll = true) ∧
      evdev_process_key kc_mod d3
        { type := EV_KEY, code := d.scroll.button, value := 0 } t_release = some d4 ∧
      d4.emitted = d3.emitted ++
        [libinput_event.pointer_axis t_release LIBINPUT_POINTER_AXIS_SCROLL_VERTICAL 0] ∧
      d4.scroll.button_scroll_active = false := by
  have hV0 : ∀ a : libinput_pointer_axis, evdev_is_scrolling
      (evdev_button_scroll_timeout t_fire { hw_set_key_down d d.scroll.button 1 with
        scroll := { d.scroll with
          timer := some ((t_press + DEFAULT_MIDDLE_BUTTON_SCROLL_TIMEOUT) % 2 ^ 64) } })
      a = false := by
    intro a
    simp [evdev_is_scrolling, evdev_button_scroll_timeout, hw_set_key_down, hdir]
  have hinv : button_scrolling
      (evdev_button_scroll_timeout t_fire { hw_set_key_down d d.scroll.button 1 with
        scroll := { d.scroll with
          timer := some ((t_press + DEFAULT_MIDDLE_BUTTON_SCROLL_TIMEOUT) % 2 ^ 64) } }) := by
    refine ⟨by rw [hw_set_key_down, evdev_button_scroll_timeout]
               show double_round d.scroll.buildup_vertical = d.scroll.buildup_vertical
               rw [hbv, double_round_zero],
      hm, ?_, rfl, hp, hr, hbh, hV0 _, hthr, hdpi, ?_⟩
    · simp [hw_is_key_down, evdev_button_scroll_timeout, hw_set_key_down,
        long_set_bit_state, long_bit_is_set]
    · intro _
      show |d.scroll.buildup_vertical| < d.scroll.threshold
      rw [hbv, abs_zero]
      exact hthr
  obtain ⟨d3, new, hrun, hinv3, ⟨cb, cd, ct, cti, ck⟩, hem, hall, hmono, hacc⟩ :=
    scroll_frames_run kc_mod vs _ hinv
  have hstart := hacc k (by
    show d.scroll.threshold ≤
      |scroll_buildup d.dpi d.scroll.buildup_vertical (vs.take k)|
    rw [hbv]
    exact hk) (hV0 _)
  have cb' : d3.scroll.button = d.scroll.button := cb
  obtain ⟨d4, hrel, hem4, hact4, -⟩ :=
    scroll_button_release_active kc_mod d3 t_release hinv3 (by rw [cb']; exact hb)
  rw [cb'] at hrel
  rw [hstart.1] at hem4
  exact ⟨_, d3, d4, new, scroll_button_press_idle kc_mod d t_press hm hb hp, rfl, hrun, hem,
    hstart.2, hall, hrel, hem4, hact4⟩

/-- C25 on the pointing stick: `BTN_MIDDLE` pressed at 0 ms, the timer firing
at 200 ms, two frames of 3 units down at 210 ms and 220 ms (threshold 5), and
the release at 300 ms. -/
theorem button_scroll_diverts_motion_witness :
    ∃ (d1 d3 d4 : evdev_device) (new : List libinput_event),
      evdev_process_key 256 trackpoint
        { type := EV_KEY, code := BTN_MIDDLE, value := 1 } 0 = some d1 ∧
      d1.emitted = [] ∧
      fallback_process_all 256 (evdev_button_scroll_timeout 200 d1)
        (scroll_frames [(3, 210), (3, 220)]) = some d3 ∧
      d3.emitted = [] ++ new ∧ new ≠ [] ∧
      (∀ ev ∈ new, ev.is_vertical_scroll = true) ∧
      evdev_process_key 256 d3
        { type := EV_KEY, code := BTN_MIDDLE, value := 0 } 300 = some d4 ∧
      d4.emitted = d3.emitted ++
        [libinput_event.pointer_axis 300 LIBINPUT_POINTER_AXIS_SCROLL_VERTICAL 0] ∧
      d4.scroll.button_scroll_active = false :=
  button_scroll_diverts_motion 256 trackpoint 0 200 300 [(3, 210), (3, 220)] 2
    rfl (by decide) rfl rfl rfl rfl rfl
    (by simp [trackpoint, mouse, fresh_device])
    (by simp [trackpoint, mouse, fresh_device])
    (by
      have e3 : scroll_delta 1000 3 = 3 := by
        simpa using scroll_delta_1000 3 (by norm_num)
      have a1 : double_add 0 3 = 3 := by
        rw [double_add]
        simpa using double_round_intCast 3 (by norm_num)
      have a2 : double_add 3 3 = 6 := by
        rw [double_add]
        norm_num
        simpa using double_round_intCast 6 (by norm_num)
      have hd : trackpoint.dpi = 1000 := rfl
      have ht : trackpoint.scroll.threshold = 5 := rfl
      rw [hd, ht]
      simp only [List.take, scroll_buildup, e3, a1, a2]
      norm_num)

/-- The click of the scroll button on a device that does not count the button
as pressed. With the scroll method `ON_BUTTON_DOWN` in effect, an `EV_KEY` press
of the scroll button returns and hands the client no key and no button event
(only what flushing the pending event hands over); it sets the bit of the
button in the hardware bitmap, arms the scroll timer 200 ms ahead and leaves
the press counts alone. A release of the button while it is held, with
`button_scroll_active` still false and its press count at 0, returns and hands
the client what the flush hands over, which holds no key, button or axis
event, and then exactly the button pressed and the button released, both with
the time of the release (taken modulo 2^32 by the `uint32_t` parameter of
`evdev_pointer_notify_button`); the timer is cancelled. The press count is a
hypothesis of its own: a scroll configuration applied while `BTN_0` is down
leaves it at 1. -/
theorem scroll_button_click (kc_mod : Nat) (d_press d_release : evdev_device)
    (t_press t_release : Nat) (hk : 1 < kc_mod)
    (hm : d_press.scroll.method = LIBINPUT_CONFIG_SCROLL_ON_BUTTON_DOWN)
    (hb : get_key_type d_press.scroll.button = EVDEV_KEY_TYPE_BUTTON)
    (hm2 : d_release.scroll.method = LIBINPUT_CONFIG_SCROLL_ON_BUTTON_DOWN)
    (hb2 : get_key_type d_release.scroll.button = EVDEV_KEY_TYPE_BUTTON)
    (hdown : hw_is_key_down d_release d_release.scroll.button = true)
    (hact : d_release.scroll.button_scroll_active = false)
    (hcnt : d_release.key_count d_release.scroll.button = 0) :
    (∃ (d1 : evdev_device) (new : List libinput_event),
      evdev_process_key kc_mod d_press
        { type := EV_KEY, code := d_press.scroll.button, value := 1 } t_press = some d1 ∧
      d1.emitted = d_press.emitted ++ new ∧
      (∀ ev ∈ new, ev.is_key_or_button = false) ∧
      d1.scroll.timer =
        some ((t_press + DEFAULT_MIDDLE_BUTTON_SCROLL_TIMEOUT) % 2 ^ 64) ∧
      hw_is_key_down d1 d_press.scroll.button = true ∧
      d1.scroll.button_scroll_active = d_press.scroll.button_scroll_active ∧
      d1.key_count = d_press.key_count) ∧
    (∃ (d2 : evdev_device) (new : List libinput_event),
      evdev_process_key kc_mod d_release
        { type := EV_KEY, code := d_release.scroll.button, value := 0 } t_release =
        some d2 ∧
      d2.emitted = d_release.emitted ++ new ++
        [libinput_event.pointer_button (t_release % 2 ^ 32) d_release.scroll.button
          LIBINPUT_BUTTON_STATE_PRESSED,
         libinput_event.pointer_button (t_release % 2 ^ 32) d_release.scroll.button
          LIBINPUT_BUTTON_STATE_RELEASED] ∧
      (∀ ev ∈ new, ev.is_key_or_button = false ∧ ev.is_axis = false) ∧
      d2.scroll.button_scroll_active = false ∧ d2.scroll.timer = none) := by
  constructor
  · obtain ⟨d1, hrun, hem, htimer, hact1, -, -, hkc, hmask⟩ :=
      scroll_button_press kc_mod d_press t_press hm hb
    obtain ⟨-, -, new, hnew, hP⟩ := keys_untouched_flush d_press t_press
    refine ⟨d1, new, hrun, hem.trans hnew, hP, htimer, ?_, hact1, hkc⟩
    simp [hw_is_key_down, long_bit_is_set, hmask]
  · obtain ⟨d2, hrun, hem, hact2, htimer, -, -⟩ :=
      scroll_button_click_release kc_mod d_release t_release hk hm2 hb2 hdown hact hcnt
    obtain ⟨new, hnew, hP⟩ := flush_emits_motion_or_touch d_release t_release hact
    refine ⟨d2, new, hrun, by rw [hem, hnew], ?_, hact2, htimer⟩
    intro ev hev
    simpa using hP ev hev

/-- The click of the scroll button on the pointing stick: the press of
`BTN_MIDDLE` at 0 ms hands the client nothing that is a key or button event,
and the release at 100 ms, before the timer armed for 200 ms fires, hands it
`BTN_MIDDLE` pressed and released, both at 100 ms. -/
theorem scroll_button_click_witness :
    (∃ (d1 : evdev_device) (new : List libinput_event),
      evdev_process_key 256 trackpoint
        { type := EV_KEY, code := BTN_MIDDLE, value := 1 } 0 = some d1 ∧
      d1.emitted = [] ++ new ∧
      (∀ ev ∈ new, ev.is_key_or_button = false) ∧
      d1.scroll.timer = some 200 ∧
      hw_is_key_down d1 BTN_MIDDLE = true ∧
      d1.scroll.button_scroll_active = false ∧
      d1.key_count = fun _ => 0) ∧
    (∃ (d2 : evdev_device) (new : List libinput_event),
      evdev_process_key 256 trackpoint_held
        { type := EV_KEY, code := BTN_MIDDLE, value := 0 } 100 = some d2 ∧
      d2.emitted = [] ++ new ++
        [libinput_event.pointer_button 100 BTN_MIDDLE LIBINPUT_BUTTON_STATE_PRESSED,
         libinput_event.pointer_button 100 BTN_MIDDLE LIBINPUT_BUTTON_STATE_RELEASED] ∧
      (∀ ev ∈ new, ev.is_key_or_button = false ∧ ev.is_axis = false) ∧
      d2.scroll.button_scroll_active = false ∧ d2.scroll.timer = none) :=
  scroll_button_click 256 trackpoint trackpoint_held 0 100 (by decide) rfl (by decide)
    rfl (by decide) rfl rfl rfl

/-- C24. A run on which a click of the scroll button is lost. The mouse has
`BTN_0`, no scroll method set. The press of `BTN_0` at 0 ms is an ordinary
button press: it is handed to the client and counted. `evdev_scroll_set_button`
with `BTN_0` and `evdev_scroll_set_method` with `ON_BUTTON_DOWN`, called while
`BTN_0` is down, take effect at once, because `evdev_any_button_down` does not
look at `BTN_0`. The release at 50 ms then goes to
`evdev_button_scroll_button`, whose press and release take the count from 1 to
2 and back to 1: the client is handed nothing, and the count stays at 1. From
then on, with `ON_BUTTON_DOWN` in effect and `BTN_0` the scroll button, the
press of `BTN_0` at 1000 ms arms the timer for 1200 ms and its release at
1050 ms, with `button_scroll_active` still false, hands the client no button
event at all. -/
theorem scroll_click_after_change_is_lost :
    get_key_type BTN_MISC = EVDEV_KEY_TYPE_BUTTON ∧
    mouse_with_btn_0_hooked.has_key_code BTN_MISC = true ∧
    mouse_with_btn_0_hooked.scroll.method = LIBINPUT_CONFIG_SCROLL_NO_SCROLL ∧
    ∃ d1 d2 d3 d4,
      evdev_process_key 256 mouse_with_btn_0_hooked
        { type := EV_KEY, code := BTN_MISC, value := 1 } 0 = some d1 ∧
      d1.emitted =
        [libinput_event.pointer_button 0 BTN_MISC LIBINPUT_BUTTON_STATE_PRESSED] ∧
      get_key_down_count d1 BTN_MISC = 1 ∧
      hw_is_key_down d1 BTN_MISC = true ∧
      evdev_any_button_down d1 = false ∧
      (evdev_scroll_set_method (evdev_scroll_set_button d1 BTN_MISC)
        LIBINPUT_CONFIG_SCROLL_ON_BUTTON_DOWN).scroll.method =
        LIBINPUT_CONFIG_SCROLL_ON_BUTTON_DOWN ∧
      (evdev_scroll_set_method (evdev_scroll_set_button d1 BTN_MISC)
        LIBINPUT_CONFIG_SCROLL_ON_BUTTON_DOWN).scroll.button = BTN_MISC ∧
      evdev_process_key 256
        (evdev_scroll_set_method (evdev_scroll_set_button d1 BTN_MISC)
          LIBINPUT_CONFIG_SCROLL_ON_BUTTON_DOWN)
        { type := EV_KEY, code := BTN_MISC, value := 0 } 50 = some d2 ∧
      d2.emitted = d1.emitted ∧
      get_key_down_count d2 BTN_MISC = 1 ∧
      hw_is_key_down d2 BTN_MISC = false ∧
      d2.scroll.method = LIBINPUT_CONFIG_SCROLL_ON_BUTTON_DOWN ∧
      d2.scroll.button = BTN_MISC ∧
      d2.scroll.button_scroll_active = false ∧
      evdev_process_key 256 d2
        { type := EV_KEY, code := BTN_MISC, value := 1 } 1000 = some d3 ∧
      d3.emitted = d2.emitted ∧
      d3.scroll.timer = some 1200 ∧
      hw_is_key_down d3 BTN_MISC = true ∧
      d3.scroll.method = LIBINPUT_CONFIG_SCROLL_ON_BUTTON_DOWN ∧
      d3.scroll.button = BTN_MISC ∧
      d3.scroll.button_scroll_active = false ∧
      evdev_process_key 256 d3
        { type := EV_KEY, code := BTN_MISC, value := 0 } 1050 = some d4 ∧
      d4.emitted = d3.emitted ∧
      d4.scroll.timer = none ∧
      d4.scroll.button_scroll_active = false ∧
      get_key_down_count d4 BTN_MISC = 1 :=
  ⟨by decide, by decide, rfl, _, _, _, _, rfl, rfl, by decide, by decide, by decide,
    by decide, by decide, rfl, rfl, by decide, by decide, rfl, rfl, rfl,
    rfl, rfl, rfl, by decide, rfl, rfl, rfl,
    rfl, rfl, rfl, rfl, by decide⟩

/-! ## Left-handed configuration: when it takes effect (C26) -/

/-- C26, counterexample. On a mouse that also has `BTN_0`, a press of `BTN_0`
is handed to the client as a button press and sets its bit in the hardware
bitmap; `evdev_left_handed_set` with 1, called while that button is down,
takes effect at once: `evdev_any_button_down` only looks at the codes from
`BTN_LEFT` up to, not including, `BTN_JOYSTICK`. -/
theorem left_handed_btn_0_counterexample :
    ∃ d1, evdev_process_key 256 mouse_with_btn_0
        { type := EV_KEY, code := BTN_MISC, value := 1 } 0 = some d1 ∧
      d1.emitted = [libinput_event.pointer_button 0 BTN_MISC LIBINPUT_BUTTON_STATE_PRESSED] ∧
      get_key_type BTN_MISC = EVDEV_KEY_TYPE_BUTTON ∧
      d1.has_key_code BTN_MISC = true ∧ hw_is_key_down d1 BTN_MISC = true ∧
      d1.buttons.left_handed = false ∧
      (evdev_left_handed_set d1 1).buttons.left_handed = true :=
  ⟨_, rfl, rfl, by decide, by decide, by decide, rfl, by decide⟩

/-- The hooks and the counts do not enter `evdev_any_button_down`. -/
theorem evdev_any_button_down_congr (d d1 : evdev_device)
    (hm : d1.hw_key_mask = d.hw_key_mask) (hc : d1.has_key_code = d.has_key_code) :
    evdev_any_button_down d1 = evdev_any_button_down d := by
  simp only [evdev_any_button_down, hw_is_key_down, hm, hc]

/-- `evdev_left_handed_set` records the wanted value, which
`evdev_left_handed_get` returns, and applies it unless
`evdev_any_button_down` holds. -/
theorem evdev_left_handed_set_effect (d : evdev_device) (v : Int) :
    evdev_left_handed_get (evdev_left_handed_set d v) = decide (v ≠ 0) ∧
    (evdev_left_handed_set d v).buttons.left_handed =
      (if evdev_any_button_down d = true then d.buttons.left_handed
       else decide (v ≠ 0)) := by
  unfold evdev_left_handed_set evdev_left_handed_get
  generalize decide (v ≠ 0) = w
  have hany : evdev_any_button_down { d with buttons := { d.buttons with
      want_left_handed := w } } = evdev_any_button_down d := rfl
  unfold evdev_change_to_left_handed
  rw [hany]
  cases h2 : evdev_any_button_down d <;> cases w <;>
    cases h1 : d.buttons.left_handed <;> simp [h1]

/-- A forwarded release through `evdev_pointer_notify_button` on a device with
the left-handed hook: the release is handed to the client, and the wanted
left-handed value takes effect unless a button of the range of
`evdev_any_button_down` is down. -/
theorem evdev_pointer_notify_button_release_hook (kc_mod : Nat) (d : evdev_device)
    (time button : Nat) (hhook : d.buttons.has_change_to_left_handed = true)
    (hc : button < KEY_CNT) (hcount : d.key_count button = 1) :
    ∃ d1, evdev_pointer_notify_button kc_mod d time button
        LIBINPUT_BUTTON_STATE_RELEASED = some d1 ∧
      d1.emitted = d.emitted ++ [libinput_event.pointer_button (time % 2 ^ 32) button
        LIBINPUT_BUTTON_STATE_RELEASED] ∧
      d1.buttons.want_left_handed = d.buttons.want_left_handed ∧
      d1.buttons.left_handed =
        (if evdev_any_button_down d = true then d.buttons.left_handed
         else d.buttons.want_left_handed) := by
  have hval : evdev_pointer_notify_button kc_mod d time button
      LIBINPUT_BUTTON_STATE_RELEASED =
      some (if (evdev_change_to_left_handed
            (emit { d with key_count := Function.update d.key_count button 0 }
              (libinput_event.pointer_button (time % 2 ^ 32) button
                LIBINPUT_BUTTON_STATE_RELEASED))).scroll.has_change_scroll_method = true then
          evdev_change_scroll_method (evdev_change_to_left_handed
            (emit { d with key_count := Function.update d.key_count button 0 }
              (libinput_event.pointer_button (time % 2 ^ 32) button
                LIBINPUT_BUTTON_STATE_RELEASED)))
        else evdev_change_to_left_handed
            (emit { d with key_count := Function.update d.key_count button 0 }
              (libinput_event.pointer_button (time % 2 ^ 32) button
                LIBINPUT_BUTTON_STATE_RELEASED))) := by
    simp [evdev_pointer_notify_button, update_key_down_count, hc, hcount, emit, hhook]
  have hscroll := fun x : evdev_device => evdev_change_scroll_method_preserves
    (fun y : evdev_device => (y.emitted, y.buttons)) (fun _ _ => rfl) x
  have hleft := evdev_change_to_left_handed_preserves
    (fun y : evdev_device => y.emitted) (fun _ _ => rfl)
    (emit { d with key_count := Function.update d.key_count button 0 }
      (libinput_event.pointer_button (time % 2 ^ 32) button
        LIBINPUT_BUTTON_STATE_RELEASED))
  have hall := preserved_ite (fun y : evdev_device => (y.emitted, y.buttons))
    ((evdev_change_to_left_handed
      (emit { d with key_count := Function.update d.key_count button 0 }
        (libinput_event.pointer_button (time % 2 ^ 32) button
          LIBINPUT_BUTTON_STATE_RELEASED))).scroll.has_change_scroll_method = true)
    (evdev_change_scroll_method (evdev_change_to_left_handed
      (emit { d with key_count := Function.update d.key_count button 0 }
        (libinput_event.pointer_button (time % 2 ^ 32) button
          LIBINPUT_BUTTON_STATE_RELEASED))))
    (evdev_change_to_left_handed
      (emit { d with key_count := Function.update d.key_count button 0 }
        (libinput_event.pointer_button (time % 2 ^ 32) button
          LIBINPUT_BUTTON_STATE_RELEASED))) _ (hscroll _) rfl
  simp only [Prod.mk.injEq] at hall
  obtain ⟨he, hb⟩ := hall
  have hany : evdev_any_button_down
      (emit { d with key_count := Function.update d.key_count button 0 }
        (libinput_event.pointer_button (time % 2 ^ 32) button
          LIBINPUT_BUTTON_STATE_RELEASED)) = evdev_any_button_down d := rfl
  refine ⟨_, hval, he.trans (hleft.trans rfl), ?_, ?_⟩
  · rw [hb]
    unfold evdev_change_to_left_handed
    rw [hany]
    split_ifs <;> rfl
  · rw [hb]
    unfold evdev_change_to_left_handed
    rw [hany]
    by_cases h1 : d.buttons.want_left_handed = d.buttons.left_handed <;>
      cases h2 : evdev_any_button_down d <;> simp [emit, h1]

/-- The left-handed translation of a code below `KEY_CNT` is below `KEY_CNT`. -/
theorem evdev_to_left_handed_lt (d : evdev_device) (code : Nat) (h : code < KEY_CNT) :
    evdev_to_left_handed d code < KEY_CNT := by
  unfold evdev_to_left_handed
  split_ifs <;> first | exact h | decide

/-- C26, amended. `evdev_left_handed_set` with `v` makes
`evdev_left_handed_get` return `v` at once; the effective
`buttons.left_handed` stays as it was if a button with a code from `BTN_LEFT`
up to, not including, `BTN_JOYSTICK` that the device has is down
(`evdev_any_button_down`), and becomes `v` otherwise. A release of a button
that is forwarded to the client (its press count falls from 1 to 0) returns
and makes the wanted value effective unless, with the released button up, a
button of that range is still down; the wanted value is left as it was. -/
theorem left_handed_deferred (kc_mod : Nat) (d : evdev_device) (v : Int)
    (d_rel : evdev_device) (code time : Nat)
    (hhook : d_rel.buttons.has_change_to_left_handed = true)
    (hty : get_key_type code = EVDEV_KEY_TYPE_BUTTON)
    (hdown : hw_is_key_down d_rel code = true)
    (hns : ¬(d_rel.scroll.method = LIBINPUT_CONFIG_SCROLL_ON_BUTTON_DOWN ∧
      code = d_rel.scroll.button))
    (hcount : d_rel.key_count (evdev_to_left_handed d_rel code) = 1) :
    evdev_left_handed_get (evdev_left_handed_set d v) = decide (v ≠ 0) ∧
    (evdev_left_handed_set d v).buttons.left_handed =
      (if evdev_any_button_down d = true then d.buttons.left_handed
       else decide (v ≠ 0)) ∧
    ∃ d1, evdev_process_key kc_mod d_rel
        { type := EV_KEY, code := code, value := 0 } time = some d1 ∧
      d1.buttons.want_left_handed = d_rel.buttons.want_left_handed ∧
      d1.buttons.left_handed =
        (if evdev_any_button_down (hw_set_key_down d_rel code 0) = true then
          d_rel.buttons.left_handed
         else d_rel.buttons.want_left_handed) := by
  refine ⟨(evdev_left_handed_set_effect d v).1, (evdev_left_handed_set_effect d v).2, ?_⟩
  have hne : code ≠ BTN_TOUCH := by
    intro h
    rw [h] at hty
    exact absurd hty (by decide)
  have hlt : code < KEY_CNT := get_key_type_lt _ (by rw [hty]; decide)
  have hcfg := evdev_flush_pending_event_preserves _ flush_blind_config d_rel time
  simp only [Prod.mk.injEq] at hcfg
  obtain ⟨hfb, hfm, -, -, hfsb⟩ := hcfg
  have hbs := evdev_flush_pending_event_preserves _ flush_blind_button_scroll d_rel time
  simp only [Prod.mk.injEq] at hbs
  obtain ⟨-, -, -, -, -, hfhas⟩ := hbs
  obtain ⟨hmask, hkc, -⟩ := keys_untouched_flush d_rel time
  have hfdown : hw_is_key_down (evdev_flush_pending_event d_rel time) code = true := by
    simpa [hw_is_key_down, hmask] using hdown
  have htl : evdev_to_left_handed
      (hw_set_key_down (evdev_flush_pending_event d_rel time) code 0) code =
      evdev_to_left_handed d_rel code := by
    simp only [evdev_to_left_handed, hw_set_key_down, hfb]
  have hstep : evdev_process_key kc_mod d_rel
      { type := EV_KEY, code := code, value := 0 } time =
      evdev_pointer_notify_button kc_mod
        (hw_set_key_down (evdev_flush_pending_event d_rel time) code 0) time
        (evdev_to_left_handed d_rel code) LIBINPUT_BUTTON_STATE_RELEASED := by
    rw [← htl]
    have hns' : ¬(d_rel.scroll.method = LIBINPUT_CONFIG_SCROLL_ON_BUTTON_DOWN ∧
      code = d_rel.scroll.button) := hns
    simp only [not_and] at hns'
    by_cases hmeth : d_rel.scroll.method = LIBINPUT_CONFIG_SCROLL_ON_BUTTON_DOWN
    · simp [evdev_process_key, hne, hty, hfdown, hw_set_key_down, hfm, hfsb, hmeth,
        hns' hmeth]
    · simp [evdev_process_key, hne, hty, hfdown, hw_set_key_down, hfm, hfsb, hmeth]
  obtain ⟨d1, hrun, -, hwant, hleft⟩ := evdev_pointer_notify_button_release_hook kc_mod
    (hw_set_key_down (evdev_flush_pending_event d_rel time) code 0) time
    (evdev_to_left_handed d_rel code)
    (by show (evdev_flush_pending_event d_rel time).buttons.has_change_to_left_handed = true
        rw [hfb]; exact hhook)
    (evdev_to_left_handed_lt _ _ hlt)
    (by show (evdev_flush_pending_event d_rel time).key_count _ = 1
        rw [hkc]; exact hcount)
  have hany : evdev_any_button_down
      (hw_set_key_down (evdev_flush_pending_event d_rel time) code 0) =
      evdev_any_button_down (hw_set_key_down d_rel code 0) :=
    evdev_any_button_down_congr _ _
      (by simp only [hw_set_key_down, hmask]) hfhas
  refine ⟨d1, hstep.trans hrun, ?_, ?_⟩
  · rw [hwant]
    show (evdev_flush_pending_event d_rel time).buttons.want_left_handed = _
    rw [hfb]
  · rw [hleft, hany]
    show (if _ then (evdev_flush_pending_event d_rel time).buttons.left_handed
      else (evdev_flush_pending_event d_rel time).buttons.want_left_handed) = _
    rw [hfb]

/-- C26, amended, on the mouse with `BTN_LEFT` held: the call with 1 is
returned by the getter but not in effect, and the release of `BTN_LEFT`,
after which no button is down, puts it in effect. -/
theorem left_handed_deferred_witness :
    evdev_left_handed_get (evdev_left_handed_set mouse_left_held 1) = true ∧
    (evdev_left_handed_set mouse_left_held 1).buttons.left_handed = false ∧
    ∃ d1, evdev_process_key 256 (evdev_left_handed_set mouse_left_held 1)
        { type := EV_KEY, code := BTN_LEFT, value := 0 } 10 = some d1 ∧
      d1.buttons.want_left_handed = true ∧ d1.buttons.left_handed = true :=
  left_handed_deferred 256 mouse_left_held 1 (evdev_left_handed_set mouse_left_held 1)
    BTN_LEFT 10 rfl (by decide) (by decide) (by decide) (by decide)

/-! ## Command-line tool: the speed option (C29) -/

/-- The element `--set-speed=<value>` is not in the table `opts[]` and is not a
prefix of any of its names: `getopt_long` yields `?` and `tools_parse_args`
returns 1 without touching the options. -/
theorem set_speed_unknown (atof : String → ℚ) (cfn : String → Int) (prog value : String)
    (o : tools_options) :
    tools_parse_args atof cfn [prog, "--set-speed=" ++ value] o =
      tools_outcome.returned 1 o := by
  have h1 : ("--set-speed=" ++ value).toList = "--set-speed=".toList ++ value.toList := by
    simp [String.toList, String.data_append]
  have hne : ("--set-speed=" ++ value) ≠ "--" := by
    intro h
    have := congrArg (fun s : String => s.toList.length) h
    simp [h1] at this
  have hname : long_option_name ("--set-speed=" ++ value) = "set-speed".toList := by
    simp [long_option_name, h1]
  have hpre : "--".toList.isPrefixOf ("--set-speed=" ++ value).toList = true := by
    simp [h1]
  have hlook : getopt_lookup opts "set-speed".toList = none := by decide
  simp only [tools_parse_args, tools_parse_loop, List.length_cons, List.tail_cons,
    getopt_long, hne, if_false, hpre, if_true, hname, hlook, tools_parse_option]

/-- The element `--speed=<value>` is the entry of the table `opts[]` that
leads to `OPT_SPEED`: `tools_parse_args` stores `atof` of the value in
`options->speed` and returns 0. -/
theorem speed_known (atof : String → ℚ) (cfn : String → Int) (prog value : String)
    (o : tools_options) :
    tools_parse_args atof cfn [prog, "--speed=" ++ value] o =
      tools_outcome.returned 0 { o with speed := atof value } := by
  have h1 : ("--speed=" ++ value).toList = "--speed=".toList ++ value.toList := by
    simp [String.toList, String.data_append]
  have hne : ("--speed=" ++ value) ≠ "--" := by
    intro h
    have := congrArg (fun s : String => s.toList.length) h
    simp [h1] at this
  have hname : long_option_name ("--speed=" ++ value) = "speed".toList := by
    simp [long_option_name, h1]
  have hval : long_option_value ("--speed=" ++ value) = some value := by
    simp [long_option_value, h1]
  have hpre : "--".toList.isPrefixOf ("--speed=" ++ value).toList = true := by
    simp [h1]
  have hlook : getopt_lookup opts "speed".toList =
      some { name := "speed", has_arg := true, val := options.OPT_SPEED } := by decide
  simp only [tools_parse_args, tools_parse_loop, List.length_cons, List.tail_cons,
    getopt_long, hne, if_false, hpre, if_true, hname, hlook, hval, tools_parse_option]
  rfl

/-- C29. For the argument vector made of the program name and
`--set-speed=<value>`, whatever the value, `tools_parse_args` returns 1 and
leaves every option, `speed` included, as `tools_init_options` set it; the
spelling that stores the value and returns 0 is `--speed=<value>`. -/
theorem tools_parse_args_set_speed_rejected (atof : String → ℚ)
    (libevdev_event_code_from_name : String → Int) (prog value : String) :
    tools_parse_args atof libevdev_event_code_from_name
        [prog, "--set-speed=" ++ value] tools_init_options =
      tools_outcome.returned 1 tools_init_options ∧
    tools_init_options.speed = 0 ∧
    tools_parse_args atof libevdev_event_code_from_name
        [prog, "--speed=" ++ value] tools_init_options =
      tools_outcome.returned 0 { tools_init_options with speed := atof value } :=
  ⟨set_speed_unknown atof libevdev_event_code_from_name prog value tools_init_options, rfl,
    speed_known atof libevdev_event_code_from_name prog value tools_init_options⟩

/-! ## Device creation: the choice of the dispatch (C27) -/

/-- The flags `has_abs` and `has_mt` that the block on `EV_ABS` leaves, when it
does not return -1. -/
theorem evdev_configure_abs_flags (env : device_collaborators) (evdev : libevdev)
    (device : evdev_device) (a : configure_abs)
    (h : evdev_configure_abs env evdev device = some a) :
    (a.has_abs || a.has_mt) =
      (evdev.has_event_type EV_ABS &&
        ((evdev.get_abs_info ABS_X).isSome || (evdev.get_abs_info ABS_Y).isSome ||
          (!(evdev.has_event_code EV_ABS ABS_MT_SLOT &&
              decide (evdev.get_num_slots = -1)) &&
            evdev.has_event_code EV_ABS ABS_MT_POSITION_X &&
            evdev.has_event_code EV_ABS ABS_MT_POSITION_Y))) := by
  unfold evdev_configure_abs at h
  by_cases habs : evdev.has_event_type EV_ABS = true
  · by_cases hfake : evdev.has_event_code EV_ABS ABS_MT_SLOT = true ∧
        evdev.get_num_slots = -1
    · simp only [habs, Bool.not_true, Bool.false_eq_true, if_false, hfake, and_self,
        if_true, Option.some.injEq] at h
      subst h
      simp [habs, hfake.1, hfake.2]
    · by_cases hmt : evdev.has_event_code EV_ABS ABS_MT_POSITION_X = true ∧
          evdev.has_event_code EV_ABS ABS_MT_POSITION_Y = true
      · simp only [habs, Bool.not_true, Bool.false_eq_true, if_false, hfake, hmt,
          and_self, if_true] at h
        have hfake' : (evdev.has_event_code EV_ABS ABS_MT_SLOT &&
            decide (evdev.get_num_slots = -1)) = false := by
          simpa using hfake
        split at h
        · exact absurd h (by simp)
        · split at h
          · exact absurd h (by simp)
          · simp only [Option.some.injEq] at h
            subst h
            simp [habs, hfake', hmt.1, hmt.2]
      · simp only [habs, Bool.not_true, Bool.false_eq_true, if_false, hfake, hmt,
          Option.some.injEq] at h
        subst h
        have hmt' : (evdev.has_event_code EV_ABS ABS_MT_POSITION_X &&
            evdev.has_event_code EV_ABS ABS_MT_POSITION_Y) = false := by
          simpa using hmt
        simp [habs, Bool.and_assoc, hmt']
  · simp only [habs, Bool.not_false, if_true, Option.some.injEq] at h
    subst h
    simp [habs]

/-- Where `evdev_configure_device` returns 0 it has set the touchpad dispatch
if `touchpad_rule` holds of the descriptor, and no dispatch otherwise. -/
theorem evdev_configure_device_dispatch (env : device_collaborators) (evdev : libevdev)
    (device : evdev_device)
    (h : (evdev_configure_device env evdev device).rc = 0) :
    (evdev_configure_device env evdev device).dispatch =
      (if touchpad_rule evdev = true then some evdev_dispatch.touchpad else none) := by
  unfold evdev_configure_device at h ⊢
  by_cases hjoy : (List.range' BTN_JOYSTICK (BTN_DIGI - BTN_JOYSTICK)).any
      (fun i => evdev.has_event_code EV_KEY i) = true
  · simp [hjoy] at h
  · simp only [hjoy, Bool.false_eq_true, if_false] at h ⊢
    cases hab : evdev_configure_abs env evdev device with
    | none => simp [hab] at h
    | some a =>
      have hflags := evdev_configure_abs_flags env evdev device a hab
      simp only [hab] at h ⊢
      have hrule : touchpad_rule evdev =
          (evdev.has_event_type EV_KEY && !evdev.has_property INPUT_PROP_DIRECT &&
            evdev.has_event_code EV_KEY BTN_TOOL_FINGER &&
            !evdev.has_event_code EV_KEY BTN_TOOL_PEN && (a.has_abs || a.has_mt)) := by
        rw [hflags]
        rfl
      by_cases hc : evdev.has_event_type EV_KEY = true ∧
          (!evdev.has_property INPUT_PROP_DIRECT) = true ∧
          evdev.has_event_code EV_KEY BTN_TOOL_FINGER = true ∧
          (!evdev.has_event_code EV_KEY BTN_TOOL_PEN) = true ∧
          (a.has_abs = true ∨ a.has_mt = true)
      · have hr : touchpad_rule evdev = true := by
          rw [hrule]
          simp only [Bool.and_eq_true, Bool.or_eq_true]
          exact ⟨⟨⟨⟨hc.1, hc.2.1⟩, hc.2.2.1⟩, hc.2.2.2.1⟩, hc.2.2.2.2⟩
        rw [if_pos hc] at h ⊢
        cases htp : evdev_mt_touchpad_create env a.device with
        | none => simp [htp] at h
        | some d1 => simp [hr]
      · have hr : ¬ touchpad_rule evdev = true := by
          rw [hrule]
          simp only [Bool.and_eq_true, Bool.or_eq_true]
          intro hx
          exact hc ⟨hx.1.1.1.1, hx.1.1.1.2, hx.1.1.2, hx.1.2, hx.2⟩
        rw [if_neg hc] at h ⊢
        simp only [hr, if_false]
        split <;> rfl

/-- What `evdev_device_create` does with a descriptor on which
`evdev_configure_device` returns 0: a device without any capability is
unhandled; any other device gets the touchpad dispatch if `touchpad_rule`
holds and the fallback dispatch otherwise, provided the allocation of the
fallback dispatch and `libinput_add_fd` succeed. -/
theorem evdev_device_create_cases (env : device_collaborators) (evdev : libevdev)
    (r : configure_result)
    (hr : evdev_configure_device env evdev (evdev_device_create_init env evdev) = r)
    (hrc : r.rc = 0) :
    ((r.device.seat_caps.pointer = false ∧ r.device.seat_caps.keyboard = false ∧
        r.device.seat_caps.touch = false) →
      evdev_device_create env evdev = create_result.unhandled) ∧
    (¬(r.device.seat_caps.pointer = false ∧ r.device.seat_caps.keyboard = false ∧
        r.device.seat_caps.touch = false) →
      touchpad_rule evdev = false → env.zalloc_dispatch = true → env.add_fd = true →
      ∃ d, evdev_device_create env evdev =
        create_result.created d evdev_dispatch.fallback) ∧
    (¬(r.device.seat_caps.pointer = false ∧ r.device.seat_caps.keyboard = false ∧
        r.device.seat_caps.touch = false) →
      touchpad_rule evdev = true → env.add_fd = true →
      evdev_device_create env evdev =
        create_result.created r.device evdev_dispatch.touchpad) ∧
    (∀ (d : evdev_device) (k : evdev_dispatch),
      evdev_device_create env evdev = create_result.created d k →
      (k = evdev_dispatch.touchpad ↔ touchpad_rule evdev = true)) := by
  have hd := evdev_configure_device_dispatch env evdev (evdev_device_create_init env evdev)
    (by rw [hr]; exact hrc)
  rw [hr] at hd
  have hne : ¬ r.rc = -1 := by rw [hrc]; decide
  refine ⟨?_, ?_, ?_, ?_⟩
  · intro hcaps
    simp only [evdev_device_create, hr, hne, if_false, hcaps, and_self, if_true]
  · intro hcaps hrule hz ha
    simp only [evdev_device_create, hr, hne, if_false, hcaps, hd, hrule,
      Bool.false_eq_true, fallback_dispatch_create, hz, Bool.not_true, Option.map_some',
      ha]
    exact ⟨_, rfl⟩
  · intro hcaps hrule ha
    simp only [evdev_device_create, hr, hne, if_false, hcaps, hd, hrule, if_true, ha,
      Bool.not_true, Bool.false_eq_true]
  · intro d k hk
    simp only [evdev_device_create, hr, hne, if_false, hd] at hk
    by_cases hrule : touchpad_rule evdev = true
    · simp only [hrule, if_true] at hk
      split_ifs at hk
      simp only [create_result.created.injEq] at hk
      simp [← hk.2, hrule]
    · simp only [hrule, if_false, Bool.false_eq_true] at hk
      cases hf : fallback_dispatch_create env evdev r.device with
      | none =>
        simp only [hf, Option.map_none'] at hk
        split_ifs at hk
      | some d1 =>
        simp only [hf, Option.map_some'] at hk
        split_ifs at hk
        simp only [create_result.created.injEq] at hk
        simp [← hk.2, hrule]

/-- C27, counterexample. The fake multitouch device has no
`INPUT_PROP_DIRECT`, has `BTN_TOOL_FINGER`, lacks `BTN_TOOL_PEN` and has the
two multitouch position axes, yet `evdev_configure_device` accepts it without
setting the touchpad dispatch and `evdev_device_create` gives it the fallback
dispatch. The lid switch does not meet the rule and is accepted by
`evdev_configure_device` too, yet `evdev_device_create` gives it no dispatch
at all: it ends with `EVDEV_UNHANDLED_DEVICE`. -/
theorem dispatch_rule_counterexample :
    touchpad_rule_spec fake_mt_pad = true ∧
    (evdev_configure_device all_succeed fake_mt_pad
      (evdev_device_create_init all_succeed fake_mt_pad)).rc = 0 ∧
    (evdev_configure_device all_succeed fake_mt_pad
      (evdev_device_create_init all_succeed fake_mt_pad)).dispatch = none ∧
    (∃ d, evdev_device_create all_succeed fake_mt_pad =
      create_result.created d evdev_dispatch.fallback) ∧
    touchpad_rule_spec lid_switch = false ∧
    (evdev_configure_device all_succeed lid_switch
      (evdev_device_create_init all_succeed lid_switch)).rc = 0 ∧
    evdev_device_create all_succeed lid_switch = create_result.unhandled := by
  have h1 : (evdev_configure_device all_succeed fake_mt_pad
      (evdev_device_create_init all_succeed fake_mt_pad)).rc = 0 := by
    set_option maxRecDepth 20000 in decide
  have h2 : (evdev_configure_device all_succeed lid_switch
      (evdev_device_create_init all_succeed lid_switch)).rc = 0 := by
    set_option maxRecDepth 20000 in decide
  refine ⟨by decide, h1, ?_, ?_, by decide, h2, ?_⟩
  · rw [evdev_configure_device_dispatch _ _ _ h1]
    decide
  · exact (evdev_device_create_cases all_succeed fake_mt_pad _ rfl h1).2.1
      (by set_option maxRecDepth 20000 in decide) (by decide) rfl rfl
  · exact (evdev_device_create_cases all_succeed lid_switch _ rfl h2).1
      (by set_option maxRecDepth 20000 in decide)

/-- C27, amended. For every descriptor on which `evdev_configure_device`
returns 0, the touchpad dispatch is set exactly when the device has the event
type `EV_KEY`, no `INPUT_PROP_DIRECT`, `BTN_TOOL_FINGER`, no `BTN_TOOL_PEN`, and
under the event type `EV_ABS` either `ABS_X` or `ABS_Y` or, unless it is a fake
multitouch device, both multitouch position axes (`touchpad_rule`). In
`evdev_device_create` a device left without any capability is unhandled; any
other device that does not meet the rule gets the fallback dispatch, provided
its allocation and `libinput_add_fd` succeed, and a device that meets it keeps
the touchpad dispatch; a created device has the touchpad dispatch exactly when
it meets the rule. -/
theorem dispatch_selection (env : device_collaborators) (evdev : libevdev)
    (r : configure_result)
    (hr : evdev_configure_device env evdev (evdev_device_create_init env evdev) = r)
    (hrc : r.rc = 0) :
    r.dispatch =
      (if touchpad_rule evdev = true then some evdev_dispatch.touchpad else none) ∧
    ((r.device.seat_caps.pointer = false ∧ r.device.seat_caps.keyboard = false ∧
        r.device.seat_caps.touch = false) →
      evdev_device_create env evdev = create_result.unhandled) ∧
    (¬(r.device.seat_caps.pointer = false ∧ r.device.seat_caps.keyboard = false ∧
        r.device.seat_caps.touch = false) →
      touchpad_rule evdev = false → env.zalloc_dispatch = true → env.add_fd = true →
      ∃ d, evdev_device_create env evdev =
        create_result.created d evdev_dispatch.fallback) ∧
    (¬(r.device.seat_caps.pointer = false ∧ r.device.seat_caps.keyboard = false ∧
        r.device.seat_caps.touch = false) →
      touchpad_rule evdev = true → env.add_fd = true →
      evdev_device_create env evdev =
        create_result.created r.device evdev_dispatch.touchpad) ∧
    (∀ (d : evdev_device) (k : evdev_dispatch),
      evdev_device_create env evdev = create_result.created d k →
      (k = evdev_dispatch.touchpad ↔ touchpad_rule evdev = true)) := by
  refine ⟨?_, evdev_device_create_cases env evdev r hr hrc⟩
  have hd := evdev_configure_device_dispatch env evdev (evdev_device_create_init env evdev)
    (by rw [hr]; exact hrc)
  rw [hr] at hd
  exact hd

/-- C27, amended, on a mouse and a touchpad: the mouse does not meet the rule
and is created with the fallback dispatch, the touchpad meets it and is created
with the touchpad dispatch. -/
theorem dispatch_selection_witness :
    touchpad_rule usb_mouse = false ∧
    (∃ d, evdev_device_create all_succeed usb_mouse =
      create_result.created d evdev_dispatch.fallback) ∧
    touchpad_rule plain_touchpad = true ∧
    (∃ d, evdev_device_create all_succeed plain_touchpad =
      create_result.created d evdev_dispatch.touchpad) :=
  ⟨by decide,
   (dispatch_selection all_succeed usb_mouse _ rfl
      (by set_option maxRecDepth 20000 in decide)).2.2.1
      (by set_option maxRecDepth 20000 in decide) (by decide) rfl rfl,
   by decide,
   ⟨_, (dispatch_selection all_succeed plain_touchpad _ rfl
      (by set_option maxRecDepth 20000 in decide)).2.2.2.1
      (by set_option maxRecDepth 20000 in decide) (by decide) rfl⟩⟩

/-! ## Tap engine: the wait after a drag (C31) -/

/-- C31. From `TAP_STATE_DRAGGING` a RELEASE at `time` emits no button event,
moves to `TAP_STATE_DRAGGING_WAIT` and arms the timer for `time + 500` (a
`uint64_t` sum). From `TAP_STATE_DRAGGING_WAIT` a TOUCH emits no button event,
returns to `DRAGGING` and cancels the timer, while the timeout emits exactly
one `BTN_LEFT` release, stamped with the expiry, clears the `BTN_LEFT` bit and
moves to `TAP_STATE_IDLE` with the timer unarmed. -/
theorem tap_dragging_wait (tp tw : tp_dispatch) (a b : Option tp_touch)
    (time t_touch t_expire : Nat)
    (hs : tp.tap.state = TAP_STATE_DRAGGING)
    (hw : tw.tap.state = TAP_STATE_DRAGGING_WAIT) :
    (tp_tap_handle_event tp a TAP_EVENT_RELEASE time).notified = tp.notified ∧
    (tp_tap_handle_event tp a TAP_EVENT_RELEASE time).tap.state = TAP_STATE_DRAGGING_WAIT ∧
    (tp_tap_handle_event tp a TAP_EVENT_RELEASE time).tap.timer =
      some ((time + DEFAULT_DRAG_TIMEOUT_PERIOD) % 2 ^ 64) ∧
    (tp_tap_handle_event tp a TAP_EVENT_RELEASE time).tap.buttons_pressed =
      tp.tap.buttons_pressed ∧
    (tp_tap_handle_event tw b TAP_EVENT_TOUCH t_touch).notified = tw.notified ∧
    (tp_tap_handle_event tw b TAP_EVENT_TOUCH t_touch).tap.state = TAP_STATE_DRAGGING ∧
    (tp_tap_handle_event tw b TAP_EVENT_TOUCH t_touch).tap.timer = none ∧
    (tp_tap_handle_timeout t_expire tw).notified = tw.notified ++
      [{ time := t_expire, button := BTN_LEFT,
         state := LIBINPUT_BUTTON_STATE_RELEASED }] ∧
    (tp_tap_handle_timeout t_expire tw).tap.state = TAP_STATE_IDLE ∧
    (tp_tap_handle_timeout t_expire tw).tap.timer = none ∧
    (tp_tap_handle_timeout t_expire tw).tap.buttons_pressed =
      tw.tap.buttons_pressed &&& (0xffffffff - (1 <<< 1)) := by
  obtain ⟨⟨s, tm, bp, ml, en, su⟩, nf, ts, nt⟩ := tp
  obtain ⟨⟨s2, tm2, bp2, ml2, en2, su2⟩, nf2, ts2, nt2⟩ := tw
  simp only at hs hw
  subst hs hw
  simp [tp_tap_handle_event, tp_tap_handle_timeout, tp_tap_dragging_handle_event,
    tp_tap_dragging_wait_handle_event, set_tap_state, tp_tap_set_drag_timer,
    tp_tap_clear_timer, tp_tap_notify, libinput_timer_set, libinput_timer_cancel]

/-- C31 on a drag whose finger lifts at 400 ms: the timer is armed for 900 ms,
and its expiry emits the one release of `BTN_LEFT`. -/
theorem tap_dragging_wait_witness :
    (tp_tap_handle_event tp_dragging (some tapping_touch) TAP_EVENT_RELEASE 400).notified =
      tp_dragging.notified ∧
    (tp_tap_handle_event tp_dragging (some tapping_touch) TAP_EVENT_RELEASE 400).tap.timer =
      some 900 ∧
    (tp_tap_handle_timeout 900
      (tp_tap_handle_event tp_dragging (some tapping_touch) TAP_EVENT_RELEASE 400)).notified =
      [{ time := 50, button := BTN_LEFT, state := LIBINPUT_BUTTON_STATE_PRESSED },
       { time := 900, button := BTN_LEFT, state := LIBINPUT_BUTTON_STATE_RELEASED }] ∧
    (tp_tap_handle_timeout 900
      (tp_tap_handle_event tp_dragging (some tapping_touch) TAP_EVENT_RELEASE 400)).tap.state =
      TAP_STATE_IDLE :=
  have h := tap_dragging_wait tp_dragging
    (tp_tap_handle_event tp_dragging (some tapping_touch) TAP_EVENT_RELEASE 400)
    (some tapping_touch) none 400 500 900 rfl rfl
  ⟨h.1, h.2.2.1, h.2.2.2.2.2.2.2.1, h.2.2.2.2.2.2.2.2.1⟩

/-! ## Tap engine: what enabling and disabling changes (C40) -/

/-- C40. `tp_tap_enabled_update` with an effective value (`enabled` and not
`suspended`) equal to the old one leaves the state, the button bitmap and the
timer as they were and emits nothing. If the effective value turns on, nothing
is emitted, the button bitmap stays, and the state becomes `TAP_STATE_DEAD`
when `nfingers_down` is not 0 and `TAP_STATE_IDLE` otherwise. If it turns off
the function is `tp_release_all_taps` on the new flags. From `TAP_STATE_DEAD`
no event emits anything: the state stays `DEAD`, but for a RELEASE with no
finger left down, which leads to `IDLE`. -/
theorem tp_tap_enabled_update_frame (tp td : tp_dispatch) (suspended enabled : Bool)
    (time : Nat) (t : Option tp_touch) (event : tap_event) (t_event : Nat)
    (hd : td.tap.state = TAP_STATE_DEAD) :
    (((enabled && !suspended) = tp_tap_enabled tp) →
      (tp_tap_enabled_update tp suspended enabled time).tap.state = tp.tap.state ∧
      (tp_tap_enabled_update tp suspended enabled time).tap.buttons_pressed =
        tp.tap.buttons_pressed ∧
      (tp_tap_enabled_update tp suspended enabled time).tap.timer = tp.tap.timer ∧
      (tp_tap_enabled_update tp suspended enabled time).notified = tp.notified) ∧
    (tp_tap_enabled tp = false → (enabled && !suspended) = true →
      (tp_tap_enabled_update tp suspended enabled time).tap.state =
        (if tp.nfingers_down ≠ 0 then TAP_STATE_DEAD else TAP_STATE_IDLE) ∧
      (tp_tap_enabled_update tp suspended enabled time).tap.buttons_pressed =
        tp.tap.buttons_pressed ∧
      (tp_tap_enabled_update tp suspended enabled time).notified = tp.notified) ∧
    (tp_tap_enabled tp = true → (enabled && !suspended) = false →
      tp_tap_enabled_update tp suspended enabled time =
        tp_release_all_taps
          { tp with tap := { tp.tap with suspended := suspended, enabled := enabled } }
          time) ∧
    (tp_tap_handle_event td t event t_event).notified = td.notified ∧
    (tp_tap_handle_event td t event t_event).tap.buttons_pressed =
      td.tap.buttons_pressed ∧
    ((tp_tap_handle_event td t event t_event).tap.state = TAP_STATE_DEAD ∨
      ((tp_tap_handle_event td t event t_event).tap.state = TAP_STATE_IDLE ∧
        event = TAP_EVENT_RELEASE ∧ td.nfingers_down = 0)) := by
  obtain ⟨⟨s, tm, bp, ml, en, su⟩, nf, ts, nt⟩ := tp
  obtain ⟨⟨s2, tm2, bp2, ml2, en2, su2⟩, nf2, ts2, nt2⟩ := td
  simp only at hd
  subst hd
  refine ⟨?_, ?_, ?_, ?_, ?_, ?_⟩
  · intro h
    simp only [tp_tap_enabled] at h
    simp [tp_tap_enabled_update, tp_tap_enabled, h]
  · intro h1 h2
    simp only [tp_tap_enabled] at h1
    simp only [tp_tap_enabled_update, tp_tap_enabled, h1, h2]
    by_cases hn : nf = 0 <;> simp [set_tap_state, hn]
  · intro h1 h2
    simp only [tp_tap_enabled] at h1
    simp [tp_tap_enabled_update, tp_tap_enabled, h1, h2]
  · cases event <;> by_cases hn : nf2 = 0 <;>
      simp [tp_tap_handle_event, tp_tap_dead_handle_event, set_tap_state,
        tp_tap_clear_timer, hn]
  · cases event <;> by_cases hn : nf2 = 0 <;>
      simp [tp_tap_handle_event, tp_tap_dead_handle_event, set_tap_state,
        tp_tap_clear_timer, hn]
  · cases event <;> by_cases hn : nf2 = 0 <;>
      simp [tp_tap_handle_event, tp_tap_dead_handle_event, set_tap_state,
        tp_tap_clear_timer, hn]

/-- C40 with a finger down while tapping is switched on: the machine restarts
in `DEAD`, and the release of that finger emits nothing. -/
theorem tp_tap_enabled_update_frame_witness :
    (tp_tap_enabled_update tp_disabled_finger_down false true 0).tap.state =
      TAP_STATE_DEAD ∧
    (tp_tap_enabled_update tp_disabled_finger_down false true 0).notified = [] ∧
    (tp_tap_handle_event (tp_tap_enabled_update tp_disabled_finger_down false true 0)
      (some tapping_touch) TAP_EVENT_RELEASE 10).notified = [] ∧
    (tp_tap_handle_event (tp_tap_enabled_update tp_disabled_finger_down false true 0)
      (some tapping_touch) TAP_EVENT_RELEASE 10).tap.state = TAP_STATE_DEAD :=
  have h := tp_tap_enabled_update_frame tp_disabled_finger_down
    (tp_tap_enabled_update tp_disabled_finger_down false true 0) false true 0
    (some tapping_touch) TAP_EVENT_RELEASE 10 (by decide)
  ⟨(h.2.1 (by decide) (by decide)).1, (h.2.1 (by decide) (by decide)).2.2, h.2.2.2.1,
    by decide⟩

/-! ## Tap engine: which states hold `BTN_LEFT` (C34) -/

/-- C34. In every state reachable from `tp_init_tap` by calls of
`tp_tap_handle_event`, the bit of `BTN_LEFT` (`1 << 1`) is set in
`buttons_pressed` exactly when the state is one of `TAPPED`,
`DRAGGING_OR_DOUBLETAP`, `DRAGGING`, `DRAGGING_WAIT`, `DRAGGING_2` and
`MULTITAP_DOWN`, and the bits of `BTN_RIGHT` (`1 << 2`) and `BTN_MIDDLE`
(`1 << 3`) are clear. -/
theorem tap_holds_left_iff (tp : tp_dispatch) (h : tap_event_reachable tp) :
    (tp.tap.buttons_pressed &&& (1 <<< 1) ≠ 0 ↔
      (tp.tap.state = TAP_STATE_TAPPED ∨ tp.tap.state = TAP_STATE_DRAGGING_OR_DOUBLETAP ∨
        tp.tap.state = TAP_STATE_DRAGGING ∨ tp.tap.state = TAP_STATE_DRAGGING_WAIT ∨
        tp.tap.state = TAP_STATE_DRAGGING_2 ∨ tp.tap.state = TAP_STATE_MULTITAP_DOWN)) ∧
    tp.tap.buttons_pressed &&& (1 <<< 2) = 0 ∧
    tp.tap.buttons_pressed &&& (1 <<< 3) = 0 := by
  have hc := (tap_event_reachable_inv tp h).1
  obtain ⟨⟨s, tm, bp, ml, en, su⟩, nf, ts, nt⟩ := tp
  simp only [tap_buttons_consistent] at hc
  simp only
  cases s <;> simp only [holds_left, if_true, if_false, Bool.false_eq_true] at hc <;>
    subst hc <;> simp +decide

/-- C34 after a touch and its release: the state is `TAPPED` and the bit of
`BTN_LEFT` is set. -/
theorem tap_holds_left_iff_witness :
    (tp_tap_handle_event
      (tp_tap_handle_event (tp_init_tap tp_at_rest false) (some tapping_touch)
        TAP_EVENT_TOUCH 0) (some tapping_touch) TAP_EVENT_RELEASE 50).tap.state =
      TAP_STATE_TAPPED ∧
    (tp_tap_handle_event
      (tp_tap_handle_event (tp_init_tap tp_at_rest false) (some tapping_touch)
        TAP_EVENT_TOUCH 0) (some tapping_touch) TAP_EVENT_RELEASE 50).tap.buttons_pressed
      &&& (1 <<< 1) ≠ 0 :=
  ⟨by decide,
   (tap_holds_left_iff _
      (tap_event_reachable.event _ (some tapping_touch) TAP_EVENT_RELEASE 50
        (tap_event_reachable.event _ (some tapping_touch) TAP_EVENT_TOUCH 0
          (tap_event_reachable.init tp_at_rest false rfl rfl)))).1.mpr
      (Or.inl (by decide))⟩

/-! ## evdev device: scaling of an absolute axis (C39) -/

/-- `scale_axis` on an axis with `minimum <= maximum` and a positive range:
the result of a coordinate inside the axis is at least 0 and below the range,
it is 0 at the minimum, and the function is strictly increasing. -/
theorem scale_axis_bounds (a : input_absinfo) (x w : ℚ) (hmm : a.minimum ≤ a.maximum)
    (hx : (a.minimum : ℚ) ≤ x) (hx2 : x ≤ (a.maximum : ℚ)) (hw : 0 < w) :
    0 ≤ scale_axis a x w ∧ scale_axis a x w < w ∧ scale_axis a (a.minimum : ℚ) w = 0 ∧
    ∀ x1 x2 : ℚ, x1 < x2 → scale_axis a x1 w < scale_axis a x2 w := by
  have hden : (0 : ℚ) < ((a.maximum - a.minimum + 1 : Int) : ℚ) := by
    have : (0 : Int) < a.maximum - a.minimum + 1 := by omega
    exact_mod_cast this
  have hcast : ((a.maximum - a.minimum + 1 : Int) : ℚ) =
      (a.maximum : ℚ) - (a.minimum : ℚ) + 1 := by push_cast; ring
  unfold scale_axis
  refine ⟨?_, ?_, ?_, ?_⟩
  · apply div_nonneg
    · exact mul_nonneg (by linarith) hw.le
    · exact hden.le
  · rw [div_lt_iff₀ hden, hcast]
    nlinarith
  · simp
  · intro x1 x2 h12
    apply div_lt_div_of_pos_right _ hden
    exact mul_lt_mul_of_pos_right (by linarith) hw

/-- C39. Over exact arithmetic, on axes with `minimum <= maximum`, for every
coordinate inside the axis and every positive width,
`evdev_device_transform_x` returns `(x - minimum) * width /
(maximum - minimum + 1)`, which is at least 0 and below the width; it returns
0 at the minimum and is strictly increasing in the coordinate. Likewise
`evdev_device_transform_y` with the height. -/
theorem evdev_device_transform_range (device : evdev_device) (ax ay : input_absinfo)
    (x y : ℚ) (width height : Nat)
    (hax : device.abs.absinfo_x = some ax) (hay : device.abs.absinfo_y = some ay)
    (hmx : ax.minimum ≤ ax.maximum) (hmy : ay.minimum ≤ ay.maximum)
    (hx : (ax.minimum : ℚ) ≤ x) (hx2 : x ≤ (ax.maximum : ℚ))
    (hy : (ay.minimum : ℚ) ≤ y) (hy2 : y ≤ (ay.maximum : ℚ))
    (hw : 0 < width) (hh : 0 < height) :
    (∃ r : ℚ, evdev_device_transform_x device x width = some r ∧
      r = (x - ax.minimum) * width / ((ax.maximum : ℚ) - ax.minimum + 1) ∧
      0 ≤ r ∧ r < width) ∧
    evdev_device_transform_x device (ax.minimum : ℚ) width = some 0 ∧
    (∀ x1 x2 r1 r2 : ℚ, x1 < x2 →
      evdev_device_transform_x device x1 width = some r1 →
      evdev_device_transform_x device x2 width = some r2 → r1 < r2) ∧
    (∃ r : ℚ, evdev_device_transform_y device y height = some r ∧
      r = (y - ay.minimum) * height / ((ay.maximum : ℚ) - ay.minimum + 1) ∧
      0 ≤ r ∧ r < height) ∧
    evdev_device_transform_y device (ay.minimum : ℚ) height = some 0 ∧
    (∀ y1 y2 r1 r2 : ℚ, y1 < y2 →
      evdev_device_transform_y device y1 height = some r1 →
      evdev_device_transform_y device y2 height = some r2 → r1 < r2) := by
  have hwq : (0 : ℚ) < (width : ℚ) := by exact_mod_cast hw
  have hhq : (0 : ℚ) < (height : ℚ) := by exact_mod_cast hh
  obtain ⟨x0, x1, x2, x3⟩ := scale_axis_bounds ax x width hmx hx hx2 hwq
  obtain ⟨y0, y1, y2, y3⟩ := scale_axis_bounds ay y height hmy hy hy2 hhq
  simp only [evdev_device_transform_x, evdev_device_transform_y, hax, hay, Option.map_some',
    Option.some.injEq]
  refine ⟨⟨_, rfl, ?_, x0, x1⟩, by rw [x2], ?_, ⟨_, rfl, ?_, y0, y1⟩, by rw [y2], ?_⟩
  · unfold scale_axis; push_cast; ring
  · intro a b r1 r2 hab h1 h2
    rw [← h1, ← h2]
    exact x3 a b hab
  · unfold scale_axis; push_cast; ring
  · intro a b r1 r2 hab h1 h2
    rw [← h1, ← h2]
    exact y3 a b hab

/-- C39 on the touch screen (axis 0 to 1023) scaled to a width of 1920. -/
theorem evdev_device_transform_range_witness :
    (∃ r : ℚ, evdev_device_transform_x touch_screen 512 1920 = some r ∧
      0 ≤ r ∧ r < 1920) ∧
    evdev_device_transform_x touch_screen 0 1920 = some 0 :=
  have h := evdev_device_transform_range touch_screen
    { minimum := 0, maximum := 1023, resolution := 1 }
    { minimum := 0, maximum := 767, resolution := 1 } 512 300 1920 1080 rfl rfl
    (by decide) (by decide) (by norm_num) (by norm_num) (by norm_num) (by norm_num)
    (by decide) (by decide)
  ⟨by obtain ⟨r, h1, -, h2, h3⟩ := h.1; exact ⟨r, h1, h2, by exact_mod_cast h3⟩,
   by simpa using h.2.1⟩

/-! ## evdev device: motion while the scroll button is held (C37, C38) -/

/-- C37. With the scroll method `ON_BUTTON_DOWN` in effect, the scroll button
down in the hardware bitmap and `button_scroll_active` still false, flushing a
pending relative motion only resets `rel.dx` and `rel.dy` to 0 and the pending
event: nothing is emitted, `scroll` (the build-ups included) is unchanged and
the filter is not fed. -/
theorem flush_before_scroll_timer (d : evdev_device) (time : Nat)
    (hp : d.pending_event = EVDEV_RELATIVE_MOTION)
    (hm : d.scroll.method = LIBINPUT_CONFIG_SCROLL_ON_BUTTON_DOWN)
    (hdown : hw_is_key_down d d.scroll.button = true)
    (hact : d.scroll.button_scroll_active = false) :
    evdev_flush_pending_event d time =
      { d with rel := { dx := 0, dy := 0 }, pending_event := EVDEV_NONE } ∧
    (evdev_flush_pending_event d time).emitted = d.emitted ∧
    (evdev_flush_pending_event d time).scroll = d.scroll ∧
    (evdev_flush_pending_event d time).pointer.filter.seen = d.pointer.filter.seen ∧
    (evdev_flush_pending_event d time).rel = { dx := 0, dy := 0 } := by
  have h : evdev_flush_pending_event d time =
      { d with rel := { dx := 0, dy := 0 }, pending_event := EVDEV_NONE } := by
    unfold evdev_flush_pending_event
    rw [hp]
    simp only [flush_relative_motion]
    have hdown' : hw_is_key_down { d with rel := { dx := 0, dy := 0 } } d.scroll.button =
        true := hdown
    simp [hm, hdown', hact]
  rw [h]
  exact ⟨rfl, rfl, rfl, rfl, rfl⟩

/-- C37 on the pointing stick with `BTN_MIDDLE` held and a motion of 3 by 4
pending. -/
theorem flush_before_scroll_timer_witness :
    (evdev_flush_pending_event trackpoint_held_moving 100).emitted = [] ∧
    (evdev_flush_pending_event trackpoint_held_moving 100).rel = { dx := 0, dy := 0 } ∧
    (evdev_flush_pending_event trackpoint_held_moving 100).scroll =
      trackpoint_held_moving.scroll :=
  have h := flush_before_scroll_timer trackpoint_held_moving 100 rfl rfl (by decide) rfl
  ⟨h.2.1, h.2.2.2.2, h.2.2.1⟩

/-- C38. With the scroll method `ON_BUTTON_DOWN`, the scroll button held, the
timer fired (`button_scroll_active` true) and no axis scrolling
(`scroll.direction == 0`), the release of the button emits nothing, neither
through `evdev_button_scroll_button` nor, with nothing pending, through
`evdev_process_key`; afterwards `button_scroll_active` is false, both
build-ups and the direction are 0 and the timer is cancelled. -/
theorem scroll_button_release_nothing_scrolled (kc_mod : Nat) (d : evdev_device)
    (time : Nat)
    (hm : d.scroll.method = LIBINPUT_CONFIG_SCROLL_ON_BUTTON_DOWN)
    (hb : get_key_type d.scroll.button = EVDEV_KEY_TYPE_BUTTON)
    (hdown : hw_is_key_down d d.scroll.button = true)
    (hact : d.scroll.button_scroll_active = true)
    (hdir : d.scroll.direction = 0)
    (hp : d.pending_event = EVDEV_NONE) :
    (∃ d1, evdev_button_scroll_button kc_mod d time 0 = some d1 ∧
      d1.emitted = d.emitted ∧ d1.scroll.button_scroll_active = false ∧
      d1.scroll.buildup_vertical = 0 ∧ d1.scroll.buildup_horizontal = 0 ∧
      d1.scroll.direction = 0 ∧ d1.scroll.timer = none) ∧
    (∃ d1, evdev_process_key kc_mod d
        { type := EV_KEY, code := d.scroll.button, value := 0 } time = some d1 ∧
      d1.emitted = d.emitted ∧ d1.scroll.button_scroll_active = false ∧
      d1.scroll.buildup_vertical = 0 ∧ d1.scroll.buildup_horizontal = 0 ∧
      d1.scroll.direction = 0 ∧ d1.scroll.timer = none ∧
      d1.key_count = d.key_count ∧ hw_is_key_down d1 d.scroll.button = false) := by
  have hne : d.scroll.button ≠ BTN_TOUCH := by
    intro h
    rw [h] at hb
    exact absurd hb (by decide)
  constructor
  · refine ⟨_, by simp only [evdev_button_scroll_button, hact]; rfl, ?_⟩
    simp [evdev_stop_scroll, hdir, libinput_timer_cancel]
  · have hval : evdev_process_key kc_mod d
        { type := EV_KEY, code := d.scroll.button, value := 0 } time =
        some { evdev_stop_scroll
            { hw_set_key_down d d.scroll.button 0 with
              scroll := { d.scroll with timer := none } } time with
          scroll := { (evdev_stop_scroll
            { hw_set_key_down d d.scroll.button 0 with
              scroll := { d.scroll with timer := none } } time).scroll with
            button_scroll_active := false } } := by
      simp [evdev_process_key, hne, hb, hw_set_key_down, hm, hdown, hact,
        evdev_flush_pending_event_none d time hp,
        evdev_button_scroll_button, libinput_timer_cancel]
    refine ⟨_, hval, ?_⟩
    simp [evdev_stop_scroll, hdir, hw_set_key_down, hw_is_key_down, long_set_bit_state,
      long_bit_is_set]

/-- C38 on the pointing stick in scroll mode, released at 300 ms. -/
theorem scroll_button_release_nothing_scrolled_witness :
    ∃ d1, evdev_process_key 256 trackpoint_scroll_mode
        { type := EV_KEY, code := BTN_MIDDLE, value := 0 } 300 = some d1 ∧
      d1.emitted = [] ∧ d1.scroll.button_scroll_active = false ∧
      d1.scroll.buildup_vertical = 0 ∧ d1.scroll.buildup_horizontal = 0 := by
  obtain ⟨d1, h1, h2, h3, h4, h5, -⟩ :=
    (scroll_button_release_nothing_scrolled 256 trackpoint_scroll_mode 300 rfl (by decide)
      (by decide) rfl rfl rfl).2
  exact ⟨d1, h1, h2, h3, h4, h5⟩

/-! ## Tap engine: the button bitmap and the reported buttons -/

/-- Calls appended to a record are scanned after it. -/
theorem reported_pressed_append (l l2 : List button_notify) (button : Nat) :
    reported_pressed (l ++ l2) button =
      l2.foldl (fun pressed n =>
        if n.button = button then decide (n.state = LIBINPUT_BUTTON_STATE_PRESSED)
        else pressed) (reported_pressed l button) := by
  simp [reported_pressed, List.foldl_append]

/-- One call of `tp_tap_handle_event` keeps the button bitmap and the record of
button calls in agreement with the state. -/
theorem tp_tap_handle_event_reports (tp : tp_dispatch) (t : Option tp_touch)
    (event : tap_event) (time : Nat) (h : tap_buttons_consistent tp)
    (hr : tap_reports_consistent tp) :
    tap_reports_consistent (tp_tap_handle_event tp t event time) := by
  obtain ⟨⟨s, tm, bp, ml, en, su⟩, nf, ts, nt⟩ := tp
  simp only [tap_buttons_consistent] at h
  simp only [tap_reports_consistent] at hr
  obtain ⟨hl, hr, hm⟩ := hr
  cases s <;> simp only [holds_left, if_true, if_false] at h hl <;> rw [h] <;>
    cases event <;>
    simp +decide [tap_reports_consistent, holds_left, tp_tap_handle_event,
      tp_tap_idle_handle_event, tp_tap_touch_handle_event, tp_tap_hold_handle_event,
      tp_tap_tapped_handle_event, tp_tap_touch2_handle_event,
      tp_tap_touch2_hold_handle_event, tp_tap_touch3_handle_event,
      tp_tap_touch3_hold_handle_event, tp_tap_dragging_or_doubletap_handle_event,
      tp_tap_dragging_handle_event, tp_tap_dragging_wait_handle_event,
      tp_tap_dragging2_handle_event, tp_tap_multitap_handle_event,
      tp_tap_multitap_down_handle_event, tp_tap_dead_handle_event,
      tp_tap_notify, tp_tap_set_timer, tp_tap_set_drag_timer, tp_tap_clear_timer,
      touch_is_tap_touch, set_tap_state, libinput_timer_set, libinput_timer_cancel,
      reported_pressed_append, hl, hr, hm] <;>
    (try split) <;>
    (try simp +decide [holds_left, tp_tap_notify, reported_pressed_append, hl, hr, hm])

/-- From a state whose bitmap and record agree with it, `tp_release_all_taps`
leaves the record in agreement with the new state. -/
theorem tp_release_all_taps_reports (tp : tp_dispatch) (now : Nat)
    (h : tap_buttons_consistent tp) (hr : tap_reports_consistent tp) :
    tap_reports_consistent (tp_release_all_taps tp now) := by
  obtain ⟨⟨s, tm, bp, ml, en, su⟩, nf, ts, nt⟩ := tp
  simp only [tap_buttons_consistent] at h
  simp only [tap_reports_consistent] at hr
  obtain ⟨hl, hr, hm⟩ := hr
  by_cases hh : holds_left s = true
  · simp only [hh, if_true] at h hl
    subst h
    by_cases hn : nf = 0 <;>
      simp +decide [tap_reports_consistent, tp_release_all_taps,
        tp_release_all_taps_round, tp_tap_notify, set_tap_state, hn, holds_left,
        reported_pressed_append, hl, hr, hm]
  · simp only [hh, if_false] at h hl
    subst h
    by_cases hn : nf = 0 <;>
      simp +decide [tap_reports_consistent, tp_release_all_taps,
        tp_release_all_taps_round, tp_tap_notify, set_tap_state, hn, holds_left,
        reported_pressed_append, hl, hr, hm]

/-- Every state reachable through the entry points of the tap engine has its
record of button calls in agreement with its state. -/
theorem tap_reachable_reports (tp : tp_dispatch) (h : tap_reachable tp) :
    tap_reports_consistent tp := by
  induction h with
  | init tp b hb hs hn =>
    simp [tap_reports_consistent, tp_init_tap, holds_left, hn, reported_pressed]
  | frame tp ts n _ ih => exact ih
  | event tp t ev time hr _ _ ih =>
    exact tp_tap_handle_event_reports tp t ev time (tap_reachable_inv tp hr).1 ih
  | timeout tp time hr ih =>
    have := tp_tap_handle_event_reports tp none TAP_EVENT_TIMEOUT time
      (tap_reachable_inv tp hr).1 ih
    exact this
  | release_all tp now hr ih =>
    exact tp_release_all_taps_reports tp now (tap_reachable_inv tp hr).1 ih
  | enabled_update tp su en time hr ih =>
    have hc := (tap_reachable_inv tp hr).1
    have hq := (tap_reachable_inv tp hr).2
    unfold tp_tap_enabled_update
    simp only
    split
    · exact ih
    · split
      · rename_i hne hen
        have hd : tp_tap_enabled tp = false := by
          cases hx : tp_tap_enabled tp
          · rfl
          · rw [hx] at hne; exact absurd hen hne
        have hs := hq hd
        obtain ⟨⟨s, tm, bp, ml, en0, su0⟩, nf, ts, nt⟩ := tp
        simp only [tap_reports_consistent] at ih ⊢
        simp only at hs
        rcases hs with hs | hs <;> subst hs <;>
          by_cases hn : nf = 0 <;>
          simpa [set_tap_state, holds_left, hn] using ih
      · exact tp_release_all_taps_reports _ time hc ih

/-- C33, counterexample. Right after a one-finger tap the engine reports
`BTN_LEFT` pressed, and the bit set in `tap.buttons_pressed` is bit 1
(`1 << nfingers` with one finger): bit 0 is clear, so bit 0 is not set if and
only if `BTN_LEFT` is reported pressed. -/
theorem buttons_pressed_bit_0_counterexample :
    tap_reachable tp_just_tapped ∧
    tp_just_tapped.notified =
      [{ time := 10, button := BTN_LEFT, state := LIBINPUT_BUTTON_STATE_PRESSED }] ∧
    reported_pressed tp_just_tapped.notified BTN_LEFT = true ∧
    tp_just_tapped.tap.buttons_pressed = 2 ∧
    tp_just_tapped.tap.buttons_pressed.testBit 0 = false ∧
    ¬ (tp_just_tapped.tap.buttons_pressed.testBit 0 = true ↔
        reported_pressed tp_just_tapped.notified BTN_LEFT = true) := by
  refine ⟨?_, by decide, by decide, by decide, by decide, by decide⟩
  unfold tp_just_tapped
  refine tap_reachable.event _ _ _ _ (tap_reachable.event _ _ _ _
    (tap_reachable.init _ _ rfl rfl rfl) (by decide) (by decide)) (by decide) (by decide)

/-- C33, amended. After every operation of the tap engine (a state reachable
from `tp_init_tap` by `tp_tap_handle_event`, `tp_tap_handle_timeout`,
`tp_release_all_taps` and `tp_tap_enabled_update`), bit `n` of
`tap.buttons_pressed`, for the finger counts `n = 1, 2, 3`, is set if and only
if the button `BTN_LEFT`, `BTN_RIGHT`, `BTN_MIDDLE` of that finger count is
currently reported pressed; bit 0 and the bits above bit 3 are never set. -/
theorem buttons_pressed_tracks_reports (tp : tp_dispatch) (h : tap_reachable tp) :
    (tp.tap.buttons_pressed.testBit 1 = true ↔
      reported_pressed tp.notified BTN_LEFT = true) ∧
    (tp.tap.buttons_pressed.testBit 2 = true ↔
      reported_pressed tp.notified BTN_RIGHT = true) ∧
    (tp.tap.buttons_pressed.testBit 3 = true ↔
      reported_pressed tp.notified BTN_MIDDLE = true) ∧
    tp.tap.buttons_pressed.testBit 0 = false ∧
    tp.tap.buttons_pressed < 2 ^ 4 := by
  have hc := (tap_reachable_inv tp h).1
  obtain ⟨hl, hr, hm⟩ := tap_reachable_reports tp h
  simp only [tap_buttons_consistent] at hc
  rw [hc, hl, hr, hm]
  cases holds_left tp.tap.state <;> decide

/-- C33, amended, at the dispatch right after a one-finger tap. -/
theorem buttons_pressed_tracks_reports_witness :
    tap_reachable tp_just_tapped ∧
    (tp_just_tapped.tap.buttons_pressed.testBit 1 = true ↔
      reported_pressed tp_just_tapped.notified BTN_LEFT = true) :=
  ⟨tap_reachable.event _ _ _ _ (tap_reachable.event _ _ _ _
      (tap_reachable.init _ _ rfl rfl rfl) (by decide) (by decide)) (by decide)
      (by decide),
    (buttons_pressed_tracks_reports tp_just_tapped
      (tap_reachable.event _ _ _ _ (tap_reachable.event _ _ _ _
        (tap_reachable.init _ _ rfl rfl rfl) (by decide) (by decide)) (by decide)
        (by decide))).1⟩

/-! ## Tap engine: motion past the threshold -/

/-- After the inner loop of `tp_tap_handle_state` no touch is left in
`TAP_TOUCH_STATE_TOUCH`. -/
theorem touches_to_dead_none (tp : tp_dispatch) (u : tp_touch)
    (hu : u ∈ (touches_to_dead tp).touches) :
    u.tap.state ≠ TAP_TOUCH_STATE_TOUCH := by
  simp only [touches_to_dead, List.mem_map] at hu
  obtain ⟨v, _, rfl⟩ := hu
  split
  · simp [set_touch_tap_state]
  · assumption

/-- Writing to a list the element it holds leaves it as it is. -/
theorem list_set_same (l : List tp_touch) (i : Nat) (a : tp_touch)
    (h : l[i]? = some a) : l.set i a = l := by
  apply List.ext_getElem?
  intro j
  rw [List.getElem?_set]
  split
  · rename_i hij
    subst hij
    split
    · exact h.symm
    · rw [List.getElem?_eq_none (by omega)]
  · rfl

/-- A call of `tp_tap_handle_event` leaves the touches as they are. -/
theorem tp_tap_handle_event_touches (tp : tp_dispatch) (t : Option tp_touch)
    (event : tap_event) (time : Nat) :
    (tp_tap_handle_event tp t event time).touches = tp.touches := by
  obtain ⟨⟨s, tm, bp, ml, en, su⟩, nf, ts, nt⟩ := tp
  cases s <;> cases event <;>
    simp [tp_tap_handle_event,
      tp_tap_idle_handle_event, tp_tap_touch_handle_event, tp_tap_hold_handle_event,
      tp_tap_tapped_handle_event, tp_tap_touch2_handle_event,
      tp_tap_touch2_hold_handle_event, tp_tap_touch3_handle_event,
      tp_tap_touch3_hold_handle_event, tp_tap_dragging_or_doubletap_handle_event,
      tp_tap_dragging_handle_event, tp_tap_dragging_wait_handle_event,
      tp_tap_dragging2_handle_event, tp_tap_multitap_handle_event,
      tp_tap_multitap_down_handle_event, tp_tap_dead_handle_event,
      tp_tap_notify, tp_tap_set_timer, tp_tap_set_drag_timer, tp_tap_clear_timer,
      touch_is_tap_touch, set_tap_state, libinput_timer_set, libinput_timer_cancel] <;>
    (try split) <;> (try simp [tp_tap_notify])

/-- The step of the loop of `tp_tap_handle_state` for a dirty ongoing touch
past the threshold while the tap state is not `IDLE`. -/
theorem tp_tap_handle_state_touch_motion (fe : tp_frontend)
    (queued_button_press : Bool) (time : Nat) (tp : tp_dispatch) (i : Nat)
    (t : tp_touch) (hi : tp.touches[i]? = some t) (hd : t.dirty = true)
    (hu : t.state = TOUCH_UPDATE) (hs : tp.tap.state ≠ TAP_STATE_IDLE)
    (hx : tp_tap_exceeds_motion_threshold fe
      (set_touch tp i (clickpad_press_touch fe queued_button_press t))
      (clickpad_press_touch fe queued_button_press t) = true) :
    tp_tap_handle_state_touch fe queued_button_press time tp i =
      tp_tap_handle_event
        (touches_to_dead (set_touch tp i (clickpad_press_touch fe queued_button_press t)))
        (touches_to_dead (set_touch tp i (clickpad_press_touch fe queued_button_press t))).touches[i]?
        TAP_EVENT_MOTION time := by
  have hstate : (clickpad_press_touch fe queued_button_press t).state = TOUCH_UPDATE := by
    unfold clickpad_press_touch
    split <;> simp [set_touch_tap_state, hu]
  have hs1 : (set_touch tp i
      (clickpad_press_touch fe queued_button_press t)).tap.state ≠ TAP_STATE_IDLE := hs
  unfold tp_tap_handle_state_touch
  simp only [hi]
  simp [hd, hu, hstate, hs1, hx]

/-- The example front end finds the touch `moved_touch` past the threshold,
whatever the dispatch. -/
theorem moved_touch_exceeds (tp : tp_dispatch) :
    tp_tap_exceeds_motion_threshold plain_frontend tp moved_touch = true := by
  have hq : Nat.sqrt 250000 = 500 := by
    symm
    rw [Nat.eq_sqrt]
    norm_num
  have hf : Rat.floor (250000 : ℚ) = 250000 := by rfl
  simp [tp_tap_exceeds_motion_threshold, plain_frontend, device_delta, moved_touch]
  norm_num [hf]
  have ht : Int.toNat 250000 = 250000 := rfl
  rw [ht, hq]
  norm_num

/-- With tapping enabled, no clickpad press queued and one touch, the loop of
`tp_tap_handle_state` is one step. -/
theorem tp_tap_handle_state_one_touch (fe : tp_frontend)
    (queued_button_press : Bool) (tp : tp_dispatch) (time : Nat)
    (he : tp_tap_enabled tp = true)
    (hc : fe.is_clickpad = false ∨ queued_button_press = false)
    (hl : tp.touches.length = 1) :
    (tp_tap_handle_state fe queued_button_press tp time).1 =
      tp_tap_handle_state_touch fe queued_button_press time tp 0 := by
  have hq : ¬ (fe.is_clickpad = true ∧ queued_button_press = true) := by
    rcases hc with hc | hc <;> simp [hc]
  have hr : List.range 1 = [0] := rfl
  unfold tp_tap_handle_state
  simp only [he, hq, if_false, hl, hr, List.foldl]
  simp

/-- C32, counterexample. With tapping enabled and the tap state `IDLE`, a dirty
ongoing touch in `TAP_TOUCH_STATE_TOUCH` that has moved 500 units, past the
threshold of 118, is left in `TAP_TOUCH_STATE_TOUCH` by `tp_tap_handle_state`,
and the dispatch is returned as it was: the guard
`tp->tap.state != TAP_STATE_IDLE` skips both the demotion and the MOTION event.
The same touch in the tap state `TOUCH` is demoted and the machine moves to
`HOLD`. -/
theorem motion_in_idle_counterexample :
    tp_tap_enabled tp_idle_moved_touch = true ∧
    tp_idle_moved_touch.tap.state = TAP_STATE_IDLE ∧
    tp_idle_moved_touch.touches = [moved_touch] ∧
    moved_touch.dirty = true ∧ moved_touch.state = TOUCH_UPDATE ∧
    moved_touch.tap.state = TAP_TOUCH_STATE_TOUCH ∧
    tp_tap_exceeds_motion_threshold plain_frontend tp_idle_moved_touch moved_touch
      = true ∧
    tp_tap_handle_state plain_frontend false tp_idle_moved_touch 20 =
      (tp_idle_moved_touch, 0) ∧
    (tp_tap_handle_state plain_frontend false tp_idle_moved_touch 20).1.touches.map
      (fun t => t.tap.state) = [TAP_TOUCH_STATE_TOUCH] ∧
    (tp_tap_handle_state plain_frontend false tp_touch_moved_touch 20).1.touches.map
      (fun t => t.tap.state) = [TAP_TOUCH_STATE_DEAD] ∧
    (tp_tap_handle_state plain_frontend false tp_touch_moved_touch 20).1.tap.state =
      TAP_STATE_HOLD := by
  have hx := moved_touch_exceeds tp_idle_moved_touch
  have h1 : tp_tap_handle_state_touch plain_frontend false 20 tp_idle_moved_touch 0 =
      tp_idle_moved_touch := by
    unfold tp_tap_handle_state_touch
    simp [tp_idle_moved_touch, moved_touch, clickpad_press_touch, plain_frontend,
      set_touch, tp_at_rest]
  have h2 : tp_tap_handle_state_touch plain_frontend false 20 tp_touch_moved_touch 0 =
      tp_tap_handle_event (touches_to_dead tp_touch_moved_touch)
        (touches_to_dead tp_touch_moved_touch).touches[0]? TAP_EVENT_MOTION 20 := by
    have hcp : clickpad_press_touch plain_frontend false moved_touch = moved_touch := by
      simp [clickpad_press_touch]
    have hset : set_touch tp_touch_moved_touch 0 moved_touch = tp_touch_moved_touch := rfl
    have := tp_tap_handle_state_touch_motion plain_frontend false 20
      tp_touch_moved_touch 0 moved_touch rfl rfl rfl (by decide)
      (by rw [hcp]; exact moved_touch_exceeds _)
    rw [hcp, hset] at this
    exact this
  have h3 : (tp_tap_handle_state plain_frontend false tp_idle_moved_touch 20).1 =
      tp_idle_moved_touch := by
    rw [tp_tap_handle_state_one_touch plain_frontend false tp_idle_moved_touch 20
      (by decide) (Or.inr rfl) rfl]
    exact h1
  have h4 : (tp_tap_handle_state plain_frontend false tp_touch_moved_touch 20).1 =
      tp_tap_handle_event (touches_to_dead tp_touch_moved_touch)
        (touches_to_dead tp_touch_moved_touch).touches[0]? TAP_EVENT_MOTION 20 := by
    rw [tp_tap_handle_state_one_touch plain_frontend false tp_touch_moved_touch 20
      (by decide) (Or.inr rfl) rfl]
    exact h2
  refine ⟨by decide, rfl, rfl, rfl, rfl, rfl, hx, ?_, ?_, ?_, ?_⟩
  · refine Prod.ext h3 ?_
    have hc : plain_frontend.is_clickpad = false := rfl
    have he : tp_tap_enabled tp_idle_moved_touch = true := by decide
    have hl : tp_idle_moved_touch.touches.length = 1 := rfl
    have hr : List.range 1 = [0] := rfl
    unfold tp_tap_handle_state
    simp [he, hc, hl, hr, List.foldl, h1]
    simp [tp_idle_moved_touch, tp_at_rest]
  · rw [h3]
    rfl
  · rw [h4, tp_tap_handle_event_touches]
    rfl
  · rw [h4]
    rfl

/-- The step of the loop of `tp_tap_handle_state` for a dirty ongoing touch
while the tap state is `IDLE`: the motion branch is not taken, whatever the
displacement. -/
theorem tp_tap_handle_state_touch_idle (fe : tp_frontend)
    (queued_button_press : Bool) (time : Nat) (tp : tp_dispatch) (i : Nat)
    (t : tp_touch) (hi : tp.touches[i]? = some t) (hd : t.dirty = true)
    (hu : t.state = TOUCH_UPDATE) (hs : tp.tap.state = TAP_STATE_IDLE) :
    tp_tap_handle_state_touch fe queued_button_press time tp i =
      set_touch tp i (clickpad_press_touch fe queued_button_press t) := by
  have hstate : (clickpad_press_touch fe queued_button_press t).state = TOUCH_UPDATE := by
    unfold clickpad_press_touch
    split <;> simp [set_touch_tap_state, hu]
  have hs1 : (set_touch tp i
      (clickpad_press_touch fe queued_button_press t)).tap.state = TAP_STATE_IDLE := hs
  unfold tp_tap_handle_state_touch
  simp only [hi]
  simp [hd, hu, hstate, hs1]

/-- C32, amended. In the loop of `tp_tap_handle_state`, let the touch examined
be dirty and ongoing (`TOUCH_UPDATE`). If the tap state is not `IDLE` at that
moment and the touch is past the motion threshold, then every touch of the
device in `TAP_TOUCH_STATE_TOUCH` becomes `TAP_TOUCH_STATE_DEAD`, the other
touches stay as they are, `TAP_EVENT_MOTION` is fed to `tp_tap_handle_event`
for that touch, and no touch is left in `TAP_TOUCH_STATE_TOUCH`. If the tap
state is `IDLE`, then whatever the displacement no event is fed and no touch is
demoted for the motion: the step only writes the examined touch back, marked
`TAP_TOUCH_STATE_DEAD` if a clickpad button press is queued and as it was
otherwise, so that without a queued clickpad press the dispatch is returned
unchanged; the tap state, the timer, the record of button calls and every
other touch are as before. -/
theorem motion_kills_touches (fe : tp_frontend) (queued_button_press : Bool)
    (time : Nat) (tp : tp_dispatch) (i : Nat) (t : tp_touch)
    (hi : tp.touches[i]? = some t) (hd : t.dirty = true)
    (hu : t.state = TOUCH_UPDATE) :
    (tp.tap.state ≠ TAP_STATE_IDLE →
      tp_tap_exceeds_motion_threshold fe
        (set_touch tp i (clickpad_press_touch fe queued_button_press t))
        (clickpad_press_touch fe queued_button_press t) = true →
      tp_tap_handle_state_touch fe queued_button_press time tp i =
        tp_tap_handle_event
          (touches_to_dead
            (set_touch tp i (clickpad_press_touch fe queued_button_press t)))
          (touches_to_dead
            (set_touch tp i (clickpad_press_touch fe queued_button_press t))).touches[i]?
          TAP_EVENT_MOTION time ∧
      (tp_tap_handle_state_touch fe queued_button_press time tp i).touches =
        (tp.touches.set i (clickpad_press_touch fe queued_button_press t)).map
          (fun tmp => if tmp.tap.state = TAP_TOUCH_STATE_TOUCH then
            set_touch_tap_state tmp TAP_TOUCH_STATE_DEAD else tmp) ∧
      ((fe.is_clickpad = false ∨ queued_button_press = false) →
        (tp_tap_handle_state_touch fe queued_button_press time tp i).touches =
          tp.touches.map (fun tmp => if tmp.tap.state = TAP_TOUCH_STATE_TOUCH then
            set_touch_tap_state tmp TAP_TOUCH_STATE_DEAD else tmp)) ∧
      (∀ u ∈ (tp_tap_handle_state_touch fe queued_button_press time tp i).touches,
        u.tap.state ≠ TAP_TOUCH_STATE_TOUCH)) ∧
    (tp.tap.state = TAP_STATE_IDLE →
      tp_tap_handle_state_touch fe queued_button_press time tp i =
        set_touch tp i (clickpad_press_touch fe queued_button_press t) ∧
      (tp_tap_handle_state_touch fe queued_button_press time tp i).tap = tp.tap ∧
      (tp_tap_handle_state_touch fe queued_button_press time tp i).notified =
        tp.notified ∧
      (∀ j, j ≠ i →
        (tp_tap_handle_state_touch fe queued_button_press time tp i).touches[j]? =
          tp.touches[j]?) ∧
      (tp_tap_handle_state_touch fe queued_button_press time tp i).touches[i]? =
        some (if fe.is_clickpad = true ∧ queued_button_press = true then
          set_touch_tap_state t TAP_TOUCH_STATE_DEAD else t) ∧
      ((fe.is_clickpad = false ∨ queued_button_press = false) →
        tp_tap_handle_state_touch fe queued_button_press time tp i = tp)) := by
  constructor
  · intro hs hx
    have hval := tp_tap_handle_state_touch_motion fe queued_button_press time tp i t
      hi hd hu hs hx
    have htouches : (tp_tap_handle_state_touch fe queued_button_press time tp i).touches =
        (tp.touches.set i (clickpad_press_touch fe queued_button_press t)).map
          (fun tmp => if tmp.tap.state = TAP_TOUCH_STATE_TOUCH then
            set_touch_tap_state tmp TAP_TOUCH_STATE_DEAD else tmp) := by
      rw [hval, tp_tap_handle_event_touches]
      rfl
    refine ⟨hval, htouches, ?_, ?_⟩
    · intro hq
      rw [htouches]
      have : clickpad_press_touch fe queued_button_press t = t := by
        unfold clickpad_press_touch
        rcases hq with hq | hq <;> simp [hq]
      rw [this]
      rw [list_set_same _ _ _ hi]
    · intro u hu2
      rw [hval, tp_tap_handle_event_touches] at hu2
      exact touches_to_dead_none _ u hu2
  · intro hs
    have hval := tp_tap_handle_state_touch_idle fe queued_button_press time tp i t
      hi hd hu hs
    have hlt : i < tp.touches.length := by
      by_contra hge
      rw [List.getElem?_eq_none (by omega)] at hi
      exact absurd hi (by simp)
    refine ⟨hval, by rw [hval]; rfl, by rw [hval]; rfl, ?_, ?_, ?_⟩
    · intro j hj
      rw [hval]
      show (tp.touches.set i _)[j]? = tp.touches[j]?
      rw [List.getElem?_set]
      simp [Ne.symm hj]
    · rw [hval]
      show (tp.touches.set i _)[i]? = _
      rw [List.getElem?_set]
      simp [hlt, clickpad_press_touch]
    · intro hq
      rw [hval]
      have : clickpad_press_touch fe queued_button_press t = t := by
        unfold clickpad_press_touch
        rcases hq with hq | hq <;> simp [hq]
      rw [this]
      show ({ tp with touches := tp.touches.set i t } : tp_dispatch) = tp
      rw [list_set_same _ _ _ hi]

/-- C32, amended, at the dispatch in `TOUCH` whose one touch has moved past the
threshold, where the touch becomes dead, and at the dispatch in `IDLE` with the
same touch, which is returned as it is. -/
theorem motion_kills_touches_witness :
    tp_touch_moved_touch.touches[0]? = some moved_touch ∧
    moved_touch.dirty = true ∧ moved_touch.state = TOUCH_UPDATE ∧
    tp_touch_moved_touch.tap.state ≠ TAP_STATE_IDLE ∧
    tp_tap_exceeds_motion_threshold plain_frontend tp_touch_moved_touch moved_touch
      = true ∧
    (tp_tap_handle_state_touch plain_frontend false 20 tp_touch_moved_touch 0).touches =
      tp_touch_moved_touch.touches.map
        (fun tmp => if tmp.tap.state = TAP_TOUCH_STATE_TOUCH then
          set_touch_tap_state tmp TAP_TOUCH_STATE_DEAD else tmp) ∧
    tp_idle_moved_touch.tap.state = TAP_STATE_IDLE ∧
    tp_tap_handle_state_touch plain_frontend false 20 tp_idle_moved_touch 0 =
      tp_idle_moved_touch :=
  ⟨rfl, rfl, rfl, by decide, moved_touch_exceeds _,
    ((motion_kills_touches plain_frontend false 20 tp_touch_moved_touch 0 moved_touch
      rfl rfl rfl).1 (by decide)
      (by
        have hcp : clickpad_press_touch plain_frontend false moved_touch =
            moved_touch := by
          simp [clickpad_press_touch]
        rw [hcp]
        exact moved_touch_exceeds _)).2.2.1 (Or.inr rfl),
    rfl,
    ((motion_kills_touches plain_frontend false 20 tp_idle_moved_touch 0 moved_touch
      rfl rfl rfl).2 rfl).2.2.2.2.2 (Or.inr rfl)⟩

/-! ## Configuration changes between a press and its release (C36) -/

/-- C36. A run on which the assertion of `update_key_down_count` fails. The
mouse scrolls on `BTN_0`. The press of `BTN_0` goes to
`evdev_button_scroll_button`, which arms the timer and counts nothing.
`evdev_scroll_set_method` with `NO_SCROLL`, called while `BTN_0` is down, takes
effect at once, because `evdev_any_button_down` does not look at `BTN_0`. The
release of `BTN_0` is then handled as the release of an ordinary button, whose
press count is 0: `evdev_process_key` fails the assertion. -/
theorem scroll_method_change_asserts (kc_mod : Nat) :
    mouse_scroll_on_btn_0.scroll.method = LIBINPUT_CONFIG_SCROLL_ON_BUTTON_DOWN ∧
    mouse_scroll_on_btn_0.scroll.button = BTN_MISC ∧
    mouse_scroll_on_btn_0.has_key_code BTN_MISC = true ∧
    get_key_type BTN_MISC = EVDEV_KEY_TYPE_BUTTON ∧
    ∃ d1, evdev_process_key kc_mod mouse_scroll_on_btn_0
        { type := EV_KEY, code := BTN_MISC, value := 1 } 0 = some d1 ∧
      d1.emitted = [] ∧ hw_is_key_down d1 BTN_MISC = true ∧
      get_key_down_count d1 BTN_MISC = 0 ∧
      evdev_any_button_down d1 = false ∧
      (evdev_scroll_set_method d1 LIBINPUT_CONFIG_SCROLL_NO_SCROLL).scroll.method =
        LIBINPUT_CONFIG_SCROLL_NO_SCROLL ∧
      evdev_process_key kc_mod
        (evdev_scroll_set_method d1 LIBINPUT_CONFIG_SCROLL_NO_SCROLL)
        { type := EV_KEY, code := BTN_MISC, value := 0 } 50 = none :=
  ⟨by decide, by decide, by decide, by decide, _, rfl, rfl, by decide, rfl,
    by decide, by decide, rfl⟩

/-! ## Touchpad: the calls of the tap engine -/

/-- The calls that one `tp_tap_handle_event` makes. -/
theorem tp_tap_handle_event_calls (tp : tp_dispatch) (t : Option tp_touch)
    (event : tap_event) (time : Nat) :
    tap_calls time (holds_left tp.tap.state)
      (holds_left (tp_tap_handle_event tp t event time).tap.state)
      ((tp_tap_handle_event tp t event time).notified.drop tp.notified.length) := by
  obtain ⟨⟨s, tm, bp, ml, en, su⟩, nf, ts, nt⟩ := tp
  cases s <;> cases event <;>
    simp [tap_calls, holds_left, tp_tap_handle_event,
      tp_tap_idle_handle_event, tp_tap_touch_handle_event, tp_tap_hold_handle_event,
      tp_tap_tapped_handle_event, tp_tap_touch2_handle_event,
      tp_tap_touch2_hold_handle_event, tp_tap_touch3_handle_event,
      tp_tap_touch3_hold_handle_event, tp_tap_dragging_or_doubletap_handle_event,
      tp_tap_dragging_handle_event, tp_tap_dragging_wait_handle_event,
      tp_tap_dragging2_handle_event, tp_tap_multitap_handle_event,
      tp_tap_multitap_down_handle_event, tp_tap_dead_handle_event,
      tp_tap_notify, tp_tap_set_timer, tp_tap_set_drag_timer, tp_tap_clear_timer,
      touch_is_tap_touch, set_tap_state, libinput_timer_set, libinput_timer_cancel] <;>
    (try split) <;> (try simp [holds_left, tp_tap_notify])

/-- The calls that `tp_release_all_taps` makes from a state whose bitmap agrees
with it. -/
theorem tp_release_all_taps_calls (tp : tp_dispatch) (now : Nat)
    (h : tap_buttons_consistent tp) :
    tap_calls now (holds_left tp.tap.state)
      (holds_left (tp_release_all_taps tp now).tap.state)
      ((tp_release_all_taps tp now).notified.drop tp.notified.length) := by
  obtain ⟨⟨s, tm, bp, ml, en, su⟩, nf, ts, nt⟩ := tp
  simp only [tap_buttons_consistent] at h
  by_cases hl : holds_left s = true
  · simp only [hl, if_true] at h
    subst h
    by_cases hn : nf = 0 <;>
      simp +decide [tap_calls, tp_release_all_taps, tp_release_all_taps_round,
        tp_tap_notify, set_tap_state, hn, hl,
        show holds_left TAP_STATE_IDLE = false from rfl,
        show holds_left TAP_STATE_DEAD = false from rfl]
  · simp only [hl, if_false] at h
    subst h
    by_cases hn : nf = 0 <;>
      simp +decide [tap_calls, tp_release_all_taps, tp_release_all_taps_round,
        tp_tap_notify, set_tap_state, hn, hl,
        show holds_left TAP_STATE_IDLE = false from rfl,
        show holds_left TAP_STATE_DEAD = false from rfl]

/-- A press through `evdev_pointer_notify_button` on a device whose
configuration is settled: it returns, and only the count of the button (and
the record of emitted events) changes. -/
theorem notify_button_press (kc_mod : Nat) (d : evdev_device) (time b : Nat)
    (hb : b < KEY_CNT)
    (hl : d.buttons.want_left_handed = d.buttons.left_handed)
    (hs : d.scroll.want_method = d.scroll.method ∧
      d.scroll.want_button = d.scroll.button)
    (hlt : d.key_count b + 1 < kc_mod) :
    ∃ d1, evdev_pointer_notify_button kc_mod d time b
        LIBINPUT_BUTTON_STATE_PRESSED = some d1 ∧
      d1.hw_key_mask = d.hw_key_mask ∧ d1.buttons = d.buttons ∧ d1.scroll = d.scroll ∧
      ∀ c, d1.key_count c = if c = b then d.key_count b + 1 else d.key_count c := by
  obtain ⟨d1, h1⟩ := evdev_pointer_notify_button_returns kc_mod d time b
    LIBINPUT_BUTTON_STATE_PRESSED hb (Or.inl rfl)
  obtain ⟨hbu, hsc⟩ := evdev_pointer_notify_button_settled _ _ _ _ _ _ h1 hl hs
  obtain ⟨hw, hn⟩ := key_notified_pointer _ _ _ _ _ _ h1
  refine ⟨d1, h1, hw, hbu, hsc, fun c => ?_⟩
  have := (hn c)
  simp only [decide_True, if_true] at this
  rw [this.1, Nat.mod_eq_of_lt hlt]

/-- A release through `evdev_pointer_notify_button` of a button whose press
count is above 0, on a device whose configuration is settled: it returns, and
only the count of the button (and the record of emitted events) changes. -/
theorem notify_button_release (kc_mod : Nat) (d : evdev_device) (time b : Nat)
    (hb : b < KEY_CNT)
    (hl : d.buttons.want_left_handed = d.buttons.left_handed)
    (hs : d.scroll.want_method = d.scroll.method ∧
      d.scroll.want_button = d.scroll.button)
    (hpos : 0 < d.key_count b) :
    ∃ d1, evdev_pointer_notify_button kc_mod d time b
        LIBINPUT_BUTTON_STATE_RELEASED = some d1 ∧
      d1.hw_key_mask = d.hw_key_mask ∧ d1.buttons = d.buttons ∧ d1.scroll = d.scroll ∧
      ∀ c, d1.key_count c = if c = b then d.key_count b - 1 else d.key_count c := by
  obtain ⟨d1, h1⟩ := evdev_pointer_notify_button_returns kc_mod d time b
    LIBINPUT_BUTTON_STATE_RELEASED hb (Or.inr hpos)
  obtain ⟨hbu, hsc⟩ := evdev_pointer_notify_button_settled _ _ _ _ _ _ h1 hl hs
  obtain ⟨hw, hn⟩ := key_notified_pointer _ _ _ _ _ _ h1
  refine ⟨d1, h1, hw, hbu, hsc, fun c => ?_⟩
  have := (hn c)
  simp only [show decide (LIBINPUT_BUTTON_STATE_RELEASED =
    LIBINPUT_BUTTON_STATE_PRESSED) = false from rfl, Bool.false_eq_true, if_false] at this
  exact this.2.1

/-- The key state carried over to a device with the same bitmap and
configuration whose counts differ as the held button does. -/
theorem keys_track_taps_of (h0 h1 : Bool) (d d1 : evdev_device)
    (hk : keys_track_taps h0 d) (hw : d1.hw_key_mask = d.hw_key_mask)
    (hb : d1.buttons = d.buttons) (hs : d1.scroll = d.scroll)
    (hc : ∀ c, d1.key_count c + (if c = BTN_LEFT ∧ h0 = true then 1 else 0) =
      d.key_count c + (if c = BTN_LEFT ∧ h1 = true then 1 else 0)) :
    keys_track_taps h1 d1 := by
  obtain ⟨k1, k2, k3, k4, k5, k6⟩ := hk
  refine ⟨by rw [hb]; exact k1, by rw [hb]; exact k2, by rw [hs]; exact k3,
    by rw [hs]; exact k4, by rw [hs]; exact k5, fun c => ?_⟩
  have h6 := k6 c
  have h7 := hc c
  rw [hw]
  omega

/-- The counts of the buttons of the tap engine are below 2 plus what the
engine holds. -/
theorem keys_track_taps_le (held : Bool) (d : evdev_device)
    (hk : keys_track_taps held d) (c : Nat) :
    d.key_count c ≤ 1 + (if c = BTN_LEFT ∧ held = true then 1 else 0) := by
  have := hk.2.2.2.2.2 c
  rw [this]
  split <;> omega

/-- The calls of one operation of the tap engine, made on a device whose key
state accounts for what the engine held before, all return, and the key state
accounts for what the engine holds after. -/
theorem notify_buttons_tap_calls (kc_mod : Nat) (hm : 2 < kc_mod) (time : Nat)
    (before after : Bool) (calls : List button_notify) (d : evdev_device)
    (hc : tap_calls time before after calls) (hk : keys_track_taps before d) :
    ∃ d1, notify_buttons kc_mod d calls = some d1 ∧ keys_track_taps after d1 := by
  have cfg : ∀ (h : Bool) (x : evdev_device), keys_track_taps h x →
      x.buttons.want_left_handed = x.buttons.left_handed ∧
      (x.scroll.want_method = x.scroll.method ∧
        x.scroll.want_button = x.scroll.button) := by
    intro h x hx
    exact ⟨hx.2.1.trans hx.1.symm, hx.2.2.2.1.trans hx.2.2.1.symm, hx.2.2.2.2.1⟩
  have hL : BTN_LEFT < KEY_CNT := by decide
  have hR : BTN_RIGHT < KEY_CNT := by decide
  have hM : BTN_MIDDLE < KEY_CNT := by decide
  -- a press of `BTN_LEFT` that the engine did not hold
  have press_left : ∀ x : evdev_device, keys_track_taps false x →
      ∃ x1, evdev_pointer_notify_button kc_mod x time BTN_LEFT
        LIBINPUT_BUTTON_STATE_PRESSED = some x1 ∧ keys_track_taps true x1 := by
    intro x hx
    have hle := keys_track_taps_le false x hx BTN_LEFT
    simp only [Bool.false_eq_true, and_false, if_false] at hle
    obtain ⟨x1, h1, hw, hb, hs, hcnt⟩ := notify_button_press kc_mod x time BTN_LEFT hL
      (cfg _ x hx).1 (cfg _ x hx).2 (by omega)
    refine ⟨x1, h1, keys_track_taps_of false true x x1 hx hw hb hs (fun c => ?_)⟩
    rw [hcnt c]
    by_cases hcc : c = BTN_LEFT
    · subst hcc; simp
    · simp [hcc]
  -- a release of `BTN_LEFT` that the engine held
  have release_left : ∀ x : evdev_device, keys_track_taps true x →
      ∃ x1, evdev_pointer_notify_button kc_mod x time BTN_LEFT
        LIBINPUT_BUTTON_STATE_RELEASED = some x1 ∧ keys_track_taps false x1 := by
    intro x hx
    have hpos : 0 < x.key_count BTN_LEFT := by
      rw [hx.2.2.2.2.2 BTN_LEFT]
      simp
    obtain ⟨x1, h1, hw, hb, hs, hcnt⟩ := notify_button_release kc_mod x time BTN_LEFT hL
      (cfg _ x hx).1 (cfg _ x hx).2 hpos
    refine ⟨x1, h1, keys_track_taps_of true false x x1 hx hw hb hs (fun c => ?_)⟩
    rw [hcnt c]
    by_cases hcc : c = BTN_LEFT
    · subst hcc; simp; omega
    · simp [hcc]
  -- a press and a release of another button
  have click : ∀ (b : Nat) (h : Bool) (x : evdev_device), b < KEY_CNT → b ≠ BTN_LEFT →
      keys_track_taps h x →
      ∃ x1 x2, evdev_pointer_notify_button kc_mod x time b
        LIBINPUT_BUTTON_STATE_PRESSED = some x1 ∧
        evdev_pointer_notify_button kc_mod x1 time b
          LIBINPUT_BUTTON_STATE_RELEASED = some x2 ∧ keys_track_taps h x2 := by
    intro b h x hb hne hx
    have hle := keys_track_taps_le h x hx b
    simp only [hne, false_and, if_false] at hle
    obtain ⟨x1, h1, hw1, hb1, hs1, hcnt1⟩ := notify_button_press kc_mod x time b hb
      (cfg _ x hx).1 (cfg _ x hx).2 (by omega)
    obtain ⟨x2, h2, hw2, hb2, hs2, hcnt2⟩ := notify_button_release kc_mod x1 time b hb
      (by rw [hb1]; exact (cfg _ x hx).1) (by rw [hs1]; exact (cfg _ x hx).2)
      (by rw [hcnt1 b]; simp)
    refine ⟨x1, x2, h1, h2, keys_track_taps_of h h x x2 hx (hw2.trans hw1)
      (hb2.trans hb1) (hs2.trans hs1) (fun c => ?_)⟩
    rw [hcnt2 c, hcnt1 b]
    by_cases hcc : c = b
    · subst hcc; simp
    · simp [hcc, hcnt1 c]
  rcases hc with ⟨rfl, rfl⟩ | ⟨rfl, rfl, rfl⟩ | ⟨rfl, rfl, rfl⟩ | ⟨rfl, rfl, rfl⟩ |
    ⟨rfl, rfl⟩ | ⟨rfl, rfl⟩
  · exact ⟨d, rfl, hk⟩
  · obtain ⟨x1, h1, k1⟩ := press_left d hk
    exact ⟨x1, by simp [notify_buttons, h1], k1⟩
  · obtain ⟨x1, h1, k1⟩ := release_left d hk
    exact ⟨x1, by simp [notify_buttons, h1], k1⟩
  · obtain ⟨x1, h1, k1⟩ := release_left d hk
    obtain ⟨x2, h2, k2⟩ := press_left x1 k1
    obtain ⟨x3, h3, k3⟩ := release_left x2 k2
    exact ⟨x3, by simp [notify_buttons, h1, h2, h3], k3⟩
  · obtain ⟨x1, x2, h1, h2, k2⟩ := click BTN_RIGHT after d hR (by decide) hk
    exact ⟨x2, by simp [notify_buttons, h1, h2], k2⟩
  · obtain ⟨x1, x2, h1, h2, k2⟩ := click BTN_MIDDLE after d hM (by decide) hk
    exact ⟨x2, by simp [notify_buttons, h1, h2], k2⟩

/-! ## Touchpad: key events of the device -/

/-- A step that leaves the key state and the configuration alone keeps the key
state of a device that a tap engine reports to. -/
theorem keys_track_taps_of_untouched (held : Bool) (d d1 : evdev_device)
    (hu : keys_untouched d d1)
    (hc : (fun x : evdev_device => (x.buttons, x.scroll.method, x.scroll.want_method,
        x.scroll.want_button, x.scroll.button)) d1 =
      (fun x : evdev_device => (x.buttons, x.scroll.method, x.scroll.want_method,
        x.scroll.want_button, x.scroll.button)) d)
    (hk : keys_track_taps held d) : keys_track_taps held d1 := by
  simp only [Prod.mk.injEq] at hc
  obtain ⟨c1, c2, c3, c4, c5⟩ := hc
  obtain ⟨k1, k2, k3, k4, k5, k6⟩ := hk
  refine ⟨by rw [c1]; exact k1, by rw [c1]; exact k2, by rw [c2]; exact k3,
    by rw [c3]; exact k4, by rw [c4, c5]; exact k5, fun c => ?_⟩
  rw [hu.1, hu.2.1]
  exact k6 c

/-- A press of a code that was up, or a release of a code that was down, keeps
the key state of a device that a tap engine reports to. -/
theorem keys_track_taps_notified (kc_mod : Nat) (held : Bool) (d0 d1 : evdev_device)
    (code : Nat) (v : Int) (hm : 2 < kc_mod) (hk : keys_track_taps held d0)
    (hty : get_key_type code ≠ EVDEV_KEY_TYPE_NONE)
    (hn : key_notified kc_mod (hw_set_key_down d0 code v) d1 code (decide (v ≠ 0)))
    (hb : d1.buttons = d0.buttons) (hs : d1.scroll = d0.scroll)
    (hedge : d0.hw_key_mask code = decide (v = 0)) : keys_track_taps held d1 := by
  have hle := keys_track_taps_le held d0 hk code
  obtain ⟨k1, k2, k3, k4, k5, k6⟩ := hk
  obtain ⟨hw, hn⟩ := hn
  have hw1 : d1.hw_key_mask = Function.update d0.hw_key_mask code (decide (v ≠ 0)) := hw
  refine ⟨by rw [hb]; exact k1, by rw [hb]; exact k2, by rw [hs]; exact k3,
    by rw [hs]; exact k4, by rw [hs]; exact k5, fun c => ?_⟩
  have hc := hn c
  have hkc := k6 c
  have hkcode := k6 code
  have hcount : ∀ x, (hw_set_key_down d0 code v).key_count x = d0.key_count x :=
    fun _ => rfl
  rw [hcount c, hcount code] at hc
  rw [hw1]
  by_cases hv : v = 0
  · have hdec : decide (v ≠ 0) = false := by simp [hv]
    rw [hdec] at hc ⊢
    simp only [Bool.false_eq_true, if_false] at hc
    obtain ⟨hpos, hcnt, _, _⟩ := hc
    have hdown : d0.hw_key_mask code = true := by rw [hedge]; simp [hv]
    rw [if_pos ⟨hdown, hty⟩] at hkcode
    rw [hcnt]
    by_cases hcc : c = code
    · subst hcc
      simp only [Function.update_same, Bool.false_eq_true, false_and, if_false, if_true]
      omega
    · simp only [Function.update, hcc, dite_false, if_false]
      exact hkc
  · have hdec : decide (v ≠ 0) = true := by simp [hv]
    rw [hdec] at hc ⊢
    simp only [if_true] at hc
    obtain ⟨hcnt, _, _⟩ := hc
    have hup : d0.hw_key_mask code = false := by rw [hedge]; simp [hv]
    rw [if_neg (fun h => by rw [hup] at h; exact absurd h.1 (by simp))] at hkcode
    have hone : d0.key_count code ≤ 1 := by
      rw [hkcode]
      split <;> omega
    have hmod : (d0.key_count code + 1) % kc_mod = d0.key_count code + 1 :=
      Nat.mod_eq_of_lt (by omega)
    rw [hcnt, hmod]
    by_cases hcc : c = code
    · subst hcc
      simp only [Function.update_same, true_and, if_true, if_pos hty]
      omega
    · simp only [Function.update, hcc, dite_false, if_false]
      exact hkc

/-- Setting the hardware bit of a code that is neither a key nor a button
keeps the key state. -/
theorem keys_track_taps_hw_set_none (held : Bool) (d : evdev_device) (code : Nat)
    (v : Int) (hty : get_key_type code = EVDEV_KEY_TYPE_NONE)
    (hk : keys_track_taps held d) : keys_track_taps held (hw_set_key_down d code v) := by
  obtain ⟨k1, k2, k3, k4, k5, k6⟩ := hk
  refine ⟨k1, k2, k3, k4, k5, fun c => ?_⟩
  show d.key_count c = (if Function.update d.hw_key_mask code (decide (v ≠ 0)) c = true ∧
      get_key_type c ≠ EVDEV_KEY_TYPE_NONE then 1 else 0) +
    (if c = BTN_LEFT ∧ held = true then 1 else 0)
  by_cases hcc : c = code
  · subst hcc
    have := k6 c
    simp only [hty, ne_eq, not_true_eq_false, and_false, if_false] at this ⊢
    exact this
  · simp only [Function.update, hcc, dite_false]
    exact k6 c

theorem keys_track_taps_flush (held : Bool) (d : evdev_device) (time : Nat)
    (hk : keys_track_taps held d) :
    keys_track_taps held (evdev_flush_pending_event d time) :=
  keys_track_taps_of_untouched held _ _ (keys_untouched_flush d time)
    (evdev_flush_pending_event_preserves _ flush_blind_config d time) hk

theorem keys_track_taps_process_touch_button (held : Bool) (d : evdev_device)
    (time : Nat) (value : Int) (hk : keys_track_taps held d) :
    keys_track_taps held (evdev_process_touch_button d time value) := by
  refine keys_track_taps_of_untouched held _ _
    (keys_untouched_process_touch_button d time value) ?_ hk
  unfold evdev_process_touch_button
  exact preserved_ite
    (fun x : evdev_device => (x.buttons, x.scroll.method, x.scroll.want_method,
      x.scroll.want_button, x.scroll.button))
    (d.pending_event ≠ EVDEV_NONE ∧ d.pending_event ≠ EVDEV_ABSOLUTE_MOTION)
    (evdev_flush_pending_event d time) d _
    (evdev_flush_pending_event_preserves _ flush_blind_config d time) rfl

/-- `evdev_process_key` returns and keeps the key state of a device that a tap
engine reports to, given that a press comes only for a code that the hardware
bitmap has up. -/
theorem keys_track_taps_process_key (kc_mod : Nat) (held : Bool) (d : evdev_device)
    (e : input_event) (time : Nat) (hm : 2 < kc_mod) (hk : keys_track_taps held d)
    (hpress : e.value ≠ 0 → e.value ≠ 2 → hw_is_key_down d e.code = false) :
    ∃ d1, evdev_process_key kc_mod d e time = some d1 ∧ keys_track_taps held d1 := by
  by_cases h2 : e.value = 2
  · exact ⟨d, by simp [evdev_process_key, h2], hk⟩
  by_cases ht : e.code = BTN_TOUCH
  · by_cases hmt : d.is_mt = true
    · exact ⟨d, by simp [evdev_process_key, h2, ht, hmt], hk⟩
    · exact ⟨_, by simp [evdev_process_key, h2, ht, hmt],
        keys_track_taps_process_touch_button held d time e.value hk⟩
  have hk0 := keys_track_taps_flush held d time hk
  have hw0 : (evdev_flush_pending_event d time).hw_key_mask = d.hw_key_mask :=
    (keys_untouched_flush d time).1
  cases hty : get_key_type e.code with
  | EVDEV_KEY_TYPE_NONE =>
    exact ⟨_, by simp [evdev_process_key, h2, ht, hty]; rfl,
      keys_track_taps_hw_set_none held _ _ _ hty hk0⟩
  | EVDEV_KEY_TYPE_KEY =>
    have htn : get_key_type e.code ≠ EVDEV_KEY_TYPE_NONE := by rw [hty]; decide
    by_cases hv : e.value = 0
    · by_cases hdown : hw_is_key_down (evdev_flush_pending_event d time) e.code = true
      · have hone : 0 < (evdev_flush_pending_event d time).key_count e.code := by
          rw [hk0.2.2.2.2.2 e.code, if_pos ⟨hdown, htn⟩]
          omega
        obtain ⟨d1, h1, hb, hs⟩ := evdev_keyboard_notify_key_returns kc_mod
          (hw_set_key_down (evdev_flush_pending_event d time) e.code 0) time e.code
          LIBINPUT_KEY_STATE_RELEASED (get_key_type_lt _ htn) (Or.inr hone)
        refine ⟨d1, by simp [evdev_process_key, h2, ht, hty, hv, hdown, h1], ?_⟩
        have hn := key_notified_keyboard _ _ _ _ _ _ h1
        exact keys_track_taps_notified kc_mod held _ d1 e.code 0 hm hk0 htn hn hb hs
          (by simpa using hdown)
      · exact ⟨_, by simp [evdev_process_key, h2, ht, hty, hv, hdown], hk0⟩
    · have hup : (evdev_flush_pending_event d time).hw_key_mask e.code = false := by
        rw [hw0]
        exact hpress hv h2
      obtain ⟨d1, h1, hb, hs⟩ := evdev_keyboard_notify_key_returns kc_mod
        (hw_set_key_down (evdev_flush_pending_event d time) e.code e.value) time e.code
        LIBINPUT_KEY_STATE_PRESSED (get_key_type_lt _ htn) (Or.inl rfl)
      refine ⟨d1, by simp [evdev_process_key, h2, ht, hty, hv, h1], ?_⟩
      have hn := key_notified_keyboard _ _ _ _ _ _ h1
      have hdec : decide (LIBINPUT_KEY_STATE_PRESSED = LIBINPUT_KEY_STATE_PRESSED) =
          decide (e.value ≠ 0) := by simp [hv]
      rw [hdec] at hn
      exact keys_track_taps_notified kc_mod held _ d1 e.code e.value hm hk0 htn hn hb hs
        (by rw [hup]; simp [hv])
  | EVDEV_KEY_TYPE_BUTTON =>
    have htn : get_key_type e.code ≠ EVDEV_KEY_TYPE_NONE := by rw [hty]; decide
    obtain ⟨k1, k2, k3, k4, k5, k6⟩ := hk0
    have hlh : ∀ v : Int, evdev_to_left_handed
        (hw_set_key_down (evdev_flush_pending_event d time) e.code v) e.code = e.code := by
      intro v
      simp [evdev_to_left_handed, hw_set_key_down, k1]
    have hsm : ∀ v : Int,
        (hw_set_key_down (evdev_flush_pending_event d time) e.code v).scroll.method ≠
          LIBINPUT_CONFIG_SCROLL_ON_BUTTON_DOWN := by
      intro v
      show (evdev_flush_pending_event d time).scroll.method ≠ _
      rw [k3]
      decide
    have hk0 : keys_track_taps held (evdev_flush_pending_event d time) :=
      ⟨k1, k2, k3, k4, k5, k6⟩
    have hl : ∀ v : Int,
        (hw_set_key_down (evdev_flush_pending_event d time) e.code v).buttons.want_left_handed
          = (hw_set_key_down (evdev_flush_pending_event d time) e.code
              v).buttons.left_handed := by
      intro v
      show (evdev_flush_pending_event d time).buttons.want_left_handed = _
      rw [k2]
      exact k1.symm
    have hsc : ∀ v : Int,
        (hw_set_key_down (evdev_flush_pending_event d time) e.code v).scroll.want_method =
          (hw_set_key_down (evdev_flush_pending_event d time) e.code v).scroll.method ∧
        (hw_set_key_down (evdev_flush_pending_event d time) e.code v).scroll.want_button =
          (hw_set_key_down (evdev_flush_pending_event d time) e.code v).scroll.button := by
      intro v
      exact ⟨k4.trans k3.symm, k5⟩
    by_cases hv : e.value = 0
    · by_cases hdown : hw_is_key_down (evdev_flush_pending_event d time) e.code = true
      · have hone : 0 < (evdev_flush_pending_event d time).key_count e.code := by
          rw [k6 e.code, if_pos ⟨hdown, htn⟩]
          omega
        obtain ⟨d1, h1⟩ := evdev_pointer_notify_button_returns kc_mod
          (hw_set_key_down (evdev_flush_pending_event d time) e.code 0) time e.code
          LIBINPUT_BUTTON_STATE_RELEASED (get_key_type_lt _ htn) (Or.inr hone)
        obtain ⟨hb, hs⟩ := evdev_pointer_notify_button_settled _ _ _ _ _ _ h1
          (hl 0) (hsc 0)
        refine ⟨d1, by simp [evdev_process_key, h2, ht, hty, hv, hdown, hlh, hsm, h1], ?_⟩
        have hn := key_notified_pointer _ _ _ _ _ _ h1
        exact keys_track_taps_notified kc_mod held _ d1 e.code 0 hm hk0 htn hn hb hs
          (by simpa using hdown)
      · exact ⟨_, by simp [evdev_process_key, h2, ht, hty, hv, hdown], hk0⟩
    · have hup : (evdev_flush_pending_event d time).hw_key_mask e.code = false := by
        rw [hw0]
        exact hpress hv h2
      obtain ⟨d1, h1⟩ := evdev_pointer_notify_button_returns kc_mod
        (hw_set_key_down (evdev_flush_pending_event d time) e.code e.value) time e.code
        LIBINPUT_BUTTON_STATE_PRESSED (get_key_type_lt _ htn) (Or.inl rfl)
      obtain ⟨hb, hs⟩ := evdev_pointer_notify_button_settled _ _ _ _ _ _ h1
        (hl e.value) (hsc e.value)
      refine ⟨d1, by simp [evdev_process_key, h2, ht, hty, hv, hlh, hsm, h1], ?_⟩
      have hn := key_notified_pointer _ _ _ _ _ _ h1
      have hdec : decide (LIBINPUT_BUTTON_STATE_PRESSED = LIBINPUT_BUTTON_STATE_PRESSED) =
          decide (e.value ≠ 0) := by simp [hv]
      rw [hdec] at hn
      exact keys_track_taps_notified kc_mod held _ d1 e.code e.value hm hk0 htn hn hb hs
        (by rw [hup]; simp [hv])

/-! ## Touchpad: every step returns -/

/-- The calls that `tp_tap_enabled_update` makes from a state whose bitmap
agrees with it and that is settled while tapping is off. -/
theorem tp_tap_enabled_update_calls (tp : tp_dispatch) (suspended enabled : Bool)
    (time : Nat) (h : tap_buttons_consistent tp)
    (hq : tp_tap_enabled tp = false →
      tp.tap.state = TAP_STATE_IDLE ∨ tp.tap.state = TAP_STATE_DEAD) :
    tap_calls time (holds_left tp.tap.state)
      (holds_left (tp_tap_enabled_update tp suspended enabled time).tap.state)
      ((tp_tap_enabled_update tp suspended enabled time).notified.drop
        tp.notified.length) := by
  unfold tp_tap_enabled_update
  simp only
  split
  · exact Or.inl ⟨by simp, rfl⟩
  · split
    · rename_i hne hen
      have hd : tp_tap_enabled tp = false := by
        cases hx : tp_tap_enabled tp
        · rfl
        · rw [hx] at hne
          exact absurd hen hne
      have hst := hq hd
      refine Or.inl ⟨by simp [set_tap_state], ?_⟩
      simp only [set_tap_state]
      rcases hst with hs | hs <;> rw [hs] <;> split <;> rfl
    · exact tp_release_all_taps_calls
        { tp with tap := { tp.tap with suspended := suspended, enabled := enabled } }
        time h

/-- `tp_tap_enabled_update` keeps the bitmap in agreement with the state and
the machine settled while tapping is off. -/
theorem tp_tap_enabled_update_inv (tp : tp_dispatch) (suspended enabled : Bool)
    (time : Nat) (h : tap_buttons_consistent tp)
    (hq : tp_tap_enabled tp = false →
      tp.tap.state = TAP_STATE_IDLE ∨ tp.tap.state = TAP_STATE_DEAD) :
    tap_buttons_consistent (tp_tap_enabled_update tp suspended enabled time) ∧
    (tp_tap_enabled (tp_tap_enabled_update tp suspended enabled time) = false →
      (tp_tap_enabled_update tp suspended enabled time).tap.state = TAP_STATE_IDLE ∨
      (tp_tap_enabled_update tp suspended enabled time).tap.state = TAP_STATE_DEAD) := by
  unfold tp_tap_enabled_update
  simp only
  split
  · rename_i heq
    refine ⟨h, ?_⟩
    intro hd
    rw [heq] at hd
    exact hq hd
  · split
    · rename_i hne hen
      have hd : tp_tap_enabled tp = false := by
        cases hx : tp_tap_enabled tp
        · rfl
        · rw [hx] at hne
          exact absurd hen hne
      have hst := hq hd
      have hb : tp.tap.buttons_pressed = 0 := by
        rw [h]
        rcases hst with hs | hs <;> simp [hs, holds_left]
      refine ⟨?_, ?_⟩
      · simp only [tap_buttons_consistent, set_tap_state, hb]
        split <;> simp [holds_left]
      · intro hd2
        simp only [set_tap_state]
        split <;> simp
    · obtain ⟨hb, hs, _, _⟩ := tp_release_all_taps_settles
        { tp with tap := { tp.tap with suspended := suspended, enabled := enabled } }
        time h
      refine ⟨?_, fun _ => hs⟩
      rw [tap_buttons_consistent, hb]
      rcases hs with hs | hs <;> simp [hs, holds_left]

/-- An operation of the tap engine whose calls have the shape of `tap_calls`
returns on a consistent touchpad. -/
theorem tap_operation_consistent (kc_mod : Nat) (hm : 2 < kc_mod)
    (op : tp_dispatch → tp_dispatch) (w : touchpad) (time : Nat)
    (hk : keys_track_taps (holds_left w.tp.tap.state) w.device)
    (hcalls : tap_calls time (holds_left w.tp.tap.state)
      (holds_left (op w.tp).tap.state)
      ((op w.tp).notified.drop w.tp.notified.length))
    (hc : tap_buttons_consistent (op w.tp))
    (he : tp_tap_enabled (op w.tp) = false →
      (op w.tp).tap.state = TAP_STATE_IDLE ∨ (op w.tp).tap.state = TAP_STATE_DEAD) :
    ∃ w1, tap_operation kc_mod op w = some w1 ∧ touchpad_consistent w1 := by
  obtain ⟨d1, h1, k1⟩ := notify_buttons_tap_calls kc_mod hm time _ _ _ w.device hcalls hk
  exact ⟨{ tp := op w.tp, device := d1 }, by simp [tap_operation, h1], hc, he, k1⟩

/-- Every admissible step returns on a consistent touchpad and leaves it
consistent. -/
theorem touchpad_step_consistent (kc_mod : Nat) (hm : 2 < kc_mod) (w : touchpad)
    (op : touchpad_op) (hw : touchpad_consistent w) (ha : touchpad_op_admissible w op) :
    ∃ w1, touchpad_step kc_mod w op = some w1 ∧ touchpad_consistent w1 := by
  obtain ⟨hc, hq, hk⟩ := hw
  cases op with
  | frame touches n => exact ⟨_, rfl, hc, hq, hk⟩
  | event t ev time =>
    obtain ⟨hen, _⟩ := ha
    refine tap_operation_consistent kc_mod hm
      (fun tp => tp_tap_handle_event tp t ev time) w time hk
      (tp_tap_handle_event_calls w.tp t ev time)
      (tp_tap_handle_event_consistent w.tp t ev time hc) ?_
    intro hd
    rw [tp_tap_handle_event_enabled, hen] at hd
    exact absurd hd (by simp)
  | timeout time =>
    refine tap_operation_consistent kc_mod hm (tp_tap_handle_timeout time) w time hk
      (tp_tap_handle_event_calls w.tp none TAP_EVENT_TIMEOUT time)
      (tp_tap_handle_event_consistent w.tp none TAP_EVENT_TIMEOUT time hc) ?_
    intro hd
    have he : tp_tap_enabled (tp_tap_handle_timeout time w.tp) = tp_tap_enabled w.tp := by
      rw [← tp_tap_handle_event_enabled w.tp none TAP_EVENT_TIMEOUT time]
      simp [tp_tap_enabled, tp_tap_handle_timeout_tap]
    rw [he] at hd
    have := tp_tap_handle_event_timeout_settled w.tp time (hq hd)
    simpa [tp_tap_handle_timeout_tap] using this
  | release_all now =>
    obtain ⟨hb, hs, _, _⟩ := tp_release_all_taps_settles w.tp now hc
    refine tap_operation_consistent kc_mod hm (fun tp => tp_release_all_taps tp now) w now
      hk (tp_release_all_taps_calls w.tp now hc) ?_ (fun _ => hs)
    show tap_buttons_consistent (tp_release_all_taps w.tp now)
    rw [tap_buttons_consistent, hb]
    rcases hs with hs | hs <;> simp [hs, holds_left]
  | enabled_update suspended enabled time =>
    exact tap_operation_consistent kc_mod hm
      (fun tp => tp_tap_enabled_update tp suspended enabled time) w time hk
      (tp_tap_enabled_update_calls w.tp suspended enabled time hc hq)
      (tp_tap_enabled_update_inv w.tp suspended enabled time hc hq).1
      (tp_tap_enabled_update_inv w.tp suspended enabled time hc hq).2
  | key e time =>
    obtain ⟨d1, h1, k1⟩ := keys_track_taps_process_key kc_mod _ w.device e time hm hk ha
    exact ⟨{ w with device := d1 }, by simp [touchpad_step, h1], hc, hq, k1⟩

/-- Every admissible run returns on a consistent touchpad and leaves it
consistent. -/
theorem touchpad_run_consistent (kc_mod : Nat) (hm : 2 < kc_mod)
    (ops : List touchpad_op) :
    ∀ w : touchpad, touchpad_consistent w → touchpad_ops_admissible kc_mod w ops →
      ∃ w1, touchpad_run kc_mod w ops = some w1 ∧ touchpad_consistent w1 := by
  induction ops with
  | nil => exact fun w hw _ => ⟨w, rfl, hw⟩
  | cons op rest ih =>
    intro w hw ha
    obtain ⟨ha1, ha2⟩ := ha
    obtain ⟨w1, h1, hw1⟩ := touchpad_step_consistent kc_mod hm w op hw ha1
    rw [h1] at ha2
    obtain ⟨w2, h2, hw2⟩ := ih w1 hw1 ha2
    exact ⟨w2, by simp [touchpad_run, h1, h2], hw2⟩

/-- The admissibility of a run whose first step returns. -/
theorem touchpad_ops_admissible_cons (kc_mod : Nat) (w w1 : touchpad) (op : touchpad_op)
    (rest : List touchpad_op) (h : touchpad_step kc_mod w op = some w1)
    (h1 : touchpad_op_admissible w op) (h2 : touchpad_ops_admissible kc_mod w1 rest) :
    touchpad_ops_admissible kc_mod w (op :: rest) := by
  simp only [touchpad_ops_admissible, h]
  exact ⟨h1, h2⟩

/-- The touchpad at rest is consistent. -/
theorem touchpad_at_rest_consistent : touchpad_consistent touchpad_at_rest := by
  refine ⟨rfl, fun h => absurd h (by decide), rfl, rfl, rfl, rfl, rfl, fun c => ?_⟩
  simp [touchpad_at_rest, touchpad_device, fresh_device, tp_init_tap, tp_at_rest,
    holds_left]

/-! ## Tap releases and the press counts (C35) -/

/-- The runs without `release_pressed_keys`. On a touchpad whose device has
neither left-handed mode nor button scrolling on or wanted, with a `key_count`
element type of more than 2 values, every run of steps that the callers make
returns: no assertion of `update_key_down_count` fails, so every release that
the tap engine passes to `evdev_pointer_notify_button` finds the press count
of its button above 0. The steps are the events of the tap engine (fed while
tapping is enabled), its timeout, `tp_release_all_taps`,
`tp_tap_enabled_update`, and the `EV_KEY` events of the device (a press only
for a code that is up), in any order. -/
theorem tap_releases_find_press (kc_mod : Nat) (hm : 2 < kc_mod) (w : touchpad)
    (ops : List touchpad_op) (hw : touchpad_consistent w)
    (ha : touchpad_ops_admissible kc_mod w ops) :
    ∃ w1, touchpad_run kc_mod w ops = some w1 ∧ touchpad_consistent w1 ∧
      w1.device.key_count BTN_LEFT =
        (if w1.device.hw_key_mask BTN_LEFT = true then 1 else 0) +
        (if holds_left w1.tp.tap.state = true then 1 else 0) := by
  obtain ⟨w1, h1, hc⟩ := touchpad_run_consistent kc_mod hm ops w hw ha
  refine ⟨w1, h1, hc, ?_⟩
  have := hc.2.2.2.2.2.2.2 BTN_LEFT
  rw [this]
  simp +decide

/-- A run without `release_pressed_keys` on the touchpad at rest: the left
button goes down, a finger taps, the tap times out, and the left button goes
up. -/
theorem tap_releases_find_press_witness :
    ∃ w1, touchpad_run 256 touchpad_at_rest
        [touchpad_op.key { type := EV_KEY, code := BTN_LEFT, value := 1 } 0,
         touchpad_op.event (some tapping_touch) TAP_EVENT_TOUCH 5,
         touchpad_op.event (some tapping_touch) TAP_EVENT_RELEASE 10,
         touchpad_op.timeout 190,
         touchpad_op.key { type := EV_KEY, code := BTN_LEFT, value := 0 } 200] =
        some w1 ∧ touchpad_consistent w1 ∧
      w1.device.key_count BTN_LEFT =
        (if w1.device.hw_key_mask BTN_LEFT = true then 1 else 0) +
        (if holds_left w1.tp.tap.state = true then 1 else 0) :=
  tap_releases_find_press 256 (by decide) touchpad_at_rest _
    touchpad_at_rest_consistent
    (touchpad_ops_admissible_cons 256 _ _ _ _ rfl (fun _ _ => rfl)
      (touchpad_ops_admissible_cons 256 _ _ _ _ rfl ⟨rfl, by decide⟩
        (touchpad_ops_admissible_cons 256 _ _ _ _ rfl ⟨rfl, by decide⟩
          (touchpad_ops_admissible_cons 256 _ _ _ _ rfl trivial
            (touchpad_ops_admissible_cons 256 _ _ _ _ rfl
              (fun h => absurd rfl h) trivial)))))

end Libinput
